import Mathlib

/-!
# Ledger and settlement reconciliation of tradeverse_api

A shallow embedding of the settlement application step
(`service/account_balance.go`, `UpdateAccountBalance`), of the game session
debit engine (`api/oauth/jwt_middleware.go`: `GameSessionInitHandler`,
`GameStartHandler`, `GameEndHandler`, `FreezeHandler`, `UnFreezeHandler`,
`SpendHandler`), of the session confirmation and the withdraw lock
(`api/http/controller/auth/user.go`: `ConfirmGameSession`,
`BalanceWithdrawRequest`) and of the lock authorisation signer
(`chain/eip712_lockauth.go`), followed by theorems about them.

Modelling conventions.

* A table is the list of its rows.  `First` with a condition returns the
  matching row with the smallest primary key (gorm adds `ORDER BY pk LIMIT 1`).
* `Save` on a row whose primary key is zero inserts it under a fresh
  auto-increment key; otherwise it rewrites every row carrying that key and
  inserts the row when no row carries it.
* `uint64` fields are natural numbers; every `uint64` addition is reduced
  modulo `2 ^ 64`; a subtraction the source guards is the plain difference,
  one it does not guard wraps (`subU64`).
* `time.Now()` is a parameter `now`; the withdraw lock counts it in seconds.
* A byte is a natural number below 256 and a byte slice a list of them.
* Functions of libraries (hashing, signing, key recovery, the node) and
  generated values (session ids, nonces, lock ids) are parameters.
* Storage failures (lost connection, failed commit) are not modelled: a
  statement that reaches the database succeeds.
* A transaction works on a copy of the database; rollback returns the
  database as it was when the transaction began.
-/

namespace Tradeverse

/-! ## model/flow.go -/

def FlowRecharge : Int := 0
def FlowFreeze : Int := 1
def FlowUnfreeze : Int := 2
def FlowSpend : Int := 3
def FlowWithdraw : Int := 4
def FlowRefund : Int := 5

def FlowStatusPending : Int := 0
def FlowStatusDone : Int := 1
def FlowStatusFailed : Int := 2
def FlowStatusReversed : Int := 3

def DirectionNone : Int := 0
def DirectionIn : Int := 1
def DirectionOut : Int := 2

def BalanceFlowOpRecharge : Int := 0
def BalanceFlowOpFreeze : Int := 1
def BalanceFlowOpWithdraw : Int := 2
def BalanceFlowOpUnfreeze : Int := 3

def BalanceFlowStatusPending : Int := 0
def BalanceFlowStatusPendingWithDraw : Int := 4
def BalanceFlowStatusSuccess : Int := 1
def BalanceFlowStatusFailed : Int := 2
def BalanceFlowStatusCanceled : Int := 3

/-- The modulus of `uint64` arithmetic. -/
def u64 : Nat := 2 ^ 64

/-- Go `a + b` on `uint64`. -/
def addU64 (a b : Nat) : Nat := (a + b) % u64

/-- Go `int(x)` for a `uint64` value `x` on a 64-bit platform. -/
def intOfU64 (x : Nat) : Int :=
  if x % u64 < 2 ^ 63 then ((x % u64 : Nat) : Int) else ((x % u64 : Nat) : Int) - (u64 : Int)

/-- Row of `n_account_flow` (the spend ledger). -/
structure AccountFlow where
  ID : Nat
  MainID : Nat
  AssetID : Nat
  BizType : Int
  Amount : Nat
  Direction : Int
  ClientID : String
  GameID : Nat
  ExternalID : String
  ExternalRemark : String
  RefFlowID : Nat
  Status : Int
  AddTime : Nat
  UpdateTime : Nat
  SessionID : String
deriving DecidableEq, Inhabited, Repr

/-- Row of `n_account_balance`. -/
structure AccountBalance where
  ID : Nat
  MainID : Nat
  AssetID : Nat
  Available : Nat
  Frozen : Nat
  UpdateTime : Nat
  Withdrawal : Nat
deriving DecidableEq, Inhabited, Repr

/-- Row of `n_account_balance_flow` (the settlement ledger). -/
structure AccountBalanceFlow where
  ID : Nat
  MainID : Nat
  AssetID : Nat
  Op : Int
  Status : Int
  Amount : Nat
  RealAmount : Nat
  AvailableDelta : Nat
  FrozenDelta : Nat
  ChainID : String
  TxHash : String
  BlockHeight : Int
  LogIndex : Int
  BlockTimestamp : Nat
  AddTime : Nat
  UpdateTime : Nat
  RefFlowID : Nat
  FromAddr : String
  ToAddr : String
  LockExpiry : Option Nat
  LockNonce : String
  LockID : String
  LockSig : String
  LockAddr : String
deriving DecidableEq, Inhabited, Repr

/-! ## chain/evm_tx_parse.go -/

/-- The parsed transaction handed to the settlement step.  `Amount` is a
`*big.Int`: `none` is the nil pointer the parsers leave when no amount was
decoded. -/
structure TopupTxInfo where
  TxHash : String
  From : String
  To : String
  Contract : String
  Amount : Option Int
  BlockNumber : Nat
  BlockTime : Nat
  Status : String
  UserFromLog : String
  MainID : Nat
  RefFlowID : Nat
  Op : Int
  ChainID : Nat
  LockID : List Nat
deriving DecidableEq, Inhabited, Repr

/-- Go `(*big.Int).Uint64`: the low 64 bits of the absolute value. -/
def bigUint64 (x : Int) : Nat := x.natAbs % u64

/-! ## Tables -/

/-- The smaller of two candidate rows under the primary-key order, keeping
the earlier one on a tie. -/
def pickMin {α : Type} (key : α → Nat) (acc : Option α) (r : α) : Option α :=
  match acc with
  | none => some r
  | some a => if key r < key a then some r else some a

/-- Query `Where(p).First(..)`: the matching row with the least key. -/
def firstWhere {α : Type} (key : α → Nat) (p : α → Bool) (rows : List α) : Option α :=
  (rows.filter p).foldl (pickMin key) none

/-- The next auto-increment key of a table. -/
def nextID {α : Type} (key : α → Nat) (rows : List α) : Nat :=
  (rows.map key).foldl max 0 + 1

/-- Statement `UPDATE .. WHERE pk = key r`. -/
def updateRow {α : Type} (key : α → Nat) (rows : List α) (r : α) : List α :=
  rows.map (fun x => if key x = key r then r else x)

/-- Whether some row carries the key `k`. -/
def hasKey {α : Type} (key : α → Nat) (rows : List α) (k : Nat) : Bool :=
  rows.any (fun x => decide (key x = k))

/-- The settlement ledger `Create`: a zero key receives the next key. -/
def createBalanceFlow (rows : List AccountBalanceFlow) (r : AccountBalanceFlow) :
    AccountBalanceFlow × List AccountBalanceFlow :=
  let r1 := if r.ID = 0 then { r with ID := nextID AccountBalanceFlow.ID rows } else r
  (r1, rows ++ [r1])

/-- The settlement ledger `Save`. -/
def saveBalanceFlow (rows : List AccountBalanceFlow) (r : AccountBalanceFlow) :
    List AccountBalanceFlow :=
  if r.ID = 0 then (createBalanceFlow rows r).2
  else if hasKey AccountBalanceFlow.ID rows r.ID then updateRow AccountBalanceFlow.ID rows r
  else rows ++ [r]

/-- The balance table `Create`: a zero key receives the next key. -/
def createBalance (rows : List AccountBalance) (r : AccountBalance) :
    AccountBalance × List AccountBalance :=
  let r1 := if r.ID = 0 then { r with ID := nextID AccountBalance.ID rows } else r
  (r1, rows ++ [r1])

/-- The balance table `Save`. -/
def saveBalance (rows : List AccountBalance) (r : AccountBalance) : List AccountBalance :=
  if r.ID = 0 then (createBalance rows r).2
  else if hasKey AccountBalance.ID rows r.ID then updateRow AccountBalance.ID rows r
  else rows ++ [r]

/-- The spend ledger `Create`. -/
def createAccountFlow (rows : List AccountFlow) (r : AccountFlow) :
    AccountFlow × List AccountFlow :=
  let r1 := if r.ID = 0 then { r with ID := nextID AccountFlow.ID rows } else r
  (r1, rows ++ [r1])

/-- The spend ledger `Save`. -/
def saveAccountFlow (rows : List AccountFlow) (r : AccountFlow) : List AccountFlow :=
  if r.ID = 0 then (createAccountFlow rows r).2
  else if hasKey AccountFlow.ID rows r.ID then updateRow AccountFlow.ID rows r
  else rows ++ [r]

/-! ## model/user.go, model/game.go -/

/-- Row of `n_user_main`. -/
structure UserMain where
  ID : Nat
  UserNo : String
  Email : Option String
  Password : String
  AddTime : Nat
  Status : String
  RefID : Nat
deriving DecidableEq, Inhabited, Repr

/-- Row of `n_user_provider`: a login provider of a user; the wallet provider
holds the wallet address in `ProviderID`. -/
structure UserProvider where
  ID : Nat
  MainID : Nat
  ProviderType : String
  ProviderID : String
  AddTime : Nat
  ProviderLabel : String
deriving DecidableEq, Inhabited, Repr

def GameSessionStatusStart : Int := 1
def GameSessionStatusEnd : Int := 2
def GameSessionStatusReversed : Int := 3
def GameSessionStatusSettled : Int := 4
def GameSessionStatusAuditing : Int := 5

def GameStatusDraft : String := "00"
def GameStatusTesting : String := "05"
def GameStatusTested : String := "06"
def GameStatusPendingApprove : String := "07"
def GameStatusWaitingOnline : String := "08"
def GameStatusActive : String := "10"
def GameStatusInactive : String := "20"

/-- A `decimal.Decimal`: `value * 10 ^ exp`. -/
structure Decimal where
  value : Int
  exp : Int
deriving DecidableEq, Inhabited, Repr

/-- Row of the game catalogue. -/
structure GameInfo where
  ID : Nat
  DevID : Nat
  Name : String
  Info : String
  Description : String
  Avatar : String
  Image : String
  AddTime : Nat
  PlayUrl : String
  Status : String
deriving DecidableEq, Inhabited, Repr

/-- Row binding an OAuth client to a game. -/
structure GameApp where
  ID : Nat
  GameID : Nat
  AddTime : Nat
  ClientID : String
  ClientSecret : String
  OauthCallback : String
deriving DecidableEq, Inhabited, Repr

/-- Row holding the price of one play setting of a game. -/
structure GameSetting where
  ID : Nat
  GameID : Nat
  Code : String
  Catalog : String
  AmountPerPlay : Nat
  AddTime : Nat
  UpdateTime : Nat
deriving DecidableEq, Inhabited, Repr

/-- Row of the game session table; the primary key is `SessionID`. -/
structure GameSession where
  SessionID : String
  GameID : Nat
  MainID : Nat
  StartTime : Nat
  EndTime : Nat
  Status : Int
  Score : Decimal
  UserReportScore : Decimal
  SpendAmountN : Nat
  Testing : Int
deriving DecidableEq, Inhabited, Repr

/-- The database: one list of rows per table. -/
structure DB where
  users : List UserMain
  userProviders : List UserProvider
  gameInfos : List GameInfo
  gameApps : List GameApp
  gameSettings : List GameSetting
  gameSessions : List GameSession
  accountFlows : List AccountFlow
  accountBalances : List AccountBalance
  balanceFlows : List AccountBalanceFlow
deriving DecidableEq, Inhabited, Repr

/-! ## service/account_balance.go -/

/-- How the body of a transaction ends: by `Commit`, by a `return err` that
leaves the deferred `Rollback` to run, or by a panic.  The database carried by
the last two is the uncommitted working copy at that moment. -/
inductive TxEnd where
  | committed (db : DB)
  | returned (err : String) (db : DB)
  | panicked (db : DB)
deriving DecidableEq, Repr

/-- The working copy of the database at the moment the transaction body ends. -/
def TxEnd.working : TxEnd → DB
  | .committed db => db
  | .returned _ db => db
  | .panicked db => db

/-- Whether the transaction body ended by `return err`. -/
def TxEnd.isReturned : TxEnd → Bool
  | .returned _ _ => true
  | _ => false

/-- What a call of `UpdateAccountBalance` leaves behind: the returned `error`
(`none` is nil), the final value of the local `committed`, and the database. -/
structure CallResult where
  err : Option String
  committed : Bool
  db : DB
deriving DecidableEq, Repr

/-- Lines 43 to 54: for Withdraw and Unfreeze, load the row `refFlowID` names
and then the row that one references; any other op keeps the zero value. -/
def loadRefLock (db : DB) (top : TopupTxInfo) : Except String AccountBalanceFlow :=
  if top.Op = BalanceFlowOpWithdraw ∨ top.Op = BalanceFlowOpUnfreeze then
    let withdrawBalanceFlow :=
      (firstWhere AccountBalanceFlow.ID (fun f => decide (f.ID = top.RefFlowID))
        db.balanceFlows).getD default
    if withdrawBalanceFlow.ID = 0 then .error "withdraw flow id not found"
    else
      let refLockBalanceFlow :=
        (firstWhere AccountBalanceFlow.ID
          (fun f => decide (f.ID = withdrawBalanceFlow.RefFlowID)) db.balanceFlows).getD default
      if refLockBalanceFlow.ID = 0 then .error "ref flow id not found"
      else .ok refLockBalanceFlow
  else .ok default

/-- Lines 56 to 59: the locked read of the target row by `(main_id, tx_hash)`. -/
def loadTarget (db : DB) (top : TopupTxInfo) : Option AccountBalanceFlow :=
  firstWhere AccountBalanceFlow.ID
    (fun f => decide (f.MainID = top.MainID) && decide (f.TxHash = top.TxHash)) db.balanceFlows

/-- Lines 71 to 98: the new status of the target row and, on success, the
flip of the paired lock row, saved at once. -/
def settleStatus (rows : List AccountBalanceFlow) (top : TopupTxInfo) (now : Nat)
    (refLock target : AccountBalanceFlow) : AccountBalanceFlow × List AccountBalanceFlow :=
  if top.Status = "success" then
    let target1 :=
      if top.Op = BalanceFlowOpFreeze then
        { target with Status := BalanceFlowStatusPendingWithDraw }
      else { target with Status := BalanceFlowStatusSuccess }
    if top.Op = BalanceFlowOpWithdraw then
      if refLock.Status = BalanceFlowStatusPendingWithDraw then
        (target1, saveBalanceFlow rows
          { refLock with Status := BalanceFlowStatusSuccess, UpdateTime := now })
      else (target1, rows)
    else if top.Op = BalanceFlowOpUnfreeze then
      if refLock.Status = BalanceFlowStatusPendingWithDraw then
        (target1, saveBalanceFlow rows
          { refLock with Status := BalanceFlowStatusCanceled, UpdateTime := now })
      else (target1, rows)
    else (target1, rows)
  else ({ target with Status := BalanceFlowStatusFailed }, rows)

/-- Lines 99 to 106: the chain data recorded on the target row. -/
def recordChainData (target : AccountBalanceFlow) (top : TopupTxInfo) (now : Nat)
    (amount : Int) : AccountBalanceFlow :=
  { target with
    UpdateTime := now
    BlockHeight := intOfU64 top.BlockNumber
    BlockTimestamp := top.BlockTime
    LogIndex := 0
    FromAddr := top.UserFromLog
    ToAddr := top.To
    RealAmount := bigUint64 amount
    ChainID := toString top.ChainID }

/-- The literal `model.AccountBalance{MainID: mainId, AssetID: 0, Available: 0,
Frozen: 0}` both the settlement step and `GameStartHandler` create for a user
without a balance row; the former also sets `UpdateTime`. -/
def newAccountBalance (mainId updateTime : Nat) : AccountBalance :=
  { ID := 0, MainID := mainId, AssetID := 0, Available := 0, Frozen := 0,
    UpdateTime := updateTime, Withdrawal := 0 }

/-- Lines 121 to 143: the locked read of the balance row by `main_id`, which
creates a zero row when the user has none. -/
def loadOrCreateBalance (rows : List AccountBalance) (mainId now : Nat) :
    AccountBalance × List AccountBalance :=
  match firstWhere AccountBalance.ID (fun b => decide (b.MainID = mainId)) rows with
  | some b => (b, rows)
  | none => createBalance rows (newAccountBalance mainId now)

/-- Lines 145 to 161: the balance after the switch on `op`, or the error. -/
def applyOp (op : Int) (accountBalance : AccountBalance) (amount : Int) :
    Except String AccountBalance :=
  if op = BalanceFlowOpRecharge then
    .ok { accountBalance with Available := addU64 accountBalance.Available (bigUint64 amount) }
  else if op = BalanceFlowOpWithdraw then
    if accountBalance.Withdrawal < bigUint64 amount then
      .error "withdrawal amount is greater than available balance"
    else .ok { accountBalance with Withdrawal := accountBalance.Withdrawal - bigUint64 amount }
  else if op = BalanceFlowOpUnfreeze then
    if accountBalance.Withdrawal < bigUint64 amount then
      .error "withdrawal amount is greater than available balance"
    else
      .ok { accountBalance with
            Withdrawal := accountBalance.Withdrawal - bigUint64 amount
            Available := addU64 accountBalance.Available (bigUint64 amount) }
  else .ok accountBalance

/-- The body of `UpdateAccountBalance` between `Begin` and the last `return`. -/
def updateAccountBalanceTx (db : DB) (top : TopupTxInfo) (now : Nat) : TxEnd :=
  match loadRefLock db top with
  | .error e => .returned e db
  | .ok refLock =>
    match loadTarget db top with
    | none => .returned "account balance flow not found" db
    | some target =>
      if target.Status ≠ BalanceFlowStatusPending then
        .returned "account balance flow not pending, already processed" db
      else
        let st := settleStatus db.balanceFlows top now refLock target
        let db1 := { db with balanceFlows := st.2 }
        match top.Amount with
        | none => .panicked db1
        | some amount =>
          let target2 := recordChainData st.1 top now amount
          let db2 := { db1 with balanceFlows := saveBalanceFlow db1.balanceFlows target2 }
          if target2.Status ≠ BalanceFlowStatusSuccess ∧
              target2.Status ≠ BalanceFlowStatusPendingWithDraw then
            .committed db2
          else
            let lb := loadOrCreateBalance db2.accountBalances top.MainID now
            let db3 := { db2 with accountBalances := lb.2 }
            match applyOp top.Op lb.1 amount with
            | .error e => .returned e db3
            | .ok accountBalance =>
              let saved := saveBalance db3.accountBalances { accountBalance with UpdateTime := now }
              .committed { db3 with accountBalances := saved }

/-- The function `UpdateAccountBalance`: the deferred function rolls the
transaction back unless it committed, and a recovered panic makes the call
return the zero value of `error`. -/
def UpdateAccountBalance (db : DB) (top : TopupTxInfo) (now : Nat) : CallResult :=
  match updateAccountBalanceTx db top now with
  | .committed db1 => { err := none, committed := true, db := db1 }
  | .returned e _ => { err := some e, committed := false, db := db }
  | .panicked _ => { err := none, committed := false, db := db }

/-! ## api/oauth/req.go, api/oauth/jwt_middleware.go -/

/-- The response codes of package `codes`, which is not among the sources:
only the names the handlers use appear here, and distinct names are taken to
be distinct codes. -/
inductive Code where
  | CODE_SUCCESS
  | CODE_ERR_BAD_PARAMS
  | CODE_ERR_OBJ_NOT_FOUND
  | CODE_ERR_UNKNOWN
  | CODE_ERR_SECURITY
  | CODE_ERR_PROCESSING
  | CODE_ERR_REQ_EXPIRED
  | CODE_ERR_REPEAT
deriving DecidableEq, Repr

/-- The `gin.H` payload of a successful debit call. -/
structure OpData where
  operation_id : Nat
  operation_type : String
deriving DecidableEq, Repr

/-- The `common.Response` a handler writes. -/
structure Response where
  Timestamp : Nat
  Code : Code
  Msg : String
  Data : Option OpData
deriving DecidableEq, Repr

structure GameStartReq where
  SessionID : String
  PlaySettingCode : String
  ExternalID : String
  Remark : String
deriving DecidableEq, Inhabited, Repr

structure GameEndReq where
  SessionID : String
  Score : Decimal
  GameStartID : Nat
deriving DecidableEq, Inhabited, Repr

/-- A response with an error code and no payload. -/
def failWith (now : Nat) (code : Code) (msg : String) : Response :=
  { Timestamp := now, Code := code, Msg := msg, Data := none }

/-- The success response carrying an operation id. -/
def okWith (now : Nat) (id : Nat) (opType : String) : Response :=
  { Timestamp := now, Code := Code.CODE_SUCCESS, Msg := "success",
    Data := some { operation_id := id, operation_type := opType } }

/-- The condition of the idempotency read of `GameStartHandler`: a Pending
Freeze row of this user and session. -/
def isPendingFreeze (mainId : Nat) (sessionId : String) (f : AccountFlow) : Bool :=
  decide (f.MainID = mainId) && decide (f.SessionID = sessionId) &&
    decide (f.BizType = FlowFreeze) && decide (f.Status = FlowStatusPending)

/-- Modelled from the spec: the unique index on `(main_id, session_id,
biz_type = Freeze, status = Pending)` of the spend ledger, whose table
definition is not among the sources.  An insert violates it when the new row
is a Pending Freeze row and the table holds one for the same user and
session. -/
def violatesUnique (rows : List AccountFlow) (r : AccountFlow) : Bool :=
  decide (r.BizType = FlowFreeze) && decide (r.Status = FlowStatusPending) &&
    rows.any (isPendingFreeze r.MainID r.SessionID)

/-- The spend ledger `Create` under the unique index; `none` is the
duplicate-key error 1062. -/
def createAccountFlowChecked (rows : List AccountFlow) (r : AccountFlow) :
    Option (AccountFlow × List AccountFlow) :=
  if violatesUnique rows r then none else some (createAccountFlow rows r)

/-- Query `Where("session_id = ?").First(..)` on the session table: all
matches carry the same primary key, so the order by key does not choose. -/
def firstSession (rows : List GameSession) (sessionId : String) : Option GameSession :=
  rows.find? (fun s => decide (s.SessionID = sessionId))

/-- The session table `Save`: an empty key makes it an insert, which fails on
a duplicate key (`none`); otherwise it rewrites the rows carrying the key, or
inserts when there is none. -/
def saveGameSession (rows : List GameSession) (s : GameSession) : Option (List GameSession) :=
  if s.SessionID = "" then
    if rows.any (fun x => decide (x.SessionID = "")) then none else some (rows ++ [s])
  else if rows.any (fun x => decide (x.SessionID = s.SessionID)) then
    some (rows.map (fun x => if x.SessionID = s.SessionID then s else x))
  else some (rows ++ [s])

/-- Lines 370 to 489 of `GameStartHandler`: the transaction. -/
def gameStartTx (db : DB) (clientId : String) (userMain : UserMain) (gameSession : GameSession)
    (gameSetting : GameSetting) (req : GameStartReq) (now : Nat) : Response × DB :=
  let loaded : Option (AccountBalance × List AccountBalance) :=
    match firstWhere AccountBalance.ID
        (fun b => decide (b.MainID = userMain.ID) && decide (b.AssetID = 0))
        db.accountBalances with
    | some b => some (b, db.accountBalances)
    | none =>
      if gameSetting.AmountPerPlay > 0 then none
      else
        some (createBalance db.accountBalances (newAccountBalance userMain.ID 0))
  match loaded with
  | none => (failWith now Code.CODE_ERR_OBJ_NOT_FOUND "please top up your balance", db)
  | some (userAccount, balances1) =>
    if userAccount.Available < gameSetting.AmountPerPlay then
      (failWith now Code.CODE_ERR_BAD_PARAMS "insufficient balance", db)
    else
      let accountFlow : AccountFlow :=
        { ID := 0, MainID := userMain.ID, AssetID := 0, BizType := FlowFreeze,
          Amount := gameSetting.AmountPerPlay, Direction := DirectionNone,
          ClientID := clientId, GameID := gameSession.GameID, ExternalID := req.ExternalID,
          ExternalRemark := req.Remark, RefFlowID := 0, Status := FlowStatusPending,
          AddTime := now, UpdateTime := now, SessionID := gameSession.SessionID }
      match createAccountFlowChecked db.accountFlows accountFlow with
      | none =>
        match firstWhere AccountFlow.ID (isPendingFreeze userMain.ID gameSession.SessionID)
            db.accountFlows with
        | some existing =>
          (okWith now existing.ID "freeze", { db with accountBalances := balances1 })
        | none => (failWith now Code.CODE_ERR_UNKNOWN "freeze operation failed", db)
      | some (created, flows1) =>
        let userAccount1 :=
          { userAccount with
            Available := userAccount.Available - gameSetting.AmountPerPlay
            Frozen := addU64 userAccount.Frozen gameSetting.AmountPerPlay }
        (okWith now created.ID "freeze",
          { db with accountFlows := flows1, accountBalances := saveBalance balances1 userAccount1 })

/-- The handler `GameStartHandler` (the `freeze` operation).  `clientId` and
`userId` are the `aud` and `sub` claims, the latter taken as the user id it
spells; `body` is the bound JSON, `none` when binding fails. -/
def GameStartHandler (db : DB) (clientId : String) (userId : Nat) (body : Option GameStartReq)
    (now : Nat) : Response × DB :=
  match body with
  | none => (failWith now Code.CODE_ERR_BAD_PARAMS "invalid param", db)
  | some req =>
    if req.ExternalID.utf8ByteSize > 128 then
      (failWith now Code.CODE_ERR_BAD_PARAMS "external_id too long", db)
    else if req.Remark.utf8ByteSize > 128 then
      (failWith now Code.CODE_ERR_BAD_PARAMS "remark too long", db)
    else
      let userMain :=
        (firstWhere UserMain.ID (fun u => decide (u.ID = userId)) db.users).getD default
      if userMain.ID = 0 then (failWith now Code.CODE_ERR_OBJ_NOT_FOUND "user not found", db)
      else
        match firstSession db.gameSessions req.SessionID with
        | none => (failWith now Code.CODE_ERR_OBJ_NOT_FOUND "game session not found", db)
        | some gameSession =>
          if gameSession.Status ≠ GameSessionStatusStart then
            (failWith now Code.CODE_ERR_BAD_PARAMS "game session not started", db)
          else if gameSession.MainID ≠ userMain.ID then
            (failWith now Code.CODE_ERR_BAD_PARAMS "session not owned by user", db)
          else if req.PlaySettingCode.utf8ByteSize = 0 then
            (failWith now Code.CODE_ERR_BAD_PARAMS "play setting code is required", db)
          else
            let gameSetting :=
              (firstWhere GameSetting.ID
                (fun g => decide (g.GameID = gameSession.GameID) &&
                  decide (g.Code = req.PlaySettingCode)) db.gameSettings).getD default
            if gameSetting.ID = 0 then
              (failWith now Code.CODE_ERR_OBJ_NOT_FOUND "game play setting not found", db)
            else
              let gameInfo :=
                (firstWhere GameInfo.ID (fun g => decide (g.ID = gameSession.GameID))
                  db.gameInfos).getD default
              if gameInfo.ID = 0 then
                (failWith now Code.CODE_ERR_OBJ_NOT_FOUND "game info not found", db)
              else if gameInfo.Status = GameStatusDraft ∨ gameInfo.Status = GameStatusInactive then
                (failWith now Code.CODE_ERR_BAD_PARAMS "game not active or testing", db)
              else if gameInfo.Status ≠ GameStatusActive ∧ gameSetting.AmountPerPlay > 0 then
                (failWith now Code.CODE_ERR_BAD_PARAMS
                  "game is testing, but play setting amount per play is not 0", db)
              else
                match firstWhere AccountFlow.ID
                    (isPendingFreeze userMain.ID gameSession.SessionID) db.accountFlows with
                | some existing =>
                  if existing.ID > 0 then (okWith now existing.ID "freeze", db)
                  else gameStartTx db clientId userMain gameSession gameSetting req now
                | none => gameStartTx db clientId userMain gameSession gameSetting req now

/-- Lines 599 to 719 of `GameEndHandler`: the transaction. -/
def gameEndTx (db : DB) (clientId : String) (userMain : UserMain) (gameSession : GameSession)
    (req : GameEndReq) (now : Nat) : Response × DB :=
  match firstWhere AccountFlow.ID
      (fun f => decide (f.ID = req.GameStartID) && decide (f.SessionID = gameSession.SessionID) &&
        decide (f.BizType = FlowFreeze) && decide (f.Status = FlowStatusPending))
      db.accountFlows with
  | none => (failWith now Code.CODE_ERR_BAD_PARAMS "game flow not pending", db)
  | some freezeFlow =>
    match firstWhere AccountBalance.ID
        (fun b => decide (b.MainID = userMain.ID) && decide (b.AssetID = 0))
        db.accountBalances with
    | none => (failWith now Code.CODE_ERR_OBJ_NOT_FOUND "user account not found", db)
    | some userAccount =>
      if userAccount.Frozen < freezeFlow.Amount then
        (failWith now Code.CODE_ERR_BAD_PARAMS "frozen balance insufficient", db)
      else
        let spendFlow : AccountFlow :=
          { ID := 0, MainID := userMain.ID, AssetID := 0, BizType := FlowSpend,
            Amount := freezeFlow.Amount, Direction := DirectionOut, ClientID := clientId,
            GameID := freezeFlow.GameID, ExternalID := "", ExternalRemark := "",
            RefFlowID := freezeFlow.ID, Status := FlowStatusDone, AddTime := now,
            UpdateTime := now, SessionID := gameSession.SessionID }
        match createAccountFlowChecked db.accountFlows spendFlow with
        | none => (failWith now Code.CODE_ERR_UNKNOWN "create spend failed", db)
        | some (created, flows1) =>
          let balances1 := saveBalance db.accountBalances
            { userAccount with Frozen := userAccount.Frozen - freezeFlow.Amount }
          let flows2 := saveAccountFlow flows1
            { freezeFlow with Status := FlowStatusDone, UpdateTime := now }
          match saveGameSession db.gameSessions
              { gameSession with
                Status := GameSessionStatusEnd, EndTime := now, Score := req.Score,
                SpendAmountN := created.Amount } with
          | none => (failWith now Code.CODE_ERR_UNKNOWN "update game session failed", db)
          | some sessions1 =>
            (okWith now created.ID "spend",
              { db with
                accountFlows := flows2, accountBalances := balances1, gameSessions := sessions1 })

/-- The handler `GameEndHandler` (the `endSession` operation). -/
def GameEndHandler (db : DB) (clientId : String) (userId : Nat) (body : Option GameEndReq)
    (now : Nat) : Response × DB :=
  match body with
  | none => (failWith now Code.CODE_ERR_BAD_PARAMS "invalid param", db)
  | some req =>
    match firstWhere UserMain.ID (fun u => decide (u.ID = userId)) db.users with
    | none => (failWith now Code.CODE_ERR_OBJ_NOT_FOUND "user not found", db)
    | some userMain =>
      if userMain.ID = 0 then (failWith now Code.CODE_ERR_OBJ_NOT_FOUND "user not found", db)
      else
        match firstSession db.gameSessions req.SessionID with
        | none => (failWith now Code.CODE_ERR_OBJ_NOT_FOUND "game session not found", db)
        | some gameSession =>
          if gameSession.Status ≠ GameSessionStatusStart then
            (failWith now Code.CODE_ERR_BAD_PARAMS "game session not started", db)
          else if gameSession.MainID ≠ userMain.ID then
            (failWith now Code.CODE_ERR_BAD_PARAMS "session not owned by user", db)
          else
            match firstWhere GameApp.ID (fun g => decide (g.ClientID = clientId))
                db.gameApps with
            | none => (failWith now Code.CODE_ERR_OBJ_NOT_FOUND "game app not found", db)
            | some gameApp =>
              if gameApp.ID = 0 then
                (failWith now Code.CODE_ERR_OBJ_NOT_FOUND "game app not found", db)
              else if gameApp.GameID ≠ gameSession.GameID then
                (failWith now Code.CODE_ERR_BAD_PARAMS "session not belong to this client", db)
              else
                match firstWhere AccountFlow.ID (fun f => decide (f.ID = req.GameStartID))
                    db.accountFlows with
                | none => (failWith now Code.CODE_ERR_OBJ_NOT_FOUND "game flow not found", db)
                | some freezeFlow =>
                  if freezeFlow.ID = 0 then
                    (failWith now Code.CODE_ERR_OBJ_NOT_FOUND "game flow not found", db)
                  else if freezeFlow.MainID ≠ userMain.ID then
                    (failWith now Code.CODE_ERR_BAD_PARAMS "game flow not owned by user", db)
                  else if freezeFlow.BizType ≠ FlowFreeze then
                    (failWith now Code.CODE_ERR_BAD_PARAMS "invalid flow type", db)
                  else if freezeFlow.SessionID ≠ gameSession.SessionID then
                    (failWith now Code.CODE_ERR_BAD_PARAMS "flow not match session", db)
                  else
                    match firstWhere AccountFlow.ID
                        (fun f => decide (f.RefFlowID = freezeFlow.ID) &&
                          decide (f.BizType = FlowSpend) &&
                          decide (f.SessionID = gameSession.SessionID)) db.accountFlows with
                    | some spent =>
                      if spent.ID > 0 then (okWith now spent.ID "spend", db)
                      else gameEndTx db clientId userMain gameSession req now
                    | none => gameEndTx db clientId userMain gameSession req now

/-! ## Observations, derived rows and example data -/

/-- The settlement rows after the two saves of a call that reaches line 108. -/
def flowsAfter (db : DB) (top : TopupTxInfo) (now : Nat) (refLock target : AccountBalanceFlow)
    (amount : Int) : List AccountBalanceFlow :=
  saveBalanceFlow (settleStatus db.balanceFlows top now refLock target).2
    (recordChainData (settleStatus db.balanceFlows top now refLock target).1 top now amount)

/-- The balance row the settlement step reads for a user, the zero row when
the user has none. -/
def balanceOf (db : DB) (mainId : Nat) : AccountBalance :=
  (firstWhere AccountBalance.ID (fun b => decide (b.MainID = mainId)) db.accountBalances).getD
    default

/-- The settlement row with a given primary key. -/
def flowByID (rows : List AccountBalanceFlow) (id : Nat) : Option AccountBalanceFlow :=
  firstWhere AccountBalanceFlow.ID (fun f => decide (f.ID = id)) rows

/-- No row carries the key zero (keys are auto-increment). -/
def KeysNonzero {α : Type} (key : α → Nat) (rows : List α) : Prop :=
  ∀ r ∈ rows, key r ≠ 0

/-- Primary keys are non-zero and pairwise distinct. -/
def KeysOK {α : Type} (key : α → Nat) (rows : List α) : Prop :=
  (rows.map key).Nodup ∧ KeysNonzero key rows

/-- The four ops of the settlement ledger. -/
def ValidOp (op : Int) : Prop :=
  op = BalanceFlowOpRecharge ∨ op = BalanceFlowOpFreeze ∨ op = BalanceFlowOpWithdraw ∨
    op = BalanceFlowOpUnfreeze

/-- The status lines 71 to 98 give the target row. -/
def newStatus (top : TopupTxInfo) : Int :=
  if top.Status = "success" then
    if top.Op = BalanceFlowOpFreeze then BalanceFlowStatusPendingWithDraw
    else BalanceFlowStatusSuccess
  else BalanceFlowStatusFailed

/-- Whether lines 77 to 95 rewrite the paired lock row. -/
def flips (top : TopupTxInfo) (refLock : AccountBalanceFlow) : Prop :=
  top.Status = "success" ∧ (top.Op = BalanceFlowOpWithdraw ∨ top.Op = BalanceFlowOpUnfreeze) ∧
    refLock.Status = BalanceFlowStatusPendingWithDraw

instance (top : TopupTxInfo) (refLock : AccountBalanceFlow) : Decidable (flips top refLock) := by
  unfold flips; infer_instance

/-- The paired lock row as lines 77 to 95 rewrite it. -/
def flipped (top : TopupTxInfo) (now : Nat) (refLock : AccountBalanceFlow) : AccountBalanceFlow :=
  { refLock with
    Status := if top.Op = BalanceFlowOpWithdraw then BalanceFlowStatusSuccess
              else BalanceFlowStatusCanceled
    UpdateTime := now }

/-- The settlement rows after the optional rewrite of the paired lock row. -/
def flowsMid (db : DB) (top : TopupTxInfo) (now : Nat) (refLock : AccountBalanceFlow) :
    List AccountBalanceFlow :=
  if flips top refLock then updateRow AccountBalanceFlow.ID db.balanceFlows (flipped top now refLock)
  else db.balanceFlows

/-- The target row as line 108 saves it. -/
def targetAfter (top : TopupTxInfo) (now : Nat) (target : AccountBalanceFlow) (amount : Int) :
    AccountBalanceFlow :=
  recordChainData { target with Status := newStatus top } top now amount

/-- A settlement row of user 7 with the given key, op, status, hash and reference. -/
def exFlow (id : Nat) (op status : Int) (txHash : String) (ref : Nat) : AccountBalanceFlow :=
  { (default : AccountBalanceFlow) with
    ID := id, MainID := 7, Op := op, Status := status, TxHash := txHash, RefFlowID := ref,
    Amount := 300 }

/-- A ledger of user 7: a lock row (key 1) in the given status, a pending
Withdraw row (key 2) and a pending Unfreeze row (key 3) that both reference
it, a pending Recharge row (key 4), a pending Freeze row (key 5), and one
balance row. -/
def exLedger (lockStatus : Int) (available withdrawal : Nat) : DB :=
  { (default : DB) with
    balanceFlows :=
      [exFlow 1 BalanceFlowOpFreeze lockStatus "0xlock" 0,
       exFlow 2 BalanceFlowOpWithdraw BalanceFlowStatusPending "0xclaim" 1,
       exFlow 3 BalanceFlowOpUnfreeze BalanceFlowStatusPending "0xcancel" 1,
       exFlow 4 BalanceFlowOpRecharge BalanceFlowStatusPending "0xdeposit" 0,
       exFlow 5 BalanceFlowOpFreeze BalanceFlowStatusPending "0xopen" 0]
    accountBalances :=
      [{ ID := 1, MainID := 7, AssetID := 0, Available := available, Frozen := 40,
         UpdateTime := 0, Withdrawal := withdrawal }] }

/-- An outcome for user 7 as the queue consumer publishes it. -/
def exTop (txHash status : String) (amount : Option Int) (ref : Nat) (op : Int) : TopupTxInfo :=
  { (default : TopupTxInfo) with
    TxHash := txHash, Status := status, Amount := amount, MainID := 7, RefFlowID := ref, Op := op,
    BlockNumber := 100, ChainID := 56 }

/-- The balance row the game handlers read for a user (asset 0), the zero row
when the user has none. -/
def gameBalanceOf (db : DB) (mainId : Nat) : AccountBalance :=
  (firstWhere AccountBalance.ID (fun b => decide (b.MainID = mainId) && decide (b.AssetID = 0))
    db.accountBalances).getD default

/-- The spend-ledger row with a given primary key. -/
def accountFlowByID (rows : List AccountFlow) (id : Nat) : Option AccountFlow :=
  firstWhere AccountFlow.ID (fun f => decide (f.ID = id)) rows

/-- The Pending Freeze row `GameStartHandler` inserts. -/
def freezeRow (db : DB) (clientId : String) (userId : Nat) (gs : GameSession) (st : GameSetting)
    (req : GameStartReq) (now : Nat) : AccountFlow :=
  { ID := nextID AccountFlow.ID db.accountFlows, MainID := userId, AssetID := 0,
    BizType := FlowFreeze, Amount := st.AmountPerPlay, Direction := DirectionNone,
    ClientID := clientId, GameID := gs.GameID, ExternalID := req.ExternalID,
    ExternalRemark := req.Remark, RefFlowID := 0, Status := FlowStatusPending,
    AddTime := now, UpdateTime := now, SessionID := gs.SessionID }

/-- User 7. -/
def exUser : UserMain := { (default : UserMain) with ID := 7, UserNo := "u7" }

/-- A database for the game handlers: user 7, game 3 in the given status with
client `client`, a paid setting `std` (300000) and a free setting `free`,
session `s1` of user 7 in Start state, and one balance row. -/
def exGameDb (gameStatus : String) (available frozen : Nat) : DB :=
  { (default : DB) with
    users := [exUser]
    gameInfos := [{ (default : GameInfo) with ID := 3, Status := gameStatus }]
    gameApps := [{ (default : GameApp) with ID := 1, GameID := 3, ClientID := "client" }]
    gameSettings :=
      [{ (default : GameSetting) with ID := 1, GameID := 3, Code := "std", AmountPerPlay := 300000 },
       { (default : GameSetting) with ID := 2, GameID := 3, Code := "free", AmountPerPlay := 0 }]
    gameSessions :=
      [{ (default : GameSession) with
         SessionID := "s1", GameID := 3, MainID := 7, Status := GameSessionStatusStart }]
    accountBalances :=
      [{ ID := 1, MainID := 7, AssetID := 0, Available := available, Frozen := frozen,
         UpdateTime := 0, Withdrawal := 20 }] }

/-- The same database without any balance row. -/
def exNoBalanceDb : DB :=
  { exGameDb GameStatusActive 0 0 with accountBalances := [] }

/-- A `freeze` request for session `s1`. -/
def exStartReq (code externalId : String) : GameStartReq :=
  { SessionID := "s1", PlaySettingCode := code, ExternalID := externalId, Remark := "" }

/-- An external id of 129 bytes. -/
def exLongId : String := String.mk (List.replicate 129 'a')

/-- The Done Spend row `GameEndHandler` inserts for a freeze row. -/
def spendRow (db : DB) (clientId : String) (userId : Nat) (gs : GameSession) (fz : AccountFlow)
    (now : Nat) : AccountFlow :=
  { ID := nextID AccountFlow.ID db.accountFlows, MainID := userId, AssetID := 0,
    BizType := FlowSpend, Amount := fz.Amount, Direction := DirectionOut, ClientID := clientId,
    GameID := fz.GameID, ExternalID := "", ExternalRemark := "", RefFlowID := fz.ID,
    Status := FlowStatusDone, AddTime := now, UpdateTime := now, SessionID := gs.SessionID }

/-- The session row `GameEndHandler` saves. -/
def endedSession (gs : GameSession) (req : GameEndReq) (fz : AccountFlow) (now : Nat) :
    GameSession :=
  { gs with
    Status := GameSessionStatusEnd, EndTime := now, Score := req.Score,
    SpendAmountN := fz.Amount }

/-- The database `GameEndHandler` commits. -/
def endedDb (db : DB) (clientId : String) (userId : Nat) (gs : GameSession) (fz : AccountFlow)
    (b : AccountBalance) (req : GameEndReq) (now : Nat) : DB :=
  { db with
    accountFlows :=
      updateRow AccountFlow.ID db.accountFlows
        { fz with Status := FlowStatusDone, UpdateTime := now } ++
        [spendRow db clientId userId gs fz now]
    accountBalances :=
      updateRow AccountBalance.ID db.accountBalances
        { b with Frozen := b.Frozen - fz.Amount }
    gameSessions :=
      db.gameSessions.map
        (fun x => if x.SessionID = gs.SessionID then endedSession gs req fz now else x) }

/-- A `endSession` request for session `s1`. -/
def exEndReq (freezeFlowId : Nat) : GameEndReq :=
  { SessionID := "s1", Score := { value := 42, exp := 0 }, GameStartID := freezeFlowId }

/-- The database after the `freeze` of the scenario: available 700000, frozen
300000 and the Pending Freeze row under key 1. -/
def exFrozenDb : DB :=
  (GameStartHandler (exGameDb GameStatusActive 1000000 0) "client" 7
    (some (exStartReq "std" "e1")) 5).2

/-! ## api/oauth/jwt_middleware.go: the advanced handlers -/

/-- Go `a - b` on `uint64`: the difference when `b <= a`, and otherwise the
value wrapped around `2 ^ 64`. -/
def subU64 (a b : Nat) : Nat := if b ≤ a then a - b else (a + u64 - b % u64) % u64

structure FreezeReq where
  Amount : Nat
  ExternalID : String
  Remark : String
deriving DecidableEq, Inhabited, Repr

structure SpendOrUnfreezeReq where
  FreezeID : Nat
deriving DecidableEq, Inhabited, Repr

/-- The handler `FreezeHandler` (the advanced `freeze` operation).  The
balance row is read outside the transaction and without a lock; a user
without a row is given the zero value. -/
def FreezeHandler (db : DB) (clientId : String) (userId : Nat) (body : Option FreezeReq)
    (now : Nat) : Response × DB :=
  match body with
  | none => (failWith now Code.CODE_ERR_BAD_PARAMS "invalid param", db)
  | some req =>
    if req.Amount = 0 ∨ req.ExternalID.utf8ByteSize = 0 then
      (failWith now Code.CODE_ERR_BAD_PARAMS "invalid param", db)
    else if req.ExternalID.utf8ByteSize > 128 then
      (failWith now Code.CODE_ERR_BAD_PARAMS "external_id too long", db)
    else if req.Remark.utf8ByteSize > 128 then
      (failWith now Code.CODE_ERR_BAD_PARAMS "remark too long", db)
    else
      let userMain :=
        (firstWhere UserMain.ID (fun u => decide (u.ID = userId)) db.users).getD default
      if userMain.ID = 0 then (failWith now Code.CODE_ERR_OBJ_NOT_FOUND "user not found", db)
      else
        let userAccount :=
          (firstWhere AccountBalance.ID
            (fun b => decide (b.MainID = userId) && decide (b.AssetID = 0))
            db.accountBalances).getD default
        if userAccount.Available < req.Amount then
          (failWith now Code.CODE_ERR_BAD_PARAMS "insufficient balance", db)
        else
          let accountFlow : AccountFlow :=
            { ID := 0, MainID := userMain.ID, AssetID := 0, BizType := FlowFreeze,
              Amount := req.Amount, Direction := 1, ClientID := clientId, GameID := 0,
              ExternalID := req.ExternalID, ExternalRemark := req.Remark, RefFlowID := 0,
              Status := FlowStatusPending, AddTime := now, UpdateTime := now, SessionID := "" }
          match createAccountFlowChecked db.accountFlows accountFlow with
          | none => (failWith now Code.CODE_ERR_UNKNOWN "freeze operation failed", db)
          | some (created, flows1) =>
            let userAccount1 :=
              { userAccount with
                Available := userAccount.Available - req.Amount
                Frozen := addU64 userAccount.Frozen req.Amount }
            (okWith now created.ID "freeze",
              { db with
                accountFlows := flows1
                accountBalances := saveBalance db.accountBalances userAccount1 })

/-- The handler `UnFreezeHandler` (the advanced `unfreeze` operation).  The
referenced row is looked up by key alone; its owner, its type and the size of
the frozen balance are not examined. -/
def UnFreezeHandler (db : DB) (clientId : String) (userId : Nat)
    (body : Option SpendOrUnfreezeReq) (now : Nat) : Response × DB :=
  match body with
  | none => (failWith now Code.CODE_ERR_BAD_PARAMS "invalid param", db)
  | some req =>
    if req.FreezeID = 0 then (failWith now Code.CODE_ERR_BAD_PARAMS "invalid param", db)
    else
      let userMain :=
        (firstWhere UserMain.ID (fun u => decide (u.ID = userId)) db.users).getD default
      if userMain.ID = 0 then (failWith now Code.CODE_ERR_OBJ_NOT_FOUND "user not found", db)
      else
        let userAccount :=
          (firstWhere AccountBalance.ID
            (fun b => decide (b.MainID = userId) && decide (b.AssetID = 0))
            db.accountBalances).getD default
        let accountFlow :=
          (firstWhere AccountFlow.ID (fun f => decide (f.ID = req.FreezeID))
            db.accountFlows).getD default
        if accountFlow.ID = 0 then
          (failWith now Code.CODE_ERR_OBJ_NOT_FOUND "freeze not found", db)
        else if accountFlow.Status ≠ FlowStatusPending then
          (failWith now Code.CODE_ERR_OBJ_NOT_FOUND "freeze been reversed", db)
        else
          let flows1 := saveAccountFlow db.accountFlows
            { accountFlow with Status := FlowStatusReversed, UpdateTime := now }
          let unfreezeAccountFlow : AccountFlow :=
            { ID := 0, MainID := userMain.ID, AssetID := 0, BizType := FlowUnfreeze,
              Amount := accountFlow.Amount, Direction := 0, ClientID := clientId, GameID := 0,
              ExternalID := "", ExternalRemark := "", RefFlowID := accountFlow.ID,
              Status := FlowStatusDone, AddTime := now, UpdateTime := now, SessionID := "" }
          match createAccountFlowChecked flows1 unfreezeAccountFlow with
          | none => (failWith now Code.CODE_ERR_UNKNOWN "unfreeze operation failed", db)
          | some (created, flows2) =>
            let userAccount1 :=
              { userAccount with
                Frozen := subU64 userAccount.Frozen accountFlow.Amount
                Available := addU64 userAccount.Available accountFlow.Amount }
            (okWith now created.ID "unfreeze",
              { db with
                accountFlows := flows2
                accountBalances := saveBalance db.accountBalances userAccount1 })

/-- The handler `SpendHandler` (the advanced `spend` operation), of the same
shape as `UnFreezeHandler`. -/
def SpendHandler (db : DB) (clientId : String) (userId : Nat)
    (body : Option SpendOrUnfreezeReq) (now : Nat) : Response × DB :=
  match body with
  | none => (failWith now Code.CODE_ERR_BAD_PARAMS "invalid param", db)
  | some req =>
    if req.FreezeID = 0 then (failWith now Code.CODE_ERR_BAD_PARAMS "invalid param", db)
    else
      let userMain :=
        (firstWhere UserMain.ID (fun u => decide (u.ID = userId)) db.users).getD default
      if userMain.ID = 0 then (failWith now Code.CODE_ERR_OBJ_NOT_FOUND "user not found", db)
      else
        let userAccount :=
          (firstWhere AccountBalance.ID
            (fun b => decide (b.MainID = userId) && decide (b.AssetID = 0))
            db.accountBalances).getD default
        let accountFlow :=
          (firstWhere AccountFlow.ID (fun f => decide (f.ID = req.FreezeID))
            db.accountFlows).getD default
        if accountFlow.ID = 0 then
          (failWith now Code.CODE_ERR_OBJ_NOT_FOUND "freeze not found", db)
        else if accountFlow.Status ≠ FlowStatusPending then
          (failWith now Code.CODE_ERR_OBJ_NOT_FOUND "freeze been reversed", db)
        else
          let flows1 := saveAccountFlow db.accountFlows
            { accountFlow with Status := FlowStatusDone, UpdateTime := now }
          let spendAccountFlow : AccountFlow :=
            { ID := 0, MainID := userMain.ID, AssetID := 0, BizType := FlowSpend,
              Amount := accountFlow.Amount, Direction := 0, ClientID := clientId, GameID := 0,
              ExternalID := "", ExternalRemark := "", RefFlowID := accountFlow.ID,
              Status := FlowStatusDone, AddTime := now, UpdateTime := now, SessionID := "" }
          match createAccountFlowChecked flows1 spendAccountFlow with
          | none => (failWith now Code.CODE_ERR_UNKNOWN "spend operation failed", db)
          | some (created, flows2) =>
            let userAccount1 :=
              { userAccount with Frozen := subU64 userAccount.Frozen accountFlow.Amount }
            (okWith now created.ID "spend",
              { db with
                accountFlows := flows2
                accountBalances := saveBalance db.accountBalances userAccount1 })

/-- A database for the advanced handlers: users 7 and 8, the balance row of
user 7 with the given amounts, and a Pending Freeze row (key 1, amount 100) of
user 8. -/
def exAdvDb (available frozen : Nat) : DB :=
  { (default : DB) with
    users := [exUser, { (default : UserMain) with ID := 8, UserNo := "u8" }]
    accountFlows :=
      [{ (default : AccountFlow) with
         ID := 1, MainID := 8, BizType := FlowFreeze, Amount := 100, Direction := 1,
         Status := FlowStatusPending, ExternalID := "x" }]
    accountBalances :=
      [{ ID := 1, MainID := 7, AssetID := 0, Available := available, Frozen := frozen,
         UpdateTime := 0, Withdrawal := 0 },
       { ID := 2, MainID := 8, AssetID := 0, Available := 0, Frozen := 100,
         UpdateTime := 0, Withdrawal := 0 }] }
/-- The new row `UnFreezeHandler` and `SpendHandler` insert for a referenced
row, before it receives its key. -/
def settleRow (clientId : String) (userId : Nat) (fz : AccountFlow) (bizType : Int)
    (now : Nat) : AccountFlow :=
  { ID := 0, MainID := userId, AssetID := 0, BizType := bizType,
    Amount := fz.Amount, Direction := 0, ClientID := clientId, GameID := 0,
    ExternalID := "", ExternalRemark := "", RefFlowID := fz.ID,
    Status := FlowStatusDone, AddTime := now, UpdateTime := now, SessionID := "" }

/-- The spend-ledger rows `UnFreezeHandler` and `SpendHandler` commit for a
referenced row: that row saved with its new status, and the new row inserted
under the next key. -/
def settledFlows (db : DB) (clientId : String) (userId : Nat) (fz : AccountFlow)
    (status bizType : Int) (now : Nat) : AccountFlow × List AccountFlow :=
  createAccountFlow
    (saveAccountFlow db.accountFlows { fz with Status := status, UpdateTime := now })
    (settleRow clientId userId fz bizType now)

/-- The database `UnFreezeHandler` commits. -/
def unfrozenDb (db : DB) (clientId : String) (userId : Nat) (fz : AccountFlow) (now : Nat) :
    DB :=
  { db with
    accountFlows := (settledFlows db clientId userId fz FlowStatusReversed FlowUnfreeze now).2
    accountBalances := saveBalance db.accountBalances
      { gameBalanceOf db userId with
        Frozen := subU64 (gameBalanceOf db userId).Frozen fz.Amount
        Available := addU64 (gameBalanceOf db userId).Available fz.Amount } }

/-- The database `SpendHandler` commits. -/
def spentDb (db : DB) (clientId : String) (userId : Nat) (fz : AccountFlow) (now : Nat) : DB :=
  { db with
    accountFlows := (settledFlows db clientId userId fz FlowStatusDone FlowSpend now).2
    accountBalances := saveBalance db.accountBalances
      { gameBalanceOf db userId with
        Frozen := subU64 (gameBalanceOf db userId).Frozen fz.Amount } }
/-- The sum `available + frozen` of the balance the debit handlers read for a
user. -/
def spendable (db : DB) (userId : Nat) : Nat :=
  (gameBalanceOf db userId).Available + (gameBalanceOf db userId).Frozen

/-- The amount of the row a spend or unfreeze request names, zero when the
request or the row is missing. -/
def refAmount (db : DB) (body : Option SpendOrUnfreezeReq) : Nat :=
  match body with
  | none => 0
  | some req =>
    ((firstWhere AccountFlow.ID (fun f => decide (f.ID = req.FreezeID))
      db.accountFlows).getD default).Amount

/-- A call of one of the five debit handlers by one user. -/
inductive DebitCall where
  | gameStart (clientId : String) (body : Option GameStartReq) (now : Nat)
  | gameEnd (clientId : String) (body : Option GameEndReq) (now : Nat)
  | freeze (clientId : String) (body : Option FreezeReq) (now : Nat)
  | unfreeze (clientId : String) (body : Option SpendOrUnfreezeReq) (now : Nat)
  | spend (clientId : String) (body : Option SpendOrUnfreezeReq) (now : Nat)
deriving DecidableEq, Repr

/-- The handler a call runs. -/
def DebitCall.run (db : DB) (userId : Nat) : DebitCall → Response × DB
  | .gameStart clientId body now => GameStartHandler db clientId userId body now
  | .gameEnd clientId body now => GameEndHandler db clientId userId body now
  | .freeze clientId body now => FreezeHandler db clientId userId body now
  | .unfreeze clientId body now => UnFreezeHandler db clientId userId body now
  | .spend clientId body now => SpendHandler db clientId userId body now

/-- Whether the frozen balance of the caller covers the amount of the row an
advanced unfreeze or spend call names (the comparison `GameEndHandler` makes
and the advanced handlers do not); true for the other calls. -/
def DebitCall.covered (db : DB) (userId : Nat) : DebitCall → Bool
  | .unfreeze _ body _ => decide (refAmount db body ≤ (gameBalanceOf db userId).Frozen)
  | .spend _ body _ => decide (refAmount db body ≤ (gameBalanceOf db userId).Frozen)
  | _ => true

/-- The database after a sequence of calls by one user. -/
def runCalls (db : DB) (userId : Nat) : List DebitCall → DB
  | [] => db
  | c :: cs => runCalls (c.run db userId).2 userId cs

/-- Whether every call of a sequence is covered in the state it runs in. -/
def coveredRun (db : DB) (userId : Nat) : List DebitCall → Bool
  | [] => true
  | c :: cs => c.covered db userId && coveredRun (c.run db userId).2 userId cs
/-- The sum of the amounts of the successful Recharge rows of a user in the
settlement ledger. -/
def rechargeTotal (db : DB) (userId : Nat) : Nat :=
  ((db.balanceFlows.filter (fun f => decide (f.MainID = userId) &&
      decide (f.Op = BalanceFlowOpRecharge) && decide (f.Status = BalanceFlowStatusSuccess))).map
    AccountBalanceFlow.RealAmount).sum

/-- The database of the game scenario with one successful Recharge of
1000000 recorded for user 7. -/
def exRechargedDb : DB :=
  { exGameDb GameStatusActive 1000000 0 with
    balanceFlows :=
      [{ exFlow 1 BalanceFlowOpRecharge BalanceFlowStatusSuccess "0xdeposit" 0 with
         RealAmount := 1000000 }] }

/-- A play of the scenario followed by an advanced freeze of 200 and its
unfreeze. -/
def exCalls : List DebitCall :=
  [.gameStart "client" (some (exStartReq "std" "e1")) 5,
   .gameEnd "client" (some (exEndReq 1)) 6,
   .freeze "client" (some { Amount := 200, ExternalID := "e2", Remark := "" }) 7,
   .unfreeze "client" (some { FreezeID := 3 }) 8]

/-- The spend ledger of `db1` is that of `db` with the Pending row `fz` moved
to `status` and exactly one new Done row of type `bizType` that references it,
under a key no row had; every other row is as it was. -/
def SettlesRow (db db1 : DB) (fz : AccountFlow) (status bizType : Int) : Prop :=
  fz ∈ db.accountFlows ∧ fz.Status = FlowStatusPending ∧
  (∀ f ∈ db.accountFlows, f.ID ≠ nextID AccountFlow.ID db.accountFlows) ∧
  (∃ r, accountFlowByID db1.accountFlows (nextID AccountFlow.ID db.accountFlows) = some r ∧
    r.BizType = bizType ∧ r.RefFlowID = fz.ID ∧ r.Amount = fz.Amount ∧
    r.Status = FlowStatusDone) ∧
  (accountFlowByID db1.accountFlows fz.ID).map AccountFlow.Status = some status ∧
  (∀ id, id ≠ fz.ID → id ≠ nextID AccountFlow.ID db.accountFlows →
    accountFlowByID db1.accountFlows id = accountFlowByID db.accountFlows id) ∧
  db1.accountFlows.length = db.accountFlows.length + 1

/-! ## api/oauth/jwt_middleware.go: the session start -/

/-- The response of `GameSessionInitHandler`: `Data` is the `session_id` of
the payload. -/
structure SessionResponse where
  Timestamp : Nat
  Code : Code
  Msg : String
  Data : Option String
deriving DecidableEq, Repr

/-- The smaller of two candidate sessions under the order of the primary key
`session_id`, keeping the earlier one on a tie. -/
def pickMinSession (acc : Option GameSession) (r : GameSession) : Option GameSession :=
  match acc with
  | none => some r
  | some a => if r.SessionID < a.SessionID then some r else some a

/-- Query `Where(p).First(..)` on the session table: the matching row with the
least `session_id`. -/
def firstSessionWhere (p : GameSession → Bool) (rows : List GameSession) : Option GameSession :=
  (rows.filter p).foldl pickMinSession none

/-- The condition `main_id = ? AND game_id = ? and status = Start`. -/
def isStartFor (mainId gameId : Nat) (s : GameSession) : Bool :=
  decide (s.MainID = mainId) && decide (s.GameID = gameId) &&
    decide (s.Status = GameSessionStatusStart)

/-- The session table `Create` with a key given by the caller: it fails on a
duplicate key (`none`). -/
def createGameSession (rows : List GameSession) (s : GameSession) : Option (List GameSession) :=
  if rows.any (fun x => decide (x.SessionID = s.SessionID)) then none else some (rows ++ [s])

/-- The handler `GameSessionInitHandler` (the `startSession` operation).
`newSessionId` is the value `uuid.New().String()` returns. -/
def GameSessionInitHandler (db : DB) (clientId : String) (userId : Nat) (newSessionId : String)
    (now : Nat) : SessionResponse × DB :=
  let userMain :=
    (firstWhere UserMain.ID (fun u => decide (u.ID = userId)) db.users).getD default
  if userMain.ID = 0 then
    ({ Timestamp := now, Code := Code.CODE_ERR_OBJ_NOT_FOUND, Msg := "user not found",
       Data := none }, db)
  else
    let gameApp :=
      (firstWhere GameApp.ID (fun g => decide (g.ClientID = clientId)) db.gameApps).getD default
    let gameInfo :=
      (firstWhere GameInfo.ID
        (fun gi => db.gameApps.any
          (fun ga => decide (gi.ID = ga.GameID) && decide (ga.ClientID = clientId)))
        db.gameInfos).getD default
    if gameInfo.ID = 0 then
      ({ Timestamp := now, Code := Code.CODE_ERR_OBJ_NOT_FOUND, Msg := "game info not found",
         Data := none }, db)
    else if gameInfo.Status = GameStatusDraft ∨ gameInfo.Status = GameStatusInactive then
      ({ Timestamp := now, Code := Code.CODE_ERR_BAD_PARAMS, Msg := "game not active or testing",
         Data := none }, db)
    else if gameApp.ID = 0 then
      ({ Timestamp := now, Code := Code.CODE_ERR_OBJ_NOT_FOUND, Msg := "game app not found",
         Data := none }, db)
    else
      match firstSessionWhere (isStartFor userMain.ID gameApp.GameID) db.gameSessions with
      | some existGameSession =>
        ({ Timestamp := now, Code := Code.CODE_SUCCESS, Msg := "success",
           Data := some existGameSession.SessionID }, db)
      | none =>
        let testing : Int := if gameInfo.Status ≠ GameStatusActive then 1 else 0
        let gameSession : GameSession :=
          { (default : GameSession) with
            SessionID := newSessionId, MainID := userMain.ID, GameID := gameApp.GameID,
            Status := GameSessionStatusStart, StartTime := now, Testing := testing }
        match createGameSession db.gameSessions gameSession with
        | none =>
          ({ Timestamp := now, Code := Code.CODE_ERR_UNKNOWN, Msg := "create session failed",
             Data := none }, db)
        | some sessions1 =>
          ({ Timestamp := now, Code := Code.CODE_SUCCESS, Msg := "success",
             Data := some newSessionId }, { db with gameSessions := sessions1 })

/-! ## api/http/controller/auth/req.go, api/http/controller/auth/user.go -/

structure ConfirmGameSessionReq where
  SessionID : String
  Score : Decimal
deriving DecidableEq, Inhabited, Repr

/-- The method `decimal.Decimal.Equal`: equality of the numbers denoted, after
bringing both to the smaller exponent. -/
def Decimal.Equal (a b : Decimal) : Bool :=
  decide (a.value * 10 ^ (a.exp - min a.exp b.exp).toNat =
    b.value * 10 ^ (b.exp - min a.exp b.exp).toNat)

/-- The response of `ConfirmGameSession`.  The handler starts from the zero
value of `common.Response` and sets a code on failure only: `none` is the code
left unset. -/
structure PlainResponse where
  Timestamp : Nat
  Code : Option Code
  Msg : String
deriving DecidableEq, Repr

/-- The handler `ConfirmGameSession`.  `mainId` is the `main_id` of the gin
context (`none` when absent), taken as the user id whose decimal spelling it
is; `body` is the bound JSON. -/
def ConfirmGameSession (db : DB) (mainId : Option Nat) (body : Option ConfirmGameSessionReq)
    (now : Nat) : PlainResponse × DB :=
  match body with
  | none => ({ Timestamp := now, Code := some Code.CODE_ERR_BAD_PARAMS, Msg := "param error" }, db)
  | some req =>
    match mainId with
    | none => ({ Timestamp := now, Code := some Code.CODE_ERR_SECURITY, Msg := "please login" }, db)
    | some mainIdStr =>
      match firstSession db.gameSessions req.SessionID with
      | none =>
        ({ Timestamp := now, Code := some Code.CODE_ERR_OBJ_NOT_FOUND,
           Msg := "game session not found" }, db)
      | some gameSession =>
        if gameSession.MainID ≠ mainIdStr then
          ({ Timestamp := now, Code := some Code.CODE_ERR_BAD_PARAMS,
             Msg := "game session not owned by user" }, db)
        else if gameSession.Status ≠ GameSessionStatusEnd then
          ({ Timestamp := now, Code := some Code.CODE_ERR_BAD_PARAMS,
             Msg := "game session not ended, or not in correct status" }, db)
        else
          let gameSession1 :=
            { gameSession with
              UserReportScore := req.Score
              Status := if gameSession.Score.Equal req.Score then GameSessionStatusSettled
                        else GameSessionStatusAuditing }
          match saveGameSession db.gameSessions gameSession1 with
          | none =>
            ({ Timestamp := now, Code := some Code.CODE_ERR_UNKNOWN,
               Msg := "update game session failed" }, db)
          | some sessions1 =>
            ({ Timestamp := now, Code := none, Msg := "" }, { db with gameSessions := sessions1 })

/-- At most one session per user and game is in Start state. -/
def OneStart (db : DB) : Prop :=
  ∀ mainId gameId, (db.gameSessions.filter (isStartFor mainId gameId)).length ≤ 1

/-- A call of one of the three handlers that write the session table. -/
inductive SessionCall where
  | init (clientId : String) (userId : Nat) (newSessionId : String) (now : Nat)
  | gameEnd (clientId : String) (userId : Nat) (body : Option GameEndReq) (now : Nat)
  | confirm (mainId : Option Nat) (body : Option ConfirmGameSessionReq) (now : Nat)
deriving DecidableEq, Repr

/-- The database after a call. -/
def SessionCall.run (db : DB) : SessionCall → DB
  | .init clientId userId newSessionId now =>
    (GameSessionInitHandler db clientId userId newSessionId now).2
  | .gameEnd clientId userId body now => (GameEndHandler db clientId userId body now).2
  | .confirm mainId body now => (ConfirmGameSession db mainId body now).2

/-- The database after a sequence of calls. -/
def runSessionCalls (db : DB) : List SessionCall → DB
  | [] => db
  | c :: cs => runSessionCalls (c.run db) cs
/-- The session row `GameSessionInitHandler` creates. -/
def newStartSession (userId gameId : Nat) (sessionId : String) (now : Nat) (testing : Int) :
    GameSession :=
  { (default : GameSession) with
    SessionID := sessionId, MainID := userId, GameID := gameId,
    Status := GameSessionStatusStart, StartTime := now, Testing := testing }

/-- The success response of `GameSessionInitHandler`. -/
def sessionOk (now : Nat) (sessionId : String) : SessionResponse :=
  { Timestamp := now, Code := Code.CODE_SUCCESS, Msg := "success", Data := some sessionId }

/-- The condition of the joined read of the game of a client. -/
def isGameOfClient (db : DB) (clientId : String) (gi : GameInfo) : Bool :=
  db.gameApps.any (fun ga => decide (gi.ID = ga.GameID) && decide (ga.ClientID = clientId))
/-- The game database of the scenario with the game in the given status and
no session. -/
def exNoSessionDb (gameStatus : String) : DB :=
  { exGameDb gameStatus 1000000 0 with gameSessions := [] }

/-! ## chain/eip712_lockauth.go -/

/-- The little-endian base-256 digits of `n`, with `fuel` bounding the number
of digits. -/
def natBytesLE : Nat → Nat → List Nat
  | 0, _ => []
  | fuel + 1, n => if n = 0 then [] else (n % 256) :: natBytesLE fuel (n / 256)

/-- Go `(*big.Int).Bytes` on the absolute value `n`: the big-endian bytes
without leading zero (empty for zero).  A byte is a natural number below 256. -/
def natBytes (n : Nat) : List Nat := (natBytesLE n n).reverse

/-- Go `(*big.Int).SetBytes`: the big-endian value of a byte slice. -/
def beDecode (bs : List Nat) : Nat := bs.foldl (fun acc b => acc * 256 + b) 0

/-- The string whose hash is `lockAuthTypeHash`. -/
def lockAuthTypeString : String :=
  "LockAuth(address user,bytes32 lockId,uint256 amount,uint64 expiry,uint256 nonce)"

/-- The variable `lockAuthTypeHash`; `keccak256` is the hash function of the
`crypto` package, a parameter.  The string is ASCII, so its bytes are its
character codes. -/
def lockAuthTypeHash (keccak256 : List Nat → List Nat) : List Nat :=
  keccak256 (lockAuthTypeString.data.map Char.toNat)

/-- The function `leftPadBytes32`. -/
def leftPadBytes32 (b : List Nat) : List Nat :=
  if b.length ≥ 32 then b.drop (b.length - 32)
  else List.replicate (32 - b.length) 0 ++ b

/-- The function `toUint256`; `none` is the nil pointer. -/
def toUint256 (x : Option Int) : List Nat :=
  leftPadBytes32 (natBytes (x.getD 0).natAbs)

/-- The function `buildLockAuthStructHash`.  `user` holds the 20 bytes of a
`common.Address` and `lockId` the 32 bytes of a `common.Hash`. -/
def buildLockAuthStructHash (keccak256 : List Nat → List Nat) (user lockId : List Nat)
    (amount : Int) (expiry : Nat) (nonce : Int) : List Nat :=
  let userPadded := leftPadBytes32 user
  let lockIdBytes := lockId
  let amountBytes := toUint256 (some amount)
  let expiryBytes := toUint256 (some (expiry : Int))
  let nonceBytes := toUint256 (some nonce)
  keccak256 (lockAuthTypeHash keccak256 ++ userPadded ++ lockIdBytes ++ amountBytes ++
    expiryBytes ++ nonceBytes)

/-- Lines 158 to 161 of `BuildAndSignLockAuth`: the digest. -/
def lockAuthDigest (keccak256 : List Nat → List Nat) (domainSep structHash : List Nat) :
    List Nat :=
  keccak256 ([0x19, 0x01] ++ domainSep ++ structHash)

/-- A stand-in hash for examples: 32 bytes that depend on the input. -/
def exKeccak (data : List Nat) : List Nat :=
  List.replicate 31 (data.length % 256) ++ [data.sum % 256]

/-- The value of a hexadecimal digit, either case. -/
def hexVal (c : Char) : Option Nat :=
  if '0' ≤ c ∧ c ≤ '9' then some (c.toNat - 48)
  else if 'a' ≤ c ∧ c ≤ 'f' then some (c.toNat - 87)
  else if 'A' ≤ c ∧ c ≤ 'F' then some (c.toNat - 55)
  else none

/-- Two lower-case hexadecimal digits per byte (`hex.EncodeToString`). -/
def hexEncodeBytes : List Nat → List Char
  | [] => []
  | b :: bs => Nat.digitChar (b / 16) :: Nat.digitChar (b % 16) :: hexEncodeBytes bs

/-- The function `hex.DecodeString` on the characters of its input: `none`
for an odd length or a character that is no hexadecimal digit. -/
def hexDecodeChars : List Char → Option (List Nat)
  | [] => some []
  | [_] => none
  | c1 :: c2 :: rest =>
    match hexVal c1, hexVal c2, hexDecodeChars rest with
    | some h, some l, some bs => some ((h * 16 + l) :: bs)
    | _, _, _ => none

/-- The function `hexutil.Encode`: `0x` and the lower-case digits. -/
def hexutilEncode (b : List Nat) : String := String.mk ('0' :: 'x' :: hexEncodeBytes b)

/-- The function `hexutil.Decode`: `none` is any of its errors (empty input,
missing `0x` prefix, odd length, bad digit). -/
def hexutilDecode (s : String) : Option (List Nat) :=
  match s.data with
  | '0' :: x :: rest => if x = 'x' ∨ x = 'X' then hexDecodeChars rest else none
  | _ => none

/-- Go `strings.TrimPrefix(s, "0x")`. -/
def trimPrefix0x (s : String) : String :=
  match s.data with
  | '0' :: 'x' :: rest => String.mk rest
  | _ => s

/-- The functions of go-ethereum and of the node the signer calls, as
parameters: the hash, the address parser `common.HexToAddress`, the key parser
`crypto.HexToECDSA`, `crypto.Sign`, `crypto.SigToPub`, `crypto.PubkeyToAddress`,
the public key of a private key, the RPC choice `pickRPCByChainID` (which
reads the configuration) and the `domainSeparator()` call to the contract.  A
private key is its scalar. -/
structure CryptoLib where
  keccak256 : List Nat → List Nat
  hexToAddress : String → List Nat
  hexToECDSA : String → Except String Nat
  sign : List Nat → Nat → Except String (List Nat)
  sigToPub : List Nat → List Nat → Except String (List Nat)
  pubkeyToAddress : List Nat → List Nat
  publicKey : Nat → List Nat
  pickRPCByChainID : Nat → Except String String
  fetchDomainSeparator : String → List Nat → Except String (List Nat)

/-- Lines 174 to 179 of `BuildAndSignLockAuth`: a recovery byte below 27 of a
65-byte signature is raised by 27 (`uint8` arithmetic). -/
def normalizeV (signature : List Nat) : List Nat :=
  if signature.length = 65 then
    if signature.getD 64 0 < 27 then signature.set 64 ((signature.getD 64 0 + 27) % 256)
    else signature
  else signature

/-- Lines 169 to 181 of `BuildAndSignLockAuth`: sign the digest and normalise
the recovery byte. -/
def signDigest (lib : CryptoLib) (digest : List Nat) (privKey : Nat) :
    Except String (List Nat) :=
  match lib.sign digest privKey with
  | .error e => .error e
  | .ok signature => .ok (normalizeV signature)

/-- The function `BuildAndSignLockAuth`; `amount` and `nonce` are `*big.Int`,
`none` the nil pointer.  It returns the digest and the signature. -/
def BuildAndSignLockAuth (lib : CryptoLib) (chainID : Nat)
    (contractAddr privKeyHex userAddr lockIdHex : String) (amount : Option Int) (expiry : Nat)
    (nonce : Option Int) : Except String (List Nat × List Nat) :=
  if contractAddr = "" ∨ userAddr = "" ∨ lockIdHex = "" ∨ privKeyHex = "" then
    .error "missing required params"
  else
    match lib.pickRPCByChainID chainID with
    | .error e => .error e
    | .ok rpcURL =>
      let contract := lib.hexToAddress contractAddr
      let user := lib.hexToAddress userAddr
      match hexutilDecode lockIdHex with
      | none => .error "invalid hex string"
      | some lockIdBytes =>
        if lockIdBytes.length ≠ 32 then .error "lockId must be 32 bytes"
        else
          let structHash := buildLockAuthStructHash lib.keccak256 user lockIdBytes
            (amount.getD 0) expiry (nonce.getD 0)
          match lib.fetchDomainSeparator rpcURL contract with
          | .error e => .error e
          | .ok domainSep =>
            let digest := lockAuthDigest lib.keccak256 domainSep structHash
            match lib.hexToECDSA (trimPrefix0x privKeyHex) with
            | .error e => .error e
            | .ok privKey =>
              match signDigest lib digest privKey with
              | .error e => .error e
              | .ok signature => .ok (digest, signature)

/-- The function `RecoverLockAuthSigner`. -/
def RecoverLockAuthSigner (lib : CryptoLib) (digest sig : List Nat) :
    Except String (List Nat) :=
  if sig.length ≠ 65 then .error "invalid signature length"
  else
    let sigCopy :=
      if sig.getD 64 0 ≥ 27 then sig.set 64 ((sig.getD 64 0 + 256 - 27) % 256) else sig
    match lib.sigToPub digest sigCopy with
    | .error e => .error e
    | .ok pub => .ok (lib.pubkeyToAddress pub)

/-- A stand-in library for examples: the signature of a digest under key `k`
is 64 bytes `k mod 256` and the recovery byte 0 or 1, recovery reads the key
byte back, and an address is the public key padded to 20 bytes. -/
def exLib : CryptoLib where
  keccak256 := exKeccak
  hexToAddress := fun s => List.replicate 19 0 ++ [s.length % 256]
  hexToECDSA := fun s => if s = "" then .error "invalid key" else .ok s.length
  sign := fun digest k => .ok (List.replicate 64 (k % 256) ++ [digest.length % 2])
  sigToPub := fun _ s => .ok [s.headD 0]
  pubkeyToAddress := fun pub => List.replicate 19 0 ++ pub
  publicKey := fun k => [k % 256]
  pickRPCByChainID := fun _ => .ok "rpc"
  fetchDomainSeparator := fun _ _ => .ok (List.replicate 32 1)

/-! ## api/http/controller/auth/user.go: the withdraw lock -/

/-- The constant `expiryDuration` (10 hours), in seconds. -/
def expiryDuration : Nat := 10 * 3600

structure WithdrawReq where
  Amount : Decimal
  ChainID : Nat
  ID : Nat
deriving DecidableEq, Inhabited, Repr

/-- The expression `d.Mul(decimal.NewFromInt(1000000)).Round(0).BigInt()`: the
amount in millionths, rounded to an integer, halves away from zero. -/
def Decimal.scaledUnits (d : Decimal) : Int :=
  if 0 ≤ d.exp + 6 then d.value * 10 ^ (d.exp + 6).toNat
  else
    let m : Nat := 10 ^ (-(d.exp + 6)).toNat
    let q : Nat := (2 * d.value.natAbs + m) / (2 * m)
    if d.value < 0 then -(q : Int) else (q : Int)

/-- The function `bigIntToHex32` on a non-nil value. -/
def bigIntToHex32 (n : Int) : String :=
  let b := natBytes n.natAbs
  hexutilEncode (if b.length < 32 then List.replicate (32 - b.length) 0 ++ b else b)

/-- The function `hex32ToBigInt`; `none` is the nil pointer. -/
def hex32ToBigInt (s : String) : Option Int :=
  match hexutilDecode s with
  | none => none
  | some b => some (beDecode b : Int)

/-- Go `(*big.Int).String`: the decimal spelling, `<nil>` for the nil
pointer. -/
def bigString (x : Option Int) : String :=
  match x with
  | none => "<nil>"
  | some n => toString n

/-- The `gin.H` payload of a withdraw lock response. -/
structure LockData where
  operation_id : Nat
  operation_type : String
  lock_id : String
  digest : String
  signature : String
  expiry : Nat
  nonce : String
  amount : Nat
deriving DecidableEq, Repr

/-- The response of `BalanceWithdrawRequest`. -/
structure WithdrawResponse where
  Timestamp : Nat
  Code : Code
  Msg : String
  Data : Option LockData
deriving DecidableEq, Repr

/-- What `BalanceWithdrawRequest` reads from outside the database: the
library, the environment variables `TOPUP_CONTRACT` and `WITHDRAW_LOCK_PK`,
whether another request of the user holds the in-memory key, the value
`generateInternalNonce()` returns (a hash read as a non-negative integer) and
the result of `tools.NewLockID32()` (the hexadecimal spelling, or its error). -/
structure WithdrawEnv where
  lib : CryptoLib
  contractAddr : String
  privKeyHex : String
  inFlight : Bool
  nonce : Nat
  newLockID32 : Except String String

/-- A response with an error code and no payload. -/
def withdrawFail (now : Nat) (code : Code) (msg : String) : WithdrawResponse :=
  { Timestamp := now, Code := code, Msg := msg, Data := none }

/-- The condition of the read of the user's open lock: op Freeze and status
Pending or PendingWithdraw. -/
def isOpenLock (mainId : Nat) (f : AccountBalanceFlow) : Bool :=
  decide (f.MainID = mainId) && decide (f.Op = BalanceFlowOpFreeze) &&
    (decide (f.Status = BalanceFlowStatusPending) ||
      decide (f.Status = BalanceFlowStatusPendingWithDraw))

/-- Lines 1208 to 1241 of `BalanceWithdrawRequest`: the answer from an open
lock.  `none` is the panic of `LockExpiry.Unix()` on a nil pointer. -/
def withdrawExisting (existLockFlow : AccountBalanceFlow) (computeAmount now : Nat) :
    Option WithdrawResponse :=
  match existLockFlow.LockExpiry with
  | none => none
  | some expiry =>
    let nonce := hex32ToBigInt existLockFlow.LockNonce
    if computeAmount ≠ existLockFlow.RealAmount then
      some (withdrawFail now Code.CODE_ERR_BAD_PARAMS
        "lock amount is not equal to the request amount")
    else if expiry < now then
      some (withdrawFail now Code.CODE_ERR_REQ_EXPIRED "lock expiry is before the current time")
    else
      let opType :=
        if existLockFlow.Status = BalanceFlowStatusPendingWithDraw then "withdraw" else "lock"
      some
        { Timestamp := now, Code := Code.CODE_SUCCESS, Msg := "success",
          Data := some
            { operation_id := existLockFlow.ID, operation_type := opType,
              lock_id := existLockFlow.LockID, digest := "",
              signature := existLockFlow.LockSig, expiry := expiry,
              nonce := bigString nonce, amount := existLockFlow.RealAmount } }

/-- Lines 1243 to 1395 of `BalanceWithdrawRequest`: the transaction.  Every
`return` before `Commit` leaves the deferred `Rollback` to run, so the
database is returned as it was. -/
def withdrawTx (env : WithdrawEnv) (db : DB) (userMain : UserMain) (chainID computeAmount : Nat)
    (now : Nat) : WithdrawResponse × DB :=
  match firstWhere AccountBalance.ID
      (fun b => decide (b.MainID = userMain.ID) && decide (b.AssetID = 0))
      db.accountBalances with
  | none => (withdrawFail now Code.CODE_ERR_OBJ_NOT_FOUND "user account not found", db)
  | some userAccount =>
    if userAccount.Available < computeAmount then
      (withdrawFail now Code.CODE_ERR_BAD_PARAMS "insufficient balance", db)
    else
      let userAccount1 :=
        { userAccount with
          Available := userAccount.Available - computeAmount
          Withdrawal := addU64 userAccount.Withdrawal computeAmount
          UpdateTime := now }
      let balances1 := saveBalance db.accountBalances userAccount1
      let up :=
        (firstWhere UserProvider.ID
          (fun p => decide (p.MainID = userMain.ID) && decide (p.ProviderType = "wallet"))
          db.userProviders).getD default
      let userAddr := up.ProviderID
      if env.contractAddr.utf8ByteSize = 0 ∨ env.privKeyHex.utf8ByteSize = 0 then
        (withdrawFail now Code.CODE_ERR_UNKNOWN "sign config missing", db)
      else if userAddr.utf8ByteSize = 0 then
        (withdrawFail now Code.CODE_ERR_UNKNOWN "user address missing", db)
      else
        let expiry := now + expiryDuration
        match env.newLockID32 with
        | .error _ => (withdrawFail now Code.CODE_ERR_UNKNOWN "new lock id failed", db)
        | .ok lockIdHex =>
          match BuildAndSignLockAuth env.lib chainID env.contractAddr env.privKeyHex
              up.ProviderID lockIdHex (some (computeAmount : Int)) expiry
              (some (env.nonce : Int)) with
          | .error _ =>
            (withdrawFail now Code.CODE_ERR_UNKNOWN "build and sign lock auth failed", db)
          | .ok (digest, sig) =>
            let userAccountFlow : AccountBalanceFlow :=
              { (default : AccountBalanceFlow) with
                MainID := userMain.ID, AssetID := 0, Op := BalanceFlowOpFreeze,
                Status := BalanceFlowStatusPending, Amount := computeAmount,
                RealAmount := computeAmount, AddTime := now, UpdateTime := now,
                LockID := lockIdHex, LockSig := hexutilEncode sig, LockExpiry := some expiry,
                LockNonce := bigIntToHex32 (env.nonce : Int), LockAddr := userAddr }
            let created := createBalanceFlow db.balanceFlows userAccountFlow
            ({ Timestamp := now, Code := Code.CODE_SUCCESS, Msg := "success",
               Data := some
                 { operation_id := created.1.ID, operation_type := "lock",
                   lock_id := lockIdHex, digest := hexutilEncode digest,
                   signature := hexutilEncode sig, expiry := expiry,
                   nonce := bigString (some (env.nonce : Int)), amount := computeAmount } },
              { db with accountBalances := balances1, balanceFlows := created.2 })

/-- The handler `BalanceWithdrawRequest` (the `issueWithdrawLock` operation).
`mainId` is the `main_id` of the gin context (`none` when absent), taken as
the user id it spells; `body` is the bound JSON; time is counted in seconds.
The response is `none` when the handler panics. -/
def BalanceWithdrawRequest (env : WithdrawEnv) (db : DB) (mainId : Option Nat)
    (body : Option WithdrawReq) (now : Nat) : Option WithdrawResponse × DB :=
  match body with
  | none => (some (withdrawFail now Code.CODE_ERR_BAD_PARAMS "param error"), db)
  | some req =>
    match mainId with
    | none => (some (withdrawFail now Code.CODE_ERR_SECURITY "please login first"), db)
    | some mainIdStr =>
      if env.inFlight then
        (some (withdrawFail now Code.CODE_ERR_PROCESSING
          "operating, please do not repeat the operation"), db)
      else
        let computeAmount := bigUint64 req.Amount.scaledUnits
        match firstWhere UserMain.ID (fun u => decide (u.ID = mainIdStr)) db.users with
        | none => (some (withdrawFail now Code.CODE_ERR_UNKNOWN "query user main failed"), db)
        | some userMain =>
          let existLockFlow :=
            (firstWhere AccountBalanceFlow.ID (isOpenLock userMain.ID) db.balanceFlows).getD
              default
          if existLockFlow.ID > 0 then (withdrawExisting existLockFlow computeAmount now, db)
          else
            let r := withdrawTx env db userMain req.ChainID computeAmount now
            (some r.1, r.2)
/-- A database for the withdraw lock: user 7 with a wallet provider and one
balance row with the given `available` and `withdrawal` and frozen 40. -/
def exWithdrawDb (available withdrawal : Nat) : DB :=
  { (default : DB) with
    users := [exUser]
    userProviders :=
      [{ ID := 1, MainID := 7, ProviderType := "wallet", ProviderID := "0xabc", AddTime := 0,
         ProviderLabel := "" }]
    accountBalances :=
      [{ ID := 1, MainID := 7, AssetID := 0, Available := available, Frozen := 40,
         UpdateTime := 0, Withdrawal := withdrawal }] }

/-- An environment in which signing succeeds: the stand-in library, both
variables set, no request in flight, the given nonce and a lock id of 32 bytes
`ab`. -/
def exEnv (nonce : Nat) : WithdrawEnv :=
  { lib := exLib, contractAddr := "0xc0", privKeyHex := "0x01", inFlight := false,
    nonce := nonce, newLockID32 := .ok (hexutilEncode (List.replicate 32 171)) }

/-- The same environment with the signing key unset. -/
def exEnvNoKey : WithdrawEnv := { exEnv 9 with privKeyHex := "" }

/-- A withdraw request for `value * 10 ^ exp` on chain 56. -/
def exWithdrawReq (value exp : Int) : WithdrawReq :=
  { Amount := { value := value, exp := exp }, ChainID := 56, ID := 0 }
/-- The Pending Freeze row `BalanceWithdrawRequest` creates for a lock. -/
def lockRow (db : DB) (userId computeAmount now : Nat) (lockIdHex : String) (sig : List Nat)
    (nonce : Nat) (userAddr : String) : AccountBalanceFlow :=
  { (default : AccountBalanceFlow) with
    ID := nextID AccountBalanceFlow.ID db.balanceFlows,
    MainID := userId, AssetID := 0, Op := BalanceFlowOpFreeze,
    Status := BalanceFlowStatusPending, Amount := computeAmount,
    RealAmount := computeAmount, AddTime := now, UpdateTime := now,
    LockID := lockIdHex, LockSig := hexutilEncode sig,
    LockExpiry := some (now + expiryDuration),
    LockNonce := bigIntToHex32 (nonce : Int), LockAddr := userAddr }

/-- The balance row after the move of `computeAmount` from `available` to
`withdrawal`. -/
def lockedBalance (b : AccountBalance) (computeAmount now : Nat) : AccountBalance :=
  { b with
    Available := b.Available - computeAmount
    Withdrawal := addU64 b.Withdrawal computeAmount
    UpdateTime := now }

/-- The database `BalanceWithdrawRequest` commits when it issues a lock. -/
def issuedDb (db : DB) (b : AccountBalance) (row : AccountBalanceFlow)
    (computeAmount now : Nat) : DB :=
  { db with
    accountBalances := saveBalance db.accountBalances (lockedBalance b computeAmount now)
    balanceFlows := db.balanceFlows ++ [row] }

/-- The response of the request that issues a lock. -/
def issuedResponse (now : Nat) (row : AccountBalanceFlow) (digest : List Nat) (nonce : Nat) :
    WithdrawResponse :=
  { Timestamp := now, Code := Code.CODE_SUCCESS, Msg := "success",
    Data := some
      { operation_id := row.ID, operation_type := "lock", lock_id := row.LockID,
        digest := hexutilEncode digest, signature := row.LockSig,
        expiry := now + expiryDuration, nonce := toString (nonce : Int),
        amount := row.RealAmount } }

/-- The wallet address `BalanceWithdrawRequest` reads for a user, empty when
the user has no wallet provider. -/
def walletOf (db : DB) (userId : Nat) : String :=
  ((firstWhere UserProvider.ID
    (fun p => decide (p.MainID = userId) && decide (p.ProviderType = "wallet"))
    db.userProviders).getD default).ProviderID

/-- The lock id, signature and nonce of a withdraw lock response. -/
def lockFields (r : Option WithdrawResponse) : Option (String × String × String) :=
  (r.bind (fun x => x.Data)).map (fun d => (d.lock_id, d.signature, d.nonce))

/-- The digest of a withdraw lock response. -/
def digestField (r : Option WithdrawResponse) : Option String :=
  (r.bind (fun x => x.Data)).map (fun d => d.digest)

/-- The expiry of a withdraw lock response. -/
def expiryField (r : Option WithdrawResponse) : Option Nat :=
  (r.bind (fun x => x.Data)).map (fun d => d.expiry)

/-- The amount of a withdraw lock response. -/
def amountField (r : Option WithdrawResponse) : Option Nat :=
  (r.bind (fun x => x.Data)).map (fun d => d.amount)

/-! ## model/flow.go: AvailFlowType; api/http/controller/auth/user.go: FetchTransactions -/

/-- The function `AvailFlowType`, lines 42 to 58 of `model/flow.go`, case by
case as written there. -/
def AvailFlowType (typeStr : String) : Int :=
  if typeStr = "recharge" then FlowRecharge
  else if typeStr = "freeze" then FlowFreeze
  else if typeStr = "unfreeze" then FlowUnfreeze
  else if typeStr = "spend" then 3
  else if typeStr = "withdraw" then FlowSpend
  else if typeStr = "refund" then FlowRefund
  else -1

/-- The rows the conditions of the query of `FetchTransactions` select (lines
484 to 493): the caller's rows of asset 0, and of the type code when the code
is not -1.  Ordering and paging come after and are left out. -/
def fetchTransactionsRows (db : DB) (mainId : Nat) (typeStr : String) : List AccountFlow :=
  let typeCode := AvailFlowType typeStr
  let rows :=
    db.accountFlows.filter (fun f => decide (f.MainID = mainId) && decide (f.AssetID = 0))
  if typeCode ≠ -1 then rows.filter (fun f => decide (f.BizType = typeCode)) else rows

/-- Example: user 7 with one Spend row (key 1) and one Withdraw row (key 2). -/
def exTypedDb : DB :=
  { (default : DB) with
    accountFlows :=
      [{ (default : AccountFlow) with ID := 1, MainID := 7, BizType := FlowSpend, Amount := 5 },
       { (default : AccountFlow) with
         ID := 2, MainID := 7, BizType := FlowWithdraw, Amount := 9 }] }

/-! ## chain/evm_tx_parse.go: the four parsers -/

/-- Item of the reconciliation queue. -/
structure QueuePassObject where
  ChainID : Nat
  TxHash : String
  MainID : Nat
  RefFlowID : Nat
  Op : Int
deriving DecidableEq, Inhabited, Repr

/-- Value of an unpacked ABI argument, by the Go type the parsers switch on:
`*big.Int`, `big.Int`, `common.Address`, `[20]byte`, `[]byte`, `[32]byte`,
or another type. -/
inductive AbiValue where
  | bigIntPtr (v : Int)
  | bigIntVal (v : Int)
  | address (b : List Nat)
  | bytes20 (b : List Nat)
  | bytes (b : List Nat)
  | bytes32 (b : List Nat)
  | other
deriving DecidableEq, Repr

/-- Log of a receipt (`types.Log`): the emitting contract, the topics (each a
32-byte hash) and the data. -/
structure Log where
  Address : List Nat
  Topics : List (List Nat)
  Data : List Nat
deriving DecidableEq, Repr

/-- Receipt of a mined transaction; `BlockNumber` is a `*big.Int`. -/
structure Receipt where
  Status : Nat
  BlockNumber : Option Int
  Logs : List Log
deriving DecidableEq, Repr

/-- The parts of a transaction the parsers read: `To()` and `Data()`. -/
structure Transaction where
  To : Option (List Nat)
  Data : List Nat
deriving DecidableEq, Repr

/-- The node behind an RPC endpoint, by the four calls the parsers make.  The
transaction is named by the hash string; `BlockByNumber` gives the time of the
block in seconds. -/
structure ChainClient where
  TransactionByHash : String → Except String (Transaction × Bool)
  NetworkID : Except String Int
  TransactionReceipt : String → Except String Receipt
  BlockByNumber : Int → Except String Nat

/-- Method of the parsed ABI: `Inputs.Unpack`. -/
structure AbiMethod where
  Unpack : List Nat → Except String (List AbiValue)

/-- Event of the parsed ABI: its id and `Inputs.NonIndexed().Unpack`. -/
structure AbiEvent where
  ID : List Nat
  UnpackNonIndexed : List Nat → Except String (List AbiValue)

/-- Result of `abi.JSON`: the methods and the events by name. -/
structure ParsedABI where
  Methods : String → Option AbiMethod
  Events : String → Option AbiEvent

/-- What the parsers take from outside this package, as parameters: the RPC
configuration (`config.GetRpcConfig(name).GetRpc()`, `none` for a nil
configuration), the connection pool, the result of parsing the constant
`TopupLogicABI`, `types.Sender` under the latest signer of a network id, and
the checksummed text `Address.Hex()`. -/
structure ChainEnv where
  GetRpcConfig : String → Option (List String)
  GetClient : String → Except String ChainClient
  abiJSON : Except String ParsedABI
  Sender : Int → Transaction → Except String (List Nat)
  AddressHex : List Nat → String

/-- The map `idToName` of `pickRPCByChainID`. -/
def idToName (chainID : Nat) : Option String :=
  if chainID = 1 then some "ETH"
  else if chainID = 56 then some "BSC"
  else if chainID = 97 then some "BSC_TESTNET"
  else if chainID = 137 then some "POLYGON"
  else if chainID = 10 then some "OPTIMISM"
  else if chainID = 42161 then some "ARBITRUM"
  else none

/-- First endpoint of a named configuration, when it exists and is not empty. -/
def firstRpc (getRpcConfig : String → Option (List String)) (name : String) : Option String :=
  match getRpcConfig name with
  | some (rpc :: _) => some rpc
  | _ => none

/-- The function `pickRPCByChainID`, lines 46 to 72: the first endpoint of the
chain's configuration, else the first endpoint of `BSC`, else an error. -/
def pickRPCByChainID (getRpcConfig : String → Option (List String)) (chainID : Nat) :
    Except String String :=
  match (idToName chainID).bind (firstRpc getRpcConfig) with
  | some rpc => .ok rpc
  | none =>
    match firstRpc getRpcConfig "BSC" with
    | some rpc => .ok rpc
    | none => .error ("no rpc found for chainID " ++ toString chainID)

/-- Outcome of a parser call: the info with a nil error, an error with a nil
info, or a run-time panic (index out of range). -/
inductive ParseOutcome where
  | ok (info : TopupTxInfo)
  | error (msg : String)
  | panic
deriving DecidableEq, Repr

/-- The value `&TopupTxInfo{TxHash: txHash, Status: "pending"}`: every other
field is the zero value of its type. -/
def newTopupTxInfo (txHash : String) : TopupTxInfo :=
  { TxHash := txHash, From := "", To := "", Contract := "", Amount := none, BlockNumber := 0,
    BlockTime := 0, Status := "pending", UserFromLog := "", MainID := 0, RefFlowID := 0, Op := 0,
    ChainID := 0, LockID := List.replicate 32 0 }

/-- The function `common.BytesToAddress` of go-ethereum: the last 20 bytes,
padded with zeros on the left. -/
def BytesToAddress (b : List Nat) : List Nat :=
  let b1 := b.drop (b.length - 20)
  List.replicate (20 - b1.length) 0 ++ b1

/-- The opening every parser starts with (lines 78 to 122, 191 to 235, 304 to
348, 452 to 496, word for word the same): the hash check, the endpoint, the
client, the transaction lookup, the new info with sender and recipient, and the
parsed ABI. -/
def openTx (env : ChainEnv) (chainID : Nat) (txHash : String) :
    Except String (ChainClient × Transaction × Bool × TopupTxInfo × ParsedABI) :=
  if txHash = "" then .error "empty tx hash"
  else
    match pickRPCByChainID env.GetRpcConfig chainID with
    | .error e => .error e
    | .ok rpcURL =>
      match env.GetClient rpcURL with
      | .error e => .error ("get client error: " ++ e)
      | .ok client =>
        match client.TransactionByHash txHash with
        | .error e => .error ("get tx error: " ++ e)
        | .ok (tx, isPending) =>
          let info := newTopupTxInfo txHash
          let info1 :=
            match client.NetworkID with
            | .ok nid =>
              (match env.Sender nid tx with
               | .ok msg => { info with From := env.AddressHex msg }
               | .error _ => info)
            | .error _ => info
          let info2 :=
            match tx.To with
            | some dst => { info1 with To := env.AddressHex dst }
            | none => info1
          match env.abiJSON with
          | .error e => .error ("parse abi error: " ++ e)
          | .ok parsedABI => .ok (client, tx, isPending, info2, parsedABI)

/-- The receipt block every parser has (lines 149 to 159): the status from the
receipt's flag, the block number and, when the block can be read, its time. -/
def receiptInfo (client : ChainClient) (receipt : Receipt) (info : TopupTxInfo) : TopupTxInfo :=
  let info1 := { info with Status := if receipt.Status = 1 then "success" else "failed" }
  match receipt.BlockNumber with
  | some n =>
    let info2 := { info1 with BlockNumber := bigUint64 n }
    (match client.BlockByNumber n with
     | .ok t => { info2 with BlockTime := t }
     | .error _ => info2)
  | none => info1

/-- The amount of an argument that is a `*big.Int` or a `big.Int`. -/
def setAmount (v : AbiValue) (info : TopupTxInfo) : TopupTxInfo :=
  match v with
  | .bigIntPtr a => { info with Amount := some a }
  | .bigIntVal a => { info with Amount := some a }
  | _ => info

/-- The arguments of the call of a method, when the input has a selector and
the method exists and unpacks. -/
def methodArgs (parsedABI : ParsedABI) (name : String) (tx : Transaction) :
    Option (List AbiValue) :=
  if tx.Data.length ≥ 4 then
    match parsedABI.Methods name with
    | some method =>
      (match method.Unpack (tx.Data.drop 4) with
       | .ok args => some args
       | .error _ => none)
    | none => none
  else none
/-- The loop over the logs of `ParseTopupTx` (lines 164 to 184) and of
`ParseOpenLockTx` (lines 277 to 297), which differ in the event and in the
number `count` of non-indexed values only: the first log whose first topic is
the event id gives the user (when it has a second topic), the amount (when the
data unpacks to `count` values, from the first of them) and the contract. -/
def amountLogs (env : ChainEnv) (evt : AbiEvent) (count : Nat) (info : TopupTxInfo) :
    List Log → TopupTxInfo
  | [] => info
  | lg :: rest =>
    if lg.Topics.length = 0 ∨ lg.Topics.head? ≠ some evt.ID then amountLogs env evt count info rest
    else
      let info1 :=
        if lg.Topics.length > 1 then
          { info with UserFromLog := env.AddressHex (BytesToAddress (lg.Topics.getD 1 [])) }
        else info
      let info2 :=
        match evt.UnpackNonIndexed lg.Data with
        | .ok vals => if vals.length = count then setAmount (vals.getD 0 .other) info1 else info1
        | .error _ => info1
      { info2 with Contract := env.AddressHex lg.Address }

/-- The function `ParseTopupTx`, lines 77 to 188. -/
def ParseTopupTx (env : ChainEnv) (chainID : Nat) (txHash : String) : ParseOutcome :=
  match openTx env chainID txHash with
  | .error e => .error e
  | .ok (client, tx, isPending, info, parsedABI) =>
    let info1 :=
      match methodArgs parsedABI "deposit" tx with
      | some args => if args.length = 1 then setAmount (args.getD 0 .other) info else info
      | none => info
    if isPending then .ok info1
    else
      match client.TransactionReceipt txHash with
      | .error _ => .ok info1
      | .ok receipt =>
        let info2 := receiptInfo client receipt info1
        match parsedABI.Events "Deposited" with
        | some evt => .ok (amountLogs env evt 1 info2 receipt.Logs)
        | none => .ok info2

/-- The function `ParseOpenLockTx`, lines 190 to 301. -/
def ParseOpenLockTx (env : ChainEnv) (chainID : Nat) (txHash : String) : ParseOutcome :=
  match openTx env chainID txHash with
  | .error e => .error e
  | .ok (client, tx, isPending, info, parsedABI) =>
    let info1 :=
      match methodArgs parsedABI "openLock" tx with
      | some args => if args.length = 5 then setAmount (args.getD 1 .other) info else info
      | none => info
    if isPending then .ok info1
    else
      match client.TransactionReceipt txHash with
      | .error _ => .ok info1
      | .ok receipt =>
        let info2 := receiptInfo client receipt info1
        match parsedABI.Events "LockOpened" with
        | some evt => .ok (amountLogs env evt 2 info2 receipt.Logs)
        | none => .ok info2

/-- The recipient of a `LockClaimed` log, by the type switch of lines 414 to
424; `none` is the default case. -/
def claimRecipient (v : AbiValue) : Option (List Nat) :=
  match v with
  | .address b => some b
  | .bytes20 b => some (BytesToAddress b)
  | .bytes b => some (BytesToAddress b)
  | _ => none

/-- The amount of a log, by the type switch of lines 428 to 435 and 568 to
575; `none` is the default case. -/
def logAmount (v : AbiValue) : Option Int :=
  match v with
  | .bigIntPtr a => some a
  | .bigIntVal a => some a
  | _ => none

/-- The loop over the logs of `ParseClaimLockedTx`, lines 391 to 445.  A log
passes the check of line 392 when it has a first topic equal to the event id;
the elements 1 and 2 of its topics are then read without a further check, and
`none` is the index-out-of-range panic of such a read. -/
def claimLogs (env : ChainEnv) (evt : AbiEvent) (info : TopupTxInfo) :
    List Log → Option TopupTxInfo
  | [] => some info
  | lg :: rest =>
    if lg.Topics.length = 0 ∨ lg.Topics.head? ≠ some evt.ID then claimLogs env evt info rest
    else
      match lg.Topics.get? 1 with
      | none => none
      | some t1 =>
        match lg.Topics.get? 2 with
        | none => none
        | some t2 =>
          match evt.UnpackNonIndexed lg.Data with
          | .error _ => claimLogs env evt info rest
          | .ok nonIdx =>
            if nonIdx.length ≠ 2 then claimLogs env evt info rest
            else
              match claimRecipient (nonIdx.getD 0 .other) with
              | none => claimLogs env evt info rest
              | some dst =>
                match logAmount (nonIdx.getD 1 .other) with
                | none => claimLogs env evt info rest
                | some amount =>
                  some { info with
                    UserFromLog := env.AddressHex (BytesToAddress t1), LockID := t2,
                    To := env.AddressHex dst, Amount := some amount,
                    Contract := env.AddressHex lg.Address }

/-- The input decoding of `ParseClaimLockedTx`, lines 351 to 362: the lock id
when the first argument is a `[32]byte`, else the recipient when the second is
an address. -/
def claimInput (env : ChainEnv) (args : List AbiValue) (info : TopupTxInfo) : TopupTxInfo :=
  if args.length = 2 then
    match args.getD 0 .other with
    | .bytes32 v => { info with LockID := v }
    | _ =>
      (match args.getD 1 .other with
       | .address v2 => { info with To := env.AddressHex v2 }
       | _ => info)
  else info

/-- The function `ParseClaimLockedTx`, lines 303 to 449. -/
def ParseClaimLockedTx (env : ChainEnv) (chainID : Nat) (txHash : String) : ParseOutcome :=
  match openTx env chainID txHash with
  | .error e => .error e
  | .ok (client, tx, isPending, info, parsedABI) =>
    let info1 :=
      match methodArgs parsedABI "claimLocked" tx with
      | some args => claimInput env args info
      | none => info
    if isPending then .ok info1
    else
      match client.TransactionReceipt txHash with
      | .error _ => .ok info1
      | .ok receipt =>
        let info2 := receiptInfo client receipt info1
        match parsedABI.Events "LockClaimed" with
        | some evt =>
          (match claimLogs env evt info2 receipt.Logs with
           | some info3 => .ok info3
           | none => .panic)
        | none => .ok info2

/-- The loop over the logs of `ParseCancelLockedTx`, lines 538 to 585: a log
is read only when it has at least three topics and the first is the event id. -/
def cancelLogs (env : ChainEnv) (evt : AbiEvent) (info : TopupTxInfo) : List Log → TopupTxInfo
  | [] => info
  | lg :: rest =>
    if lg.Topics.length < 3 ∨ lg.Topics.head? ≠ some evt.ID then cancelLogs env evt info rest
    else
      let t1 := lg.Topics.getD 1 []
      let lockHash := lg.Topics.getD 2 []
      match evt.UnpackNonIndexed lg.Data with
      | .error _ => cancelLogs env evt info rest
      | .ok nonIdx =>
        if nonIdx.length ≠ 1 then cancelLogs env evt info rest
        else
          match logAmount (nonIdx.getD 0 .other) with
          | none => cancelLogs env evt info rest
          | some amount =>
            { info with
              UserFromLog := env.AddressHex (BytesToAddress (t1.drop (t1.length - 20))),
              LockID := lockHash, Amount := some amount, Contract := env.AddressHex lg.Address }

/-- The function `ParseCancelLockedTx`, lines 451 to 589. -/
def ParseCancelLockedTx (env : ChainEnv) (chainID : Nat) (txHash : String) : ParseOutcome :=
  match openTx env chainID txHash with
  | .error e => .error e
  | .ok (client, tx, isPending, info, parsedABI) =>
    let info1 :=
      match methodArgs parsedABI "cancelLock" tx with
      | some args =>
        if args.length = 1 then
          (match args.getD 0 .other with
           | .bytes32 v => { info with LockID := v }
           | _ => info)
        else info
      | none => info
    if isPending then .ok info1
    else
      match client.TransactionReceipt txHash with
      | .error _ => .ok info1
      | .ok receipt =>
        let info2 := receiptInfo client receipt info1
        match parsedABI.Events "LockCanceled" with
        | some evt => .ok (cancelLogs env evt info2 receipt.Logs)
        | none => .ok info2
/-! ## chain/evm_tx_q.go: the consumer of the reconciliation queue -/

/-- The four parsers. -/
def parsers : List (ChainEnv → Nat → String → ParseOutcome) :=
  [ParseTopupTx, ParseOpenLockTx, ParseClaimLockedTx, ParseCancelLockedTx]

/-- The switch on the op of lines 45 to 59; `none` when no case matches, which
leaves `topupInfo` and `err` nil. -/
def parseByOp (env : ChainEnv) (chainHash : QueuePassObject) : Option ParseOutcome :=
  if chainHash.Op = BalanceFlowOpRecharge then
    some (ParseTopupTx env chainHash.ChainID chainHash.TxHash)
  else if chainHash.Op = BalanceFlowOpFreeze then
    some (ParseOpenLockTx env chainHash.ChainID chainHash.TxHash)
  else if chainHash.Op = BalanceFlowOpWithdraw then
    some (ParseClaimLockedTx env chainHash.ChainID chainHash.TxHash)
  else if chainHash.Op = BalanceFlowOpUnfreeze then
    some (ParseCancelLockedTx env chainHash.ChainID chainHash.TxHash)
  else none

/-- What the handler of the consumer acts on: the calls of `EnqueueWithDelay`
made so far (item and delay in seconds) and the content of the buffered channel
`topupHashChannel`. -/
structure ConsumerState where
  delayed : List (QueuePassObject × Nat)
  channel : List TopupTxInfo
deriving DecidableEq, Repr

/-- The function `publishUpdate`, lines 91 to 97: a send on the channel of
capacity 500 that is given up, with a warning, when the buffer is full. -/
def publishUpdate (channel : List TopupTxInfo) (info : TopupTxInfo) : List TopupTxInfo :=
  if channel.length < 500 then channel ++ [info] else channel

/-- The handler `StartTopupConsumer` gives to the queue, lines 33 to 82, for
one item; `none` is a panic raised by the parser. -/
def consumeTopupTx (env : ChainEnv) (st : ConsumerState) (chainHash : QueuePassObject) :
    Option ConsumerState :=
  match parseByOp env chainHash with
  | none => some st
  | some .panic => none
  | some (.error _) => some { st with delayed := st.delayed ++ [(chainHash, 10)] }
  | some (.ok topupInfo) =>
    if topupInfo.Status = "pending" then
      some { st with delayed := st.delayed ++ [(chainHash, 5)] }
    else
      some { st with
        channel := publishUpdate st.channel
          { topupInfo with
            MainID := chainHash.MainID, RefFlowID := chainHash.RefFlowID, Op := chainHash.Op,
            ChainID := chainHash.ChainID } }

/-- The update the handler forwards for an item and a parsed outcome. -/
def forwarded (chainHash : QueuePassObject) (topupInfo : TopupTxInfo) : TopupTxInfo :=
  { topupInfo with
    MainID := chainHash.MainID, RefFlowID := chainHash.RefFlowID, Op := chainHash.Op,
    ChainID := chainHash.ChainID }

/-- Example ABI: the four events with the ids 1, 2, 3, 4 (32 equal bytes) and
decoders that read the data as one number; no methods. -/
def exAbi : ParsedABI where
  Methods := fun _ => none
  Events := fun name =>
    if name = "Deposited" then
      some { ID := List.replicate 32 1, UnpackNonIndexed := fun d => .ok [.bigIntPtr (beDecode d)] }
    else if name = "LockOpened" then
      some { ID := List.replicate 32 2,
             UnpackNonIndexed := fun d => .ok [.bigIntPtr (beDecode d), .bigIntPtr 0] }
    else if name = "LockClaimed" then
      some { ID := List.replicate 32 3,
             UnpackNonIndexed := fun d => .ok [.address (List.replicate 20 9), .bigIntPtr (beDecode d)] }
    else if name = "LockCanceled" then
      some { ID := List.replicate 32 4, UnpackNonIndexed := fun d => .ok [.bigIntPtr (beDecode d)] }
    else none

/-- Example node: the answers to the lookup and to the receipt request are
given; network 56, block time 1700000000. -/
def exClient (lookup : Except String (Transaction × Bool)) (receipt : Except String Receipt) :
    ChainClient where
  TransactionByHash := fun _ => lookup
  NetworkID := .ok 56
  TransactionReceipt := fun _ => receipt
  BlockByNumber := fun _ => .ok 1700000000

/-- Example environment: one endpoint for `BSC`, the example node and ABI. -/
def exChainEnv (lookup : Except String (Transaction × Bool)) (receipt : Except String Receipt) :
    ChainEnv where
  GetRpcConfig := fun name => if name = "BSC" then some ["https://bsc"] else none
  GetClient := fun _ => .ok (exClient lookup receipt)
  abiJSON := .ok exAbi
  Sender := fun _ _ => .ok (List.replicate 20 7)
  AddressHex := hexutilEncode

/-- Example transaction: sent to the contract `05..05`, empty input. -/
def exTx : Transaction := { To := some (List.replicate 20 5), Data := [] }

/-- Example receipt: successful, block 100, with the given logs. -/
def exReceipt (logs : List Log) : Receipt := { Status := 1, BlockNumber := some 100, Logs := logs }

/-- Example log of the contract `05..05` with the given topics and the data
`[1, 0]` (the number 256). -/
def exLog (topics : List (List Nat)) : Log :=
  { Address := List.replicate 20 5, Topics := topics, Data := [1, 0] }

/-- Example item of the queue: hash `0xab` of user 7 on chain 56. -/
def exItem (op : Int) : QueuePassObject :=
  { ChainID := 56, TxHash := "0xab", MainID := 7, RefFlowID := 3, Op := op }

/-- The status of the info a parser returns, when it returns one. -/
def outcomeStatus : ParseOutcome → Option String
  | .ok info => some info.Status
  | _ => none

/-- The outcome of `ParseTopupTx` in the example environment for the mined
transaction `0xab` whose receipt has no log. -/
def exMinedInfo : TopupTxInfo :=
  { newTopupTxInfo "0xab" with
    From := "0x0707070707070707070707070707070707070707",
    To := "0x0505050505050505050505050505050505050505",
    Status := "success", BlockNumber := 100, BlockTime := 1700000000 }

/-! ## api/http/controller/auth/user.go: BalanceTopupReport -/

/-- The request `TopupReq` of `req.go`; `Typ` is its field `Type`. -/
structure TopupReq where
  TxHash : String
  ChainID : Nat
  Amount : Decimal
  Typ : String
  RefID : Nat
deriving DecidableEq, Inhabited, Repr

/-- The pattern `^0x[0-9a-fA-F]{64}$` of line 912. -/
def matchesHashPattern (s : String) : Bool :=
  match s.data with
  | '0' :: 'x' :: rest => decide (rest.length = 64) && rest.all (fun c => (hexVal c).isSome)
  | _ => false

/-- gorm `Where(p).First(&dest)` on the settlement ledger for a `dest` that
already holds a row: a non-zero primary key of `dest` is a further condition of
the query, and `dest` is left as it is when no row is found. -/
def firstInto (dest : AccountBalanceFlow) (p : AccountBalanceFlow → Bool)
    (rows : List AccountBalanceFlow) : AccountBalanceFlow :=
  (firstWhere AccountBalanceFlow.ID
    (fun r => p r && (decide (dest.ID = 0) || decide (r.ID = dest.ID))) rows).getD dest

/-- The success response of `BalanceTopupReport`: no payload. -/
def topupOk (now : Nat) : Response :=
  { Timestamp := now, Code := Code.CODE_SUCCESS, Msg := "success", Data := none }

/-- The row a `cancel` report inserts, lines 968 to 978. -/
def cancelRow (userMain : UserMain) (req : TopupReq) (ref : AccountBalanceFlow) (now : Nat) :
    AccountBalanceFlow :=
  { (default : AccountBalanceFlow) with
    MainID := userMain.ID, TxHash := req.TxHash, AddTime := now, UpdateTime := now,
    Amount := ref.RealAmount, Op := BalanceFlowOpUnfreeze, Status := BalanceFlowStatusPending,
    ChainID := toString req.ChainID, RefFlowID := ref.ID }

/-- The row a `recharge` or `withdraw` report inserts, lines 1020 to 1030. -/
def reportRow (userMain : UserMain) (req : TopupReq) (exist : AccountBalanceFlow)
    (amount : Nat) (op : Int) (now : Nat) : AccountBalanceFlow :=
  { (default : AccountBalanceFlow) with
    MainID := userMain.ID, TxHash := req.TxHash, AddTime := now, UpdateTime := now,
    Amount := amount, Op := op, Status := BalanceFlowStatusPending,
    ChainID := toString req.ChainID, RefFlowID := exist.ID }

/-- Lines 949 to 991: the switch on the type of a report that names a ledger
row; `none` when neither case applies (the type is `withdraw`).  A `lock`
report writes the hash into the named row, a `cancel` report inserts a Pending
Unfreeze row; both enqueue an item and return. -/
def topupSwitch (db : DB) (userMain : UserMain) (req : TopupReq) (ref : AccountBalanceFlow)
    (now : Nat) : Option (Response × DB × List QueuePassObject) :=
  if req.Typ = "lock" then
    let row := { ref with TxHash := req.TxHash, UpdateTime := now }
    some (topupOk now, { db with balanceFlows := saveBalanceFlow db.balanceFlows row },
      [{ ChainID := req.ChainID, TxHash := req.TxHash, MainID := userMain.ID,
         RefFlowID := ref.ID, Op := BalanceFlowOpFreeze }])
  else if req.Typ = "cancel" then
    let created := createBalanceFlow db.balanceFlows (cancelRow userMain req ref now)
    some (topupOk now, { db with balanceFlows := created.2 },
      [{ ChainID := req.ChainID, TxHash := req.TxHash, MainID := userMain.ID,
         RefFlowID := created.1.ID, Op := BalanceFlowOpUnfreeze }])
  else none

/-- Lines 994 to 1081: the duplicate check by `(main_id, tx_hash)` read into
the variable that holds `ref`, the new Pending row, and the transaction that
reads the balance row under lock, saves it and inserts the new row. -/
def topupLedger (db : DB) (userMain : UserMain) (req : TopupReq) (ref : AccountBalanceFlow)
    (now : Nat) : Response × DB × List QueuePassObject :=
  let exist :=
    firstInto ref
      (fun r => decide (r.MainID = userMain.ID) && decide (r.TxHash = req.TxHash))
      db.balanceFlows
  if exist.ID > 0 ∧ exist.ID ≠ req.RefID then
    (failWith now Code.CODE_ERR_REPEAT "tx hash already exists", db, [])
  else
    let amount :=
      if req.Typ = "withdraw" then exist.RealAmount else bigUint64 req.Amount.scaledUnits
    let op := if req.Typ = "recharge" then BalanceFlowOpRecharge else BalanceFlowOpWithdraw
    match firstWhere AccountBalance.ID
        (fun b => decide (b.MainID = userMain.ID) && decide (b.AssetID = 0))
        db.accountBalances with
    | none => (failWith now Code.CODE_ERR_OBJ_NOT_FOUND "user account not found", db, [])
    | some userAccount =>
      let userAccount1 :=
        if req.Typ = "lock" then
          { userAccount with Withdrawal := addU64 userAccount.Withdrawal amount }
        else userAccount
      let balances1 := saveBalance db.accountBalances { userAccount1 with UpdateTime := now }
      let created := createBalanceFlow db.balanceFlows (reportRow userMain req exist amount op now)
      (topupOk now, { db with accountBalances := balances1, balanceFlows := created.2 },
        [{ ChainID := req.ChainID, TxHash := req.TxHash, MainID := userMain.ID,
           RefFlowID := created.1.ID, Op := op }])

/-- The handler `BalanceTopupReport`, lines 873 to 1088.  `mainId` is the
`main_id` of the gin context (`none` when absent), `body` the bound JSON
(`none` when binding fails).  The result is the response, the database and the
items handed to `chain.AppendTopupTx`. -/
def BalanceTopupReport (db : DB) (mainId : Option Nat) (body : Option TopupReq) (now : Nat) :
    Response × DB × List QueuePassObject :=
  match body with
  | none => (failWith now Code.CODE_ERR_BAD_PARAMS "param error", db, [])
  | some req =>
    if req.Typ ≠ "recharge" ∧ req.Typ ≠ "withdraw" ∧ req.Typ ≠ "lock" ∧
        req.Typ ≠ "cancel" then
      (failWith now Code.CODE_ERR_BAD_PARAMS "invalid type", db, [])
    else
      match mainId with
      | none => (failWith now Code.CODE_ERR_SECURITY "please login first", db, [])
      | some mainIdStr =>
        if (req.Typ = "withdraw" ∨ req.Typ = "lock" ∨ req.Typ = "cancel") ∧ req.RefID = 0 then
          (failWith now Code.CODE_ERR_BAD_PARAMS "ref_id required", db, [])
        else if matchesHashPattern req.TxHash = false then
          (failWith now Code.CODE_ERR_BAD_PARAMS "invalid tx hash", db, [])
        else
          let userMain :=
            (firstWhere UserMain.ID (fun u => decide (u.ID = mainIdStr)) db.users).getD default
          if userMain.ID = 0 then
            (failWith now Code.CODE_ERR_OBJ_NOT_FOUND "user not found", db, [])
          else if req.Typ = "withdraw" ∨ req.Typ = "lock" ∨ req.Typ = "cancel" then
            let ref :=
              (firstWhere AccountBalanceFlow.ID (fun f => decide (f.ID = req.RefID))
                db.balanceFlows).getD default
            if ref.ID = 0 then
              (failWith now Code.CODE_ERR_OBJ_NOT_FOUND "account balance flow not found", db, [])
            else
              match topupSwitch db userMain req ref now with
              | some r => r
              | none => topupLedger db userMain req ref now
          else topupLedger db userMain req default now

/-- The fields of a balance row other than its update time. -/
def balanceFields (b : AccountBalance) : Nat × Nat × Nat × Nat × Nat × Nat :=
  (b.ID, b.MainID, b.AssetID, b.Available, b.Frozen, b.Withdrawal)

/-- Example: user 7 with a balance row (available 1000, withdrawal 500) and
the lock row 1 of 500 whose chain confirmation is recorded. -/
def exReportDb : DB :=
  { (default : DB) with
    users := [exUser]
    accountBalances :=
      [{ ID := 1, MainID := 7, AssetID := 0, Available := 1000, Frozen := 0, UpdateTime := 0,
         Withdrawal := 500 }]
    balanceFlows :=
      [{ (default : AccountBalanceFlow) with
         ID := 1, MainID := 7, Op := BalanceFlowOpFreeze,
         Status := BalanceFlowStatusPendingWithDraw, Amount := 500, RealAmount := 500 }] }

/-- Example hash: `0x` and 64 digits `a`. -/
def exHash : String := String.mk ('0' :: 'x' :: List.replicate 64 'a')

/-- Example report of the example hash. -/
def exReport (typ : String) (refId : Nat) : TopupReq :=
  { TxHash := exHash, ChainID := 56, Amount := { value := 25, exp := -1 }, Typ := typ,
    RefID := refId }

/-- The keys of the Pending rows of the settlement ledger with a given owner
and transaction hash. -/
def pendingWithHash (db : DB) (mainId : Nat) (txHash : String) : List Nat :=
  (db.balanceFlows.filter (fun f =>
    decide (f.MainID = mainId) && decide (f.TxHash = txHash) &&
      decide (f.Status = BalanceFlowStatusPending))).map AccountBalanceFlow.ID

/-- The state after a first report of the example hash by user 7. -/
def afterReport (typ : String) (refId : Nat) : DB :=
  (BalanceTopupReport exReportDb (some 7) (some (exReport typ refId)) 9).2.1

/-- The sum of the amounts of the Pending Freeze rows of a user in the spend
ledger. -/
def pendingFreezeSum (db : DB) (mainId : Nat) : Nat :=
  ((db.accountFlows.filter (fun f =>
    decide (f.MainID = mainId) && decide (f.BizType = FlowFreeze) &&
      decide (f.Status = FlowStatusPending))).map AccountFlow.Amount).sum

/-- An advanced freeze of 200 under the external id `e2`. -/
def exFreezeReq : FreezeReq := { Amount := 200, ExternalID := "e2", Remark := "" }

/-! ## tools/merkletree.go -/

/-- The interface `TreeContent` over a type `C` of contents: both methods
return a value or an error. -/
structure TreeContent (C : Type) where
  CalculateHash : C → Except String (List Nat)
  Equals : C → C → Except String Bool

/-- The content type `DefaultCont`. -/
structure DefaultCont where
  Data : String
deriving DecidableEq, Repr

/-- The methods of `DefaultCont` (lines 67 to 73): the hash of the decoded
data and the comparison of the data.  `keccak256` is the hash of the `crypto`
package; the panic of `hexutil.MustDecode` on data that is not hexadecimal is
returned as an error, in both cases no tree is built. -/
def defaultCont (keccak256 : List Nat → List Nat) : TreeContent DefaultCont where
  CalculateHash := fun t =>
    match hexutilDecode t.Data with
    | some b => .ok (keccak256 b)
    | none => .error "invalid hex string"
  Equals := fun t other => .ok (decide (t.Data = other.Data))

/-- The function `sortAppend`, lines 77 to 88: `a` then `b`, or, when sorting,
the numerically smaller of the two first (`b` first on a tie). -/
def sortAppend (sort : Bool) (a b : List Nat) : List Nat :=
  if sort = false then a ++ b
  else if beDecode a < beDecode b then a ++ b
  else b ++ a

/-- The tree.  The nodes are kept by level: `Leafs` holds the content and the
hash of each leaf, `levels` the hashes of the nodes each round of
`buildIntermediate` creates, in order, the last level being the root alone.
The node at position `i` of a level has as `Parent` the node at position
`i / 2` of the next level, whose `Left` is the node at position `2 * (i / 2)` and
whose `Right` is the node after it, or `Left` again when there is none. -/
structure MerkleTree (C : Type) where
  merkleRoot : List Nat
  Leafs : List (C × List Nat)
  levels : List (List (List Nat))
  sort : Bool

/-- The loop of `buildIntermediate`, lines 252 to 277: the hashes of the new
nodes, one for each pair of neighbours and, on an odd count, one for the last
node paired with itself.  `h` is `hashStrategy()` followed by `Write` and
`Sum(nil)`. -/
def pairNodes (h : List Nat → List Nat) (sort : Bool) : List (List Nat) → List (List Nat)
  | [] => []
  | [a] => [h (sortAppend sort a a)]
  | a :: b :: rest => h (sortAppend sort a b) :: pairNodes h sort rest

/-- The function `buildIntermediate`, lines 250 to 284: the levels above the
nodes `nl`.  The recursion depth is bounded by `fuel`; `none` when it is used
up. -/
def buildIntermediate (h : List Nat → List Nat) (sort : Bool) :
    Nat → List (List Nat) → Option (List (List (List Nat)))
  | 0, _ => none
  | fuel + 1, nl =>
    let nodes := pairNodes h sort nl
    if nl.length = 2 then some [nodes]
    else if nodes.length = 1 then some [nodes]
    else (buildIntermediate h sort fuel nodes).map (fun ups => nodes :: ups)

/-- The loop of `buildWithContent`, lines 232 to 245: the leaves with their
hashes, or the first error of `CalculateHash`. -/
def leafNodes {C : Type} (tc : TreeContent C) : List C → Except String (List (C × List Nat))
  | [] => .ok []
  | c :: cs =>
    match tc.CalculateHash c with
    | .error e => .error e
    | .ok hash =>
      match leafNodes tc cs with
      | .error e => .error e
      | .ok leafs => .ok ((c, hash) :: leafs)

/-- The hash of the root: the node of the last level. -/
def rootHash (levels : List (List (List Nat))) : List Nat :=
  (levels.getLastD []).headD []

/-- The function `NewTreeWithHashStrategySorted`, lines 156 to 169, with
`buildWithContent`, lines 227 to 248.  The recursion of `buildIntermediate`
receives the number of leaves as fuel. -/
def NewTreeWithHashStrategySorted {C : Type} (tc : TreeContent C) (cs : List C)
    (h : List Nat → List Nat) (sort : Bool) : Except String (MerkleTree C) :=
  if cs.length = 0 then .error "error: cannot construct tree with no content"
  else
    match leafNodes tc cs with
    | .error e => .error e
    | .ok leafs =>
      match buildIntermediate h sort leafs.length (leafs.map Prod.snd) with
      | none => .error "recursion bound exceeded"
      | some levels =>
        .ok { merkleRoot := rootHash levels, Leafs := leafs, levels := levels, sort := sort }

/-- The method `MerkleRoot`. -/
def MerkleTree.MerkleRoot {C : Type} (m : MerkleTree C) : List Nat := m.merkleRoot

/-- The search of `GetMerklePath` for the first leaf equal to the content
(lines 172 to 178): its position counted from `i`, `none` when no leaf is
equal, or the first error of `Equals`. -/
def findLeaf {C : Type} (tc : TreeContent C) (content : C) :
    List (C × List Nat) → Nat → Except String (Option Nat)
  | [], _ => .ok none
  | l :: rest, i =>
    match tc.Equals l.1 content with
    | .error e => .error e
    | .ok true => .ok (some i)
    | .ok false => findLeaf tc content rest (i + 1)

/-- One step of the loop of `GetMerklePath` (lines 182 to 188) for the node at
position `i` of the level `cur`: the hash of `Right` and 1 when the hash of
`Left` of the parent equals the hash of the node, else the hash of `Left` and
0. -/
def pathStep (cur : List (List Nat)) (i : Nat) : List Nat × Int :=
  let left := cur.getD (2 * (i / 2)) []
  let right := cur.getD (2 * (i / 2) + 1) left
  if left = cur.getD i [] then (right, 1) else (left, 0)

/-- The walk of `GetMerklePath` from a node to the root (lines 180 to 192):
`cur` is the level of the current node, `i` its position and the list the
levels above; the walk ends at the node without parent. -/
def walkUp : Nat → List (List Nat) → List (List (List Nat)) → List (List Nat × Int)
  | _, _, [] => []
  | i, cur, up :: ups => pathStep cur i :: walkUp (i / 2) up ups

/-- The method `GetMerklePath`, lines 171 to 197: the path and the indexes;
both are empty (nil) when no leaf equals the content. -/
def MerkleTree.GetMerklePath {C : Type} (tc : TreeContent C) (m : MerkleTree C) (content : C) :
    Except String (List (List Nat) × List Int) :=
  match findLeaf tc content m.Leafs 0 with
  | .error e => .error e
  | .ok none => .ok ([], [])
  | .ok (some i) => .ok (walkUp i (m.Leafs.map Prod.snd) m.levels).unzip

/-- The fold of claim C28 over a path and its indexes, from the hash `x`: with
sorting each step is `h (sortAppend true x s)`; without, `h (x ++ s)` for index
1 and `h (s ++ x)` for index 0. -/
def foldPath (h : List Nat → List Nat) (sort : Bool) :
    List Nat → List (List Nat) → List Int → List Nat
  | x, s :: path, i :: idx =>
    foldPath h sort
      (if sort then h (sortAppend true x s) else if i = 1 then h (x ++ s) else h (s ++ x))
      path idx
  | x, _, _ => x

/-- A byte string of `n` bytes. -/
def IsHash (n : Nat) (b : List Nat) : Prop := b.length = n ∧ ∀ v ∈ b, v < 256

/-- Example contents: three records, the first one twice. -/
def exContents : List DefaultCont :=
  [{ Data := "0x01" }, { Data := "0x0202" }, { Data := "0x01" }, { Data := "0x030303" },
   { Data := "0x04" }]

/-- Byte strings of a level that are equal as numbers are equal. -/
def NumInj (l : List (List Nat)) : Prop :=
  ∀ a ∈ l, ∀ b ∈ l, beDecode a = beDecode b → a = b

/-- The check of claim C28 for one content: whether the tree is built, the
path is returned and its fold from the hash of the content is the root. -/
def pathCheck {C : Type} (tc : TreeContent C) (cs : List C) (h : List Nat → List Nat)
    (sort : Bool) (c : C) : Option Bool :=
  match NewTreeWithHashStrategySorted tc cs h sort with
  | .error _ => none
  | .ok t =>
    match tc.CalculateHash c with
    | .error _ => none
    | .ok x =>
      match t.GetMerklePath tc c with
      | .error _ => none
      | .ok r => some (decide (foldPath h sort x r.1 r.2 = t.MerkleRoot))

/-! ## Theorems -/

section Tables
variable {α : Type} (key : α → Nat)

theorem foldl_pickMin_none (l : List α) (acc : Option α) :
    l.foldl (pickMin key) acc = none ↔ acc = none ∧ l = [] := by
  induction l generalizing acc with
  | nil => simp
  | cons x xs ih =>
    simp only [List.foldl_cons, ih]
    cases acc with
    | none => simp [pickMin]
    | some a => simp only [pickMin]; split <;> simp

theorem foldl_pickMin_some (l : List α) (acc : Option α) (r : α)
    (h : l.foldl (pickMin key) acc = some r) :
    (r ∈ l ∨ acc = some r) ∧ (∀ x ∈ l, key r ≤ key x) ∧ (∀ a, acc = some a → key r ≤ key a) := by
  induction l generalizing acc with
  | nil =>
    simp only [List.foldl_nil] at h
    subst h
    simp
  | cons x xs ih =>
    simp only [List.foldl_cons] at h
    obtain ⟨h1, h2, h3⟩ := ih _ h
    cases acc with
    | none =>
      simp only [pickMin] at h1 h3
      have hx : key r ≤ key x := h3 x rfl
      refine ⟨?_, ?_, ?_⟩
      · rcases h1 with h1 | h1
        · exact Or.inl (List.mem_cons_of_mem _ h1)
        · left; simp only [Option.some.injEq] at h1; subst h1; exact List.mem_cons_self _ _
      · intro y hy
        rcases List.mem_cons.mp hy with rfl | hy
        · exact hx
        · exact h2 y hy
      · intro a ha; cases ha
    | some a =>
      simp only [pickMin] at h1 h3
      by_cases hlt : key x < key a
      · simp only [hlt, if_true] at h1 h3
        have hx : key r ≤ key x := h3 x rfl
        refine ⟨?_, ?_, ?_⟩
        · rcases h1 with h1 | h1
          · exact Or.inl (List.mem_cons_of_mem _ h1)
          · left; simp only [Option.some.injEq] at h1; subst h1; exact List.mem_cons_self _ _
        · intro y hy
          rcases List.mem_cons.mp hy with rfl | hy
          · exact hx
          · exact h2 y hy
        · intro b hb
          simp only [Option.some.injEq] at hb; subst hb; omega
      · simp only [hlt, if_false] at h1 h3
        have ha : key r ≤ key a := h3 a rfl
        refine ⟨?_, ?_, ?_⟩
        · rcases h1 with h1 | h1
          · exact Or.inl (List.mem_cons_of_mem _ h1)
          · exact Or.inr h1
        · intro y hy
          rcases List.mem_cons.mp hy with rfl | hy
          · omega
          · exact h2 y hy
        · intro b hb
          simp only [Option.some.injEq] at hb; subst hb; exact ha

theorem firstWhere_some {p : α → Bool} {rows : List α} {r : α}
    (h : firstWhere key p rows = some r) :
    r ∈ rows ∧ p r = true ∧ ∀ x ∈ rows, p x = true → key r ≤ key x := by
  obtain ⟨h1, h2, _⟩ := foldl_pickMin_some key _ _ _ h
  have hm : r ∈ rows.filter p := by
    rcases h1 with h1 | h1
    · exact h1
    · cases h1
  rw [List.mem_filter] at hm
  exact ⟨hm.1, hm.2, fun x hx hp => h2 x (List.mem_filter.mpr ⟨hx, hp⟩)⟩

theorem firstWhere_none {p : α → Bool} {rows : List α} :
    firstWhere key p rows = none ↔ ∀ x ∈ rows, p x = false := by
  unfold firstWhere
  rw [foldl_pickMin_none]
  simp [List.filter_eq_nil_iff]

theorem firstWhere_of_min {p : α → Bool} {rows : List α} {s : α}
    (hs : s ∈ rows) (hp : p s = true)
    (hmin : ∀ x ∈ rows, p x = true → x = s ∨ key s < key x) :
    firstWhere key p rows = some s := by
  cases h : firstWhere key p rows with
  | none =>
    have := (firstWhere_none key).mp h s hs
    simp [hp] at this
  | some r =>
    obtain ⟨hr, hpr, hle⟩ := firstWhere_some key h
    rcases hmin r hr hpr with h1 | h1
    · rw [h1]
    · have := hle s hs hp
      omega

theorem mem_updateRow {rows : List α} {s y : α} (hy : y ∈ updateRow key rows s) :
    ∃ x ∈ rows, y = if key x = key s then s else x := by
  unfold updateRow at hy
  obtain ⟨x, hx, rfl⟩ := List.mem_map.mp hy
  exact ⟨x, hx, rfl⟩

theorem updateRow_mem_of_key {rows : List α} {s x : α} (hx : x ∈ rows) (hk : key x = key s) :
    s ∈ updateRow key rows s := by
  unfold updateRow
  exact List.mem_map.mpr ⟨x, hx, by simp [hk]⟩

theorem hasKey_iff {rows : List α} {k : Nat} :
    hasKey key rows k = true ↔ ∃ x ∈ rows, key x = k := by
  simp [hasKey]

end Tables

theorem uab_shape (db : DB) (top : TopupTxInfo) (now : Nat) :
    ((UpdateAccountBalance db top now).err ≠ none ∧
      (UpdateAccountBalance db top now).committed = false ∧
      (UpdateAccountBalance db top now).db = db) ∨
    ((UpdateAccountBalance db top now).err = none ∧
      (UpdateAccountBalance db top now).committed = false ∧
      (UpdateAccountBalance db top now).db = db ∧ top.Amount = none ∧
      ∃ refLock target, loadRefLock db top = .ok refLock ∧ loadTarget db top = some target ∧
        target.Status = BalanceFlowStatusPending) ∨
    ((UpdateAccountBalance db top now).err = none ∧
      (UpdateAccountBalance db top now).committed = true ∧
      ∃ refLock target amount, loadRefLock db top = .ok refLock ∧
        loadTarget db top = some target ∧ target.Status = BalanceFlowStatusPending ∧
        top.Amount = some amount ∧
        (((settleStatus db.balanceFlows top now refLock target).1.Status ≠ BalanceFlowStatusSuccess ∧
          (settleStatus db.balanceFlows top now refLock target).1.Status ≠
            BalanceFlowStatusPendingWithDraw ∧
          (UpdateAccountBalance db top now).db =
            { db with balanceFlows := flowsAfter db top now refLock target amount }) ∨
         (((settleStatus db.balanceFlows top now refLock target).1.Status = BalanceFlowStatusSuccess ∨
          (settleStatus db.balanceFlows top now refLock target).1.Status =
            BalanceFlowStatusPendingWithDraw) ∧
          ∃ b, applyOp top.Op (loadOrCreateBalance db.accountBalances top.MainID now).1 amount
              = .ok b ∧
            (UpdateAccountBalance db top now).db =
              { db with
                balanceFlows := flowsAfter db top now refLock target amount
                accountBalances :=
                  saveBalance (loadOrCreateBalance db.accountBalances top.MainID now).2
                    { b with UpdateTime := now } }))) := by
  unfold UpdateAccountBalance updateAccountBalanceTx
  cases hr : loadRefLock db top with
  | error e => simp
  | ok refLock =>
    cases ht : loadTarget db top with
    | none => simp
    | some target =>
      by_cases hp : target.Status = BalanceFlowStatusPending
      · cases ha : top.Amount with
        | none => simp [hp]
        | some amount =>
          simp only [hp, ne_eq, not_true_eq_false, if_false]
          by_cases hst : (recordChainData (settleStatus db.balanceFlows top now refLock target).1
              top now amount).Status ≠ BalanceFlowStatusSuccess ∧
              (recordChainData (settleStatus db.balanceFlows top now refLock target).1
              top now amount).Status ≠ BalanceFlowStatusPendingWithDraw
          · rw [if_pos hst]
            right; right
            refine ⟨rfl, rfl, refLock, target, amount, rfl, rfl, hp, rfl, Or.inl ⟨hst.1, hst.2, rfl⟩⟩
          · rw [if_neg hst]
            cases hb : applyOp top.Op (loadOrCreateBalance db.accountBalances top.MainID now).1
                amount with
            | error e => simp [hb]
            | ok b =>
              simp only [hb]
              right; right
              refine ⟨trivial, trivial, refLock, target, amount, rfl, rfl, hp, rfl, Or.inr ⟨?_, b, hb, rfl⟩⟩
              simp only [recordChainData] at hst
              by_contra hc
              exact hst ⟨fun h => hc (Or.inl h), fun h => hc (Or.inr h)⟩
      · simp [hp]

section Tables
variable {α : Type} (key : α → Nat)

theorem key_inj {rows : List α} (hnd : (rows.map key).Nodup) {x y : α}
    (hx : x ∈ rows) (hy : y ∈ rows) (h : key x = key y) : x = y :=
  List.inj_on_of_nodup_map hnd hx hy h

theorem updateRow_map_key (rows : List α) (s : α) :
    (updateRow key rows s).map key = rows.map key := by
  unfold updateRow
  rw [List.map_map]
  apply List.map_congr_left
  intro x _
  simp only [Function.comp]
  split
  · next h => exact h.symm
  · rfl

theorem byKey_updateRow_ne (rows : List α) (s : α) (k : Nat) (h : key s ≠ k) :
    firstWhere key (fun x => decide (key x = k)) (updateRow key rows s) =
      firstWhere key (fun x => decide (key x = k)) rows := by
  unfold firstWhere updateRow
  congr 1
  induction rows with
  | nil => rfl
  | cons x xs ih =>
    simp only [List.map_cons, List.filter_cons]
    by_cases hx : key x = key s
    · have hxk : key x ≠ k := fun e => h (hx ▸ e)
      simp [hx, h, ih, hxk]
    · simp only [hx, if_false, ih]

theorem byKey_updateRow_eq (rows : List α) (s : α) (hs : hasKey key rows (key s) = true) :
    firstWhere key (fun x => decide (key x = key s)) (updateRow key rows s) = some s := by
  obtain ⟨x, hx, hk⟩ := (hasKey_iff key).mp hs
  apply firstWhere_of_min
  · exact updateRow_mem_of_key key hx hk
  · simp
  · intro y hy hp
    obtain ⟨x', _, rfl⟩ := mem_updateRow key hy
    by_cases h : key x' = key s
    · left; simp [h]
    · simp [h] at hp

theorem byKey_some_key {rows : List α} {k : Nat} {r : α}
    (h : firstWhere key (fun x => decide (key x = k)) rows = some r) : key r = k := by
  have := (firstWhere_some key h).2.1
  simpa using this

theorem byKey_of_mem {rows : List α} (hnd : (rows.map key).Nodup) {r : α} (hr : r ∈ rows) :
    firstWhere key (fun x => decide (key x = key r)) rows = some r := by
  apply firstWhere_of_min key hr (by simp)
  intro x hx hp
  left
  exact key_inj key hnd hx hr (by simpa using hp)

end Tables

theorem bigUint64_natCast (a : Nat) (h : a < 2 ^ 64) : bigUint64 (a : Int) = a := by
  unfold bigUint64 u64
  simp only [Int.natAbs_ofNat]
  exact Nat.mod_eq_of_lt h

/-! ### The reference chain -/

theorem loadRefLock_ok {db : DB} {top : TopupTxInfo} {r : AccountBalanceFlow}
    (h : loadRefLock db top = .ok r)
    (hop : top.Op = BalanceFlowOpWithdraw ∨ top.Op = BalanceFlowOpUnfreeze) :
    r.ID ≠ 0 ∧ r ∈ db.balanceFlows ∧ flowByID db.balanceFlows r.ID = some r := by
  unfold loadRefLock at h
  rw [if_pos hop] at h
  simp only at h
  split at h
  · cases h
  · split at h
    · cases h
    · next hne =>
      injection h with h
      subst h
      refine ⟨hne, ?_⟩
      cases hf : firstWhere AccountBalanceFlow.ID
          (fun f => decide (f.ID = ((firstWhere AccountBalanceFlow.ID
            (fun f => decide (f.ID = top.RefFlowID)) db.balanceFlows).getD default).RefFlowID))
          db.balanceFlows with
      | none =>
        rw [hf] at hne
        exact absurd rfl hne
      | some x =>
        simp only [Option.getD_some]
        have hk := byKey_some_key AccountBalanceFlow.ID hf
        refine ⟨(firstWhere_some AccountBalanceFlow.ID hf).1, ?_⟩
        unfold flowByID
        rw [hk]
        exact hf

theorem settleStatus_fst (rows : List AccountBalanceFlow) (top : TopupTxInfo) (now : Nat)
    (r t : AccountBalanceFlow) :
    (settleStatus rows top now r t).1 = { t with Status := newStatus top } := by
  unfold settleStatus newStatus
  repeat' split
  all_goals rfl

theorem settleStatus_snd (rows : List AccountBalanceFlow) (top : TopupTxInfo) (now : Nat)
    (r t : AccountBalanceFlow) :
    (settleStatus rows top now r t).2 =
      if flips top r then saveBalanceFlow rows (flipped top now r) else rows := by
  unfold settleStatus flips flipped
  by_cases hs : top.Status = "success"
  · by_cases hw : top.Op = BalanceFlowOpWithdraw
    · by_cases hr : r.Status = BalanceFlowStatusPendingWithDraw
      · simp [hs, hw, hr]
      · simp [hs, hw, hr]
    · by_cases hu : top.Op = BalanceFlowOpUnfreeze
      · by_cases hr : r.Status = BalanceFlowStatusPendingWithDraw
        · have hne : BalanceFlowOpUnfreeze ≠ BalanceFlowOpWithdraw := by decide
          simp [hs, hu, hne, hr]
        · have hne : BalanceFlowOpUnfreeze ≠ BalanceFlowOpWithdraw := by decide
          simp [hs, hu, hne, hr]
      · simp [hs, hw, hu]
  · simp [hs]

theorem saveBalanceFlow_eq_update {rows : List AccountBalanceFlow} {s x : AccountBalanceFlow}
    (hx : x ∈ rows) (hk : x.ID = s.ID) (h0 : s.ID ≠ 0) :
    saveBalanceFlow rows s = updateRow AccountBalanceFlow.ID rows s := by
  unfold saveBalanceFlow
  rw [if_neg h0, if_pos ((hasKey_iff AccountBalanceFlow.ID).mpr ⟨x, hx, hk⟩)]

theorem flowsMid_map_ID (db : DB) (top : TopupTxInfo) (now : Nat) (refLock : AccountBalanceFlow) :
    (flowsMid db top now refLock).map AccountBalanceFlow.ID =
      db.balanceFlows.map AccountBalanceFlow.ID := by
  unfold flowsMid
  split
  · exact updateRow_map_key _ _ _
  · rfl

theorem flowsAfter_eq {db : DB} {top : TopupTxInfo} {now : Nat}
    {refLock target : AccountBalanceFlow} (amount : Int)
    (hk : KeysNonzero AccountBalanceFlow.ID db.balanceFlows)
    (hr : loadRefLock db top = .ok refLock) (ht : loadTarget db top = some target) :
    flowsAfter db top now refLock target amount =
      updateRow AccountBalanceFlow.ID (flowsMid db top now refLock) (targetAfter top now target amount) := by
  have htm := (firstWhere_some AccountBalanceFlow.ID ht).1
  have hmid : (settleStatus db.balanceFlows top now refLock target).2 = flowsMid db top now refLock := by
    rw [settleStatus_snd]
    unfold flowsMid
    by_cases hf : flips top refLock
    · rw [if_pos hf, if_pos hf]
      obtain ⟨h0, hm, _⟩ := loadRefLock_ok hr hf.2.1
      exact saveBalanceFlow_eq_update hm rfl h0
    · rw [if_neg hf, if_neg hf]
  unfold flowsAfter
  rw [hmid, settleStatus_fst]
  have hmem : target.ID ∈ (flowsMid db top now refLock).map AccountBalanceFlow.ID := by
    rw [flowsMid_map_ID]
    exact List.mem_map_of_mem _ htm
  obtain ⟨x, hx, hxk⟩ := List.mem_map.mp hmem
  exact saveBalanceFlow_eq_update hx hxk (hk target htm)

theorem flowByID_after {db : DB} {top : TopupTxInfo} {now : Nat}
    {refLock target : AccountBalanceFlow} (amount : Int)
    (hk : KeysNonzero AccountBalanceFlow.ID db.balanceFlows)
    (hr : loadRefLock db top = .ok refLock) (ht : loadTarget db top = some target) (k : Nat) :
    flowByID (flowsAfter db top now refLock target amount) k =
      if target.ID = k then some (targetAfter top now target amount)
      else if flips top refLock ∧ refLock.ID = k then some (flipped top now refLock)
      else flowByID db.balanceFlows k := by
  have htm := (firstWhere_some AccountBalanceFlow.ID ht).1
  rw [flowsAfter_eq amount hk hr ht]
  unfold flowByID
  by_cases h1 : target.ID = k
  · rw [if_pos h1]
    subst h1
    have hkey : (targetAfter top now target amount).ID = target.ID := rfl
    rw [← hkey]
    apply byKey_updateRow_eq
    rw [hasKey_iff, hkey]
    have hmem : target.ID ∈ (flowsMid db top now refLock).map AccountBalanceFlow.ID := by
      rw [flowsMid_map_ID]
      exact List.mem_map_of_mem _ htm
    obtain ⟨x, hx, hxk⟩ := List.mem_map.mp hmem
    exact ⟨x, hx, hxk⟩
  · rw [if_neg h1, byKey_updateRow_ne _ _ _ _ (by exact h1)]
    unfold flowsMid
    by_cases hf : flips top refLock
    · rw [if_pos hf]
      obtain ⟨h0, hm, _⟩ := loadRefLock_ok hr hf.2.1
      by_cases h2 : refLock.ID = k
      · rw [if_pos ⟨hf, h2⟩]
        subst h2
        have hkey : (flipped top now refLock).ID = refLock.ID := rfl
        rw [← hkey]
        apply byKey_updateRow_eq
        rw [hasKey_iff]
        exact ⟨refLock, hm, rfl⟩
      · rw [if_neg (fun h => h2 h.2), byKey_updateRow_ne _ _ _ _ (by exact h2)]
    · rw [if_neg hf, if_neg (fun h => hf h.1)]

theorem loadTarget_after {db : DB} {top : TopupTxInfo}
    {refLock target : AccountBalanceFlow} (now : Nat) (amount : Int)
    (hk : KeysNonzero AccountBalanceFlow.ID db.balanceFlows)
    (hr : loadRefLock db top = .ok refLock) (ht : loadTarget db top = some target)
    (db1 : DB) (hdb : db1.balanceFlows = flowsAfter db top now refLock target amount) :
    loadTarget db1 top = some (targetAfter top now target amount) := by
  obtain ⟨htm, htp, htmin⟩ := firstWhere_some AccountBalanceFlow.ID ht
  unfold loadTarget
  rw [hdb, flowsAfter_eq amount hk hr ht]
  have hmem : target.ID ∈ (flowsMid db top now refLock).map AccountBalanceFlow.ID := by
    rw [flowsMid_map_ID]
    exact List.mem_map_of_mem _ htm
  obtain ⟨x0, hx0, hx0k⟩ := List.mem_map.mp hmem
  apply firstWhere_of_min
  · exact updateRow_mem_of_key _ hx0 hx0k
  · exact htp
  · intro y hy hp
    obtain ⟨x1, hx1, rfl⟩ := mem_updateRow _ hy
    by_cases h1 : x1.ID = (targetAfter top now target amount).ID
    · left; simp [h1]
    · right
      simp only [h1, if_false] at hp ⊢
      have h1' : x1.ID ≠ target.ID := h1
      have hge : target.ID ≤ x1.ID := by
        unfold flowsMid at hx1
        by_cases hf : flips top refLock
        · rw [if_pos hf] at hx1
          obtain ⟨x, hx, rfl⟩ := mem_updateRow _ hx1
          obtain ⟨_, hm, _⟩ := loadRefLock_ok hr hf.2.1
          by_cases h2 : x.ID = (flipped top now refLock).ID
          · simp only [h2, if_true] at hp ⊢
            have := htmin refLock hm hp
            exact this
          · simp only [h2, if_false] at hp ⊢
            exact htmin x hx hp
        · rw [if_neg hf] at hx1
          exact htmin x1 hx1 hp
      show target.ID < x1.ID
      omega

theorem nextID_pos {α : Type} (key : α → Nat) (rows : List α) : nextID key rows ≠ 0 := by
  unfold nextID; omega

theorem saveBalance_eq_update {rows : List AccountBalance} {s x : AccountBalance}
    (hx : x ∈ rows) (hk : x.ID = s.ID) (h0 : s.ID ≠ 0) :
    saveBalance rows s = updateRow AccountBalance.ID rows s := by
  unfold saveBalance
  rw [if_neg h0, if_pos ((hasKey_iff AccountBalance.ID).mpr ⟨x, hx, hk⟩)]

theorem loadOrCreateBalance_fields (rows : List AccountBalance) (mainId now : Nat) (db : DB)
    (hdb : db.accountBalances = rows) :
    (loadOrCreateBalance rows mainId now).1.Available = (balanceOf db mainId).Available ∧
    (loadOrCreateBalance rows mainId now).1.Frozen = (balanceOf db mainId).Frozen ∧
    (loadOrCreateBalance rows mainId now).1.Withdrawal = (balanceOf db mainId).Withdrawal ∧
    (loadOrCreateBalance rows mainId now).1.MainID = mainId := by
  unfold loadOrCreateBalance balanceOf
  rw [hdb]
  cases h : firstWhere AccountBalance.ID (fun b => decide (b.MainID = mainId)) rows with
  | none => simp [createBalance, newAccountBalance]; exact ⟨rfl, rfl, rfl⟩
  | some b =>
    have := (firstWhere_some AccountBalance.ID h).2.1
    simp at this
    simp [this]

theorem loadOrCreateBalance_spec (rows : List AccountBalance) (mainId now : Nat)
    (hk : KeysNonzero AccountBalance.ID rows) :
    (loadOrCreateBalance rows mainId now).1 ∈ (loadOrCreateBalance rows mainId now).2 ∧
    (loadOrCreateBalance rows mainId now).1.ID ≠ 0 ∧
    ∀ y ∈ (loadOrCreateBalance rows mainId now).2, y.MainID = mainId →
      y.ID ≠ (loadOrCreateBalance rows mainId now).1.ID →
      (loadOrCreateBalance rows mainId now).1.ID < y.ID := by
  unfold loadOrCreateBalance
  cases h : firstWhere AccountBalance.ID (fun b => decide (b.MainID = mainId)) rows with
  | some b =>
    obtain ⟨hb, _, hmin⟩ := firstWhere_some AccountBalance.ID h
    refine ⟨hb, hk b hb, ?_⟩
    intro y hy hm hne
    have := hmin y hy (by simpa using hm)
    simp only at hne ⊢
    omega
  | none =>
    have hnone := (firstWhere_none AccountBalance.ID).mp h
    simp only [createBalance, newAccountBalance, if_true]
    refine ⟨by simp, nextID_pos _ _, ?_⟩
    intro y hy hm hne
    exfalso
    rcases List.mem_append.mp hy with hy | hy
    · have := hnone y hy
      simp [hm] at this
    · simp only [List.mem_singleton] at hy
      apply hne
      rw [hy]

/-- After the locked read, any row saved under the key and user of the row
read is the row a later read for that user returns. -/
theorem balance_after_save (rows : List AccountBalance) (mainId now : Nat) (s : AccountBalance)
    (hk : KeysNonzero AccountBalance.ID rows)
    (hid : s.ID = (loadOrCreateBalance rows mainId now).1.ID) (hm : s.MainID = mainId) :
    firstWhere AccountBalance.ID (fun b => decide (b.MainID = mainId))
      (saveBalance (loadOrCreateBalance rows mainId now).2 s) = some s := by
  obtain ⟨hmem, h0, hmin⟩ := loadOrCreateBalance_spec rows mainId now hk
  rw [saveBalance_eq_update hmem hid.symm (by rw [hid]; exact h0)]
  apply firstWhere_of_min
  · exact updateRow_mem_of_key _ hmem hid.symm
  · simp [hm]
  · intro y hy hp
    obtain ⟨x, hx, rfl⟩ := mem_updateRow _ hy
    by_cases h1 : x.ID = s.ID
    · left; simp [h1]
    · right
      simp only [h1, if_false] at hp ⊢
      have := hmin x hx (by simpa using hp) (by rw [← hid]; exact h1)
      omega

theorem applyOp_ok {op : Int} {b b1 : AccountBalance} {amount : Int}
    (h : applyOp op b amount = .ok b1) :
    b1.ID = b.ID ∧ b1.MainID = b.MainID ∧ b1.Frozen = b.Frozen ∧
    (op = BalanceFlowOpRecharge →
      b1.Available = addU64 b.Available (bigUint64 amount) ∧ b1.Withdrawal = b.Withdrawal) ∧
    (op = BalanceFlowOpWithdraw →
      bigUint64 amount ≤ b.Withdrawal ∧ b1.Withdrawal = b.Withdrawal - bigUint64 amount ∧
      b1.Available = b.Available) ∧
    (op = BalanceFlowOpUnfreeze →
      bigUint64 amount ≤ b.Withdrawal ∧ b1.Withdrawal = b.Withdrawal - bigUint64 amount ∧
      b1.Available = addU64 b.Available (bigUint64 amount)) ∧
    (op ≠ BalanceFlowOpRecharge → op ≠ BalanceFlowOpWithdraw → op ≠ BalanceFlowOpUnfreeze →
      b1 = b) := by
  have h01 : BalanceFlowOpRecharge ≠ BalanceFlowOpWithdraw := by decide
  have h02 : BalanceFlowOpRecharge ≠ BalanceFlowOpUnfreeze := by decide
  have h12 : BalanceFlowOpWithdraw ≠ BalanceFlowOpUnfreeze := by decide
  unfold applyOp at h
  by_cases hr : op = BalanceFlowOpRecharge
  · rw [if_pos hr] at h
    injection h with h
    subst h
    subst hr
    simp [h01, h02]
  · rw [if_neg hr] at h
    by_cases hw : op = BalanceFlowOpWithdraw
    · rw [if_pos hw] at h
      by_cases hlt : b.Withdrawal < bigUint64 amount
      · rw [if_pos hlt] at h; cases h
      · rw [if_neg hlt] at h
        injection h with h
        subst h
        subst hw
        simp [h01.symm, h12]
        omega
    · rw [if_neg hw] at h
      by_cases hu : op = BalanceFlowOpUnfreeze
      · rw [if_pos hu] at h
        by_cases hlt : b.Withdrawal < bigUint64 amount
        · rw [if_pos hlt] at h; cases h
        · rw [if_neg hlt] at h
          injection h with h
          subst h
          subst hu
          simp [h02.symm, h12.symm]
          omega
      · rw [if_neg hu] at h
        injection h with h
        subst h
        simp [hr, hw, hu]

/-- C1 (amended). For a success outcome with chain amount `a < 2 ^ 64` on a
pending flow, a call that returns no error leaves `frozen` as it was and
applies `a` in `uint64` arithmetic: Recharge gives `(available + a) mod 2 ^ 64`,
Withdraw gives `withdrawal - a`, Unfreeze gives both, Freeze changes neither;
the amount recorded on the flow is `a`. -/
theorem C1_success_applies_chain_amount (db : DB) (top : TopupTxInfo) (now : Nat)
    (target : AccountBalanceFlow) (a : Nat)
    (hkb : KeysNonzero AccountBalance.ID db.accountBalances)
    (hkf : KeysNonzero AccountBalanceFlow.ID db.balanceFlows)
    (ht : loadTarget db top = some target)
    (_hp : target.Status = BalanceFlowStatusPending)
    (hs : top.Status = "success") (ha : top.Amount = some (a : Int)) (hlt : a < 2 ^ 64)
    (hret : (UpdateAccountBalance db top now).err = none) :
    (balanceOf (UpdateAccountBalance db top now).db top.MainID).Frozen =
        (balanceOf db top.MainID).Frozen ∧
    (top.Op = BalanceFlowOpRecharge →
      (balanceOf (UpdateAccountBalance db top now).db top.MainID).Available =
          ((balanceOf db top.MainID).Available + a) % 2 ^ 64 ∧
      (balanceOf (UpdateAccountBalance db top now).db top.MainID).Withdrawal =
          (balanceOf db top.MainID).Withdrawal) ∧
    (top.Op = BalanceFlowOpWithdraw →
      a ≤ (balanceOf db top.MainID).Withdrawal ∧
      (balanceOf (UpdateAccountBalance db top now).db top.MainID).Withdrawal =
          (balanceOf db top.MainID).Withdrawal - a ∧
      (balanceOf (UpdateAccountBalance db top now).db top.MainID).Available =
          (balanceOf db top.MainID).Available) ∧
    (top.Op = BalanceFlowOpUnfreeze →
      a ≤ (balanceOf db top.MainID).Withdrawal ∧
      (balanceOf (UpdateAccountBalance db top now).db top.MainID).Withdrawal =
          (balanceOf db top.MainID).Withdrawal - a ∧
      (balanceOf (UpdateAccountBalance db top now).db top.MainID).Available =
          ((balanceOf db top.MainID).Available + a) % 2 ^ 64) ∧
    (top.Op = BalanceFlowOpFreeze →
      (balanceOf (UpdateAccountBalance db top now).db top.MainID).Available =
          (balanceOf db top.MainID).Available ∧
      (balanceOf (UpdateAccountBalance db top now).db top.MainID).Withdrawal =
          (balanceOf db top.MainID).Withdrawal) ∧
    (∃ t1, loadTarget (UpdateAccountBalance db top now).db top = some t1 ∧ t1.ID = target.ID ∧
      t1.RealAmount = a) := by
  have hbig := bigUint64_natCast a hlt
  rcases uab_shape db top now with h | h | h
  · exact absurd hret h.1
  · rw [ha] at h
    exact absurd h.2.2.2.1 (by simp)
  · obtain ⟨_, _, refLock, target1, amount, hr, ht1, _, ham, hcase⟩ := h
    rw [ha] at ham
    injection ham with ham
    subst ham
    have hst : (settleStatus db.balanceFlows top now refLock target1).1.Status =
        BalanceFlowStatusSuccess ∨
        (settleStatus db.balanceFlows top now refLock target1).1.Status =
        BalanceFlowStatusPendingWithDraw := by
      rw [settleStatus_fst]
      simp only [newStatus, hs, if_true]
      split
      · exact Or.inr rfl
      · exact Or.inl rfl
    rcases hcase with hc | hc
    · rcases hst with h1 | h1
      · exact absurd h1 hc.1
      · exact absurd h1 hc.2.1
    · obtain ⟨_, b, hb, hdb⟩ := hc
      obtain ⟨hid, hmain, hfr, hre, hwi, hun, hoth⟩ := applyOp_ok hb
      obtain ⟨fa, ff, fw, fm⟩ :=
        loadOrCreateBalance_fields db.accountBalances top.MainID now db rfl
      have hafter : balanceOf (UpdateAccountBalance db top now).db top.MainID =
          { b with UpdateTime := now } := by
        unfold balanceOf
        rw [hdb]
        simp only
        rw [balance_after_save db.accountBalances top.MainID now { b with UpdateTime := now } hkb
          hid (by rw [← fm]; exact hmain)]
        rfl
      have hload := loadTarget_after now (a : Int) hkf hr ht1
        (UpdateAccountBalance db top now).db (by rw [hdb])
      rw [hafter]
      simp only
      rw [hbig] at hre hwi hun
      refine ⟨by rw [hfr, ff], ?_, ?_, ?_, ?_, ?_⟩
      · intro ho
        obtain ⟨h1, h2⟩ := hre ho
        rw [h1, h2, fa, fw]
        exact ⟨rfl, rfl⟩
      · intro ho
        obtain ⟨h1, h2, h3⟩ := hwi ho
        rw [h2, h3, ← fa, ← fw]
        exact ⟨h1, rfl, rfl⟩
      · intro ho
        obtain ⟨h1, h2, h3⟩ := hun ho
        rw [h2, h3, ← fa, ← fw]
        exact ⟨h1, rfl, rfl⟩
      · intro ho
        have hbb := hoth (by rw [ho]; decide) (by rw [ho]; decide) (by rw [ho]; decide)
        rw [hbb, fa, fw]
        exact ⟨rfl, rfl⟩
      · rw [ht] at ht1
        injection ht1 with ht1
        subst ht1
        refine ⟨_, hload, rfl, ?_⟩
        simp only [targetAfter, recordChainData]
        exact hbig

/-- C1, witness: a Recharge of 300 on available 1000000. -/
theorem C1_success_applies_chain_amount_witness :
    (balanceOf (UpdateAccountBalance (exLedger BalanceFlowStatusPendingWithDraw 1000000 50)
        (exTop "0xdeposit" "success" (some 300) 0 BalanceFlowOpRecharge) 9).db 7).Available
      = 1000300 := by
  have h := C1_success_applies_chain_amount
    (exLedger BalanceFlowStatusPendingWithDraw 1000000 50)
    (exTop "0xdeposit" "success" (some 300) 0 BalanceFlowOpRecharge) 9
    (exFlow 4 BalanceFlowOpRecharge BalanceFlowStatusPending "0xdeposit" 0) 300
    (by unfold KeysNonzero; decide) (by unfold KeysNonzero; decide) (by decide) (by decide)
    (by decide) (by decide) (by norm_num) (by decide)
  exact (h.2.1 (by decide)).1

/-- C1, counterexample: with available `2 ^ 64 - 1` a successful Recharge of 1
returns no error and leaves available 0, not `2 ^ 64`. -/
theorem C1_counterexample :
    loadTarget (exLedger BalanceFlowStatusPendingWithDraw (2 ^ 64 - 1) 50)
        (exTop "0xdeposit" "success" (some 1) 0 BalanceFlowOpRecharge)
      = some (exFlow 4 BalanceFlowOpRecharge BalanceFlowStatusPending "0xdeposit" 0) ∧
    (UpdateAccountBalance (exLedger BalanceFlowStatusPendingWithDraw (2 ^ 64 - 1) 50)
        (exTop "0xdeposit" "success" (some 1) 0 BalanceFlowOpRecharge) 9).err = none ∧
    (balanceOf (exLedger BalanceFlowStatusPendingWithDraw (2 ^ 64 - 1) 50) 7).Available
      = 2 ^ 64 - 1 ∧
    (balanceOf (UpdateAccountBalance (exLedger BalanceFlowStatusPendingWithDraw (2 ^ 64 - 1) 50)
        (exTop "0xdeposit" "success" (some 1) 0 BalanceFlowOpRecharge) 9).db 7).Available = 0 ∧
    (balanceOf (UpdateAccountBalance (exLedger BalanceFlowStatusPendingWithDraw (2 ^ 64 - 1) 50)
        (exTop "0xdeposit" "success" (some 1) 0 BalanceFlowOpRecharge) 9).db 7).Available ≠
      (balanceOf (exLedger BalanceFlowStatusPendingWithDraw (2 ^ 64 - 1) 50) 7).Available + 1 := by
  decide

/-- C2 (failing input). A failed Withdraw outcome without an amount on a
pending flow whose reference chain resolves: the call returns no error, does
not commit, and the flow is still Pending, not Failed. -/
theorem C2_failed_without_amount_stays_pending :
    loadTarget (exLedger BalanceFlowStatusPendingWithDraw 1000000 50)
        (exTop "0xclaim" "failed" none 2 BalanceFlowOpWithdraw)
      = some (exFlow 2 BalanceFlowOpWithdraw BalanceFlowStatusPending "0xclaim" 1) ∧
    (loadRefLock (exLedger BalanceFlowStatusPendingWithDraw 1000000 50)
        (exTop "0xclaim" "failed" none 2 BalanceFlowOpWithdraw)).toOption
      = some (exFlow 1 BalanceFlowOpFreeze BalanceFlowStatusPendingWithDraw "0xlock" 0) ∧
    (UpdateAccountBalance (exLedger BalanceFlowStatusPendingWithDraw 1000000 50)
        (exTop "0xclaim" "failed" none 2 BalanceFlowOpWithdraw) 9).err = none ∧
    (UpdateAccountBalance (exLedger BalanceFlowStatusPendingWithDraw 1000000 50)
        (exTop "0xclaim" "failed" none 2 BalanceFlowOpWithdraw) 9).committed = false ∧
    (loadTarget (UpdateAccountBalance (exLedger BalanceFlowStatusPendingWithDraw 1000000 50)
        (exTop "0xclaim" "failed" none 2 BalanceFlowOpWithdraw) 9).db
        (exTop "0xclaim" "failed" none 2 BalanceFlowOpWithdraw)).map AccountBalanceFlow.Status
      = some BalanceFlowStatusPending := by
  decide

/-- Whenever the outcome carries no amount and the target row is pending, the
call panics at line 105, recovers, rolls back and returns nil. -/
theorem uab_without_amount (db : DB) (top : TopupTxInfo) (now : Nat)
    (ha : top.Amount = none) :
    (UpdateAccountBalance db top now).committed = false ∧
    (UpdateAccountBalance db top now).db = db := by
  rcases uab_shape db top now with h | h | h
  · exact ⟨h.2.1, h.2.2⟩
  · exact ⟨h.2.1, h.2.2.1⟩
  · obtain ⟨_, _, _, _, amount, _, _, _, ham, _⟩ := h
    rw [ha] at ham
    cases ham

/-- With an amount present, a non-success outcome on a pending flow commits,
marks the flow Failed and leaves every balance row as it was. -/
theorem uab_failed_with_amount (db : DB) (top : TopupTxInfo) (now : Nat)
    (refLock target : AccountBalanceFlow) (amount : Int)
    (hkf : KeysNonzero AccountBalanceFlow.ID db.balanceFlows)
    (hr : loadRefLock db top = .ok refLock)
    (ht : loadTarget db top = some target)
    (hp : target.Status = BalanceFlowStatusPending)
    (hs : top.Status ≠ "success") (ha : top.Amount = some amount) :
    (UpdateAccountBalance db top now).err = none ∧
    (UpdateAccountBalance db top now).committed = true ∧
    (UpdateAccountBalance db top now).db.accountBalances = db.accountBalances ∧
    ∃ t1, loadTarget (UpdateAccountBalance db top now).db top = some t1 ∧
      t1.ID = target.ID ∧ t1.Status = BalanceFlowStatusFailed := by
  have hnew : newStatus top = BalanceFlowStatusFailed := by simp [newStatus, hs]
  rcases uab_shape db top now with h | h | h
  · exfalso
    have := h.1
    unfold UpdateAccountBalance updateAccountBalanceTx at this
    rw [hr, ht] at this
    simp only [hp, ne_eq, not_true_eq_false, if_false, ha, settleStatus_fst, recordChainData,
      hnew] at this
    rw [if_pos (by decide)] at this
    exact this rfl
  · obtain ⟨_, _, _, hn, _⟩ := h
    rw [ha] at hn
    cases hn
  · obtain ⟨he, hc, refLock1, target1, amount1, hr1, ht1, _, ham, hcase⟩ := h
    rw [hr] at hr1
    injection hr1 with hr1
    subst hr1
    rw [ht] at ht1
    injection ht1 with ht1
    subst ht1
    rw [ha] at ham
    injection ham with ham
    subst ham
    rcases hcase with hcase | hcase
    · obtain ⟨_, _, hdb⟩ := hcase
      refine ⟨he, hc, by rw [hdb], ?_⟩
      have hload := loadTarget_after now amount hkf hr ht
        (UpdateAccountBalance db top now).db (by rw [hdb])
      refine ⟨_, hload, rfl, ?_⟩
      simp only [targetAfter, recordChainData]
      exact hnew
    · exfalso
      have := hcase.1
      rw [settleStatus_fst] at this
      simp only [hnew] at this
      revert this
      decide

/-- C3. A call whose target row is absent or not Pending returns an error and
leaves the database as it was; hence, after a success outcome was applied and
committed, applying the same outcome again is rejected and changes nothing. -/
theorem C3_absent_or_processed_is_rejected (db : DB) (top : TopupTxInfo) (now : Nat) :
    ((loadTarget db top = none ∨
        ∃ t, loadTarget db top = some t ∧ t.Status ≠ BalanceFlowStatusPending) →
      (UpdateAccountBalance db top now).err ≠ none ∧
      (UpdateAccountBalance db top now).db = db) ∧
    (KeysNonzero AccountBalanceFlow.ID db.balanceFlows → top.Status = "success" →
      (UpdateAccountBalance db top now).committed = true →
      ∀ now2 : Nat,
        (UpdateAccountBalance (UpdateAccountBalance db top now).db top now2).err ≠ none ∧
        (UpdateAccountBalance (UpdateAccountBalance db top now).db top now2).db =
          (UpdateAccountBalance db top now).db) := by
  have part1 : ∀ (d : DB) (n : Nat), (loadTarget d top = none ∨
        ∃ t, loadTarget d top = some t ∧ t.Status ≠ BalanceFlowStatusPending) →
      (UpdateAccountBalance d top n).err ≠ none ∧ (UpdateAccountBalance d top n).db = d := by
    intro d n hcond
    have hno : ¬ ∃ target, loadTarget d top = some target ∧
        target.Status = BalanceFlowStatusPending := by
      rintro ⟨target, h1, h2⟩
      rcases hcond with h | ⟨t, h3, h4⟩
      · rw [h] at h1; cases h1
      · rw [h3] at h1
        injection h1 with h1
        subst h1
        exact h4 h2
    rcases uab_shape d top n with h | h | h
    · exact ⟨h.1, h.2.2⟩
    · obtain ⟨_, _, _, _, _, target, _, h1, h2⟩ := h
      exact absurd ⟨target, h1, h2⟩ hno
    · obtain ⟨_, _, _, target, _, _, h1, h2, _⟩ := h
      exact absurd ⟨target, h1, h2⟩ hno
  refine ⟨part1 db now, ?_⟩
  intro hkf hs hc now2
  apply part1
  right
  rcases uab_shape db top now with h | h | h
  · rw [h.2.1] at hc; cases hc
  · rw [h.2.1] at hc; cases hc
  · obtain ⟨_, _, refLock, target, amount, hr, ht, _, _, hcase⟩ := h
    have hdbf : (UpdateAccountBalance db top now).db.balanceFlows =
        flowsAfter db top now refLock target amount := by
      rcases hcase with hcase | hcase
      · rw [hcase.2.2]
      · obtain ⟨_, b, _, hdb⟩ := hcase
        rw [hdb]
    refine ⟨_, loadTarget_after now amount hkf hr ht _ hdbf, ?_⟩
    simp only [targetAfter, recordChainData, newStatus, hs, if_true]
    split <;> decide

/-- C3, witness: a missing hash is rejected, and the committed Recharge of
`C1` is rejected when applied again. -/
theorem C3_absent_or_processed_is_rejected_witness :
    (loadTarget (exLedger BalanceFlowStatusPendingWithDraw 1000000 50)
        (exTop "0xmissing" "success" (some 300) 0 BalanceFlowOpRecharge) = none ∧
      (UpdateAccountBalance (exLedger BalanceFlowStatusPendingWithDraw 1000000 50)
        (exTop "0xmissing" "success" (some 300) 0 BalanceFlowOpRecharge) 9).err ≠ none) ∧
    ((UpdateAccountBalance (exLedger BalanceFlowStatusPendingWithDraw 1000000 50)
        (exTop "0xdeposit" "success" (some 300) 0 BalanceFlowOpRecharge) 9).committed = true ∧
      (UpdateAccountBalance (UpdateAccountBalance
          (exLedger BalanceFlowStatusPendingWithDraw 1000000 50)
          (exTop "0xdeposit" "success" (some 300) 0 BalanceFlowOpRecharge) 9).db
        (exTop "0xdeposit" "success" (some 300) 0 BalanceFlowOpRecharge) 11).err ≠ none) :=
  ⟨⟨by decide,
     ((C3_absent_or_processed_is_rejected (exLedger BalanceFlowStatusPendingWithDraw 1000000 50)
        (exTop "0xmissing" "success" (some 300) 0 BalanceFlowOpRecharge) 9).1
        (Or.inl (by decide))).1⟩,
   ⟨by decide,
     ((C3_absent_or_processed_is_rejected (exLedger BalanceFlowStatusPendingWithDraw 1000000 50)
        (exTop "0xdeposit" "success" (some 300) 0 BalanceFlowOpRecharge) 9).2
        (by unfold KeysNonzero; decide) (by decide) (by decide) 11).1⟩⟩

/-- C4 (amended). For a success outcome with op Withdraw or Unfreeze whose
amount `a < 2 ^ 64` exceeds the user's `withdrawal`, the call returns an error,
does not commit, and the database is the input database. -/
theorem C4_insufficient_withdrawal_rolls_back (db : DB) (top : TopupTxInfo) (now : Nat) (a : Nat)
    (hs : top.Status = "success")
    (hop : top.Op = BalanceFlowOpWithdraw ∨ top.Op = BalanceFlowOpUnfreeze)
    (ha : top.Amount = some (a : Int)) (hlt : a < 2 ^ 64)
    (hw : (balanceOf db top.MainID).Withdrawal < a) :
    (UpdateAccountBalance db top now).err ≠ none ∧
    (UpdateAccountBalance db top now).committed = false ∧
    (UpdateAccountBalance db top now).db = db := by
  have hbig := bigUint64_natCast a hlt
  rcases uab_shape db top now with h | h | h
  · exact h
  · rw [ha] at h
    exact absurd h.2.2.2.1 (by simp)
  · exfalso
    obtain ⟨_, _, refLock, target, amount, _, _, _, ham, hcase⟩ := h
    rw [ha] at ham
    injection ham with ham
    subst ham
    have hnf : top.Op ≠ BalanceFlowOpFreeze := by
      rcases hop with h | h <;> rw [h] <;> decide
    have hst : (settleStatus db.balanceFlows top now refLock target).1.Status =
        BalanceFlowStatusSuccess := by
      rw [settleStatus_fst]
      simp [newStatus, hs, hnf]
    rcases hcase with hc | hc
    · exact hc.1 hst
    · obtain ⟨_, b, hb, _⟩ := hc
      obtain ⟨_, _, _, _, hwi, hun, _⟩ := applyOp_ok hb
      obtain ⟨_, _, fw, _⟩ := loadOrCreateBalance_fields db.accountBalances top.MainID now db rfl
      rw [hbig, fw] at hwi hun
      rcases hop with h | h
      · have := (hwi h).1
        omega
      · have := (hun h).1
        omega

/-- C4, witness: withdrawal 50, Withdraw outcome of 80. -/
theorem C4_insufficient_withdrawal_rolls_back_witness :
    (balanceOf (exLedger BalanceFlowStatusPendingWithDraw 1000000 50) 7).Withdrawal < 80 ∧
    (UpdateAccountBalance (exLedger BalanceFlowStatusPendingWithDraw 1000000 50)
        (exTop "0xclaim" "success" (some 80) 2 BalanceFlowOpWithdraw) 9).err ≠ none ∧
    (UpdateAccountBalance (exLedger BalanceFlowStatusPendingWithDraw 1000000 50)
        (exTop "0xclaim" "success" (some 80) 2 BalanceFlowOpWithdraw) 9).committed = false ∧
    (UpdateAccountBalance (exLedger BalanceFlowStatusPendingWithDraw 1000000 50)
        (exTop "0xclaim" "success" (some 80) 2 BalanceFlowOpWithdraw) 9).db =
      exLedger BalanceFlowStatusPendingWithDraw 1000000 50 :=
  ⟨by decide,
   C4_insufficient_withdrawal_rolls_back (exLedger BalanceFlowStatusPendingWithDraw 1000000 50)
     (exTop "0xclaim" "success" (some 80) 2 BalanceFlowOpWithdraw) 9 80
     (by decide) (Or.inl (by decide)) (by decide) (by norm_num) (by decide)⟩

/-- In the run of the C4 witness both the paired lock row and the target row
had been saved as Success inside the transaction when the balance check
returned the error; the rollback discards both. -/
theorem rollback_discards_saved_rows :
    (updateAccountBalanceTx (exLedger BalanceFlowStatusPendingWithDraw 1000000 50)
        (exTop "0xclaim" "success" (some 80) 2 BalanceFlowOpWithdraw) 9).isReturned = true ∧
    (flowByID (updateAccountBalanceTx (exLedger BalanceFlowStatusPendingWithDraw 1000000 50)
        (exTop "0xclaim" "success" (some 80) 2 BalanceFlowOpWithdraw) 9).working.balanceFlows
        1).map AccountBalanceFlow.Status = some BalanceFlowStatusSuccess ∧
    (flowByID (updateAccountBalanceTx (exLedger BalanceFlowStatusPendingWithDraw 1000000 50)
        (exTop "0xclaim" "success" (some 80) 2 BalanceFlowOpWithdraw) 9).working.balanceFlows
        2).map AccountBalanceFlow.Status = some BalanceFlowStatusSuccess ∧
    (flowByID (UpdateAccountBalance (exLedger BalanceFlowStatusPendingWithDraw 1000000 50)
        (exTop "0xclaim" "success" (some 80) 2 BalanceFlowOpWithdraw) 9).db.balanceFlows
        1).map AccountBalanceFlow.Status = some BalanceFlowStatusPendingWithDraw ∧
    (flowByID (UpdateAccountBalance (exLedger BalanceFlowStatusPendingWithDraw 1000000 50)
        (exTop "0xclaim" "success" (some 80) 2 BalanceFlowOpWithdraw) 9).db.balanceFlows
        2).map AccountBalanceFlow.Status = some BalanceFlowStatusPending := by
  decide

/-- C4, counterexample: withdrawal 10 and a chain amount of `2 ^ 64 + 5`, which
is larger; the call truncates the amount to 5, returns no error, commits,
moves the flow to Success and leaves withdrawal 5. -/
theorem C4_counterexample :
    (balanceOf (exLedger BalanceFlowStatusPendingWithDraw 1000000 10) 7).Withdrawal = 10 ∧
    (UpdateAccountBalance (exLedger BalanceFlowStatusPendingWithDraw 1000000 10)
        (exTop "0xclaim" "success" (some (2 ^ 64 + 5)) 2 BalanceFlowOpWithdraw) 9).err = none ∧
    (UpdateAccountBalance (exLedger BalanceFlowStatusPendingWithDraw 1000000 10)
        (exTop "0xclaim" "success" (some (2 ^ 64 + 5)) 2 BalanceFlowOpWithdraw) 9).committed
      = true ∧
    (balanceOf (UpdateAccountBalance (exLedger BalanceFlowStatusPendingWithDraw 1000000 10)
        (exTop "0xclaim" "success" (some (2 ^ 64 + 5)) 2 BalanceFlowOpWithdraw) 9).db 7).Withdrawal
      = 5 ∧
    (UpdateAccountBalance (exLedger BalanceFlowStatusPendingWithDraw 1000000 10)
        (exTop "0xclaim" "success" (some (2 ^ 64 + 5)) 2 BalanceFlowOpWithdraw) 9).db ≠
      exLedger BalanceFlowStatusPendingWithDraw 1000000 10 := by
  decide

/-- C5. The status of the target row changes only when it is Pending, and
only to PendingWithdraw (success, Freeze), to Success (success, Recharge,
Withdraw or Unfreeze) or to Failed (any other outcome status). -/
theorem C5_target_status_transitions (db : DB) (top : TopupTxInfo) (now : Nat)
    (target : AccountBalanceFlow)
    (hkf : KeysNonzero AccountBalanceFlow.ID db.balanceFlows)
    (hop : ValidOp top.Op)
    (ht : loadTarget db top = some target) :
    ∃ t1, loadTarget (UpdateAccountBalance db top now).db top = some t1 ∧ t1.ID = target.ID ∧
      (t1 = target ∨
        (target.Status = BalanceFlowStatusPending ∧ top.Status = "success" ∧
          top.Op = BalanceFlowOpFreeze ∧ t1.Status = BalanceFlowStatusPendingWithDraw) ∨
        (target.Status = BalanceFlowStatusPending ∧ top.Status = "success" ∧
          (top.Op = BalanceFlowOpRecharge ∨ top.Op = BalanceFlowOpWithdraw ∨
            top.Op = BalanceFlowOpUnfreeze) ∧ t1.Status = BalanceFlowStatusSuccess) ∨
        (target.Status = BalanceFlowStatusPending ∧ top.Status ≠ "success" ∧
          t1.Status = BalanceFlowStatusFailed)) := by
  rcases uab_shape db top now with h | h | h
  · rw [h.2.2]
    exact ⟨target, ht, rfl, Or.inl rfl⟩
  · rw [h.2.2.1]
    exact ⟨target, ht, rfl, Or.inl rfl⟩
  · obtain ⟨_, _, refLock, target1, amount, hr, ht1, hp, _, hcase⟩ := h
    have hdbf : (UpdateAccountBalance db top now).db.balanceFlows =
        flowsAfter db top now refLock target1 amount := by
      rcases hcase with hcase | hcase
      · rw [hcase.2.2]
      · obtain ⟨_, b, _, hdb⟩ := hcase
        rw [hdb]
    have hload := loadTarget_after now amount hkf hr ht1 _ hdbf
    rw [ht] at ht1
    injection ht1 with ht1
    subst ht1
    refine ⟨_, hload, rfl, Or.inr ?_⟩
    have hstat : (targetAfter top now target amount).Status = newStatus top := rfl
    rw [hstat]
    unfold newStatus
    by_cases hs : top.Status = "success"
    · by_cases hf : top.Op = BalanceFlowOpFreeze
      · left
        exact ⟨hp, hs, hf, by simp [hs, hf]⟩
      · right; left
        refine ⟨hp, hs, ?_, by simp [hs, hf]⟩
        rcases hop with h | h | h | h
        · exact Or.inl h
        · exact absurd h hf
        · exact Or.inr (Or.inl h)
        · exact Or.inr (Or.inr h)
    · right; right
      exact ⟨hp, hs, by simp [hs]⟩

/-- C5, witness: the pending Freeze row moves to PendingWithdraw on success. -/
theorem C5_target_status_transitions_witness :
    (loadTarget (UpdateAccountBalance (exLedger BalanceFlowStatusPendingWithDraw 1000000 50)
        (exTop "0xopen" "success" (some 300) 5 BalanceFlowOpFreeze) 9).db
        (exTop "0xopen" "success" (some 300) 5 BalanceFlowOpFreeze)).map
      AccountBalanceFlow.Status = some BalanceFlowStatusPendingWithDraw := by
  obtain ⟨t1, h1, _, h3⟩ := C5_target_status_transitions
    (exLedger BalanceFlowStatusPendingWithDraw 1000000 50)
    (exTop "0xopen" "success" (some 300) 5 BalanceFlowOpFreeze) 9
    (exFlow 5 BalanceFlowOpFreeze BalanceFlowStatusPending "0xopen" 0)
    (by unfold KeysNonzero; decide) (Or.inr (Or.inl (by decide))) (by decide)
  rw [h1]
  rcases h3 with h | h | h | h
  · exfalso
    rw [h] at h1
    revert h1
    decide
  · simp only [Option.map_some']
    rw [h.2.2.2]
  · exfalso
    rcases h.2.2.1 with h | h | h <;> revert h <;> decide
  · exfalso
    exact h.2.1 (by decide)

/-- The settlement rows of a committed call. -/
theorem uab_committed_flows {db : DB} {top : TopupTxInfo} {now : Nat}
    (hc : (UpdateAccountBalance db top now).committed = true) :
    ∃ refLock target amount, loadRefLock db top = .ok refLock ∧
      loadTarget db top = some target ∧ target.Status = BalanceFlowStatusPending ∧
      top.Amount = some amount ∧
      (UpdateAccountBalance db top now).db.balanceFlows =
        flowsAfter db top now refLock target amount := by
  rcases uab_shape db top now with h | h | h
  · rw [h.2.1] at hc; cases hc
  · rw [h.2.1] at hc; cases hc
  · obtain ⟨_, _, refLock, target, amount, hr, ht, hp, ha, hcase⟩ := h
    refine ⟨refLock, target, amount, hr, ht, hp, ha, ?_⟩
    rcases hcase with hcase | hcase
    · rw [hcase.2.2]
    · obtain ⟨_, b, _, hdb⟩ := hcase
      rw [hdb]

/-- The statuses of the target row and of the paired lock row after a
committed success outcome with op Withdraw or Unfreeze. -/
theorem paired_rows_after (db : DB) (top : TopupTxInfo) (now : Nat)
    (refLock target : AccountBalanceFlow)
    (hk : KeysOK AccountBalanceFlow.ID db.balanceFlows)
    (hop : top.Op = BalanceFlowOpWithdraw ∨ top.Op = BalanceFlowOpUnfreeze)
    (hs : top.Status = "success")
    (hr : loadRefLock db top = .ok refLock) (ht : loadTarget db top = some target)
    (hne : refLock.ID ≠ target.ID)
    (hc : (UpdateAccountBalance db top now).committed = true) :
    (flowByID (UpdateAccountBalance db top now).db.balanceFlows target.ID).map
        AccountBalanceFlow.Status = some BalanceFlowStatusSuccess ∧
    (flowByID (UpdateAccountBalance db top now).db.balanceFlows refLock.ID).map
        AccountBalanceFlow.Status =
      some (if refLock.Status = BalanceFlowStatusPendingWithDraw then
              (if top.Op = BalanceFlowOpWithdraw then BalanceFlowStatusSuccess
               else BalanceFlowStatusCanceled)
            else refLock.Status) := by
  obtain ⟨refLock1, target1, amount, hr1, ht1, _, _, hdbf⟩ := uab_committed_flows hc
  rw [hr] at hr1
  injection hr1 with hr1
  subst hr1
  rw [ht] at ht1
  injection ht1 with ht1
  subst ht1
  have hnf : top.Op ≠ BalanceFlowOpFreeze := by
    rcases hop with h | h <;> rw [h] <;> decide
  rw [hdbf, flowByID_after amount hk.2 hr ht, flowByID_after amount hk.2 hr ht]
  constructor
  · rw [if_pos rfl]
    simp [targetAfter, recordChainData, newStatus, hs, hnf]
  · rw [if_neg (fun h => hne h.symm)]
    obtain ⟨_, _, hby⟩ := loadRefLock_ok hr hop
    by_cases hpw : refLock.Status = BalanceFlowStatusPendingWithDraw
    · rw [if_pos ⟨⟨hs, hop, hpw⟩, rfl⟩, if_pos hpw]
      rfl
    · rw [if_neg (fun h => hpw h.1.2.2), if_neg hpw, hby]
      rfl

/-- C6 (amended). A committed success outcome with op Withdraw moves the
Withdraw flow to Success whatever the status of its paired lock row; the
paired row moves to Success when it was PendingWithdraw and keeps its status
otherwise.  No call of `UpdateAccountBalance` moves a row from Success to
PendingWithdraw. -/
theorem C6_withdraw_success_and_paired_lock (db : DB) (top : TopupTxInfo) (now : Nat)
    (hk : KeysOK AccountBalanceFlow.ID db.balanceFlows) :
    (∀ refLock target : AccountBalanceFlow,
      top.Op = BalanceFlowOpWithdraw → top.Status = "success" →
      loadRefLock db top = .ok refLock → loadTarget db top = some target →
      refLock.ID ≠ target.ID → (UpdateAccountBalance db top now).committed = true →
      (flowByID (UpdateAccountBalance db top now).db.balanceFlows target.ID).map
          AccountBalanceFlow.Status = some BalanceFlowStatusSuccess ∧
      (flowByID (UpdateAccountBalance db top now).db.balanceFlows refLock.ID).map
          AccountBalanceFlow.Status =
        some (if refLock.Status = BalanceFlowStatusPendingWithDraw then BalanceFlowStatusSuccess
              else refLock.Status)) ∧
    (∀ (k : Nat) (r r1 : AccountBalanceFlow),
      flowByID db.balanceFlows k = some r → r.Status = BalanceFlowStatusSuccess →
      flowByID (UpdateAccountBalance db top now).db.balanceFlows k = some r1 →
      r1.Status ≠ BalanceFlowStatusPendingWithDraw) := by
  constructor
  · intro refLock target hop hs hr ht hne hc
    have := paired_rows_after db top now refLock target hk (Or.inl hop) hs hr ht hne hc
    rw [if_pos hop] at this
    exact this
  · intro k r r1 hbefore hsucc hafter
    by_cases hc : (UpdateAccountBalance db top now).committed = true
    · obtain ⟨refLock, target, amount, hr, ht, hp, _, hdbf⟩ := uab_committed_flows hc
      rw [hdbf, flowByID_after amount hk.2 hr ht] at hafter
      by_cases h1 : target.ID = k
      · exfalso
        have hrk := byKey_some_key AccountBalanceFlow.ID hbefore
        have hrm := (firstWhere_some AccountBalanceFlow.ID hbefore).1
        have htm := (firstWhere_some AccountBalanceFlow.ID ht).1
        have : r = target := key_inj AccountBalanceFlow.ID hk.1 hrm htm (by rw [hrk, h1])
        rw [this, hp] at hsucc
        revert hsucc
        decide
      · rw [if_neg h1] at hafter
        by_cases h2 : flips top refLock ∧ refLock.ID = k
        · rw [if_pos h2] at hafter
          injection hafter with hafter
          subst hafter
          simp only [flipped]
          split <;> decide
        · rw [if_neg h2, hbefore] at hafter
          injection hafter with hafter
          subst hafter
          rw [hsucc]
          decide
    · have hdb : (UpdateAccountBalance db top now).db = db := by
        rcases uab_shape db top now with h | h | h
        · exact h.2.2
        · exact h.2.2.1
        · exact absurd h.2.1 hc
      rw [hdb, hbefore] at hafter
      injection hafter with hafter
      subst hafter
      rw [hsucc]
      decide

/-- C6, witness: the paired lock row is PendingWithdraw and moves to Success
with the Withdraw flow. -/
theorem C6_withdraw_success_and_paired_lock_witness :
    (flowByID (UpdateAccountBalance (exLedger BalanceFlowStatusPendingWithDraw 1000000 50)
        (exTop "0xclaim" "success" (some 30) 2 BalanceFlowOpWithdraw) 9).db.balanceFlows 2).map
        AccountBalanceFlow.Status = some BalanceFlowStatusSuccess ∧
    (flowByID (UpdateAccountBalance (exLedger BalanceFlowStatusPendingWithDraw 1000000 50)
        (exTop "0xclaim" "success" (some 30) 2 BalanceFlowOpWithdraw) 9).db.balanceFlows 1).map
        AccountBalanceFlow.Status = some BalanceFlowStatusSuccess :=
  (C6_withdraw_success_and_paired_lock (exLedger BalanceFlowStatusPendingWithDraw 1000000 50)
      (exTop "0xclaim" "success" (some 30) 2 BalanceFlowOpWithdraw) 9
      (by unfold KeysOK KeysNonzero; decide)).1
    (exFlow 1 BalanceFlowOpFreeze BalanceFlowStatusPendingWithDraw "0xlock" 0)
    (exFlow 2 BalanceFlowOpWithdraw BalanceFlowStatusPending "0xclaim" 1)
    (by decide) (by decide) (by rfl) (by decide) (by decide) (by decide)

/-- C6, counterexample: the paired lock row is still Pending, yet the Withdraw
flow moves to Success and the lock row stays Pending. -/
theorem C6_counterexample :
    (flowByID (exLedger BalanceFlowStatusPending 1000000 50).balanceFlows 2).map
        AccountBalanceFlow.RefFlowID = some 1 ∧
    (flowByID (exLedger BalanceFlowStatusPending 1000000 50).balanceFlows 1).map
        AccountBalanceFlow.Status = some BalanceFlowStatusPending ∧
    (UpdateAccountBalance (exLedger BalanceFlowStatusPending 1000000 50)
        (exTop "0xclaim" "success" (some 30) 2 BalanceFlowOpWithdraw) 9).err = none ∧
    (flowByID (UpdateAccountBalance (exLedger BalanceFlowStatusPending 1000000 50)
        (exTop "0xclaim" "success" (some 30) 2 BalanceFlowOpWithdraw) 9).db.balanceFlows 2).map
        AccountBalanceFlow.Status = some BalanceFlowStatusSuccess ∧
    (flowByID (UpdateAccountBalance (exLedger BalanceFlowStatusPending 1000000 50)
        (exTop "0xclaim" "success" (some 30) 2 BalanceFlowOpWithdraw) 9).db.balanceFlows 1).map
        AccountBalanceFlow.Status = some BalanceFlowStatusPending := by
  decide

/-- C7 (amended). A committed success outcome with op Unfreeze moves the
Unfreeze flow to Success; its paired lock row is Canceled afterwards when it
was PendingWithdraw and keeps its status otherwise. -/
theorem C7_unfreeze_cancels_pending_withdraw_lock (db : DB) (top : TopupTxInfo) (now : Nat)
    (refLock target : AccountBalanceFlow)
    (hk : KeysOK AccountBalanceFlow.ID db.balanceFlows)
    (hop : top.Op = BalanceFlowOpUnfreeze) (hs : top.Status = "success")
    (hr : loadRefLock db top = .ok refLock) (ht : loadTarget db top = some target)
    (hne : refLock.ID ≠ target.ID)
    (hc : (UpdateAccountBalance db top now).committed = true) :
    (flowByID (UpdateAccountBalance db top now).db.balanceFlows target.ID).map
        AccountBalanceFlow.Status = some BalanceFlowStatusSuccess ∧
    (flowByID (UpdateAccountBalance db top now).db.balanceFlows refLock.ID).map
        AccountBalanceFlow.Status =
      some (if refLock.Status = BalanceFlowStatusPendingWithDraw then BalanceFlowStatusCanceled
            else refLock.Status) := by
  have := paired_rows_after db top now refLock target hk (Or.inr hop) hs hr ht hne hc
  have h2 : (if top.Op = BalanceFlowOpWithdraw then BalanceFlowStatusSuccess
      else BalanceFlowStatusCanceled) = BalanceFlowStatusCanceled :=
    if_neg (by rw [hop]; decide)
  rw [h2] at this
  exact this

/-- C7, witness: the paired lock row is PendingWithdraw and ends Canceled. -/
theorem C7_unfreeze_cancels_pending_withdraw_lock_witness :
    (flowByID (UpdateAccountBalance (exLedger BalanceFlowStatusPendingWithDraw 1000000 50)
        (exTop "0xcancel" "success" (some 30) 3 BalanceFlowOpUnfreeze) 9).db.balanceFlows 3).map
        AccountBalanceFlow.Status = some BalanceFlowStatusSuccess ∧
    (flowByID (UpdateAccountBalance (exLedger BalanceFlowStatusPendingWithDraw 1000000 50)
        (exTop "0xcancel" "success" (some 30) 3 BalanceFlowOpUnfreeze) 9).db.balanceFlows 1).map
        AccountBalanceFlow.Status = some BalanceFlowStatusCanceled :=
  C7_unfreeze_cancels_pending_withdraw_lock
    (exLedger BalanceFlowStatusPendingWithDraw 1000000 50)
    (exTop "0xcancel" "success" (some 30) 3 BalanceFlowOpUnfreeze) 9
    (exFlow 1 BalanceFlowOpFreeze BalanceFlowStatusPendingWithDraw "0xlock" 0)
    (exFlow 3 BalanceFlowOpUnfreeze BalanceFlowStatusPending "0xcancel" 1)
    (by unfold KeysOK KeysNonzero; decide)
    (by decide) (by decide) (by rfl) (by decide) (by decide) (by decide)

/-- C7, counterexample: the paired lock row is Pending; the Unfreeze flow moves
to Success without error and the lock row is still Pending, not Canceled. -/
theorem C7_counterexample :
    (flowByID (exLedger BalanceFlowStatusPending 1000000 50).balanceFlows 3).map
        AccountBalanceFlow.RefFlowID = some 1 ∧
    (UpdateAccountBalance (exLedger BalanceFlowStatusPending 1000000 50)
        (exTop "0xcancel" "success" (some 30) 3 BalanceFlowOpUnfreeze) 9).err = none ∧
    (flowByID (UpdateAccountBalance (exLedger BalanceFlowStatusPending 1000000 50)
        (exTop "0xcancel" "success" (some 30) 3 BalanceFlowOpUnfreeze) 9).db.balanceFlows 3).map
        AccountBalanceFlow.Status = some BalanceFlowStatusSuccess ∧
    (flowByID (UpdateAccountBalance (exLedger BalanceFlowStatusPending 1000000 50)
        (exTop "0xcancel" "success" (some 30) 3 BalanceFlowOpUnfreeze) 9).db.balanceFlows 1).map
        AccountBalanceFlow.Status = some BalanceFlowStatusPending ∧
    (flowByID (UpdateAccountBalance (exLedger BalanceFlowStatusPending 1000000 50)
        (exTop "0xcancel" "success" (some 30) 3 BalanceFlowOpUnfreeze) 9).db.balanceFlows 1).map
        AccountBalanceFlow.Status ≠ some BalanceFlowStatusCanceled := by
  decide

theorem foldl_max_le (l : List Nat) (a : Nat) : a ≤ l.foldl max a ∧ ∀ x ∈ l, x ≤ l.foldl max a := by
  induction l generalizing a with
  | nil => simp
  | cons y ys ih =>
    simp only [List.foldl_cons]
    obtain ⟨h1, h2⟩ := ih (max a y)
    refine ⟨le_trans (le_max_left a y) h1, ?_⟩
    intro x hx
    rcases List.mem_cons.mp hx with rfl | hx
    · exact le_trans (le_max_right a x) h1
    · exact h2 x hx

theorem lt_nextID {α : Type} (key : α → Nat) {rows : List α} {x : α} (hx : x ∈ rows) :
    key x < nextID key rows := by
  unfold nextID
  have := (foldl_max_le (rows.map key) 0).2 (key x) (List.mem_map_of_mem key hx)
  omega

theorem saveAccountFlow_eq_update {rows : List AccountFlow} {s x : AccountFlow}
    (hx : x ∈ rows) (hk : x.ID = s.ID) (h0 : s.ID ≠ 0) :
    saveAccountFlow rows s = updateRow AccountFlow.ID rows s := by
  unfold saveAccountFlow
  rw [if_neg h0, if_pos ((hasKey_iff AccountFlow.ID).mpr ⟨x, hx, hk⟩)]

/-- A row saved under the key of the row a read returned is the row the same
read returns afterwards, provided the saved row still satisfies the
condition. -/
theorem firstWhere_saveBalance (p : AccountBalance → Bool) (rows : List AccountBalance)
    (x s : AccountBalance) (hx : x ∈ rows) (hx0 : x.ID ≠ 0) (hid : s.ID = x.ID)
    (hps : p s = true)
    (hmin : ∀ y ∈ rows, p y = true → y.ID ≠ x.ID → x.ID < y.ID) :
    firstWhere AccountBalance.ID p (saveBalance rows s) = some s := by
  rw [saveBalance_eq_update hx hid.symm (by rw [hid]; exact hx0)]
  apply firstWhere_of_min
  · exact updateRow_mem_of_key _ hx hid.symm
  · exact hps
  · intro y hy hp
    obtain ⟨z, hz, rfl⟩ := mem_updateRow _ hy
    by_cases h1 : z.ID = s.ID
    · left; simp [h1]
    · right
      simp only [h1, if_false] at hp ⊢
      have := hmin z hz hp (by rw [← hid]; exact h1)
      omega

theorem firstWhere_saveBalance_created (p : AccountBalance → Bool) (rows : List AccountBalance)
    (z s : AccountBalance) (hz : z.ID = 0)
    (hnone : firstWhere AccountBalance.ID p rows = none)
    (hs : s.ID = (createBalance rows z).1.ID) (hps : p s = true) :
    firstWhere AccountBalance.ID p (saveBalance (createBalance rows z).2 s) = some s := by
  have hmem : (createBalance rows z).1 ∈ (createBalance rows z).2 := by simp [createBalance]
  have hid0 : (createBalance rows z).1.ID ≠ 0 := by
    simp only [createBalance, hz, if_true]
    exact nextID_pos _ _
  have hnone2 := (firstWhere_none AccountBalance.ID).mp hnone
  apply firstWhere_saveBalance p _ _ s hmem hid0 hs hps
  intro y hy hp hne
  exfalso
  simp only [createBalance] at hy hne
  rcases List.mem_append.mp hy with hy | hy
  · rw [hnone2 y hy] at hp
    cases hp
  · simp only [List.mem_singleton] at hy
    apply hne
    rw [hy]

theorem firstWhere_min_strict {α : Type} (key : α → Nat) {p : α → Bool} {rows : List α} {r : α}
    (h : firstWhere key p rows = some r) :
    ∀ y ∈ rows, p y = true → key y ≠ key r → key r < key y := by
  intro y hy hp hne
  have := (firstWhere_some key h).2.2 y hy hp
  omega

theorem firstSession_some {rows : List GameSession} {sid : String} {gs : GameSession}
    (h : firstSession rows sid = some gs) : gs ∈ rows ∧ gs.SessionID = sid := by
  unfold firstSession at h
  have h1 := List.find?_some h
  have h2 := List.mem_of_find?_eq_some h
  exact ⟨h2, by simpa using h1⟩

theorem firstSession_map (rows : List GameSession) (sid : String) (s1 : GameSession)
    (hs : s1.SessionID = sid) (hex : ∃ x ∈ rows, x.SessionID = sid) :
    firstSession (rows.map (fun x => if x.SessionID = sid then s1 else x)) sid = some s1 := by
  unfold firstSession
  induction rows with
  | nil => obtain ⟨x, hx, _⟩ := hex; cases hx
  | cons y ys ih =>
    simp only [List.map_cons, List.find?_cons]
    by_cases hy : y.SessionID = sid
    · simp [hy, hs]
    · simp only [hy, if_false, decide_False]
      apply ih
      obtain ⟨x, hx, hxs⟩ := hex
      rcases List.mem_cons.mp hx with rfl | hx
      · exact absurd hxs hy
      · exact ⟨x, hx, hxs⟩

/-- Under the preconditions of the `freeze` operation the handler reaches its
transaction. -/
theorem gameStart_reaches_tx (db : DB) (clientId : String) (userId : Nat) (req : GameStartReq)
    (now : Nat) (u : UserMain) (gs : GameSession) (st : GameSetting) (gi : GameInfo)
    (hext : req.ExternalID.utf8ByteSize ≤ 128) (hrem : req.Remark.utf8ByteSize ≤ 128)
    (hu : firstWhere UserMain.ID (fun u => decide (u.ID = userId)) db.users = some u)
    (hu0 : userId ≠ 0)
    (hsess : firstSession db.gameSessions req.SessionID = some gs)
    (hstart : gs.Status = GameSessionStatusStart) (hown : gs.MainID = userId)
    (hcode : req.PlaySettingCode.utf8ByteSize ≠ 0)
    (hset : firstWhere GameSetting.ID
      (fun g => decide (g.GameID = gs.GameID) && decide (g.Code = req.PlaySettingCode))
      db.gameSettings = some st)
    (hst0 : st.ID ≠ 0)
    (hinfo : firstWhere GameInfo.ID (fun g => decide (g.ID = gs.GameID)) db.gameInfos = some gi)
    (hgi0 : gi.ID ≠ 0)
    (hact : gi.Status = GameStatusActive ∨
      (gi.Status ≠ GameStatusDraft ∧ gi.Status ≠ GameStatusInactive ∧ st.AmountPerPlay = 0))
    (hnone : ∀ f ∈ db.accountFlows, isPendingFreeze userId gs.SessionID f = false) :
    GameStartHandler db clientId userId (some req) now =
      gameStartTx db clientId u gs st req now := by
  have huid : u.ID = userId := byKey_some_key UserMain.ID hu
  have hfw : firstWhere AccountFlow.ID (isPendingFreeze userId gs.SessionID) db.accountFlows
      = none := (firstWhere_none AccountFlow.ID).mpr hnone
  have hstat : ¬ (gi.Status = GameStatusDraft ∨ gi.Status = GameStatusInactive) := by
    rcases hact with h | h
    · rw [h]; decide
    · exact fun hh => hh.elim h.1 h.2.1
  have htest : ¬ (gi.Status ≠ GameStatusActive ∧ st.AmountPerPlay > 0) := by
    rcases hact with h | h
    · exact fun hh => hh.1 h
    · exact fun hh => by have := hh.2; omega
  unfold GameStartHandler
  simp only [hu, Option.getD_some, hsess, hset, hinfo]
  rw [if_neg (by omega), if_neg (by omega), if_neg (by rw [huid]; exact hu0),
    if_neg (by simp [hstart]), if_neg (by simp [hown, huid]), if_neg hcode, if_neg hst0,
    if_neg hgi0, if_neg hstat, if_neg htest]
  rw [huid, hfw]

/-- C8 (amended). With a request whose external id and remark are at most 128
bytes and whose setting code is non-empty and resolves to price `p`, a session
in Start state owned by the caller, an Active game, no Pending Freeze row for
the user and session and `available >= p`, `GameStartHandler` succeeds:
`available` drops by `p`, `frozen` becomes `(frozen + p) mod 2 ^ 64`,
`withdrawal` is unchanged and exactly one row is appended to the spend ledger,
a Pending Freeze row of amount `p` for that session whose key is the returned
operation id.  When the balance row has `available < p` the handler fails with
insufficient balance, when the user has no balance row and `p > 0` it fails
with the not-found code, and in both cases the database is unchanged. -/
theorem C8_freeze_debits_once (db : DB) (clientId : String) (userId : Nat) (req : GameStartReq)
    (now : Nat) (u : UserMain) (gs : GameSession) (st : GameSetting) (gi : GameInfo)
    (hext : req.ExternalID.utf8ByteSize ≤ 128) (hrem : req.Remark.utf8ByteSize ≤ 128)
    (hu : firstWhere UserMain.ID (fun u => decide (u.ID = userId)) db.users = some u)
    (hu0 : userId ≠ 0)
    (hsess : firstSession db.gameSessions req.SessionID = some gs)
    (hstart : gs.Status = GameSessionStatusStart) (hown : gs.MainID = userId)
    (hcode : req.PlaySettingCode.utf8ByteSize ≠ 0)
    (hset : firstWhere GameSetting.ID
      (fun g => decide (g.GameID = gs.GameID) && decide (g.Code = req.PlaySettingCode))
      db.gameSettings = some st)
    (hst0 : st.ID ≠ 0)
    (hinfo : firstWhere GameInfo.ID (fun g => decide (g.ID = gs.GameID)) db.gameInfos = some gi)
    (hgi0 : gi.ID ≠ 0) (hact : gi.Status = GameStatusActive)
    (hnone : ∀ f ∈ db.accountFlows, isPendingFreeze userId gs.SessionID f = false)
    (hkb : KeysNonzero AccountBalance.ID db.accountBalances) :
    (st.AmountPerPlay ≤ (gameBalanceOf db userId).Available →
      (GameStartHandler db clientId userId (some req) now).1 =
        okWith now (nextID AccountFlow.ID db.accountFlows) "freeze" ∧
      (GameStartHandler db clientId userId (some req) now).2.accountFlows =
        db.accountFlows ++ [freezeRow db clientId userId gs st req now] ∧
      (gameBalanceOf (GameStartHandler db clientId userId (some req) now).2 userId).Available =
        (gameBalanceOf db userId).Available - st.AmountPerPlay ∧
      (gameBalanceOf (GameStartHandler db clientId userId (some req) now).2 userId).Frozen =
        ((gameBalanceOf db userId).Frozen + st.AmountPerPlay) % 2 ^ 64 ∧
      (gameBalanceOf (GameStartHandler db clientId userId (some req) now).2 userId).Withdrawal =
        (gameBalanceOf db userId).Withdrawal) ∧
    (∀ b, firstWhere AccountBalance.ID
        (fun b => decide (b.MainID = userId) && decide (b.AssetID = 0)) db.accountBalances
        = some b → b.Available < st.AmountPerPlay →
      GameStartHandler db clientId userId (some req) now =
        (failWith now Code.CODE_ERR_BAD_PARAMS "insufficient balance", db)) ∧
    (firstWhere AccountBalance.ID
        (fun b => decide (b.MainID = userId) && decide (b.AssetID = 0)) db.accountBalances
        = none → 0 < st.AmountPerPlay →
      GameStartHandler db clientId userId (some req) now =
        (failWith now Code.CODE_ERR_OBJ_NOT_FOUND "please top up your balance", db)) := by
  have huid : u.ID = userId := byKey_some_key UserMain.ID hu
  have hreach := gameStart_reaches_tx db clientId userId req now u gs st gi hext hrem hu hu0
    hsess hstart hown hcode hset hst0 hinfo hgi0 (Or.inl hact) hnone
  have hany : db.accountFlows.any (isPendingFreeze userId gs.SessionID) = false := by
    rw [List.any_eq_false]
    intro f hf
    rw [hnone f hf]
    simp
  have hcreate : createAccountFlowChecked db.accountFlows
      { ID := 0, MainID := userId, AssetID := 0, BizType := FlowFreeze,
        Amount := st.AmountPerPlay, Direction := DirectionNone,
        ClientID := clientId, GameID := gs.GameID, ExternalID := req.ExternalID,
        ExternalRemark := req.Remark, RefFlowID := 0, Status := FlowStatusPending,
        AddTime := now, UpdateTime := now, SessionID := gs.SessionID } =
      some (freezeRow db clientId userId gs st req now,
        db.accountFlows ++ [freezeRow db clientId userId gs st req now]) := by
    simp [createAccountFlowChecked, violatesUnique, hany, createAccountFlow, freezeRow]
  rw [hreach]
  unfold gameStartTx gameBalanceOf
  simp only [huid, hcreate]
  cases hb : firstWhere AccountBalance.ID
      (fun b => decide (b.MainID = userId) && decide (b.AssetID = 0)) db.accountBalances with
  | some b =>
    obtain ⟨hbm, hbp, _⟩ := firstWhere_some AccountBalance.ID hb
    have hbp2 : b.MainID = userId ∧ b.AssetID = 0 := by simpa using hbp
    constructor
    · intro hle
      simp only [Option.getD_some] at hle ⊢
      rw [if_neg (by omega)]
      simp only
      have hsave := firstWhere_saveBalance
        (fun b => decide (b.MainID = userId) && decide (b.AssetID = 0)) db.accountBalances b
        { b with Available := b.Available - st.AmountPerPlay, Frozen := addU64 b.Frozen st.AmountPerPlay }
        hbm (hkb b hbm) rfl (by simp [hbp2.1, hbp2.2])
        (firstWhere_min_strict AccountBalance.ID hb)
      rw [hsave]
      simp [addU64, u64, freezeRow]
    · constructor
      · intro b1 hb1 hlt
        injection hb1 with hb1
        subst hb1
        simp only
        rw [if_pos hlt]
      · intro hb1
        cases hb1
  | none =>
    constructor
    · intro hle
      have hp0 : st.AmountPerPlay = 0 := by
        have : (default : AccountBalance).Available = 0 := rfl
        simp only [Option.getD_none] at hle
        omega
      simp only [Option.getD_none]
      rw [if_neg (by omega)]
      simp only
      rw [if_neg (by simp [createBalance, newAccountBalance, hp0])]
      simp only
      have hsave := firstWhere_saveBalance_created
        (fun b => decide (b.MainID = userId) && decide (b.AssetID = 0)) db.accountBalances
        (newAccountBalance userId 0)
        { (createBalance db.accountBalances (newAccountBalance userId 0)).1 with Available := (createBalance db.accountBalances (newAccountBalance userId 0)).1.Available - st.AmountPerPlay, Frozen := addU64 (createBalance db.accountBalances (newAccountBalance userId 0)).1.Frozen st.AmountPerPlay }
        rfl hb rfl (by simp [createBalance, newAccountBalance])
      rw [hsave]
      simp [addU64, u64, freezeRow, hp0, createBalance, newAccountBalance]
      exact ⟨rfl, rfl, rfl⟩
    · constructor
      · intro b1 hb1
        cases hb1
      · intro _ hp
        simp only
        rw [if_pos hp]

/-- C8, witness: available 1000000 and price 300000 give available 700000 and
frozen 300000. -/
theorem C8_freeze_debits_once_witness :
    (GameStartHandler (exGameDb GameStatusActive 1000000 0) "client" 7
        (some (exStartReq "std" "e1")) 5).1 = okWith 5 1 "freeze" ∧
    (gameBalanceOf (GameStartHandler (exGameDb GameStatusActive 1000000 0) "client" 7
        (some (exStartReq "std" "e1")) 5).2 7).Available = 700000 ∧
    (gameBalanceOf (GameStartHandler (exGameDb GameStatusActive 1000000 0) "client" 7
        (some (exStartReq "std" "e1")) 5).2 7).Frozen = 300000 := by
  have h := (C8_freeze_debits_once (exGameDb GameStatusActive 1000000 0) "client" 7
    (exStartReq "std" "e1") 5 exUser
    { (default : GameSession) with
      SessionID := "s1", GameID := 3, MainID := 7, Status := GameSessionStatusStart }
    { (default : GameSetting) with ID := 1, GameID := 3, Code := "std", AmountPerPlay := 300000 }
    { (default : GameInfo) with ID := 3, Status := GameStatusActive }
    (by decide) (by decide) (by decide) (by decide) (by decide) (by decide) (by decide)
    (by decide) (by decide) (by decide) (by decide) (by decide) (by decide) (by decide)
    (by unfold KeysNonzero; decide)).1 (by decide)
  exact ⟨h.1, h.2.2.1, h.2.2.2.1⟩

set_option maxRecDepth 100000 in
/-- C8, counterexample: every listed precondition holds, yet (a) with frozen
`2 ^ 64 - 1` the call succeeds and leaves frozen 299999, not
`frozen + 300000`, and (b) with an external id of 129 bytes the call fails
with a parameter error and changes nothing; (c) a user without a balance row
is refused a paid play with the not-found code, not with insufficient
balance. -/
theorem C8_counterexample :
    ((GameStartHandler (exGameDb GameStatusActive 1000000 (2 ^ 64 - 1)) "client" 7
        (some (exStartReq "std" "e1")) 5).1.Code = Code.CODE_SUCCESS ∧
      (gameBalanceOf (exGameDb GameStatusActive 1000000 (2 ^ 64 - 1)) 7).Frozen = 2 ^ 64 - 1 ∧
      (gameBalanceOf (GameStartHandler (exGameDb GameStatusActive 1000000 (2 ^ 64 - 1)) "client" 7
        (some (exStartReq "std" "e1")) 5).2 7).Frozen = 299999) ∧
    ((GameStartHandler (exGameDb GameStatusActive 1000000 0) "client" 7
        (some (exStartReq "std" exLongId)) 5).1.Code = Code.CODE_ERR_BAD_PARAMS ∧
      (GameStartHandler (exGameDb GameStatusActive 1000000 0) "client" 7
        (some (exStartReq "std" exLongId)) 5).2 = exGameDb GameStatusActive 1000000 0) ∧
    ((gameBalanceOf exNoBalanceDb 7).Available = 0 ∧
      (GameStartHandler exNoBalanceDb "client" 7 (some (exStartReq "std" "e1")) 5).1 =
        failWith 5 Code.CODE_ERR_OBJ_NOT_FOUND "please top up your balance") := by
  decide

/-- Under the preconditions of `endSession` the handler commits `endedDb`. -/
theorem gameEnd_commits (db : DB) (clientId : String) (userId : Nat) (req : GameEndReq)
    (now : Nat) (u : UserMain) (gs : GameSession) (ga : GameApp) (fz : AccountFlow)
    (b : AccountBalance)
    (hu : firstWhere UserMain.ID (fun u => decide (u.ID = userId)) db.users = some u)
    (hu0 : userId ≠ 0)
    (hsess : firstSession db.gameSessions req.SessionID = some gs)
    (hsid : req.SessionID ≠ "")
    (hstart : gs.Status = GameSessionStatusStart) (hown : gs.MainID = userId)
    (happ : firstWhere GameApp.ID (fun g => decide (g.ClientID = clientId)) db.gameApps = some ga)
    (hga0 : ga.ID ≠ 0) (hgame : ga.GameID = gs.GameID)
    (hkf : KeysOK AccountFlow.ID db.accountFlows)
    (hflow : accountFlowByID db.accountFlows req.GameStartID = some fz)
    (hfm : fz.MainID = userId) (hfb : fz.BizType = FlowFreeze)
    (hfs : fz.SessionID = gs.SessionID) (hfp : fz.Status = FlowStatusPending)
    (hspent : ∀ f ∈ db.accountFlows,
      ¬ (f.RefFlowID = fz.ID ∧ f.BizType = FlowSpend ∧ f.SessionID = gs.SessionID))
    (hkb : KeysNonzero AccountBalance.ID db.accountBalances)
    (hbal : firstWhere AccountBalance.ID
      (fun b => decide (b.MainID = userId) && decide (b.AssetID = 0)) db.accountBalances = some b)
    (hfro : fz.Amount ≤ b.Frozen) :
    GameEndHandler db clientId userId (some req) now =
      (okWith now (nextID AccountFlow.ID db.accountFlows) "spend",
        endedDb db clientId userId gs fz b req now) := by
  have huid : u.ID = userId := byKey_some_key UserMain.ID hu
  obtain ⟨hgsm, hgsid⟩ := firstSession_some hsess
  have hfzm : fz ∈ db.accountFlows := (firstWhere_some AccountFlow.ID hflow).1
  have hfzid : fz.ID = req.GameStartID := byKey_some_key AccountFlow.ID hflow
  have hfz0 : fz.ID ≠ 0 := hkf.2 fz hfzm
  have hbm : b ∈ db.accountBalances := (firstWhere_some AccountBalance.ID hbal).1
  have hnospent : firstWhere AccountFlow.ID
      (fun f => decide (f.RefFlowID = fz.ID) && decide (f.BizType = FlowSpend) &&
        decide (f.SessionID = gs.SessionID)) db.accountFlows = none := by
    rw [firstWhere_none]
    intro f hf
    have := hspent f hf
    by_contra hc
    apply this
    simpa using hc
  have hlock : firstWhere AccountFlow.ID
      (fun f => decide (f.ID = req.GameStartID) && decide (f.SessionID = gs.SessionID) &&
        decide (f.BizType = FlowFreeze) && decide (f.Status = FlowStatusPending))
      db.accountFlows = some fz := by
    apply firstWhere_of_min AccountFlow.ID hfzm (by simp [hfzid, hfs, hfb, hfp])
    intro y hy hp
    left
    have hyid : y.ID = req.GameStartID := by
      simp only [Bool.and_eq_true, decide_eq_true_eq] at hp
      exact hp.1.1.1
    exact key_inj AccountFlow.ID hkf.1 hy hfzm (by rw [hyid, hfzid])
  have hcreate : createAccountFlowChecked db.accountFlows
      { ID := 0, MainID := userId, AssetID := 0, BizType := FlowSpend,
        Amount := fz.Amount, Direction := DirectionOut, ClientID := clientId,
        GameID := fz.GameID, ExternalID := "", ExternalRemark := "",
        RefFlowID := fz.ID, Status := FlowStatusDone, AddTime := now,
        UpdateTime := now, SessionID := gs.SessionID } =
      some (spendRow db clientId userId gs fz now,
        db.accountFlows ++ [spendRow db clientId userId gs fz now]) := by
    have hne : FlowSpend ≠ FlowFreeze := by decide
    simp [createAccountFlowChecked, violatesUnique, createAccountFlow, spendRow, hne]
  have hsaveb : saveBalance db.accountBalances { b with Frozen := b.Frozen - fz.Amount } =
      updateRow AccountBalance.ID db.accountBalances { b with Frozen := b.Frozen - fz.Amount } :=
    saveBalance_eq_update hbm rfl (hkb b hbm)
  have hsavef : saveAccountFlow (db.accountFlows ++ [spendRow db clientId userId gs fz now])
      { fz with Status := FlowStatusDone, UpdateTime := now } =
      updateRow AccountFlow.ID db.accountFlows
        { fz with Status := FlowStatusDone, UpdateTime := now } ++
        [spendRow db clientId userId gs fz now] := by
    rw [saveAccountFlow_eq_update (List.mem_append_left _ hfzm)
      (show fz.ID = ({ fz with Status := FlowStatusDone, UpdateTime := now } : AccountFlow).ID
        from rfl) hfz0]
    unfold updateRow
    rw [List.map_append]
    congr 1
    have hlt := lt_nextID AccountFlow.ID hfzm
    have hne : (spendRow db clientId userId gs fz now).ID ≠ fz.ID := by
      show nextID AccountFlow.ID db.accountFlows ≠ fz.ID
      omega
    simp [hne]
  have hsaves : saveGameSession db.gameSessions (endedSession gs req fz now) =
      some (db.gameSessions.map
        (fun x => if x.SessionID = gs.SessionID then endedSession gs req fz now else x)) := by
    unfold saveGameSession
    have h1 : (endedSession gs req fz now).SessionID = gs.SessionID := rfl
    rw [h1, if_neg (by rw [hgsid]; exact hsid)]
    rw [if_pos (by
      rw [List.any_eq_true]
      exact ⟨gs, hgsm, by simp⟩)]
  unfold GameEndHandler
  simp only [hu, hsess, happ]
  rw [if_neg (by rw [huid]; exact hu0), if_neg (by simp [hstart]),
    if_neg (by simp [hown, huid]), if_neg hga0, if_neg (by simp [hgame])]
  have hflow2 : firstWhere AccountFlow.ID (fun f => decide (f.ID = req.GameStartID))
      db.accountFlows = some fz := hflow
  simp only [hflow2]
  rw [if_neg hfz0, if_neg (by simp [hfm, huid]), if_neg (by simp [hfb]),
    if_neg (by simp [hfs])]
  simp only [hnospent]
  unfold gameEndTx
  simp only [hlock, huid, hbal, hcreate]
  rw [if_neg (by omega)]
  have hamt : (spendRow db clientId userId gs fz now).Amount = fz.Amount := rfl
  rw [hsaveb, hsavef, hamt]
  have hs2 : saveGameSession db.gameSessions
      { gs with Status := GameSessionStatusEnd, EndTime := now, Score := req.Score,
                SpendAmountN := fz.Amount } =
      some (db.gameSessions.map
        (fun x => if x.SessionID = gs.SessionID then endedSession gs req fz now else x)) := hsaves
  rw [hs2]
  rfl

theorem updateRow_key_mem {α : Type} (key : α → Nat) {rows : List α} {s y : α}
    (hy : y ∈ updateRow key rows s) : ∃ x ∈ rows, key x = key y := by
  have h : key y ∈ (updateRow key rows s).map key := List.mem_map_of_mem key hy
  rw [updateRow_map_key] at h
  obtain ⟨x, hx, hk⟩ := List.mem_map.mp h
  exact ⟨x, hx, hk⟩

/-- C10. With the session in Start state, owned by the caller and of the
calling client's game, and the referenced flow a Pending Freeze row of the
same user and session with amount `p <= frozen` that no Spend row references
yet, `GameEndHandler` succeeds: `frozen` drops by `p`, `available` and
`withdrawal` are unchanged, a new Spend row (Done, Out, amount `p`, referencing
the Freeze row) exists under the returned operation id, the Freeze row is
Done, and the session is in End state with the reported score and spend
amount `p`. -/
theorem C10_end_session_settles_freeze (db : DB) (clientId : String) (userId : Nat)
    (req : GameEndReq) (now : Nat) (u : UserMain) (gs : GameSession) (ga : GameApp)
    (fz : AccountFlow) (b : AccountBalance)
    (hu : firstWhere UserMain.ID (fun u => decide (u.ID = userId)) db.users = some u)
    (hu0 : userId ≠ 0)
    (hsess : firstSession db.gameSessions req.SessionID = some gs)
    (hsid : req.SessionID ≠ "")
    (hstart : gs.Status = GameSessionStatusStart) (hown : gs.MainID = userId)
    (happ : firstWhere GameApp.ID (fun g => decide (g.ClientID = clientId)) db.gameApps = some ga)
    (hga0 : ga.ID ≠ 0) (hgame : ga.GameID = gs.GameID)
    (hkf : KeysOK AccountFlow.ID db.accountFlows)
    (hflow : accountFlowByID db.accountFlows req.GameStartID = some fz)
    (hfm : fz.MainID = userId) (hfb : fz.BizType = FlowFreeze)
    (hfs : fz.SessionID = gs.SessionID) (hfp : fz.Status = FlowStatusPending)
    (hspent : ∀ f ∈ db.accountFlows,
      ¬ (f.RefFlowID = fz.ID ∧ f.BizType = FlowSpend ∧ f.SessionID = gs.SessionID))
    (hkb : KeysNonzero AccountBalance.ID db.accountBalances)
    (hbal : firstWhere AccountBalance.ID
      (fun b => decide (b.MainID = userId) && decide (b.AssetID = 0)) db.accountBalances = some b)
    (hfro : fz.Amount ≤ b.Frozen) :
    (GameEndHandler db clientId userId (some req) now).1 =
        okWith now (nextID AccountFlow.ID db.accountFlows) "spend" ∧
    (gameBalanceOf (GameEndHandler db clientId userId (some req) now).2 userId).Frozen =
        b.Frozen - fz.Amount ∧
    (gameBalanceOf (GameEndHandler db clientId userId (some req) now).2 userId).Available =
        b.Available ∧
    (gameBalanceOf (GameEndHandler db clientId userId (some req) now).2 userId).Withdrawal =
        b.Withdrawal ∧
    (∀ f ∈ db.accountFlows, f.ID ≠ nextID AccountFlow.ID db.accountFlows) ∧
    (∃ sp, accountFlowByID (GameEndHandler db clientId userId (some req) now).2.accountFlows
          (nextID AccountFlow.ID db.accountFlows) = some sp ∧
      sp.BizType = FlowSpend ∧ sp.Status = FlowStatusDone ∧ sp.Direction = DirectionOut ∧
      sp.Amount = fz.Amount ∧ sp.RefFlowID = fz.ID ∧ sp.MainID = userId ∧
      sp.SessionID = req.SessionID) ∧
    (accountFlowByID (GameEndHandler db clientId userId (some req) now).2.accountFlows
        fz.ID).map AccountFlow.Status = some FlowStatusDone ∧
    (∃ s1, firstSession (GameEndHandler db clientId userId (some req) now).2.gameSessions
          req.SessionID = some s1 ∧
      s1.Status = GameSessionStatusEnd ∧ s1.Score = req.Score ∧
      s1.SpendAmountN = fz.Amount) := by
  have hcommit := gameEnd_commits db clientId userId req now u gs ga fz b hu hu0 hsess hsid
    hstart hown happ hga0 hgame hkf hflow hfm hfb hfs hfp hspent hkb hbal hfro
  obtain ⟨hgsm, hgsid⟩ := firstSession_some hsess
  have hfzm : fz ∈ db.accountFlows := (firstWhere_some AccountFlow.ID hflow).1
  obtain ⟨hbm, hbp, _⟩ := firstWhere_some AccountBalance.ID hbal
  have hbp2 : b.MainID = userId ∧ b.AssetID = 0 := by simpa using hbp
  have hspid : (spendRow db clientId userId gs fz now).ID = nextID AccountFlow.ID db.accountFlows :=
    rfl
  have hbalafter : gameBalanceOf (endedDb db clientId userId gs fz b req now) userId =
      { b with Frozen := b.Frozen - fz.Amount } := by
    unfold gameBalanceOf endedDb
    simp only
    rw [← saveBalance_eq_update hbm
      (show b.ID = ({ b with Frozen := b.Frozen - fz.Amount } : AccountBalance).ID from rfl)
      (hkb b hbm)]
    have hsave := firstWhere_saveBalance
      (fun b => decide (b.MainID = userId) && decide (b.AssetID = 0)) db.accountBalances b
      { b with Frozen := b.Frozen - fz.Amount } hbm (hkb b hbm) rfl
      (by simp [hbp2.1, hbp2.2]) (firstWhere_min_strict AccountBalance.ID hbal)
    rw [hsave]
    rfl
  have hfst : (GameEndHandler db clientId userId (some req) now).1 =
      okWith now (nextID AccountFlow.ID db.accountFlows) "spend" := by rw [hcommit]
  have hsnd : (GameEndHandler db clientId userId (some req) now).2 =
      endedDb db clientId userId gs fz b req now := by rw [hcommit]
  rw [hfst, hsnd, hbalafter]
  refine ⟨rfl, rfl, rfl, rfl, ?_, ?_, ?_, ?_⟩
  · intro f hf
    have := lt_nextID AccountFlow.ID hf
    omega
  · refine ⟨spendRow db clientId userId gs fz now, ?_, rfl, rfl, rfl, rfl, rfl, rfl, hgsid⟩
    unfold accountFlowByID endedDb
    simp only
    apply firstWhere_of_min
    · simp
    · simp [hspid]
    · intro y hy hp
      left
      rcases List.mem_append.mp hy with hy | hy
      · exfalso
        obtain ⟨x, hx, hk⟩ := updateRow_key_mem AccountFlow.ID hy
        have := lt_nextID AccountFlow.ID hx
        have hyid : y.ID = nextID AccountFlow.ID db.accountFlows := by simpa using hp
        omega
      · simpa using hy
  · unfold accountFlowByID endedDb
    simp only
    have hfirst : firstWhere AccountFlow.ID (fun f => decide (f.ID = fz.ID))
        (updateRow AccountFlow.ID db.accountFlows
          { fz with Status := FlowStatusDone, UpdateTime := now } ++
          [spendRow db clientId userId gs fz now]) =
        some { fz with Status := FlowStatusDone, UpdateTime := now } := by
      apply firstWhere_of_min
      · apply List.mem_append_left
        exact updateRow_mem_of_key AccountFlow.ID hfzm rfl
      · simp
      · intro y hy hp
        left
        have hyid : y.ID = fz.ID := by simpa using hp
        rcases List.mem_append.mp hy with hy | hy
        · obtain ⟨x, _, rfl⟩ := mem_updateRow _ hy
          by_cases hx : x.ID = fz.ID
          · simp [hx]
          · exfalso
            simp only [hx, if_false] at hyid
        · exfalso
          simp only [List.mem_singleton] at hy
          rw [hy, hspid] at hyid
          have := lt_nextID AccountFlow.ID hfzm
          omega
    rw [hfirst]
    rfl
  · refine ⟨endedSession gs req fz now, ?_, rfl, rfl, rfl⟩
    unfold endedDb
    simp only
    rw [hgsid]
    exact firstSession_map db.gameSessions req.SessionID _ hgsid ⟨gs, hgsm, hgsid⟩

/-- C10, witness: the scenario of the specification; available 700000 and
frozen 300000 become available 700000 and frozen 0. -/
theorem C10_end_session_settles_freeze_witness :
    (gameBalanceOf exFrozenDb 7).Available = 700000 ∧
    (gameBalanceOf exFrozenDb 7).Frozen = 300000 ∧
    (GameEndHandler exFrozenDb "client" 7 (some (exEndReq 1)) 6).1 = okWith 6 2 "spend" ∧
    (gameBalanceOf (GameEndHandler exFrozenDb "client" 7 (some (exEndReq 1)) 6).2 7).Frozen
      = 0 ∧
    (gameBalanceOf (GameEndHandler exFrozenDb "client" 7 (some (exEndReq 1)) 6).2 7).Available
      = 700000 := by
  have h := C10_end_session_settles_freeze exFrozenDb "client" 7 (exEndReq 1) 6 exUser
    { (default : GameSession) with
      SessionID := "s1", GameID := 3, MainID := 7, Status := GameSessionStatusStart }
    { (default : GameApp) with ID := 1, GameID := 3, ClientID := "client" }
    (freezeRow (exGameDb GameStatusActive 1000000 0) "client" 7
      { (default : GameSession) with
        SessionID := "s1", GameID := 3, MainID := 7, Status := GameSessionStatusStart }
      { (default : GameSetting) with ID := 1, GameID := 3, Code := "std", AmountPerPlay := 300000 }
      (exStartReq "std" "e1") 5)
    { ID := 1, MainID := 7, AssetID := 0, Available := 700000, Frozen := 300000,
      UpdateTime := 0, Withdrawal := 20 }
    (by decide) (by decide) (by decide) (by decide) (by decide) (by decide) (by decide)
    (by decide) (by decide) (by unfold KeysOK KeysNonzero; decide) (by decide) (by decide)
    (by decide) (by decide) (by decide) (by decide) (by unfold KeysNonzero; decide)
    (by decide) (by decide)
  exact ⟨by decide, by decide, h.1, h.2.1, h.2.2.1⟩

theorem failWith_code_ne (now : Nat) (c : Code) (msg : String) (db : DB)
    (hc : c ≠ Code.CODE_SUCCESS) : ¬ ((failWith now c msg, db).1.Code = Code.CODE_SUCCESS) := by
  simpa [failWith] using hc

/-- The checks a successful `freeze` call passed. -/
theorem gameStart_success_guards (db : DB) (clientId : String) (userId : Nat)
    (req : GameStartReq) (now : Nat)
    (h : (GameStartHandler db clientId userId (some req) now).1.Code = Code.CODE_SUCCESS) :
    ∃ u gs st gi,
      req.ExternalID.utf8ByteSize ≤ 128 ∧ req.Remark.utf8ByteSize ≤ 128 ∧
      firstWhere UserMain.ID (fun u => decide (u.ID = userId)) db.users = some u ∧
      userId ≠ 0 ∧
      firstSession db.gameSessions req.SessionID = some gs ∧
      gs.Status = GameSessionStatusStart ∧ gs.MainID = userId ∧
      req.PlaySettingCode.utf8ByteSize ≠ 0 ∧
      firstWhere GameSetting.ID
        (fun g => decide (g.GameID = gs.GameID) && decide (g.Code = req.PlaySettingCode))
        db.gameSettings = some st ∧
      st.ID ≠ 0 ∧
      firstWhere GameInfo.ID (fun g => decide (g.ID = gs.GameID)) db.gameInfos = some gi ∧
      gi.ID ≠ 0 ∧
      (gi.Status = GameStatusActive ∨
        (gi.Status ≠ GameStatusDraft ∧ gi.Status ≠ GameStatusInactive ∧ st.AmountPerPlay = 0)) := by
  unfold GameStartHandler at h
  dsimp only at h
  by_cases c1 : req.ExternalID.utf8ByteSize > 128
  · rw [if_pos c1] at h
    exact absurd h (failWith_code_ne _ _ _ _ (by decide))
  rw [if_neg c1] at h
  by_cases c2 : req.Remark.utf8ByteSize > 128
  · rw [if_pos c2] at h
    exact absurd h (failWith_code_ne _ _ _ _ (by decide))
  rw [if_neg c2] at h
  by_cases c3 : ((firstWhere UserMain.ID (fun u => decide (u.ID = userId)) db.users).getD
      default).ID = 0
  · rw [if_pos c3] at h
    exact absurd h (failWith_code_ne _ _ _ _ (by decide))
  rw [if_neg c3] at h
  cases hu : firstWhere UserMain.ID (fun u => decide (u.ID = userId)) db.users with
  | none =>
    rw [hu] at c3
    exact absurd rfl c3
  | some u =>
    rw [hu] at h c3
    simp only [Option.getD_some] at h c3
    have huid : u.ID = userId := byKey_some_key UserMain.ID hu
    cases hs : firstSession db.gameSessions req.SessionID with
    | none =>
      rw [hs] at h
      exact absurd h (failWith_code_ne _ _ _ _ (by decide))
    | some gs =>
      rw [hs] at h
      dsimp only at h
      by_cases c4 : gs.Status ≠ GameSessionStatusStart
      · rw [if_pos c4] at h
        exact absurd h (failWith_code_ne _ _ _ _ (by decide))
      rw [if_neg c4] at h
      by_cases c5 : gs.MainID ≠ u.ID
      · rw [if_pos c5] at h
        exact absurd h (failWith_code_ne _ _ _ _ (by decide))
      rw [if_neg c5] at h
      by_cases c6 : req.PlaySettingCode.utf8ByteSize = 0
      · rw [if_pos c6] at h
        exact absurd h (failWith_code_ne _ _ _ _ (by decide))
      rw [if_neg c6] at h
      by_cases c7 : ((firstWhere GameSetting.ID
          (fun g => decide (g.GameID = gs.GameID) && decide (g.Code = req.PlaySettingCode))
          db.gameSettings).getD default).ID = 0
      · rw [if_pos c7] at h
        exact absurd h (failWith_code_ne _ _ _ _ (by decide))
      rw [if_neg c7] at h
      by_cases c8 : ((firstWhere GameInfo.ID (fun g => decide (g.ID = gs.GameID))
          db.gameInfos).getD default).ID = 0
      · rw [if_pos c8] at h
        exact absurd h (failWith_code_ne _ _ _ _ (by decide))
      rw [if_neg c8] at h
      cases hst : firstWhere GameSetting.ID
          (fun g => decide (g.GameID = gs.GameID) && decide (g.Code = req.PlaySettingCode))
          db.gameSettings with
      | none =>
        rw [hst] at c7
        exact absurd rfl c7
      | some st =>
        cases hgi : firstWhere GameInfo.ID (fun g => decide (g.ID = gs.GameID)) db.gameInfos with
        | none =>
          rw [hgi] at c8
          exact absurd rfl c8
        | some gi =>
          rw [hst] at h c7
          rw [hgi] at h c8
          simp only [Option.getD_some] at h c7 c8
          by_cases c9 : gi.Status = GameStatusDraft ∨ gi.Status = GameStatusInactive
          · rw [if_pos c9] at h
            exact absurd h (failWith_code_ne _ _ _ _ (by decide))
          rw [if_neg c9] at h
          by_cases c10 : gi.Status ≠ GameStatusActive ∧ st.AmountPerPlay > 0
          · rw [if_pos c10] at h
            exact absurd h (failWith_code_ne _ _ _ _ (by decide))
          refine ⟨u, gs, st, gi, by omega, by omega, rfl, by rw [← huid]; exact c3, rfl,
            not_not.mp c4, by rw [← huid]; exact not_not.mp c5, c6, hst, c7, hgi, c8, ?_⟩
          by_cases hact : gi.Status = GameStatusActive
          · exact Or.inl hact
          · right
            refine ⟨fun hh => c9 (Or.inl hh), fun hh => c9 (Or.inr hh), ?_⟩
            by_contra hp
            exact c10 ⟨hact, by omega⟩

/-- A `freeze` call that passes the checks and finds a Pending Freeze row with
a positive key returns that key and leaves the database as it is. -/
theorem gameStart_returns_existing (db : DB) (clientId : String) (userId : Nat)
    (req : GameStartReq) (now : Nat) (u : UserMain) (gs : GameSession) (st : GameSetting)
    (gi : GameInfo) (e : AccountFlow)
    (hext : req.ExternalID.utf8ByteSize ≤ 128) (hrem : req.Remark.utf8ByteSize ≤ 128)
    (hu : firstWhere UserMain.ID (fun u => decide (u.ID = userId)) db.users = some u)
    (hu0 : userId ≠ 0)
    (hsess : firstSession db.gameSessions req.SessionID = some gs)
    (hstart : gs.Status = GameSessionStatusStart) (hown : gs.MainID = userId)
    (hcode : req.PlaySettingCode.utf8ByteSize ≠ 0)
    (hset : firstWhere GameSetting.ID
      (fun g => decide (g.GameID = gs.GameID) && decide (g.Code = req.PlaySettingCode))
      db.gameSettings = some st)
    (hst0 : st.ID ≠ 0)
    (hinfo : firstWhere GameInfo.ID (fun g => decide (g.ID = gs.GameID)) db.gameInfos = some gi)
    (hgi0 : gi.ID ≠ 0)
    (hact : gi.Status = GameStatusActive ∨
      (gi.Status ≠ GameStatusDraft ∧ gi.Status ≠ GameStatusInactive ∧ st.AmountPerPlay = 0))
    (he : firstWhere AccountFlow.ID (isPendingFreeze userId gs.SessionID) db.accountFlows
      = some e)
    (he0 : 0 < e.ID) :
    GameStartHandler db clientId userId (some req) now = (okWith now e.ID "freeze", db) := by
  have huid : u.ID = userId := byKey_some_key UserMain.ID hu
  have hstat : ¬ (gi.Status = GameStatusDraft ∨ gi.Status = GameStatusInactive) := by
    rcases hact with h | h
    · rw [h]; decide
    · exact fun hh => hh.elim h.1 h.2.1
  have htest : ¬ (gi.Status ≠ GameStatusActive ∧ st.AmountPerPlay > 0) := by
    rcases hact with h | h
    · exact fun hh => hh.1 h
    · exact fun hh => by have := hh.2; omega
  unfold GameStartHandler
  simp only [hu, Option.getD_some, hsess, hset, hinfo]
  rw [if_neg (by omega), if_neg (by omega), if_neg (by rw [huid]; exact hu0),
    if_neg (by simp [hstart]), if_neg (by simp [hown, huid]), if_neg hcode, if_neg hst0,
    if_neg hgi0, if_neg hstat, if_neg htest]
  rw [huid, he]
  simp only
  rw [if_pos he0]

/-- A transaction of `GameStartHandler` that succeeds while the user has no
Pending Freeze row for the session appends the freeze row and returns its
key. -/
theorem gameStartTx_success (db : DB) (clientId : String) (u : UserMain) (gs : GameSession)
    (st : GameSetting) (req : GameStartReq) (now : Nat)
    (hnone : ∀ f ∈ db.accountFlows, isPendingFreeze u.ID gs.SessionID f = false)
    (h : (gameStartTx db clientId u gs st req now).1.Code = Code.CODE_SUCCESS) :
    ∃ bal, gameStartTx db clientId u gs st req now =
      (okWith now (nextID AccountFlow.ID db.accountFlows) "freeze",
        { db with
          accountFlows := db.accountFlows ++ [freezeRow db clientId u.ID gs st req now]
          accountBalances := bal }) := by
  have hany : db.accountFlows.any (isPendingFreeze u.ID gs.SessionID) = false := by
    rw [List.any_eq_false]
    intro f hf
    rw [hnone f hf]
    simp
  have hcreate : createAccountFlowChecked db.accountFlows
      { ID := 0, MainID := u.ID, AssetID := 0, BizType := FlowFreeze,
        Amount := st.AmountPerPlay, Direction := DirectionNone,
        ClientID := clientId, GameID := gs.GameID, ExternalID := req.ExternalID,
        ExternalRemark := req.Remark, RefFlowID := 0, Status := FlowStatusPending,
        AddTime := now, UpdateTime := now, SessionID := gs.SessionID } =
      some (freezeRow db clientId u.ID gs st req now,
        db.accountFlows ++ [freezeRow db clientId u.ID gs st req now]) := by
    simp [createAccountFlowChecked, violatesUnique, hany, createAccountFlow, freezeRow]
  unfold gameStartTx at h ⊢
  simp only [hcreate] at h ⊢
  cases hb : firstWhere AccountBalance.ID
      (fun b => decide (b.MainID = u.ID) && decide (b.AssetID = 0)) db.accountBalances with
  | some b =>
    rw [hb] at h
    simp only at h ⊢
    by_cases hlt : b.Available < st.AmountPerPlay
    · rw [if_pos hlt] at h
      exact absurd h (failWith_code_ne _ _ _ _ (by decide))
    · rw [if_neg hlt]
      exact ⟨_, rfl⟩
  | none =>
    rw [hb] at h
    simp only at h ⊢
    by_cases hp : st.AmountPerPlay > 0
    · rw [if_pos hp] at h
      exact absurd h (failWith_code_ne _ _ _ _ (by decide))
    · rw [if_neg hp] at h ⊢
      simp only at h ⊢
      by_cases hlt : (createBalance db.accountBalances (newAccountBalance u.ID 0)).1.Available
          < st.AmountPerPlay
      · rw [if_pos hlt] at h
        exact absurd h (failWith_code_ne _ _ _ _ (by decide))
      · rw [if_neg hlt]
        exact ⟨_, rfl⟩

/-- C9 (amended). After a successful `freeze` call, an immediately following
call for the same session by the same user whose external id and remark are
at most 128 bytes and whose setting code is non-empty and resolves to a
setting that is free or belongs to an Active game returns the same operation
id and leaves the database exactly as the first call left it; when the
first call found no Pending Freeze row for the user and session, there is
exactly one afterwards. -/
theorem C9_freeze_retry_is_idempotent (db : DB) (clientId clientId2 : String) (userId : Nat)
    (req req2 : GameStartReq) (now now2 : Nat) (gs : GameSession) (gi : GameInfo)
    (st2 : GameSetting)
    (hkf : KeysNonzero AccountFlow.ID db.accountFlows)
    (h1 : (GameStartHandler db clientId userId (some req) now).1.Code = Code.CODE_SUCCESS)
    (hsame : req2.SessionID = req.SessionID)
    (hext2 : req2.ExternalID.utf8ByteSize ≤ 128) (hrem2 : req2.Remark.utf8ByteSize ≤ 128)
    (hcode2 : req2.PlaySettingCode.utf8ByteSize ≠ 0)
    (hsess : firstSession db.gameSessions req.SessionID = some gs)
    (hinfo : firstWhere GameInfo.ID (fun g => decide (g.ID = gs.GameID)) db.gameInfos = some gi)
    (hset2 : firstWhere GameSetting.ID
      (fun g => decide (g.GameID = gs.GameID) && decide (g.Code = req2.PlaySettingCode))
      db.gameSettings = some st2)
    (hst2 : st2.ID ≠ 0)
    (hprice : gi.Status = GameStatusActive ∨ st2.AmountPerPlay = 0) :
    ∃ id, (GameStartHandler db clientId userId (some req) now).1 = okWith now id "freeze" ∧
      GameStartHandler (GameStartHandler db clientId userId (some req) now).2 clientId2 userId
          (some req2) now2 =
        (okWith now2 id "freeze", (GameStartHandler db clientId userId (some req) now).2) ∧
      ((∀ f ∈ db.accountFlows, isPendingFreeze userId gs.SessionID f = false) →
        ((GameStartHandler db clientId userId (some req) now).2.accountFlows.filter
          (isPendingFreeze userId gs.SessionID)).length = 1) := by
  obtain ⟨u, gs1, st, gi1, hext, hrem, hu, hu0, hsess1, hstart, hown, hcode, hset, hst0, hinfo1,
    hgi0, hact⟩ := gameStart_success_guards db clientId userId req now h1
  rw [hsess] at hsess1
  injection hsess1 with hsess1
  subst hsess1
  rw [hinfo] at hinfo1
  injection hinfo1 with hinfo1
  subst hinfo1
  have huid : u.ID = userId := byKey_some_key UserMain.ID hu
  have hact2 : gi.Status = GameStatusActive ∨
      (gi.Status ≠ GameStatusDraft ∧ gi.Status ≠ GameStatusInactive ∧ st2.AmountPerPlay = 0) := by
    rcases hprice with hp | hp
    · exact Or.inl hp
    · rcases hact with ha | ha
      · exact Or.inl ha
      · exact Or.inr ⟨ha.1, ha.2.1, hp⟩
  cases he : firstWhere AccountFlow.ID (isPendingFreeze userId gs.SessionID) db.accountFlows with
  | some e =>
    have he0 : 0 < e.ID := by
      have := hkf e (firstWhere_some AccountFlow.ID he).1
      omega
    have hfirst := gameStart_returns_existing db clientId userId req now u gs st gi e hext hrem
      hu hu0 hsess hstart hown hcode hset hst0 hinfo hgi0 hact he he0
    rw [hfirst]
    refine ⟨e.ID, rfl, ?_, ?_⟩
    · exact gameStart_returns_existing db clientId2 userId req2 now2 u gs st2 gi e hext2 hrem2
        hu hu0 (by rw [hsame]; exact hsess) hstart hown hcode2 hset2 hst2 hinfo hgi0 hact2 he he0
    · intro hnone
      have := (firstWhere_some AccountFlow.ID he).2.1
      rw [hnone e (firstWhere_some AccountFlow.ID he).1] at this
      cases this
  | none =>
    have hnone := (firstWhere_none AccountFlow.ID).mp he
    have hreach := gameStart_reaches_tx db clientId userId req now u gs st gi hext hrem hu hu0
      hsess hstart hown hcode hset hst0 hinfo hgi0 hact hnone
    rw [hreach] at h1 ⊢
    obtain ⟨bal, htx⟩ := gameStartTx_success db clientId u gs st req now
      (by rw [huid]; exact hnone) h1
    rw [htx]
    have hrowp : isPendingFreeze userId gs.SessionID (freezeRow db clientId u.ID gs st req now)
        = true := by
      simp [isPendingFreeze, freezeRow, huid]
    have hrow0 : 0 < (freezeRow db clientId u.ID gs st req now).ID := by
      have := nextID_pos AccountFlow.ID db.accountFlows
      show 0 < nextID AccountFlow.ID db.accountFlows
      omega
    refine ⟨nextID AccountFlow.ID db.accountFlows, rfl, ?_, ?_⟩
    · have hfind : firstWhere AccountFlow.ID (isPendingFreeze userId gs.SessionID)
          (db.accountFlows ++ [freezeRow db clientId u.ID gs st req now]) =
          some (freezeRow db clientId u.ID gs st req now) := by
        apply firstWhere_of_min
        · simp
        · exact hrowp
        · intro y hy hp
          left
          rcases List.mem_append.mp hy with hy | hy
          · rw [hnone y hy] at hp
            cases hp
          · simpa using hy
      exact gameStart_returns_existing
        { db with accountFlows := db.accountFlows ++ [freezeRow db clientId u.ID gs st req now], accountBalances := bal }
        clientId2 userId req2 now2 u gs st2 gi
        (freezeRow db clientId u.ID gs st req now) hext2 hrem2 hu hu0
        (by rw [hsame]; exact hsess) hstart hown hcode2 hset2 hst2 hinfo hgi0 hact2 hfind hrow0
    · intro _
      simp only
      rw [List.filter_append]
      have hf0 : db.accountFlows.filter (isPendingFreeze userId gs.SessionID) = [] := by
        rw [List.filter_eq_nil_iff]
        intro f hf
        rw [hnone f hf]
        simp
      rw [hf0]
      simp [hrowp]

/-- C9, witness: the freeze of the scenario, retried with another setting code
and another external id, returns operation id 1 again and changes nothing. -/
theorem C9_freeze_retry_is_idempotent_witness :
    (GameStartHandler (exGameDb GameStatusActive 1000000 0) "client" 7
        (some (exStartReq "std" "e1")) 5).1 = okWith 5 1 "freeze" ∧
    GameStartHandler exFrozenDb "client" 7 (some (exStartReq "free" "e2")) 6 =
        (okWith 6 1 "freeze", exFrozenDb) := by
  obtain ⟨id, h1, h2, _⟩ := C9_freeze_retry_is_idempotent (exGameDb GameStatusActive 1000000 0)
    "client" "client" 7 (exStartReq "std" "e1") (exStartReq "free" "e2") 5 6
    { (default : GameSession) with
      SessionID := "s1", GameID := 3, MainID := 7, Status := GameSessionStatusStart }
    { (default : GameInfo) with ID := 3, Status := GameStatusActive }
    { (default : GameSetting) with ID := 2, GameID := 3, Code := "free", AmountPerPlay := 0 }
    (by unfold KeysNonzero; decide) (by decide) (by decide) (by decide) (by decide) (by decide)
    (by decide) (by decide) (by decide) (by decide) (Or.inl (by decide))
  have hfirst : (GameStartHandler (exGameDb GameStatusActive 1000000 0) "client" 7
      (some (exStartReq "std" "e1")) 5).1 = okWith 5 1 "freeze" := by decide
  have hid : id = 1 := by
    rw [hfirst] at h1
    simp only [okWith, Response.mk.injEq, Option.some.injEq, OpData.mk.injEq] at h1
    exact h1.2.2.2.1.symm
  rw [hid] at h2
  exact ⟨hfirst, h2⟩

set_option maxRecDepth 100000 in
/-- C9, counterexample: after a successful freeze, (a) a retry for the same
session by the same user with an external id of 129 bytes is rejected and
returns no operation id, and (b) in a game under test a retry with the valid
paid setting code `std` is rejected as well. -/
theorem C9_counterexample :
    ((GameStartHandler (exGameDb GameStatusActive 1000000 0) "client" 7
        (some (exStartReq "std" "e1")) 5).1 = okWith 5 1 "freeze" ∧
      (GameStartHandler (GameStartHandler (exGameDb GameStatusActive 1000000 0) "client" 7
        (some (exStartReq "std" "e1")) 5).2 "client" 7 (some (exStartReq "std" exLongId)) 6).1
        = failWith 6 Code.CODE_ERR_BAD_PARAMS "external_id too long") ∧
    ((GameStartHandler (exGameDb GameStatusTesting 1000000 0) "client" 7
        (some (exStartReq "free" "e1")) 5).1 = okWith 5 1 "freeze" ∧
      (GameStartHandler (GameStartHandler (exGameDb GameStatusTesting 1000000 0) "client" 7
        (some (exStartReq "free" "e1")) 5).2 "client" 7 (some (exStartReq "std" "e1")) 6).1
        = failWith 6 Code.CODE_ERR_BAD_PARAMS
            "game is testing, but play setting amount per play is not 0") := by
  decide

/-- After a committed `endSession` the session row is in End state, so every
further call for the same session stops at the status check of line 527,
before the idempotency read of lines 584 to 597. -/
theorem gameEnd_retry_rejected (db : DB) (clientId : String) (userId : Nat) (req : GameEndReq)
    (now now2 : Nat) (u : UserMain) (gs : GameSession) (ga : GameApp) (fz : AccountFlow)
    (b : AccountBalance)
    (hu : firstWhere UserMain.ID (fun u => decide (u.ID = userId)) db.users = some u)
    (hu0 : userId ≠ 0)
    (hsess : firstSession db.gameSessions req.SessionID = some gs)
    (hsid : req.SessionID ≠ "")
    (hstart : gs.Status = GameSessionStatusStart) (hown : gs.MainID = userId)
    (happ : firstWhere GameApp.ID (fun g => decide (g.ClientID = clientId)) db.gameApps = some ga)
    (hga0 : ga.ID ≠ 0) (hgame : ga.GameID = gs.GameID)
    (hkf : KeysOK AccountFlow.ID db.accountFlows)
    (hflow : accountFlowByID db.accountFlows req.GameStartID = some fz)
    (hfm : fz.MainID = userId) (hfb : fz.BizType = FlowFreeze)
    (hfs : fz.SessionID = gs.SessionID) (hfp : fz.Status = FlowStatusPending)
    (hspent : ∀ f ∈ db.accountFlows,
      ¬ (f.RefFlowID = fz.ID ∧ f.BizType = FlowSpend ∧ f.SessionID = gs.SessionID))
    (hkb : KeysNonzero AccountBalance.ID db.accountBalances)
    (hbal : firstWhere AccountBalance.ID
      (fun b => decide (b.MainID = userId) && decide (b.AssetID = 0)) db.accountBalances = some b)
    (hfro : fz.Amount ≤ b.Frozen) :
    GameEndHandler (GameEndHandler db clientId userId (some req) now).2 clientId userId
        (some req) now2 =
      (failWith now2 Code.CODE_ERR_BAD_PARAMS "game session not started",
        (GameEndHandler db clientId userId (some req) now).2) := by
  have hcommit := gameEnd_commits db clientId userId req now u gs ga fz b hu hu0 hsess hsid
    hstart hown happ hga0 hgame hkf hflow hfm hfb hfs hfp hspent hkb hbal hfro
  obtain ⟨hgsm, hgsid⟩ := firstSession_some hsess
  have huid : u.ID = userId := byKey_some_key UserMain.ID hu
  rw [hcommit]
  simp only
  have hs : firstSession (endedDb db clientId userId gs fz b req now).gameSessions
      req.SessionID = some (endedSession gs req fz now) := by
    unfold endedDb
    simp only
    rw [hgsid]
    exact firstSession_map db.gameSessions req.SessionID _ hgsid ⟨gs, hgsm, hgsid⟩
  have hu2 : firstWhere UserMain.ID (fun u => decide (u.ID = userId))
      (endedDb db clientId userId gs fz b req now).users = some u := hu
  unfold GameEndHandler
  simp only [hu2, hs]
  rw [if_neg (by rw [huid]; exact hu0)]
  have hend : (endedSession gs req fz now).Status ≠ GameSessionStatusStart := by
    show GameSessionStatusEnd ≠ GameSessionStatusStart
    decide
  rw [if_pos hend]

/-- C11, the code at the failing input: in the scenario of the specification
the first `endSession` call succeeds with spend flow id 2, and the immediately
following call with the same arguments is refused with the parameter error
`game session not started`; it returns no spend flow id.  The state is left as
the first call committed it. -/
theorem C11_retry_after_end_is_refused :
    (GameEndHandler exFrozenDb "client" 7 (some (exEndReq 1)) 6).1 = okWith 6 2 "spend" ∧
    (GameEndHandler (GameEndHandler exFrozenDb "client" 7 (some (exEndReq 1)) 6).2 "client" 7
        (some (exEndReq 1)) 7).1 =
      failWith 7 Code.CODE_ERR_BAD_PARAMS "game session not started" ∧
    (GameEndHandler (GameEndHandler exFrozenDb "client" 7 (some (exEndReq 1)) 6).2 "client" 7
        (some (exEndReq 1)) 7).1.Data = none ∧
    (GameEndHandler (GameEndHandler exFrozenDb "client" 7 (some (exEndReq 1)) 6).2 "client" 7
        (some (exEndReq 1)) 7).2 =
      (GameEndHandler exFrozenDb "client" 7 (some (exEndReq 1)) 6).2 := by
  decide

theorem keysNonzero_saveBalance {rows : List AccountBalance} (s : AccountBalance)
    (hk : KeysNonzero AccountBalance.ID rows) :
    KeysNonzero AccountBalance.ID (saveBalance rows s) := by
  unfold saveBalance
  by_cases h0 : s.ID = 0
  · rw [if_pos h0]
    intro r hr
    simp only [createBalance, h0, if_true, List.mem_append, List.mem_singleton] at hr
    rcases hr with hr | hr
    · exact hk r hr
    · rw [hr]
      exact nextID_pos AccountBalance.ID rows
  · rw [if_neg h0]
    by_cases hh : hasKey AccountBalance.ID rows s.ID = true
    · rw [if_pos hh]
      intro r hr
      obtain ⟨x, hx, rfl⟩ := mem_updateRow AccountBalance.ID hr
      by_cases hx2 : x.ID = s.ID
      · simpa [hx2] using h0
      · simpa [hx2] using hk x hx
    · rw [if_neg hh]
      intro r hr
      simp only [List.mem_append, List.mem_singleton] at hr
      rcases hr with hr | hr
      · exact hk r hr
      · rw [hr]; exact h0

/-- The balance a user is seen to have after `Save` of a row derived from the
row the handler read for that user: the saved row when the user has a row, and
still the zero value otherwise (the zero row is inserted under owner 0). -/
theorem gameBalance_after_save (db db1 : DB) (userId : Nat) (s : AccountBalance)
    (hu0 : userId ≠ 0) (hk : KeysNonzero AccountBalance.ID db.accountBalances)
    (hid : s.ID = (gameBalanceOf db userId).ID)
    (hmain : s.MainID = (gameBalanceOf db userId).MainID)
    (hasset : s.AssetID = (gameBalanceOf db userId).AssetID)
    (hsave : db1.accountBalances = saveBalance db.accountBalances s) :
    (∃ b, firstWhere AccountBalance.ID
        (fun b => decide (b.MainID = userId) && decide (b.AssetID = 0)) db.accountBalances
          = some b ∧ gameBalanceOf db userId = b ∧ gameBalanceOf db1 userId = s) ∨
    (firstWhere AccountBalance.ID
        (fun b => decide (b.MainID = userId) && decide (b.AssetID = 0)) db.accountBalances
          = none ∧ gameBalanceOf db userId = default ∧ gameBalanceOf db1 userId = default) := by
  unfold gameBalanceOf at hid hmain hasset ⊢
  rw [hsave]
  cases hb : firstWhere AccountBalance.ID
      (fun b => decide (b.MainID = userId) && decide (b.AssetID = 0)) db.accountBalances with
  | some b =>
    left
    rw [hb] at hid hmain hasset
    simp only [Option.getD_some] at hid hmain hasset
    obtain ⟨hbm, hbp, _⟩ := firstWhere_some AccountBalance.ID hb
    have hbp2 : b.MainID = userId ∧ b.AssetID = 0 := by simpa using hbp
    refine ⟨b, rfl, rfl, ?_⟩
    rw [firstWhere_saveBalance _ db.accountBalances b s hbm (hk b hbm) hid
      (by simp [hmain, hasset, hbp2.1, hbp2.2]) (firstWhere_min_strict AccountBalance.ID hb)]
    rfl
  | none =>
    right
    rw [hb] at hid hmain hasset
    simp only [Option.getD_none] at hid hmain hasset
    have hid0 : s.ID = 0 := hid
    have hmain0 : s.MainID = 0 := hmain
    refine ⟨rfl, rfl, ?_⟩
    have hnone : firstWhere AccountBalance.ID
        (fun b => decide (b.MainID = userId) && decide (b.AssetID = 0))
        (saveBalance db.accountBalances s) = none := by
      rw [firstWhere_none]
      intro x hx
      unfold saveBalance at hx
      rw [if_pos hid0] at hx
      simp only [createBalance, hid0, if_true, List.mem_append, List.mem_singleton] at hx
      rcases hx with hx | hx
      · exact (firstWhere_none AccountBalance.ID).mp hb x hx
      · rw [hx]
        have : ¬ (0 = userId) := fun h => hu0 h.symm
        simp [hmain0, this]
    rw [hnone]
    rfl
theorem createChecked_not_freeze (rows : List AccountFlow) (r : AccountFlow)
    (h : r.BizType ≠ FlowFreeze) :
    createAccountFlowChecked rows r = some (createAccountFlow rows r) := by
  simp [createAccountFlowChecked, violatesUnique, h]

/-- A call of `UnFreezeHandler` either leaves the database as it is, or it
found the referenced row Pending and commits `unfrozenDb`. -/
theorem unfreeze_outcome (db : DB) (clientId : String) (userId : Nat)
    (body : Option SpendOrUnfreezeReq) (now : Nat) :
    (UnFreezeHandler db clientId userId body now).2 = db ∨
    ∃ req fz, body = some req ∧ userId ≠ 0 ∧
      firstWhere AccountFlow.ID (fun f => decide (f.ID = req.FreezeID)) db.accountFlows = some fz ∧
      fz.ID ≠ 0 ∧ fz.Status = FlowStatusPending ∧
      UnFreezeHandler db clientId userId body now =
        (okWith now (settledFlows db clientId userId fz FlowStatusReversed FlowUnfreeze now).1.ID
          "unfreeze", unfrozenDb db clientId userId fz now) := by
  unfold UnFreezeHandler
  cases body with
  | none => left; rfl
  | some req =>
    dsimp only
    by_cases c1 : req.FreezeID = 0
    · rw [if_pos c1]; left; rfl
    rw [if_neg c1]
    by_cases c2 : ((firstWhere UserMain.ID (fun u => decide (u.ID = userId)) db.users).getD
        default).ID = 0
    · rw [if_pos c2]; left; rfl
    rw [if_neg c2]
    by_cases c3 : ((firstWhere AccountFlow.ID (fun f => decide (f.ID = req.FreezeID))
        db.accountFlows).getD default).ID = 0
    · rw [if_pos c3]; left; rfl
    rw [if_neg c3]
    by_cases c4 : ((firstWhere AccountFlow.ID (fun f => decide (f.ID = req.FreezeID))
        db.accountFlows).getD default).Status ≠ FlowStatusPending
    · rw [if_pos c4]; left; rfl
    rw [if_neg c4]
    right
    cases hu : firstWhere UserMain.ID (fun u => decide (u.ID = userId)) db.users with
    | none =>
      rw [hu] at c2
      exact absurd rfl c2
    | some u =>
      have huid : u.ID = userId := byKey_some_key UserMain.ID hu
      have hu0 : userId ≠ 0 := by
        rw [hu] at c2
        rw [← huid]
        exact c2
      cases hf : firstWhere AccountFlow.ID (fun f => decide (f.ID = req.FreezeID))
          db.accountFlows with
      | none =>
        rw [hf] at c3
        exact absurd rfl c3
      | some fz =>
        rw [hf] at c3 c4
        simp only [Option.getD_some] at c3 c4 ⊢
        refine ⟨req, fz, rfl, hu0, hf, c3, not_not.mp c4, ?_⟩
        rw [huid]
        have hne : FlowUnfreeze ≠ FlowFreeze := by decide
        have hc := fun rows => createChecked_not_freeze rows (settleRow clientId userId fz FlowUnfreeze now) hne
        unfold settleRow at hc
        rw [hc]
        rfl

/-- A call of `SpendHandler` either leaves the database as it is, or it found
the referenced row Pending and commits `spentDb`. -/
theorem spend_outcome (db : DB) (clientId : String) (userId : Nat)
    (body : Option SpendOrUnfreezeReq) (now : Nat) :
    (SpendHandler db clientId userId body now).2 = db ∨
    ∃ req fz, body = some req ∧ userId ≠ 0 ∧
      firstWhere AccountFlow.ID (fun f => decide (f.ID = req.FreezeID)) db.accountFlows = some fz ∧
      fz.ID ≠ 0 ∧ fz.Status = FlowStatusPending ∧
      SpendHandler db clientId userId body now =
        (okWith now (settledFlows db clientId userId fz FlowStatusDone FlowSpend now).1.ID
          "spend", spentDb db clientId userId fz now) := by
  unfold SpendHandler
  cases body with
  | none => left; rfl
  | some req =>
    dsimp only
    by_cases c1 : req.FreezeID = 0
    · rw [if_pos c1]; left; rfl
    rw [if_neg c1]
    by_cases c2 : ((firstWhere UserMain.ID (fun u => decide (u.ID = userId)) db.users).getD
        default).ID = 0
    · rw [if_pos c2]; left; rfl
    rw [if_neg c2]
    by_cases c3 : ((firstWhere AccountFlow.ID (fun f => decide (f.ID = req.FreezeID))
        db.accountFlows).getD default).ID = 0
    · rw [if_pos c3]; left; rfl
    rw [if_neg c3]
    by_cases c4 : ((firstWhere AccountFlow.ID (fun f => decide (f.ID = req.FreezeID))
        db.accountFlows).getD default).Status ≠ FlowStatusPending
    · rw [if_pos c4]; left; rfl
    rw [if_neg c4]
    right
    cases hu : firstWhere UserMain.ID (fun u => decide (u.ID = userId)) db.users with
    | none =>
      rw [hu] at c2
      exact absurd rfl c2
    | some u =>
      have huid : u.ID = userId := byKey_some_key UserMain.ID hu
      have hu0 : userId ≠ 0 := by
        rw [hu] at c2
        rw [← huid]
        exact c2
      cases hf : firstWhere AccountFlow.ID (fun f => decide (f.ID = req.FreezeID))
          db.accountFlows with
      | none =>
        rw [hf] at c3
        exact absurd rfl c3
      | some fz =>
        rw [hf] at c3 c4
        simp only [Option.getD_some] at c3 c4 ⊢
        refine ⟨req, fz, rfl, hu0, hf, c3, not_not.mp c4, ?_⟩
        rw [huid]
        have hne : FlowSpend ≠ FlowFreeze := by decide
        have hc := fun rows => createChecked_not_freeze rows (settleRow clientId userId fz FlowSpend now) hne
        unfold settleRow at hc
        rw [hc]
        rfl

/-- A call of `FreezeHandler` either leaves the database as it is, or it
debits the requested amount from the balance row it read. -/
theorem freeze_outcome (db : DB) (clientId : String) (userId : Nat)
    (body : Option FreezeReq) (now : Nat) :
    (FreezeHandler db clientId userId body now).2 = db ∨
    ∃ req, body = some req ∧ userId ≠ 0 ∧ req.Amount ≠ 0 ∧
      req.Amount ≤ (gameBalanceOf db userId).Available ∧
      (FreezeHandler db clientId userId body now).1.Code = Code.CODE_SUCCESS ∧
      (FreezeHandler db clientId userId body now).2.accountBalances =
        saveBalance db.accountBalances
          { gameBalanceOf db userId with
            Available := (gameBalanceOf db userId).Available - req.Amount
            Frozen := addU64 (gameBalanceOf db userId).Frozen req.Amount } := by
  unfold FreezeHandler
  cases body with
  | none => left; rfl
  | some req =>
    dsimp only
    by_cases c1 : req.Amount = 0 ∨ req.ExternalID.utf8ByteSize = 0
    · rw [if_pos c1]; left; rfl
    rw [if_neg c1]
    by_cases c2 : req.ExternalID.utf8ByteSize > 128
    · rw [if_pos c2]; left; rfl
    rw [if_neg c2]
    by_cases c3 : req.Remark.utf8ByteSize > 128
    · rw [if_pos c3]; left; rfl
    rw [if_neg c3]
    by_cases c4 : ((firstWhere UserMain.ID (fun u => decide (u.ID = userId)) db.users).getD
        default).ID = 0
    · rw [if_pos c4]; left; rfl
    rw [if_neg c4]
    by_cases c5 : ((firstWhere AccountBalance.ID
        (fun b => decide (b.MainID = userId) && decide (b.AssetID = 0))
        db.accountBalances).getD default).Available < req.Amount
    · rw [if_pos c5]; left; rfl
    rw [if_neg c5]
    cases hu : firstWhere UserMain.ID (fun u => decide (u.ID = userId)) db.users with
    | none =>
      rw [hu] at c4
      exact absurd rfl c4
    | some u =>
      have huid : u.ID = userId := byKey_some_key UserMain.ID hu
      have hu0 : userId ≠ 0 := by
        rw [hu] at c4
        rw [← huid]
        exact c4
      split
      · left; rfl
      · right
        refine ⟨req, rfl, hu0, fun h => c1 (Or.inl h), ?_, rfl, rfl⟩
        unfold gameBalanceOf
        omega
theorem keysNonzero_createBalance {rows : List AccountBalance} (z : AccountBalance)
    (hk : KeysNonzero AccountBalance.ID rows) (hz : z.ID = 0) :
    KeysNonzero AccountBalance.ID (createBalance rows z).2 := by
  intro r hr
  simp only [createBalance, hz, if_true, List.mem_append, List.mem_singleton] at hr
  rcases hr with hr | hr
  · exact hk r hr
  · rw [hr]
    exact nextID_pos AccountBalance.ID rows

/-- What the transaction of `GameStartHandler` does to the balance the user
is seen to have: nothing, or the debit of the price with the wrapping
addition to `frozen`. -/
theorem gameStartTx_balance (db : DB) (clientId : String) (u : UserMain) (gs : GameSession)
    (st : GameSetting) (req : GameStartReq) (now : Nat)
    (hk : KeysNonzero AccountBalance.ID db.accountBalances) :
    KeysNonzero AccountBalance.ID (gameStartTx db clientId u gs st req now).2.accountBalances ∧
    (((gameBalanceOf (gameStartTx db clientId u gs st req now).2 u.ID).Available =
          (gameBalanceOf db u.ID).Available ∧
        (gameBalanceOf (gameStartTx db clientId u gs st req now).2 u.ID).Frozen =
          (gameBalanceOf db u.ID).Frozen) ∨
      (st.AmountPerPlay ≤ (gameBalanceOf db u.ID).Available ∧
        (gameBalanceOf (gameStartTx db clientId u gs st req now).2 u.ID).Available =
          (gameBalanceOf db u.ID).Available - st.AmountPerPlay ∧
        (gameBalanceOf (gameStartTx db clientId u gs st req now).2 u.ID).Frozen =
          addU64 (gameBalanceOf db u.ID).Frozen st.AmountPerPlay)) := by
  unfold gameStartTx
  cases hb : firstWhere AccountBalance.ID
      (fun b => decide (b.MainID = u.ID) && decide (b.AssetID = 0)) db.accountBalances with
  | some b =>
    have hcur : gameBalanceOf db u.ID = b := by
      unfold gameBalanceOf
      rw [hb]
      rfl
    obtain ⟨hbm, hbp, _⟩ := firstWhere_some AccountBalance.ID hb
    have hbp2 : b.MainID = u.ID ∧ b.AssetID = 0 := by simpa using hbp
    dsimp only
    by_cases hlt : b.Available < st.AmountPerPlay
    · rw [if_pos hlt]
      exact ⟨hk, Or.inl ⟨rfl, rfl⟩⟩
    rw [if_neg hlt]
    split
    · split
      · exact ⟨hk, Or.inl ⟨rfl, rfl⟩⟩
      · exact ⟨hk, Or.inl ⟨rfl, rfl⟩⟩
    · refine ⟨?_, Or.inr ?_⟩
      · dsimp only
        exact keysNonzero_saveBalance _ hk
      rw [hcur]
      refine ⟨by omega, ?_⟩
      unfold gameBalanceOf
      dsimp only
      have hsave := firstWhere_saveBalance
        (fun b => decide (b.MainID = u.ID) && decide (b.AssetID = 0)) db.accountBalances b
        { b with Available := b.Available - st.AmountPerPlay, Frozen := addU64 b.Frozen st.AmountPerPlay }
        hbm (hk b hbm) rfl (by simp [hbp2.1, hbp2.2])
        (firstWhere_min_strict AccountBalance.ID hb)
      rw [hsave]
      exact ⟨rfl, rfl⟩
  | none =>
    have hcur : gameBalanceOf db u.ID = default := by
      unfold gameBalanceOf
      rw [hb]
      rfl
    dsimp only
    by_cases hp : st.AmountPerPlay > 0
    · rw [if_pos hp]
      exact ⟨hk, Or.inl ⟨rfl, rfl⟩⟩
    rw [if_neg hp]
    dsimp only
    have hp0 : st.AmountPerPlay = 0 := by omega
    have hk1 := keysNonzero_createBalance (newAccountBalance u.ID 0) hk rfl
    have hz : firstWhere AccountBalance.ID
        (fun b => decide (b.MainID = u.ID) && decide (b.AssetID = 0))
        (createBalance db.accountBalances (newAccountBalance u.ID 0)).2 =
        some (createBalance db.accountBalances (newAccountBalance u.ID 0)).1 := by
      apply firstWhere_of_min
      · simp [createBalance]
      · simp [createBalance, newAccountBalance]
      · intro y hy hpy
        left
        simp only [createBalance, List.mem_append, List.mem_singleton] at hy
        rcases hy with hy | hy
        · have := (firstWhere_none AccountBalance.ID).mp hb y hy
          rw [this] at hpy
          cases hpy
        · rw [hy]
          rfl
    by_cases hlt : (createBalance db.accountBalances (newAccountBalance u.ID 0)).1.Available
        < st.AmountPerPlay
    · rw [if_pos hlt]
      exact ⟨hk, Or.inl ⟨rfl, rfl⟩⟩
    rw [if_neg hlt]
    split
    · split
      · refine ⟨hk1, Or.inl ?_⟩
        rw [hcur]
        unfold gameBalanceOf
        dsimp only
        rw [hz]
        exact ⟨rfl, rfl⟩
      · exact ⟨hk, Or.inl ⟨rfl, rfl⟩⟩
    · refine ⟨?_, Or.inl ?_⟩
      · dsimp only
        exact keysNonzero_saveBalance _ hk1
      rw [hcur]
      unfold gameBalanceOf
      dsimp only
      have hsave := firstWhere_saveBalance_created
        (fun b => decide (b.MainID = u.ID) && decide (b.AssetID = 0)) db.accountBalances
        (newAccountBalance u.ID 0)
        { (createBalance db.accountBalances (newAccountBalance u.ID 0)).1 with Available := (createBalance db.accountBalances (newAccountBalance u.ID 0)).1.Available - st.AmountPerPlay, Frozen := addU64 (createBalance db.accountBalances (newAccountBalance u.ID 0)).1.Frozen st.AmountPerPlay }
        rfl hb rfl (by simp [createBalance, newAccountBalance])
      rw [hsave]
      rw [hp0]
      exact ⟨rfl, rfl⟩
/-- A call of `GameStartHandler` either leaves the database as it is or runs
its transaction for the caller. -/
theorem gameStart_outcome (db : DB) (clientId : String) (userId : Nat)
    (body : Option GameStartReq) (now : Nat) :
    (GameStartHandler db clientId userId body now).2 = db ∨
    ∃ req u gs st, body = some req ∧ u.ID = userId ∧ userId ≠ 0 ∧
      GameStartHandler db clientId userId body now =
        gameStartTx db clientId u gs st req now := by
  unfold GameStartHandler
  cases body with
  | none => left; rfl
  | some req =>
    dsimp only
    by_cases c1 : req.ExternalID.utf8ByteSize > 128
    · rw [if_pos c1]; left; rfl
    rw [if_neg c1]
    by_cases c2 : req.Remark.utf8ByteSize > 128
    · rw [if_pos c2]; left; rfl
    rw [if_neg c2]
    by_cases c3 : ((firstWhere UserMain.ID (fun u => decide (u.ID = userId)) db.users).getD
        default).ID = 0
    · rw [if_pos c3]; left; rfl
    rw [if_neg c3]
    cases hu : firstWhere UserMain.ID (fun u => decide (u.ID = userId)) db.users with
    | none =>
      rw [hu] at c3
      exact absurd rfl c3
    | some u =>
      rw [hu] at c3
      simp only [Option.getD_some] at c3 ⊢
      have huid : u.ID = userId := byKey_some_key UserMain.ID hu
      cases hs : firstSession db.gameSessions req.SessionID with
      | none => left; rfl
      | some gs =>
        dsimp only
        by_cases c4 : gs.Status ≠ GameSessionStatusStart
        · rw [if_pos c4]; left; rfl
        rw [if_neg c4]
        by_cases c5 : gs.MainID ≠ u.ID
        · rw [if_pos c5]; left; rfl
        rw [if_neg c5]
        by_cases c6 : req.PlaySettingCode.utf8ByteSize = 0
        · rw [if_pos c6]; left; rfl
        rw [if_neg c6]
        by_cases c7 : ((firstWhere GameSetting.ID
            (fun g => decide (g.GameID = gs.GameID) && decide (g.Code = req.PlaySettingCode))
            db.gameSettings).getD default).ID = 0
        · rw [if_pos c7]; left; rfl
        rw [if_neg c7]
        by_cases c8 : ((firstWhere GameInfo.ID (fun g => decide (g.ID = gs.GameID))
            db.gameInfos).getD default).ID = 0
        · rw [if_pos c8]; left; rfl
        rw [if_neg c8]
        by_cases c9 : ((firstWhere GameInfo.ID (fun g => decide (g.ID = gs.GameID))
              db.gameInfos).getD default).Status = GameStatusDraft ∨
            ((firstWhere GameInfo.ID (fun g => decide (g.ID = gs.GameID))
              db.gameInfos).getD default).Status = GameStatusInactive
        · rw [if_pos c9]; left; rfl
        rw [if_neg c9]
        by_cases c10 : ((firstWhere GameInfo.ID (fun g => decide (g.ID = gs.GameID))
              db.gameInfos).getD default).Status ≠ GameStatusActive ∧
            ((firstWhere GameSetting.ID
              (fun g => decide (g.GameID = gs.GameID) && decide (g.Code = req.PlaySettingCode))
              db.gameSettings).getD default).AmountPerPlay > 0
        · rw [if_pos c10]; left; rfl
        rw [if_neg c10]
        have hu0 : userId ≠ 0 := by rw [← huid]; exact c3
        cases he : firstWhere AccountFlow.ID (isPendingFreeze u.ID gs.SessionID)
            db.accountFlows with
        | none =>
          right
          exact ⟨req, u, gs, _, rfl, huid, hu0, rfl⟩
        | some existing =>
          dsimp only
          by_cases c11 : existing.ID > 0
          · rw [if_pos c11]; left; rfl
          rw [if_neg c11]
          right
          exact ⟨req, u, gs, _, rfl, huid, hu0, rfl⟩

/-- What the transaction of `GameEndHandler` does: nothing, or the commit of
the Spend row, of the debit of `frozen` and of the two status changes. -/
theorem gameEndTx_outcome (db : DB) (clientId : String) (u : UserMain) (gs : GameSession)
    (req : GameEndReq) (now : Nat) :
    (gameEndTx db clientId u gs req now).2 = db ∨
    ∃ fz b sessions1,
      firstWhere AccountFlow.ID
        (fun f => decide (f.ID = req.GameStartID) && decide (f.SessionID = gs.SessionID) &&
          decide (f.BizType = FlowFreeze) && decide (f.Status = FlowStatusPending))
        db.accountFlows = some fz ∧
      firstWhere AccountBalance.ID
        (fun b => decide (b.MainID = u.ID) && decide (b.AssetID = 0)) db.accountBalances
          = some b ∧
      fz.Amount ≤ b.Frozen ∧
      gameEndTx db clientId u gs req now =
        (okWith now (nextID AccountFlow.ID db.accountFlows) "spend",
          { db with
            accountFlows := saveAccountFlow
              (db.accountFlows ++ [spendRow db clientId u.ID gs fz now])
              { fz with Status := FlowStatusDone, UpdateTime := now }
            accountBalances := saveBalance db.accountBalances
              { b with Frozen := b.Frozen - fz.Amount }
            gameSessions := sessions1 }) := by
  unfold gameEndTx
  cases hf : firstWhere AccountFlow.ID
      (fun f => decide (f.ID = req.GameStartID) && decide (f.SessionID = gs.SessionID) &&
        decide (f.BizType = FlowFreeze) && decide (f.Status = FlowStatusPending))
      db.accountFlows with
  | none => left; rfl
  | some fz =>
    dsimp only
    cases hb : firstWhere AccountBalance.ID
        (fun b => decide (b.MainID = u.ID) && decide (b.AssetID = 0)) db.accountBalances with
    | none => left; rfl
    | some b =>
      dsimp only
      by_cases c1 : b.Frozen < fz.Amount
      · rw [if_pos c1]; left; rfl
      rw [if_neg c1]
      have hne : FlowSpend ≠ FlowFreeze := by decide
      have hcreate : createAccountFlowChecked db.accountFlows
          { ID := 0, MainID := u.ID, AssetID := 0, BizType := FlowSpend,
            Amount := fz.Amount, Direction := DirectionOut, ClientID := clientId,
            GameID := fz.GameID, ExternalID := "", ExternalRemark := "",
            RefFlowID := fz.ID, Status := FlowStatusDone, AddTime := now,
            UpdateTime := now, SessionID := gs.SessionID } =
          some (spendRow db clientId u.ID gs fz now,
            db.accountFlows ++ [spendRow db clientId u.ID gs fz now]) := by
        simp [createAccountFlowChecked, violatesUnique, createAccountFlow, spendRow, hne]
      rw [hcreate]
      dsimp only
      split
      · left; rfl
      · rename_i sessions1 _
        right
        exact ⟨fz, b, sessions1, rfl, rfl, by omega, rfl⟩

/-- A call of `GameEndHandler` either leaves the database as it is or runs its
transaction for the caller and a session in Start state. -/
theorem gameEnd_outcome (db : DB) (clientId : String) (userId : Nat)
    (body : Option GameEndReq) (now : Nat) :
    (GameEndHandler db clientId userId body now).2 = db ∨
    ∃ req u gs, body = some req ∧ u.ID = userId ∧ userId ≠ 0 ∧
      GameEndHandler db clientId userId body now = gameEndTx db clientId u gs req now := by
  unfold GameEndHandler
  cases body with
  | none => left; rfl
  | some req =>
    dsimp only
    cases hu : firstWhere UserMain.ID (fun u => decide (u.ID = userId)) db.users with
    | none => left; rfl
    | some u =>
      dsimp only
      have huid : u.ID = userId := byKey_some_key UserMain.ID hu
      by_cases c1 : u.ID = 0
      · rw [if_pos c1]; left; rfl
      rw [if_neg c1]
      have hu0 : userId ≠ 0 := by rw [← huid]; exact c1
      cases hs : firstSession db.gameSessions req.SessionID with
      | none => left; rfl
      | some gs =>
        dsimp only
        by_cases c2 : gs.Status ≠ GameSessionStatusStart
        · rw [if_pos c2]; left; rfl
        rw [if_neg c2]
        by_cases c3 : gs.MainID ≠ u.ID
        · rw [if_pos c3]; left; rfl
        rw [if_neg c3]
        cases ha : firstWhere GameApp.ID (fun g => decide (g.ClientID = clientId))
            db.gameApps with
        | none => left; rfl
        | some ga =>
          dsimp only
          by_cases c4 : ga.ID = 0
          · rw [if_pos c4]; left; rfl
          rw [if_neg c4]
          by_cases c5 : ga.GameID ≠ gs.GameID
          · rw [if_pos c5]; left; rfl
          rw [if_neg c5]
          cases hf : firstWhere AccountFlow.ID (fun f => decide (f.ID = req.GameStartID))
              db.accountFlows with
          | none => left; rfl
          | some fz =>
            dsimp only
            by_cases c6 : fz.ID = 0
            · rw [if_pos c6]; left; rfl
            rw [if_neg c6]
            by_cases c7 : fz.MainID ≠ u.ID
            · rw [if_pos c7]; left; rfl
            rw [if_neg c7]
            by_cases c8 : fz.BizType ≠ FlowFreeze
            · rw [if_pos c8]; left; rfl
            rw [if_neg c8]
            by_cases c9 : fz.SessionID ≠ gs.SessionID
            · rw [if_pos c9]; left; rfl
            rw [if_neg c9]
            cases hsp : firstWhere AccountFlow.ID
                (fun f => decide (f.RefFlowID = fz.ID) && decide (f.BizType = FlowSpend) &&
                  decide (f.SessionID = gs.SessionID)) db.accountFlows with
            | none =>
              right
              exact ⟨req, u, gs, rfl, huid, hu0, rfl⟩
            | some spent =>
              dsimp only
              by_cases c10 : spent.ID > 0
              · rw [if_pos c10]; left; rfl
              rw [if_neg c10]
              right
              exact ⟨req, u, gs, rfl, huid, hu0, rfl⟩
theorem freeze_arith (a f p : Nat) (hp : p ≤ a) :
    a - p + addU64 f p ≤ a + f ∧ (a - p + addU64 f p) % u64 = (a + f) % u64 := by
  unfold addU64
  constructor
  · have := Nat.mod_le (f + p) u64
    omega
  · rw [Nat.add_mod_mod]
    congr 1
    omega

theorem unfreeze_arith (a f p : Nat) (hp : p ≤ f) :
    addU64 a p + subU64 f p ≤ a + f ∧ (addU64 a p + subU64 f p) % u64 = (a + f) % u64 := by
  unfold addU64 subU64
  rw [if_pos hp]
  constructor
  · have := Nat.mod_le (a + p) u64
    omega
  · rw [Nat.mod_add_mod]
    congr 1
    omega

/-- `FreezeHandler` keeps `available + frozen` modulo `2 ^ 64` and never
raises it. -/
theorem freeze_step (db : DB) (clientId : String) (userId : Nat) (body : Option FreezeReq)
    (now : Nat) (hk : KeysNonzero AccountBalance.ID db.accountBalances) :
    KeysNonzero AccountBalance.ID (FreezeHandler db clientId userId body now).2.accountBalances ∧
    spendable (FreezeHandler db clientId userId body now).2 userId ≤ spendable db userId ∧
    spendable (FreezeHandler db clientId userId body now).2 userId % u64 =
      spendable db userId % u64 := by
  rcases freeze_outcome db clientId userId body now with h | ⟨req, _, hu0, _, hle, _, hbal⟩
  · rw [h]
    exact ⟨hk, le_refl _, rfl⟩
  · refine ⟨by rw [hbal]; exact keysNonzero_saveBalance _ hk, ?_⟩
    unfold spendable
    have hsv := gameBalance_after_save db (FreezeHandler db clientId userId body now).2 userId
      { gameBalanceOf db userId with Available := (gameBalanceOf db userId).Available - req.Amount, Frozen := addU64 (gameBalanceOf db userId).Frozen req.Amount }
      hu0 hk rfl rfl rfl hbal
    rcases hsv with ⟨b, _, _, h2⟩ | ⟨_, h1, h2⟩
    · rw [h2]
      exact freeze_arith _ _ _ hle
    · rw [h2, h1]
      exact ⟨le_refl _, rfl⟩

/-- `UnFreezeHandler` keeps `available + frozen` modulo `2 ^ 64` and never
raises it, when the frozen balance covers the amount of the named row. -/
theorem unfreeze_step (db : DB) (clientId : String) (userId : Nat)
    (body : Option SpendOrUnfreezeReq) (now : Nat)
    (hk : KeysNonzero AccountBalance.ID db.accountBalances)
    (hcov : refAmount db body ≤ (gameBalanceOf db userId).Frozen) :
    KeysNonzero AccountBalance.ID
      (UnFreezeHandler db clientId userId body now).2.accountBalances ∧
    spendable (UnFreezeHandler db clientId userId body now).2 userId ≤ spendable db userId ∧
    spendable (UnFreezeHandler db clientId userId body now).2 userId % u64 =
      spendable db userId % u64 := by
  rcases unfreeze_outcome db clientId userId body now with h | ⟨req, fz, hbody, hu0, hf, _, _, hres⟩
  · rw [h]
    exact ⟨hk, le_refl _, rfl⟩
  · have hamt : refAmount db body = fz.Amount := by
      rw [hbody]
      unfold refAmount
      simp only [hf, Option.getD_some]
    rw [hamt] at hcov
    rw [hres]
    refine ⟨keysNonzero_saveBalance _ hk, ?_⟩
    unfold spendable
    have hsv := gameBalance_after_save db (unfrozenDb db clientId userId fz now) userId
      { gameBalanceOf db userId with Frozen := subU64 (gameBalanceOf db userId).Frozen fz.Amount, Available := addU64 (gameBalanceOf db userId).Available fz.Amount }
      hu0 hk rfl rfl rfl rfl
    rcases hsv with ⟨b, _, _, h2⟩ | ⟨_, h1, h2⟩
    · dsimp only
      rw [h2]
      exact unfreeze_arith _ _ _ hcov
    · dsimp only
      rw [h2, h1]
      exact ⟨le_refl _, rfl⟩

/-- `SpendHandler` leaves `available + frozen` as it is or lowers it by the
amount of the Pending row it names, when the frozen balance covers that
amount. -/
theorem spend_step (db : DB) (clientId : String) (userId : Nat)
    (body : Option SpendOrUnfreezeReq) (now : Nat)
    (hk : KeysNonzero AccountBalance.ID db.accountBalances)
    (hcov : refAmount db body ≤ (gameBalanceOf db userId).Frozen) :
    KeysNonzero AccountBalance.ID
      (SpendHandler db clientId userId body now).2.accountBalances ∧
    (spendable (SpendHandler db clientId userId body now).2 userId = spendable db userId ∨
      ((SpendHandler db clientId userId body now).1.Code = Code.CODE_SUCCESS ∧
        ∃ req fz, body = some req ∧ fz ∈ db.accountFlows ∧ fz.ID = req.FreezeID ∧
          fz.Status = FlowStatusPending ∧
          spendable (SpendHandler db clientId userId body now).2 userId + fz.Amount =
            spendable db userId)) := by
  rcases spend_outcome db clientId userId body now with h | ⟨req, fz, hbody, hu0, hf, _, hpend, hres⟩
  · rw [h]
    exact ⟨hk, Or.inl rfl⟩
  · have hamt : refAmount db body = fz.Amount := by
      rw [hbody]
      unfold refAmount
      simp only [hf, Option.getD_some]
    rw [hamt] at hcov
    rw [hres]
    refine ⟨keysNonzero_saveBalance _ hk, ?_⟩
    unfold spendable
    have hsv := gameBalance_after_save db (spentDb db clientId userId fz now) userId
      { gameBalanceOf db userId with Frozen := subU64 (gameBalanceOf db userId).Frozen fz.Amount }
      hu0 hk rfl rfl rfl rfl
    rcases hsv with ⟨b, _, _, h2⟩ | ⟨_, h1, h2⟩
    · right
      refine ⟨rfl, req, fz, hbody, (firstWhere_some AccountFlow.ID hf).1,
        byKey_some_key AccountFlow.ID hf, hpend, ?_⟩
      dsimp only
      rw [h2]
      unfold subU64
      rw [if_pos hcov]
      dsimp only
      omega
    · left
      dsimp only
      rw [h2, h1]

/-- `GameStartHandler` keeps `available + frozen` modulo `2 ^ 64` and never
raises it. -/
theorem gameStart_step (db : DB) (clientId : String) (userId : Nat)
    (body : Option GameStartReq) (now : Nat)
    (hk : KeysNonzero AccountBalance.ID db.accountBalances) :
    KeysNonzero AccountBalance.ID
      (GameStartHandler db clientId userId body now).2.accountBalances ∧
    spendable (GameStartHandler db clientId userId body now).2 userId ≤ spendable db userId ∧
    spendable (GameStartHandler db clientId userId body now).2 userId % u64 =
      spendable db userId % u64 := by
  rcases gameStart_outcome db clientId userId body now with h | ⟨req, u, gs, st, _, huid, _, hres⟩
  · rw [h]
    exact ⟨hk, le_refl _, rfl⟩
  · rw [hres]
    obtain ⟨hk1, hrel⟩ := gameStartTx_balance db clientId u gs st req now hk
    refine ⟨hk1, ?_⟩
    rw [huid] at hrel
    unfold spendable
    rcases hrel with ⟨ha, hf⟩ | ⟨hle, ha, hf⟩
    · rw [ha, hf]
      exact ⟨le_refl _, rfl⟩
    · rw [ha, hf]
      exact freeze_arith _ _ _ hle

/-- `GameEndHandler` leaves `available + frozen` as it is or lowers it by the
amount of the Pending Freeze row it names. -/
theorem gameEnd_step (db : DB) (clientId : String) (userId : Nat)
    (body : Option GameEndReq) (now : Nat)
    (hk : KeysNonzero AccountBalance.ID db.accountBalances) :
    KeysNonzero AccountBalance.ID
      (GameEndHandler db clientId userId body now).2.accountBalances ∧
    (spendable (GameEndHandler db clientId userId body now).2 userId = spendable db userId ∨
      ((GameEndHandler db clientId userId body now).1.Code = Code.CODE_SUCCESS ∧
        ∃ req fz, body = some req ∧ fz ∈ db.accountFlows ∧ fz.ID = req.GameStartID ∧
          fz.Status = FlowStatusPending ∧
          spendable (GameEndHandler db clientId userId body now).2 userId + fz.Amount =
            spendable db userId)) := by
  rcases gameEnd_outcome db clientId userId body now with h | ⟨req, u, gs, hbody, huid, hu0, hres⟩
  · rw [h]
    exact ⟨hk, Or.inl rfl⟩
  · rw [hres]
    rcases gameEndTx_outcome db clientId u gs req now with h | ⟨fz, b, s1, hf, hb, hle, htx⟩
    · rw [h]
      exact ⟨hk, Or.inl rfl⟩
    · rw [htx]
      refine ⟨keysNonzero_saveBalance _ hk, Or.inr ⟨rfl, req, fz, hbody, ?_⟩⟩
      obtain ⟨hfm, hfp, _⟩ := firstWhere_some AccountFlow.ID hf
      simp only [Bool.and_eq_true, decide_eq_true_eq] at hfp
      refine ⟨hfm, hfp.1.1.1, hfp.2, ?_⟩
      rw [huid] at hb
      have hcur : gameBalanceOf db userId = b := by
        unfold gameBalanceOf
        rw [hb]
        rfl
      unfold spendable
      dsimp only
      obtain ⟨hbm, hbp, _⟩ := firstWhere_some AccountBalance.ID hb
      have hbp2 : b.MainID = userId ∧ b.AssetID = 0 := by simpa using hbp
      have hafter : gameBalanceOf
          { db with
            accountFlows := saveAccountFlow
              (db.accountFlows ++ [spendRow db clientId u.ID gs fz now])
              { fz with Status := FlowStatusDone, UpdateTime := now }
            accountBalances := saveBalance db.accountBalances
              { b with Frozen := b.Frozen - fz.Amount }
            gameSessions := s1 } userId = { b with Frozen := b.Frozen - fz.Amount } := by
        unfold gameBalanceOf
        dsimp only
        have hsave := firstWhere_saveBalance
          (fun b => decide (b.MainID = userId) && decide (b.AssetID = 0)) db.accountBalances b
          { b with Frozen := b.Frozen - fz.Amount } hbm (hk b hbm) rfl
          (by simp [hbp2.1, hbp2.2]) (firstWhere_min_strict AccountBalance.ID hb)
        rw [hsave]
        rfl
      rw [hafter, hcur]
      dsimp only
      omega
theorem freeze_balanceFlows (db : DB) (clientId : String) (userId : Nat)
    (body : Option FreezeReq) (now : Nat) :
    (FreezeHandler db clientId userId body now).2.balanceFlows = db.balanceFlows := by
  unfold FreezeHandler
  repeat' (first | split | dsimp only)

theorem unfreeze_balanceFlows (db : DB) (clientId : String) (userId : Nat)
    (body : Option SpendOrUnfreezeReq) (now : Nat) :
    (UnFreezeHandler db clientId userId body now).2.balanceFlows = db.balanceFlows := by
  unfold UnFreezeHandler
  repeat' (first | split | dsimp only)

theorem spend_balanceFlows (db : DB) (clientId : String) (userId : Nat)
    (body : Option SpendOrUnfreezeReq) (now : Nat) :
    (SpendHandler db clientId userId body now).2.balanceFlows = db.balanceFlows := by
  unfold SpendHandler
  repeat' (first | split | dsimp only)

theorem gameStart_balanceFlows (db : DB) (clientId : String) (userId : Nat)
    (body : Option GameStartReq) (now : Nat) :
    (GameStartHandler db clientId userId body now).2.balanceFlows = db.balanceFlows := by
  rcases gameStart_outcome db clientId userId body now with h | ⟨req, u, gs, st, _, _, _, hres⟩
  · rw [h]
  · rw [hres]
    unfold gameStartTx
    repeat' (first | split | dsimp only)

theorem gameEnd_balanceFlows (db : DB) (clientId : String) (userId : Nat)
    (body : Option GameEndReq) (now : Nat) :
    (GameEndHandler db clientId userId body now).2.balanceFlows = db.balanceFlows := by
  rcases gameEnd_outcome db clientId userId body now with h | ⟨req, u, gs, _, _, _, hres⟩
  · rw [h]
  · rw [hres]
    unfold gameEndTx
    repeat' (first | split | dsimp only)
theorem call_step (db : DB) (userId : Nat) (c : DebitCall)
    (hk : KeysNonzero AccountBalance.ID db.accountBalances)
    (hcov : c.covered db userId = true) :
    KeysNonzero AccountBalance.ID (c.run db userId).2.accountBalances ∧
    spendable (c.run db userId).2 userId ≤ spendable db userId ∧
    (c.run db userId).2.balanceFlows = db.balanceFlows := by
  cases c with
  | gameStart clientId body now =>
    obtain ⟨h1, h2, _⟩ := gameStart_step db clientId userId body now hk
    exact ⟨h1, h2, gameStart_balanceFlows db clientId userId body now⟩
  | gameEnd clientId body now =>
    obtain ⟨h1, h2⟩ := gameEnd_step db clientId userId body now hk
    refine ⟨h1, ?_, gameEnd_balanceFlows db clientId userId body now⟩
    show spendable (GameEndHandler db clientId userId body now).2 userId ≤ spendable db userId
    rcases h2 with h2 | ⟨_, _, fz, _, _, _, _, h2⟩
    · rw [h2]
    · omega
  | freeze clientId body now =>
    obtain ⟨h1, h2, _⟩ := freeze_step db clientId userId body now hk
    exact ⟨h1, h2, freeze_balanceFlows db clientId userId body now⟩
  | unfreeze clientId body now =>
    have hc : refAmount db body ≤ (gameBalanceOf db userId).Frozen := by
      simpa [DebitCall.covered] using hcov
    obtain ⟨h1, h2, _⟩ := unfreeze_step db clientId userId body now hk hc
    exact ⟨h1, h2, unfreeze_balanceFlows db clientId userId body now⟩
  | spend clientId body now =>
    have hc : refAmount db body ≤ (gameBalanceOf db userId).Frozen := by
      simpa [DebitCall.covered] using hcov
    obtain ⟨h1, h2⟩ := spend_step db clientId userId body now hk hc
    refine ⟨h1, ?_, spend_balanceFlows db clientId userId body now⟩
    show spendable (SpendHandler db clientId userId body now).2 userId ≤ spendable db userId
    rcases h2 with h2 | ⟨_, _, fz, _, _, _, _, h2⟩
    · rw [h2]
    · omega

theorem runCalls_step (userId : Nat) (calls : List DebitCall) :
    ∀ db : DB, KeysNonzero AccountBalance.ID db.accountBalances →
      coveredRun db userId calls = true →
      spendable (runCalls db userId calls) userId ≤ spendable db userId ∧
      (runCalls db userId calls).balanceFlows = db.balanceFlows := by
  induction calls with
  | nil =>
    intro db _ _
    exact ⟨le_refl _, rfl⟩
  | cons c cs ih =>
    intro db hk hcov
    simp only [coveredRun, Bool.and_eq_true] at hcov
    obtain ⟨h1, h2, h3⟩ := call_step db userId c hk hcov.1
    obtain ⟨h4, h5⟩ := ih (c.run db userId).2 h1 hcov.2
    refine ⟨?_, ?_⟩
    · show spendable (runCalls (c.run db userId).2 userId cs) userId ≤ spendable db userId
      omega
    · show (runCalls (c.run db userId).2 userId cs).balanceFlows = db.balanceFlows
      rw [h5, h3]

/-- C12 (amended). For every user and every state whose balance rows carry
non-zero keys: a call of `GameStartHandler` or `FreezeHandler`, and a call of
`UnFreezeHandler` whose named row has an amount the caller's frozen balance
covers, leaves `available + frozen` unchanged modulo `2 ^ 64` and never raises
it; a call of `GameEndHandler`, and a call of `SpendHandler` whose named row
has an amount the caller's frozen balance covers, leaves it unchanged or, when
it commits, lowers it by exactly the amount of the Pending row it names.  Along
every sequence of such calls `available + frozen` never increases, and it stays
within the sum of the user's successful Recharges when it starts within it. -/
theorem C12_available_plus_frozen_never_increases (db : DB) (userId : Nat)
    (hk : KeysNonzero AccountBalance.ID db.accountBalances) :
    (∀ clientId body now,
      spendable (GameStartHandler db clientId userId body now).2 userId ≤ spendable db userId ∧
      spendable (GameStartHandler db clientId userId body now).2 userId % 2 ^ 64 =
        spendable db userId % 2 ^ 64) ∧
    (∀ clientId body now,
      spendable (FreezeHandler db clientId userId body now).2 userId ≤ spendable db userId ∧
      spendable (FreezeHandler db clientId userId body now).2 userId % 2 ^ 64 =
        spendable db userId % 2 ^ 64) ∧
    (∀ clientId body now, refAmount db body ≤ (gameBalanceOf db userId).Frozen →
      spendable (UnFreezeHandler db clientId userId body now).2 userId ≤ spendable db userId ∧
      spendable (UnFreezeHandler db clientId userId body now).2 userId % 2 ^ 64 =
        spendable db userId % 2 ^ 64) ∧
    (∀ clientId body now,
      spendable (GameEndHandler db clientId userId body now).2 userId = spendable db userId ∨
      ((GameEndHandler db clientId userId body now).1.Code = Code.CODE_SUCCESS ∧
        ∃ req fz, body = some req ∧ fz ∈ db.accountFlows ∧ fz.ID = req.GameStartID ∧
          fz.Status = FlowStatusPending ∧
          spendable (GameEndHandler db clientId userId body now).2 userId + fz.Amount =
            spendable db userId)) ∧
    (∀ clientId body now, refAmount db body ≤ (gameBalanceOf db userId).Frozen →
      (spendable (SpendHandler db clientId userId body now).2 userId = spendable db userId ∨
      ((SpendHandler db clientId userId body now).1.Code = Code.CODE_SUCCESS ∧
        ∃ req fz, body = some req ∧ fz ∈ db.accountFlows ∧ fz.ID = req.FreezeID ∧
          fz.Status = FlowStatusPending ∧
          spendable (SpendHandler db clientId userId body now).2 userId + fz.Amount =
            spendable db userId))) ∧
    (∀ calls, coveredRun db userId calls = true →
      spendable (runCalls db userId calls) userId ≤ spendable db userId ∧
      (spendable db userId ≤ rechargeTotal db userId →
        spendable (runCalls db userId calls) userId ≤
          rechargeTotal (runCalls db userId calls) userId)) := by
  refine ⟨?_, ?_, ?_, ?_, ?_, ?_⟩
  · intro clientId body now
    exact (gameStart_step db clientId userId body now hk).2
  · intro clientId body now
    exact (freeze_step db clientId userId body now hk).2
  · intro clientId body now hcov
    exact (unfreeze_step db clientId userId body now hk hcov).2
  · intro clientId body now
    exact (gameEnd_step db clientId userId body now hk).2
  · intro clientId body now hcov
    exact (spend_step db clientId userId body now hk hcov).2
  · intro calls hcov
    obtain ⟨h1, h2⟩ := runCalls_step userId calls db hk hcov
    refine ⟨h1, ?_⟩
    intro hle
    unfold rechargeTotal at hle ⊢
    rw [h2]
    omega

/-- C12, witness: in the scenario with one Recharge of 1000000, a play
(freeze 300000, spend), an advanced freeze of 200 and its unfreeze leave
`available + frozen` at 700000, within the recharged 1000000. -/
theorem C12_available_plus_frozen_never_increases_witness :
    spendable exRechargedDb 7 = 1000000 ∧
    spendable (runCalls exRechargedDb 7 exCalls) 7 = 700000 ∧
    spendable (runCalls exRechargedDb 7 exCalls) 7 ≤ spendable exRechargedDb 7 ∧
    spendable (runCalls exRechargedDb 7 exCalls) 7 ≤
      rechargeTotal (runCalls exRechargedDb 7 exCalls) 7 := by
  have h := (C12_available_plus_frozen_never_increases exRechargedDb 7
    (by unfold KeysNonzero; decide)).2.2.2.2.2 exCalls (by decide)
  exact ⟨by decide, by decide, h.1, h.2 (by decide)⟩

/-- C12, counterexample: (a) with frozen `2 ^ 64 - 1` the freeze of
`GameStartHandler` succeeds and takes `available + frozen` from
`2 ^ 64 + 999999` to 999999; (b) user 7, with available 0 and frozen 0, names
the Pending Freeze row of user 8 (amount 100) in `UnFreezeHandler`: the call
succeeds and raises `available + frozen` of user 7 from 0 to `2 ^ 64`. -/
theorem C12_counterexample :
    ((GameStartHandler (exGameDb GameStatusActive 1000000 (2 ^ 64 - 1)) "client" 7
        (some (exStartReq "std" "e1")) 5).1.Code = Code.CODE_SUCCESS ∧
      spendable (exGameDb GameStatusActive 1000000 (2 ^ 64 - 1)) 7 = 2 ^ 64 + 999999 ∧
      spendable (GameStartHandler (exGameDb GameStatusActive 1000000 (2 ^ 64 - 1)) "client" 7
        (some (exStartReq "std" "e1")) 5).2 7 = 999999) ∧
    ((UnFreezeHandler (exAdvDb 0 0) "client" 7 (some { FreezeID := 1 }) 9).1.Code =
        Code.CODE_SUCCESS ∧
      spendable (exAdvDb 0 0) 7 = 0 ∧
      (gameBalanceOf (UnFreezeHandler (exAdvDb 0 0) "client" 7 (some { FreezeID := 1 }) 9).2
        7).Available = 100 ∧
      spendable (UnFreezeHandler (exAdvDb 0 0) "client" 7 (some { FreezeID := 1 }) 9).2 7 =
        2 ^ 64) := by
  decide

theorem firstWhere_append_miss {α : Type} (key : α → Nat) (p : α → Bool) (rows : List α) (r : α)
    (h : p r = false) : firstWhere key p (rows ++ [r]) = firstWhere key p rows := by
  unfold firstWhere
  rw [List.filter_append]
  simp [h]

/-- Lookups by key in a table after rewriting the row `fz` and appending a row
under the next key. -/
theorem lookup_after_settle (rows : List AccountFlow) (fz fz1 r : AccountFlow)
    (hm : fz ∈ rows) (hid : fz1.ID = fz.ID)
    (hr : r.ID = nextID AccountFlow.ID rows) :
    accountFlowByID (updateRow AccountFlow.ID rows fz1 ++ [r])
      (nextID AccountFlow.ID rows) = some r ∧
    accountFlowByID (updateRow AccountFlow.ID rows fz1 ++ [r]) fz.ID = some fz1 ∧
    ∀ id, id ≠ fz.ID → id ≠ nextID AccountFlow.ID rows →
      accountFlowByID (updateRow AccountFlow.ID rows fz1 ++ [r]) id =
        accountFlowByID rows id := by
  have hlt := lt_nextID AccountFlow.ID hm
  refine ⟨?_, ?_, ?_⟩
  · unfold accountFlowByID
    apply firstWhere_of_min
    · simp
    · simp [hr]
    · intro y hy hp
      left
      rcases List.mem_append.mp hy with hy | hy
      · exfalso
        obtain ⟨x, hx, hkx⟩ := updateRow_key_mem AccountFlow.ID hy
        have := lt_nextID AccountFlow.ID hx
        have hyid : y.ID = nextID AccountFlow.ID rows := by simpa using hp
        omega
      · simpa using hy
  · unfold accountFlowByID
    rw [firstWhere_append_miss _ _ _ _ (by simp [hr]; omega)]
    rw [← hid]
    apply byKey_updateRow_eq
    rw [hasKey_iff]
    exact ⟨fz, hm, hid.symm⟩
  · intro id h1 h2
    unfold accountFlowByID
    rw [firstWhere_append_miss _ _ _ _ (by simp [hr]; omega)]
    exact byKey_updateRow_ne AccountFlow.ID rows fz1 id (by rw [hid]; exact fun h => h1 h.symm)
theorem nextID_updateRow {α : Type} (key : α → Nat) (rows : List α) (s : α) :
    nextID key (updateRow key rows s) = nextID key rows := by
  unfold nextID
  rw [updateRow_map_key]

theorem settles_of_shape (db db1 : DB) (fz fz1 r : AccountFlow) (status bizType : Int)
    (hm : fz ∈ db.accountFlows) (hp : fz.Status = FlowStatusPending)
    (hid : fz1.ID = fz.ID) (hst : fz1.Status = status)
    (hr : r.ID = nextID AccountFlow.ID db.accountFlows) (hb : r.BizType = bizType)
    (href : r.RefFlowID = fz.ID) (hamt : r.Amount = fz.Amount) (hdone : r.Status = FlowStatusDone)
    (hshape : db1.accountFlows = updateRow AccountFlow.ID db.accountFlows fz1 ++ [r]) :
    SettlesRow db db1 fz status bizType := by
  obtain ⟨h1, h2, h3⟩ := lookup_after_settle db.accountFlows fz fz1 r hm hid hr
  unfold SettlesRow
  rw [hshape]
  refine ⟨hm, hp, ?_, ⟨r, h1, hb, href, hamt, hdone⟩, ?_, h3, ?_⟩
  · intro f hf
    have := lt_nextID AccountFlow.ID hf
    omega
  · rw [h2]
    simp [hst]
  · simp [updateRow]

theorem settledFlows_shape (db : DB) (clientId : String) (userId : Nat) (fz : AccountFlow)
    (status bizType : Int) (now : Nat) (hm : fz ∈ db.accountFlows) (h0 : fz.ID ≠ 0) :
    (settledFlows db clientId userId fz status bizType now).2 =
      updateRow AccountFlow.ID db.accountFlows { fz with Status := status, UpdateTime := now } ++
        [{ settleRow clientId userId fz bizType now with
           ID := nextID AccountFlow.ID db.accountFlows }] := by
  unfold settledFlows
  rw [saveAccountFlow_eq_update hm
    (show fz.ID = ({ fz with Status := status, UpdateTime := now } : AccountFlow).ID from rfl) h0]
  unfold createAccountFlow
  have hz : (settleRow clientId userId fz bizType now).ID = 0 := rfl
  simp only [hz, if_true, nextID_updateRow]

/-- C13 (amended). In a spend ledger with distinct non-zero keys, a call of
`GameEndHandler`, `SpendHandler` or `UnFreezeHandler` either leaves the
database as it was, or it commits together exactly one new Done row (Spend,
Spend, Unfreeze) and the status change of the row that new row references:
that row had status Pending before the call (and, for `GameEndHandler`, type
Freeze) and has status Done after `GameEndHandler` and `SpendHandler` and
status Reversed after `UnFreezeHandler`; all other rows are as they were. -/
theorem C13_settlement_closes_referenced_row (db : DB) (clientId : String) (userId : Nat)
    (now : Nat) (hkf : KeysOK AccountFlow.ID db.accountFlows) :
    (∀ body, (GameEndHandler db clientId userId body now).2 = db ∨
      ∃ fz, fz.BizType = FlowFreeze ∧
        SettlesRow db (GameEndHandler db clientId userId body now).2 fz FlowStatusDone
          FlowSpend) ∧
    (∀ body, (SpendHandler db clientId userId body now).2 = db ∨
      ∃ fz, SettlesRow db (SpendHandler db clientId userId body now).2 fz FlowStatusDone
          FlowSpend) ∧
    (∀ body, (UnFreezeHandler db clientId userId body now).2 = db ∨
      ∃ fz, SettlesRow db (UnFreezeHandler db clientId userId body now).2 fz
          FlowStatusReversed FlowUnfreeze) := by
  refine ⟨?_, ?_, ?_⟩
  · intro body
    rcases gameEnd_outcome db clientId userId body now with h | ⟨req, u, gs, _, _, _, hres⟩
    · exact Or.inl h
    rw [hres]
    rcases gameEndTx_outcome db clientId u gs req now with h | ⟨fz, b, s1, hf, _, _, htx⟩
    · exact Or.inl h
    right
    rw [htx]
    obtain ⟨hfm, hfp, _⟩ := firstWhere_some AccountFlow.ID hf
    simp only [Bool.and_eq_true, decide_eq_true_eq] at hfp
    have hfz0 : fz.ID ≠ 0 := hkf.2 fz hfm
    refine ⟨fz, hfp.1.2, ?_⟩
    apply settles_of_shape db _ fz { fz with Status := FlowStatusDone, UpdateTime := now }
      (spendRow db clientId u.ID gs fz now) FlowStatusDone FlowSpend hfm hfp.2 rfl rfl rfl rfl
      rfl rfl rfl
    dsimp only
    rw [saveAccountFlow_eq_update (List.mem_append_left _ hfm)
      (show fz.ID = ({ fz with Status := FlowStatusDone, UpdateTime := now } : AccountFlow).ID
        from rfl) hfz0]
    unfold updateRow
    rw [List.map_append]
    congr 1
    have hlt := lt_nextID AccountFlow.ID hfm
    have hne : (spendRow db clientId u.ID gs fz now).ID ≠ fz.ID := by
      show nextID AccountFlow.ID db.accountFlows ≠ fz.ID
      omega
    simp [hne]
  · intro body
    rcases spend_outcome db clientId userId body now with h | ⟨req, fz, _, _, hf, h0, hp, hres⟩
    · exact Or.inl h
    right
    rw [hres]
    have hfm := (firstWhere_some AccountFlow.ID hf).1
    refine ⟨fz, ?_⟩
    exact settles_of_shape db _ fz { fz with Status := FlowStatusDone, UpdateTime := now }
      { settleRow clientId userId fz FlowSpend now with
        ID := nextID AccountFlow.ID db.accountFlows }
      FlowStatusDone FlowSpend hfm hp rfl rfl rfl rfl rfl rfl rfl
      (settledFlows_shape db clientId userId fz FlowStatusDone FlowSpend now hfm h0)
  · intro body
    rcases unfreeze_outcome db clientId userId body now with h | ⟨req, fz, _, _, hf, h0, hp, hres⟩
    · exact Or.inl h
    right
    rw [hres]
    have hfm := (firstWhere_some AccountFlow.ID hf).1
    refine ⟨fz, ?_⟩
    exact settles_of_shape db _ fz { fz with Status := FlowStatusReversed, UpdateTime := now }
      { settleRow clientId userId fz FlowUnfreeze now with
        ID := nextID AccountFlow.ID db.accountFlows }
      FlowStatusReversed FlowUnfreeze hfm hp rfl rfl rfl rfl rfl rfl rfl
      (settledFlows_shape db clientId userId fz FlowStatusReversed FlowUnfreeze now hfm h0)
/-- C13, witness: in the scenario of the specification the Pending Freeze row
1 is Done after `GameEndHandler` and after `SpendHandler`, and Reversed after
`UnFreezeHandler`. -/
theorem C13_settlement_closes_referenced_row_witness :
    KeysOK AccountFlow.ID exFrozenDb.accountFlows ∧
    (accountFlowByID (GameEndHandler exFrozenDb "client" 7 (some (exEndReq 1)) 6).2.accountFlows
      1).map AccountFlow.Status = some FlowStatusDone ∧
    (accountFlowByID (SpendHandler exFrozenDb "client" 7 (some { FreezeID := 1 }) 6).2.accountFlows
      1).map AccountFlow.Status = some FlowStatusDone ∧
    (accountFlowByID
      (UnFreezeHandler exFrozenDb "client" 7 (some { FreezeID := 1 }) 6).2.accountFlows
      1).map AccountFlow.Status = some FlowStatusReversed := by
  have hk : KeysOK AccountFlow.ID exFrozenDb.accountFlows := by
    unfold KeysOK KeysNonzero
    decide
  have h := C13_settlement_closes_referenced_row exFrozenDb "client" 7 6 hk
  have hall : ∀ f ∈ exFrozenDb.accountFlows, f.ID = 1 := by decide
  refine ⟨hk, ?_, ?_, ?_⟩
  · rcases h.1 (some (exEndReq 1)) with h1 | ⟨fz, _, hm, _, _, _, hst, _⟩
    · exact absurd h1 (by decide)
    · rw [hall fz hm] at hst
      exact hst
  · rcases h.2.1 (some { FreezeID := 1 }) with h1 | ⟨fz, hm, _, _, _, hst, _⟩
    · exact absurd h1 (by decide)
    · rw [hall fz hm] at hst
      exact hst
  · rcases h.2.2 (some { FreezeID := 1 }) with h1 | ⟨fz, hm, _, _, _, hst, _⟩
    · exact absurd h1 (by decide)
    · rw [hall fz hm] at hst
      exact hst

/-- C13, counterexample: user 8 names the own Pending Freeze row 1 in
`UnFreezeHandler`; the call succeeds and creates the Unfreeze row 2 that
references row 1, and row 1 has status Reversed afterwards, not Done. -/
theorem C13_counterexample :
    (accountFlowByID (exAdvDb 0 0).accountFlows 1).map
        (fun f => (f.MainID, f.BizType, f.Status)) = some (8, FlowFreeze, FlowStatusPending) ∧
    (UnFreezeHandler (exAdvDb 0 0) "client" 8 (some { FreezeID := 1 }) 9).1 =
      okWith 9 2 "unfreeze" ∧
    (accountFlowByID (UnFreezeHandler (exAdvDb 0 0) "client" 8 (some { FreezeID := 1 }) 9).2.accountFlows
      2).map (fun f => (f.BizType, f.RefFlowID)) = some (FlowUnfreeze, 1) ∧
    (accountFlowByID (UnFreezeHandler (exAdvDb 0 0) "client" 8 (some { FreezeID := 1 }) 9).2.accountFlows
      1).map AccountFlow.Status = some FlowStatusReversed ∧
    FlowStatusReversed ≠ FlowStatusDone := by
  decide

theorem foldl_pickMinSession_some (l : List GameSession) (a : GameSession) :
    ∃ r, l.foldl pickMinSession (some a) = some r ∧ (r = a ∨ r ∈ l) := by
  induction l generalizing a with
  | nil => exact ⟨a, rfl, Or.inl rfl⟩
  | cons x xs ih =>
    simp only [List.foldl_cons, pickMinSession]
    by_cases h : x.SessionID < a.SessionID
    · rw [if_pos h]
      obtain ⟨r, hr, hm⟩ := ih x
      refine ⟨r, hr, Or.inr ?_⟩
      rcases hm with hm | hm
      · rw [hm]; exact List.mem_cons_self _ _
      · exact List.mem_cons_of_mem _ hm
    · rw [if_neg h]
      obtain ⟨r, hr, hm⟩ := ih a
      refine ⟨r, hr, ?_⟩
      rcases hm with hm | hm
      · exact Or.inl hm
      · exact Or.inr (List.mem_cons_of_mem _ hm)

theorem firstSessionWhere_none {p : GameSession → Bool} {rows : List GameSession} :
    firstSessionWhere p rows = none ↔ ∀ x ∈ rows, p x = false := by
  unfold firstSessionWhere
  constructor
  · intro h x hx
    by_contra hp
    have hp1 : p x = true := by simpa using hp
    have hmem : x ∈ rows.filter p := List.mem_filter.mpr ⟨hx, hp1⟩
    cases hl : rows.filter p with
    | nil => rw [hl] at hmem; cases hmem
    | cons y ys =>
      rw [hl] at h
      simp only [List.foldl_cons, pickMinSession] at h
      obtain ⟨r, hr, _⟩ := foldl_pickMinSession_some ys y
      rw [hr] at h
      cases h
  · intro h
    have : rows.filter p = [] := by
      rw [List.filter_eq_nil_iff]
      intro x hx
      rw [h x hx]
      simp
    rw [this]
    rfl

theorem firstSessionWhere_some {p : GameSession → Bool} {rows : List GameSession}
    {r : GameSession} (h : firstSessionWhere p rows = some r) : r ∈ rows ∧ p r = true := by
  unfold firstSessionWhere at h
  cases hl : rows.filter p with
  | nil => rw [hl] at h; cases h
  | cons y ys =>
    rw [hl] at h
    simp only [List.foldl_cons, pickMinSession] at h
    obtain ⟨r1, hr, hm⟩ := foldl_pickMinSession_some ys y
    rw [hr] at h
    injection h with h
    subst h
    have hmem : r1 ∈ rows.filter p := by
      rw [hl]
      rcases hm with hm | hm
      · rw [hm]; exact List.mem_cons_self _ _
      · exact List.mem_cons_of_mem _ hm
    exact ⟨(List.mem_filter.mp hmem).1, (List.mem_filter.mp hmem).2⟩

theorem isStartFor_iff (m g : Nat) (s : GameSession) :
    isStartFor m g s = true ↔ s.MainID = m ∧ s.GameID = g ∧ s.Status = GameSessionStatusStart := by
  unfold isStartFor
  simp only [Bool.and_eq_true, decide_eq_true_eq]
  tauto

theorem filter_map_le {α : Type} (p : α → Bool) (f : α → α) (l : List α)
    (h : ∀ x ∈ l, f x = x ∨ p (f x) = false) :
    ((l.map f).filter p).length ≤ (l.filter p).length := by
  induction l with
  | nil => simp
  | cons x xs ih =>
    have ih1 := ih (fun y hy => h y (List.mem_cons_of_mem _ hy))
    rcases h x (List.mem_cons_self _ _) with hx | hx
    · simp only [List.map_cons, hx, List.filter_cons]
      by_cases hp : p x = true
      · simp only [hp, if_true, List.length_cons]
        omega
      · simp only [hp, Bool.false_eq_true, if_false]
        exact ih1
    · simp only [List.map_cons, List.filter_cons, hx, Bool.false_eq_true, if_false]
      by_cases hp : p x = true
      · simp only [hp, if_true, List.length_cons]
        omega
      · simp only [hp, Bool.false_eq_true, if_false]
        exact ih1

/-- Saving a session row that is not in Start state keeps the invariant. -/
theorem oneStart_saveGameSession (db : DB) (s : GameSession) (rows1 : List GameSession)
    (hs : s.Status ≠ GameSessionStatusStart) (h : OneStart db)
    (hsave : saveGameSession db.gameSessions s = some rows1) :
    ∀ m g, (rows1.filter (isStartFor m g)).length ≤ 1 := by
  intro m g
  have hps : isStartFor m g s = false := by
    by_contra hc
    have := (isStartFor_iff m g s).mp (by simpa using hc)
    exact hs this.2.2
  have happ : ((db.gameSessions ++ [s]).filter (isStartFor m g)).length ≤ 1 := by
    rw [List.filter_append]
    simp only [List.filter_cons, hps, Bool.false_eq_true, if_false, List.filter_nil,
      List.append_nil]
    exact h m g
  unfold saveGameSession at hsave
  by_cases c1 : s.SessionID = ""
  · rw [if_pos c1] at hsave
    by_cases c2 : (db.gameSessions.any (fun x => decide (x.SessionID = ""))) = true
    · rw [if_pos c2] at hsave
      cases hsave
    · rw [if_neg c2] at hsave
      injection hsave with hsave
      rw [← hsave]
      exact happ
  · rw [if_neg c1] at hsave
    by_cases c2 : (db.gameSessions.any (fun x => decide (x.SessionID = s.SessionID))) = true
    · rw [if_pos c2] at hsave
      injection hsave with hsave
      rw [← hsave]
      refine le_trans (filter_map_le _ _ _ ?_) (h m g)
      intro x _
      by_cases hx : x.SessionID = s.SessionID
      · right
        simp only [hx, if_true]
        exact hps
      · left
        simp only [hx, if_false]
    · rw [if_neg c2] at hsave
      injection hsave with hsave
      rw [← hsave]
      exact happ
theorem createGameSession_some {rows rows1 : List GameSession} {s : GameSession}
    (h : createGameSession rows s = some rows1) : rows1 = rows ++ [s] := by
  unfold createGameSession at h
  by_cases c : (rows.any (fun x => decide (x.SessionID = s.SessionID))) = true
  · rw [if_pos c] at h
    cases h
  · rw [if_neg c] at h
    injection h with h
    exact h.symm

/-- A call of `GameSessionInitHandler` that passes the checks on the caller
and on the game of the client and finds no Start session for the pair inserts
one Start row under the fresh key and returns that key. -/
theorem init_creates (db : DB) (clientId : String) (userId : Nat) (newSessionId : String)
    (now : Nat) (u : UserMain) (ga : GameApp) (gi : GameInfo)
    (hu : firstWhere UserMain.ID (fun u => decide (u.ID = userId)) db.users = some u)
    (hu0 : userId ≠ 0)
    (ha : firstWhere GameApp.ID (fun g => decide (g.ClientID = clientId)) db.gameApps = some ga)
    (ha0 : ga.ID ≠ 0)
    (hi : firstWhere GameInfo.ID (isGameOfClient db clientId) db.gameInfos = some gi)
    (hi0 : gi.ID ≠ 0)
    (hst : gi.Status ≠ GameStatusDraft ∧ gi.Status ≠ GameStatusInactive)
    (hnone : ∀ s ∈ db.gameSessions, isStartFor userId ga.GameID s = false)
    (hfresh : ∀ s ∈ db.gameSessions, s.SessionID ≠ newSessionId) :
    GameSessionInitHandler db clientId userId newSessionId now =
      (sessionOk now newSessionId,
        { db with
          gameSessions := db.gameSessions ++
            [newStartSession userId ga.GameID newSessionId now
              (if gi.Status ≠ GameStatusActive then 1 else 0)] }) := by
  have huid : u.ID = userId := byKey_some_key UserMain.ID hu
  have hi2 : firstWhere GameInfo.ID
      (fun gi => db.gameApps.any
        (fun ga => decide (gi.ID = ga.GameID) && decide (ga.ClientID = clientId)))
      db.gameInfos = some gi := hi
  unfold GameSessionInitHandler
  simp only [hu, ha, hi2, Option.getD_some]
  rw [if_neg (by rw [huid]; exact hu0), if_neg hi0, if_neg (by tauto), if_neg ha0]
  rw [huid, firstSessionWhere_none.mpr hnone]
  dsimp only
  have hc : createGameSession db.gameSessions
      { (default : GameSession) with
        SessionID := newSessionId, MainID := userId, GameID := ga.GameID,
        Status := GameSessionStatusStart, StartTime := now,
        Testing := if gi.Status ≠ GameStatusActive then 1 else 0 } =
      some (db.gameSessions ++
        [newStartSession userId ga.GameID newSessionId now
          (if gi.Status ≠ GameStatusActive then 1 else 0)]) := by
    unfold createGameSession
    rw [if_neg]
    · rfl
    · rw [Bool.not_eq_true, List.any_eq_false]
      intro x hx
      simpa using hfresh x hx
  rw [hc]
  rfl

/-- A call of `GameSessionInitHandler` that passes the checks and finds a
Start session for the pair returns the key of such a session and writes
nothing. -/
theorem init_existing (db : DB) (clientId : String) (userId : Nat) (newSessionId : String)
    (now : Nat) (u : UserMain) (ga : GameApp) (gi : GameInfo) (e : GameSession)
    (hu : firstWhere UserMain.ID (fun u => decide (u.ID = userId)) db.users = some u)
    (hu0 : userId ≠ 0)
    (ha : firstWhere GameApp.ID (fun g => decide (g.ClientID = clientId)) db.gameApps = some ga)
    (ha0 : ga.ID ≠ 0)
    (hi : firstWhere GameInfo.ID (isGameOfClient db clientId) db.gameInfos = some gi)
    (hi0 : gi.ID ≠ 0)
    (hst : gi.Status ≠ GameStatusDraft ∧ gi.Status ≠ GameStatusInactive)
    (he : firstSessionWhere (isStartFor userId ga.GameID) db.gameSessions = some e) :
    GameSessionInitHandler db clientId userId newSessionId now =
      (sessionOk now e.SessionID, db) := by
  have huid : u.ID = userId := byKey_some_key UserMain.ID hu
  have hi2 : firstWhere GameInfo.ID
      (fun gi => db.gameApps.any
        (fun ga => decide (gi.ID = ga.GameID) && decide (ga.ClientID = clientId)))
      db.gameInfos = some gi := hi
  unfold GameSessionInitHandler
  simp only [hu, ha, hi2, Option.getD_some]
  rw [if_neg (by rw [huid]; exact hu0), if_neg hi0, if_neg (by tauto), if_neg ha0]
  rw [huid, he]
  rfl

/-- A call of `GameSessionInitHandler` either leaves the database as it is or
appends one Start row for a pair that had none. -/
theorem init_outcome (db : DB) (clientId : String) (userId : Nat) (newSessionId : String)
    (now : Nat) :
    (GameSessionInitHandler db clientId userId newSessionId now).2 = db ∨
    ∃ m g t, (∀ s ∈ db.gameSessions, isStartFor m g s = false) ∧
      (GameSessionInitHandler db clientId userId newSessionId now).2 =
        { db with gameSessions := db.gameSessions ++ [newStartSession m g newSessionId now t] } := by
  unfold GameSessionInitHandler
  dsimp only
  by_cases c1 : ((firstWhere UserMain.ID (fun u => decide (u.ID = userId)) db.users).getD
      default).ID = 0
  · rw [if_pos c1]; left; rfl
  rw [if_neg c1]
  by_cases c2 : ((firstWhere GameInfo.ID
      (fun gi => db.gameApps.any
        (fun ga => decide (gi.ID = ga.GameID) && decide (ga.ClientID = clientId)))
      db.gameInfos).getD default).ID = 0
  · rw [if_pos c2]; left; rfl
  rw [if_neg c2]
  split
  · left; rfl
  split
  · left; rfl
  split
  · left; rfl
  · rename_i hnone
    split
    · left; rfl
    · rename_i sessions1 heq
      have hrows := createGameSession_some heq
      subst hrows
      right
      exact ⟨_, _, _, firstSessionWhere_none.mp hnone, rfl⟩
theorem firstSessionWhere_unique {p : GameSession → Bool} {rows : List GameSession}
    {e : GameSession} (hlen : (rows.filter p).length ≤ 1) (he : e ∈ rows) (hp : p e = true) :
    firstSessionWhere p rows = some e := by
  unfold firstSessionWhere
  have hmem : e ∈ rows.filter p := List.mem_filter.mpr ⟨he, hp⟩
  cases hl : rows.filter p with
  | nil => rw [hl] at hmem; cases hmem
  | cons y ys =>
    rw [hl] at hlen hmem
    cases ys with
    | nil =>
      simp only [List.mem_singleton] at hmem
      rw [hmem]
      rfl
    | cons z zs =>
      simp only [List.length_cons] at hlen
      omega

theorem oneStart_init (db : DB) (clientId : String) (userId : Nat) (newSessionId : String)
    (now : Nat) (h : OneStart db) :
    OneStart (GameSessionInitHandler db clientId userId newSessionId now).2 := by
  rcases init_outcome db clientId userId newSessionId now with h1 | ⟨m, g, t, hnone, h1⟩
  · rw [h1]; exact h
  · rw [h1]
    intro m1 g1
    dsimp only
    rw [List.filter_append]
    by_cases hmg : m1 = m ∧ g1 = g
    · obtain ⟨rfl, rfl⟩ := hmg
      have : db.gameSessions.filter (isStartFor m1 g1) = [] := by
        rw [List.filter_eq_nil_iff]
        intro x hx
        rw [hnone x hx]
        simp
      rw [this]
      simp only [List.nil_append]
      exact List.length_filter_le _ _
    · have hp : isStartFor m1 g1 (newStartSession m g newSessionId now t) = false := by
        by_contra hc
        have := (isStartFor_iff m1 g1 _).mp (by simpa using hc)
        exact hmg ⟨this.1.symm, this.2.1.symm⟩
      simp only [List.filter_cons, hp, Bool.false_eq_true, if_false, List.filter_nil,
        List.append_nil]
      exact h m1 g1

theorem oneStart_confirm (db : DB) (mainId : Option Nat) (body : Option ConfirmGameSessionReq)
    (now : Nat) (h : OneStart db) : OneStart (ConfirmGameSession db mainId body now).2 := by
  unfold ConfirmGameSession
  repeat' (first | split | dsimp only)
  all_goals first
    | exact h
    | (rename_i rows1 hsave
       exact oneStart_saveGameSession db _ rows1 (by dsimp only; decide) h hsave)

theorem oneStart_gameEnd (db : DB) (clientId : String) (userId : Nat) (body : Option GameEndReq)
    (now : Nat) (h : OneStart db) : OneStart (GameEndHandler db clientId userId body now).2 := by
  rcases gameEnd_outcome db clientId userId body now with h1 | ⟨req, u, gs, _, _, _, hres⟩
  · rw [h1]; exact h
  rw [hres]
  unfold gameEndTx
  repeat' (first | split | dsimp only)
  all_goals first
    | exact h
    | (rename_i rows1 hsave
       exact oneStart_saveGameSession db _ rows1 (by dsimp only; decide) h hsave)

theorem oneStart_run (calls : List SessionCall) :
    ∀ db : DB, OneStart db → OneStart (runSessionCalls db calls) := by
  induction calls with
  | nil => intro db h; exact h
  | cons c cs ih =>
    intro db h
    apply ih
    cases c with
    | init clientId userId newSessionId now => exact oneStart_init db clientId userId _ now h
    | gameEnd clientId userId body now => exact oneStart_gameEnd db clientId userId body now h
    | confirm mainId body now => exact oneStart_confirm db mainId body now h

/-- C14 (amended). From a state with at most one Start session per user and
game, every sequence of calls of `GameSessionInitHandler`, `GameEndHandler`
and `ConfirmGameSession` leads to such a state.  For a call of
`GameSessionInitHandler` whose caller exists and whose client resolves to a
game that is neither Draft nor Inactive: when a Start session exists for the
pair, the call returns that session's id and leaves the database as it is;
when none exists and the generated id is fresh, it inserts exactly one row, a
Start session for the pair, and returns the generated id. -/
theorem C14_one_start_session_per_pair (db : DB) (hinv : OneStart db) :
    (∀ calls, OneStart (runSessionCalls db calls)) ∧
    (∀ clientId userId newSessionId now u ga gi,
      firstWhere UserMain.ID (fun u => decide (u.ID = userId)) db.users = some u →
      userId ≠ 0 →
      firstWhere GameApp.ID (fun g => decide (g.ClientID = clientId)) db.gameApps = some ga →
      ga.ID ≠ 0 →
      firstWhere GameInfo.ID (isGameOfClient db clientId) db.gameInfos = some gi →
      gi.ID ≠ 0 →
      gi.Status ≠ GameStatusDraft ∧ gi.Status ≠ GameStatusInactive →
      (∀ e ∈ db.gameSessions, isStartFor userId ga.GameID e = true →
        GameSessionInitHandler db clientId userId newSessionId now =
          (sessionOk now e.SessionID, db)) ∧
      ((∀ s ∈ db.gameSessions, isStartFor userId ga.GameID s = false) →
        (∀ s ∈ db.gameSessions, s.SessionID ≠ newSessionId) →
        GameSessionInitHandler db clientId userId newSessionId now =
          (sessionOk now newSessionId,
            { db with
              gameSessions := db.gameSessions ++
                [newStartSession userId ga.GameID newSessionId now
                  (if gi.Status ≠ GameStatusActive then 1 else 0)] }))) := by
  refine ⟨fun calls => oneStart_run calls db hinv, ?_⟩
  intro clientId userId newSessionId now u ga gi hu hu0 ha ha0 hi hi0 hst
  refine ⟨?_, ?_⟩
  · intro e he hp
    exact init_existing db clientId userId newSessionId now u ga gi e hu hu0 ha ha0 hi hi0 hst
      (firstSessionWhere_unique (hinv userId ga.GameID) he hp)
  · intro hnone hfresh
    exact init_creates db clientId userId newSessionId now u ga gi hu hu0 ha ha0 hi hi0 hst
      hnone hfresh

/-- C14, witness: in the scenario user 7 holds the Start session `s1` of game
3; a further `startSession` returns `s1` and writes nothing, and after the
play has ended a `startSession` with the fresh id `s2` inserts that session. -/
theorem C14_one_start_session_per_pair_witness :
    OneStart exFrozenDb ∧
    GameSessionInitHandler exFrozenDb "client" 7 "s2" 6 = (sessionOk 6 "s1", exFrozenDb) ∧
    OneStart (runSessionCalls exFrozenDb
      [.gameEnd "client" 7 (some (exEndReq 1)) 6, .init "client" 7 "s2" 7,
       .confirm (some 7) (some { SessionID := "s1", Score := { value := 42, exp := 0 } }) 8]) := by
  have hinv : OneStart exFrozenDb := by
    intro m g
    have hl : exFrozenDb.gameSessions.length = 1 := by decide
    have := List.length_filter_le (isStartFor m g) exFrozenDb.gameSessions
    omega
  have h := C14_one_start_session_per_pair exFrozenDb hinv
  refine ⟨hinv, ?_, h.1 _⟩
  exact (h.2 "client" 7 "s2" 6 exUser
    { (default : GameApp) with ID := 1, GameID := 3, ClientID := "client" }
    { (default : GameInfo) with ID := 3, Status := GameStatusActive }
    (by decide) (by decide) (by decide) (by decide) (by decide) (by decide) (by decide)).1
    { (default : GameSession) with
      SessionID := "s1", GameID := 3, MainID := 7, Status := GameSessionStatusStart }
    (by decide) (by decide)

/-- C14, counterexample: user 7 and the client of game 3 exist, the game is
in Draft state and no session exists, so no Start session exists for the pair;
`GameSessionInitHandler` answers `game not active or testing` and creates no
session. -/
theorem C14_counterexample :
    (exNoSessionDb GameStatusDraft).gameSessions = [] ∧
    (GameSessionInitHandler (exNoSessionDb GameStatusDraft) "client" 7 "s2" 6).1 =
      { Timestamp := 6, Code := Code.CODE_ERR_BAD_PARAMS, Msg := "game not active or testing",
        Data := none } ∧
    (GameSessionInitHandler (exNoSessionDb GameStatusDraft) "client" 7 "s2" 6).2 =
      exNoSessionDb GameStatusDraft ∧
    (GameSessionInitHandler (exNoSessionDb GameStatusActive) "client" 7 "s2" 6).1 =
      sessionOk 6 "s2" := by
  decide

theorem natBytesLE_decode (fuel : Nat) : ∀ n, n ≤ fuel →
    (natBytesLE fuel n).foldr (fun b acc => acc * 256 + b) 0 = n := by
  induction fuel with
  | zero =>
    intro n hn
    have : n = 0 := by omega
    subst this
    rfl
  | succ fuel ih =>
    intro n hn
    unfold natBytesLE
    by_cases h0 : n = 0
    · rw [if_pos h0, h0]
      rfl
    · rw [if_neg h0]
      simp only [List.foldr_cons]
      rw [ih (n / 256) (by omega)]
      omega

theorem natBytesLE_length (fuel : Nat) : ∀ n k, n < 256 ^ k →
    (natBytesLE fuel n).length ≤ k := by
  induction fuel with
  | zero => intro n k _; simp [natBytesLE]
  | succ fuel ih =>
    intro n k hk
    unfold natBytesLE
    by_cases h0 : n = 0
    · rw [if_pos h0]
      simp
    · rw [if_neg h0]
      cases k with
      | zero =>
        simp only [pow_zero] at hk
        omega
      | succ k =>
        simp only [List.length_cons]
        have : n / 256 < 256 ^ k := by
          rw [Nat.div_lt_iff_lt_mul (by norm_num)]
          rw [pow_succ] at hk
          exact hk
        have := ih (n / 256) k this
        omega

theorem natBytesLE_lt (fuel : Nat) : ∀ n, ∀ b ∈ natBytesLE fuel n, b < 256 := by
  induction fuel with
  | zero => intro n b hb; simp [natBytesLE] at hb
  | succ fuel ih =>
    intro n b hb
    unfold natBytesLE at hb
    by_cases h0 : n = 0
    · rw [if_pos h0] at hb
      cases hb
    · rw [if_neg h0] at hb
      simp only [List.mem_cons] at hb
      rcases hb with hb | hb
      · rw [hb]
        exact Nat.mod_lt _ (by norm_num)
      · exact ih _ b hb

theorem beDecode_natBytes (n : Nat) : beDecode (natBytes n) = n := by
  unfold beDecode natBytes
  rw [List.foldl_reverse]
  exact natBytesLE_decode n n (le_refl n)

theorem natBytes_length (n k : Nat) (h : n < 256 ^ k) : (natBytes n).length ≤ k := by
  unfold natBytes
  rw [List.length_reverse]
  exact natBytesLE_length n n k h

theorem natBytes_lt (n : Nat) : ∀ b ∈ natBytes n, b < 256 := by
  intro b hb
  unfold natBytes at hb
  exact natBytesLE_lt n n b (List.mem_reverse.mp hb)

theorem beDecode_zeros (m : Nat) (bs : List Nat) :
    beDecode (List.replicate m 0 ++ bs) = beDecode bs := by
  unfold beDecode
  rw [List.foldl_append]
  congr 1
  induction m with
  | zero => rfl
  | succ m ih =>
    rw [List.replicate_succ, List.foldl_cons]
    simpa using ih

theorem leftPadBytes32_of_le (b : List Nat) (h : b.length ≤ 32) :
    leftPadBytes32 b = List.replicate (32 - b.length) 0 ++ b := by
  unfold leftPadBytes32
  by_cases h32 : b.length ≥ 32
  · rw [if_pos h32]
    have : b.length = 32 := by omega
    simp [this]
  · rw [if_neg h32]

theorem leftPadBytes32_length (b : List Nat) : (leftPadBytes32 b).length = 32 := by
  unfold leftPadBytes32
  by_cases h32 : b.length ≥ 32
  · rw [if_pos h32]
    simp only [List.length_drop]
    omega
  · rw [if_neg h32]
    simp only [List.length_append, List.length_replicate]
    omega

/-- The 32-byte big-endian encoding `toUint256` gives a value below `2 ^ 256`:
32 bytes that decode to the value. -/
theorem toUint256_spec (x : Nat) (hx : x < 2 ^ 256) :
    (toUint256 (some (x : Int))).length = 32 ∧ beDecode (toUint256 (some (x : Int))) = x ∧
    ∀ b ∈ toUint256 (some (x : Int)), b < 256 := by
  have hlen : (natBytes x).length ≤ 32 := by
    apply natBytes_length
    calc x < 2 ^ 256 := hx
      _ = 256 ^ 32 := by norm_num
  unfold toUint256
  simp only [Option.getD_some, Int.natAbs_ofNat]
  refine ⟨leftPadBytes32_length _, ?_, ?_⟩
  · rw [leftPadBytes32_of_le _ hlen, beDecode_zeros, beDecode_natBytes]
  · intro b hb
    rw [leftPadBytes32_of_le _ hlen] at hb
    rcases List.mem_append.mp hb with hb | hb
    · have := (List.mem_replicate.mp hb).2
      omega
    · exact natBytes_lt x b hb

/-- C19. With `keccak256` any function that returns 32 bytes: for every
20-byte user address, 32-byte lock id, amount and nonce below `2 ^ 256` and
expiry below `2 ^ 64`, `buildLockAuthStructHash` is `keccak256` of the 192
bytes `typeHash ++ (12 zero bytes ++ address) ++ lockId ++ A ++ E ++ N`, where
`A`, `E`, `N` are the `toUint256` encodings of amount, expiry and nonce: 32
bytes each, of byte values, that decode as big-endian integers to the value
encoded; and the digest is `keccak256` of the 66 bytes
`0x19 0x01 ++ domainSeparator ++ structHash`. -/
theorem C19_struct_hash_layout (keccak256 : List Nat → List Nat) (user lockId : List Nat)
    (amount expiry nonce : Nat) (domainSep : List Nat)
    (hk : ∀ d, (keccak256 d).length = 32)
    (hu : user.length = 20) (hl : lockId.length = 32)
    (ha : amount < 2 ^ 256) (he : expiry < 2 ^ 64) (hn : nonce < 2 ^ 256)
    (hd : domainSep.length = 32) :
    buildLockAuthStructHash keccak256 user lockId amount expiry nonce =
      keccak256 (lockAuthTypeHash keccak256 ++ (List.replicate 12 0 ++ user) ++ lockId ++
        toUint256 (some (amount : Int)) ++ toUint256 (some (expiry : Int)) ++
        toUint256 (some (nonce : Int))) ∧
    (lockAuthTypeHash keccak256 ++ (List.replicate 12 0 ++ user) ++ lockId ++
        toUint256 (some (amount : Int)) ++ toUint256 (some (expiry : Int)) ++
        toUint256 (some (nonce : Int))).length = 192 ∧
    ((toUint256 (some (amount : Int))).length = 32 ∧
      beDecode (toUint256 (some (amount : Int))) = amount ∧
      ∀ b ∈ toUint256 (some (amount : Int)), b < 256) ∧
    ((toUint256 (some (expiry : Int))).length = 32 ∧
      beDecode (toUint256 (some (expiry : Int))) = expiry ∧
      ∀ b ∈ toUint256 (some (expiry : Int)), b < 256) ∧
    ((toUint256 (some (nonce : Int))).length = 32 ∧
      beDecode (toUint256 (some (nonce : Int))) = nonce ∧
      ∀ b ∈ toUint256 (some (nonce : Int)), b < 256) ∧
    lockAuthDigest keccak256 domainSep
        (buildLockAuthStructHash keccak256 user lockId amount expiry nonce) =
      keccak256 ([0x19, 0x01] ++ domainSep ++
        buildLockAuthStructHash keccak256 user lockId amount expiry nonce) ∧
    ([0x19, 0x01] ++ domainSep ++
        buildLockAuthStructHash keccak256 user lockId amount expiry nonce).length = 66 := by
  have hA := toUint256_spec amount ha
  have hE := toUint256_spec expiry (lt_trans he (by norm_num))
  have hN := toUint256_spec nonce hn
  have hpad : leftPadBytes32 user = List.replicate 12 0 ++ user := by
    rw [leftPadBytes32_of_le user (by omega), hu]
  refine ⟨?_, ?_, hA, hE, hN, rfl, ?_⟩
  · unfold buildLockAuthStructHash
    rw [hpad]
  · simp only [List.length_append, List.length_replicate, hu, hl, hA.1, hE.1, hN.1]
    unfold lockAuthTypeHash
    rw [hk]
  · simp only [List.length_append, List.length_cons, List.length_nil, hd]
    unfold buildLockAuthStructHash
    rw [hk]

/-- C19, witness: with the stand-in hash, the address `01 .. 14`, a lock id of
32 bytes `ab`, amount 500000, expiry 1700036000 and nonce `2 ^ 255 + 7`, the
hashed input has 192 bytes and the three encodings decode to the values. -/
theorem C19_struct_hash_layout_witness :
    (lockAuthTypeHash exKeccak ++ (List.replicate 12 0 ++ (List.range 20).map (fun i => i + 1)) ++
        List.replicate 32 171 ++ toUint256 (some ((500000 : Nat) : Int)) ++
        toUint256 (some ((1700036000 : Nat) : Int)) ++
        toUint256 (some ((2 ^ 255 + 7 : Nat) : Int))).length = 192 ∧
    beDecode (toUint256 (some ((500000 : Nat) : Int))) = 500000 ∧
    beDecode (toUint256 (some ((2 ^ 255 + 7 : Nat) : Int))) = 2 ^ 255 + 7 := by
  have h := C19_struct_hash_layout exKeccak ((List.range 20).map (fun i => i + 1))
    (List.replicate 32 171) 500000 1700036000 (2 ^ 255 + 7) (List.replicate 32 1)
    (by intro d; simp [exKeccak]) (by decide) (by decide) (by norm_num) (by norm_num)
    (by norm_num) (by decide)
  exact ⟨h.2.1, h.2.2.1.2.1, h.2.2.2.2.1.2.1⟩

theorem getD_set_self (l : List Nat) (i v d : Nat) (h : i < l.length) :
    (l.set i v).getD i d = v := by
  simp [List.getD_eq_getElem?_getD, List.getElem?_set, h]

theorem set_set_getD (l : List Nat) (i v d : Nat) (h : i < l.length) :
    (l.set i v).set i (l.getD i d) = l := by
  rw [List.set_set]
  apply List.ext_getElem
  · simp
  · intro n h1 h2
    by_cases hn : i = n
    · subst hn
      simp [List.getD_eq_getElem?_getD, h]
    · simp [List.getElem_set, hn]

/-- C20. Whenever `crypto.Sign` returns, for a digest and a private key, a
signature of the documented form (65 bytes, recovery byte 0 or 1) from which
`crypto.SigToPub` recovers the public key of that private key, the signature
`BuildAndSignLockAuth` returns for that digest has 65 bytes and recovery byte
27 or 28, and `RecoverLockAuthSigner` returns from it, without error, the
address of the public key of that private key. -/
theorem C20_recover_returns_signer (lib : CryptoLib) (digest : List Nat) (privKey : Nat)
    (s sig : List Nat)
    (hsign : lib.sign digest privKey = .ok s)
    (hlen : s.length = 65) (hv : s.getD 64 0 ≤ 1)
    (hrec : lib.sigToPub digest s = .ok (lib.publicKey privKey))
    (hsig : signDigest lib digest privKey = .ok sig) :
    sig.length = 65 ∧ (sig.getD 64 0 = 27 ∨ sig.getD 64 0 = 28) ∧
    RecoverLockAuthSigner lib digest sig =
      .ok (lib.pubkeyToAddress (lib.publicKey privKey)) := by
  unfold signDigest at hsig
  rw [hsign] at hsig
  simp only [Except.ok.injEq] at hsig
  have hnorm : sig = s.set 64 (s.getD 64 0 + 27) := by
    rw [← hsig]
    unfold normalizeV
    rw [if_pos hlen, if_pos (by omega)]
    congr 1
    omega
  have hlen2 : sig.length = 65 := by rw [hnorm, List.length_set, hlen]
  have hv2 : sig.getD 64 0 = s.getD 64 0 + 27 := by
    rw [hnorm]
    exact getD_set_self s 64 _ 0 (by omega)
  refine ⟨hlen2, by omega, ?_⟩
  unfold RecoverLockAuthSigner
  rw [if_neg (by omega)]
  dsimp only
  rw [if_pos (by omega), hv2]
  have hback : sig.set 64 ((s.getD 64 0 + 27 + 256 - 27) % 256) = s := by
    have : (s.getD 64 0 + 27 + 256 - 27) % 256 = s.getD 64 0 := by omega
    rw [this, hnorm]
    exact set_set_getD s 64 _ 0 (by omega)
  rw [hback, hrec]

/-- C20, witness: with the stand-in library, the signature of a 32-byte digest
under key 5 carries recovery byte 27, and the signer recovered from it is the
address of key 5. -/
theorem C20_recover_returns_signer_witness :
    ((signDigest exLib (List.replicate 32 9) 5).toOption.map (fun sig => sig.getD 64 0)) =
      some 27 ∧
    (RecoverLockAuthSigner exLib (List.replicate 32 9)
      (List.replicate 64 5 ++ [27])).toOption = some (List.replicate 19 0 ++ [5]) := by
  have h := C20_recover_returns_signer exLib (List.replicate 32 9) 5
    (List.replicate 64 5 ++ [0]) (List.replicate 64 5 ++ [27]) (by rfl) (by decide) (by decide)
    (by rfl) (by rfl)
  refine ⟨by decide, ?_⟩
  rw [h.2.2]
  rfl

/-- What a successful `BuildAndSignLockAuth` returns: the digest of lines 158
to 161 for the decoded lock id and the fetched domain separator, and the
normalised signature of that digest under the parsed key. -/
theorem buildAndSign_ok (lib : CryptoLib) (chainID : Nat)
    (contractAddr privKeyHex userAddr lockIdHex : String) (amount : Option Int) (expiry : Nat)
    (nonce : Option Int) (digest sig : List Nat)
    (h : BuildAndSignLockAuth lib chainID contractAddr privKeyHex userAddr lockIdHex amount expiry
      nonce = .ok (digest, sig)) :
    ∃ rpcURL lockId domainSep privKey,
      lib.pickRPCByChainID chainID = .ok rpcURL ∧
      hexutilDecode lockIdHex = some lockId ∧ lockId.length = 32 ∧
      lib.fetchDomainSeparator rpcURL (lib.hexToAddress contractAddr) = .ok domainSep ∧
      lib.hexToECDSA (trimPrefix0x privKeyHex) = .ok privKey ∧
      digest = lockAuthDigest lib.keccak256 domainSep
        (buildLockAuthStructHash lib.keccak256 (lib.hexToAddress userAddr) lockId
          (amount.getD 0) expiry (nonce.getD 0)) ∧
      signDigest lib digest privKey = .ok sig := by
  unfold BuildAndSignLockAuth at h
  split at h
  · cases h
  split at h
  · cases h
  rename_i rpcURL hrpc
  try dsimp only at h
  split at h
  · cases h
  rename_i lockId hlock
  split at h
  · cases h
  rename_i hlen
  try dsimp only at h
  split at h
  · cases h
  rename_i domainSep hdom
  try dsimp only at h
  split at h
  · cases h
  rename_i privKey hkey
  split at h
  · cases h
  rename_i signature hsig
  simp only [Except.ok.injEq, Prod.mk.injEq] at h
  obtain ⟨h1, h2⟩ := h
  subst h1 h2
  exact ⟨rpcURL, lockId, domainSep, privKey, hrpc, hlock, not_not.mp hlen, hdom, hkey, rfl, hsig⟩

theorem hexVal_digitChar : ∀ d < 16, hexVal (Nat.digitChar d) = some d := by decide

theorem hexDecode_encode (bs : List Nat) (h : ∀ b ∈ bs, b < 256) :
    hexDecodeChars (hexEncodeBytes bs) = some bs := by
  induction bs with
  | nil => rfl
  | cons b rest ih =>
    have hb : b < 256 := h b (List.mem_cons_self _ _)
    have hrest := ih (fun x hx => h x (List.mem_cons_of_mem _ hx))
    simp only [hexEncodeBytes, hexDecodeChars]
    rw [hexVal_digitChar (b / 16) (by omega), hexVal_digitChar (b % 16) (Nat.mod_lt _ (by norm_num)),
      hrest]
    simp only [Option.some.injEq, List.cons.injEq, and_true]
    omega

theorem hexutilDecode_encode (bs : List Nat) (h : ∀ b ∈ bs, b < 256) :
    hexutilDecode (hexutilEncode bs) = some bs := by
  unfold hexutilDecode hexutilEncode
  simp only [true_or, if_true]
  exact hexDecode_encode bs h

/-- The stored nonce survives the round trip through its 32-byte hexadecimal
spelling, for every non-negative value. -/
theorem hex32_roundtrip (n : Nat) : hex32ToBigInt (bigIntToHex32 (n : Int)) = some (n : Int) := by
  unfold hex32ToBigInt bigIntToHex32
  simp only [Int.natAbs_ofNat]
  by_cases hlen : (natBytes n).length < 32
  · rw [if_pos hlen, hexutilDecode_encode]
    · simp only [beDecode_zeros, beDecode_natBytes]
    · intro b hb
      rcases List.mem_append.mp hb with hb | hb
      · have := (List.mem_replicate.mp hb).2
        omega
      · exact natBytes_lt n b hb
  · rw [if_neg hlen, hexutilDecode_encode _ (natBytes_lt n)]
    simp only [beDecode_natBytes]
theorem noOpenLock_getD {db : DB} {userId : Nat}
    (hnone : ∀ f ∈ db.balanceFlows, isOpenLock userId f = false) :
    (firstWhere AccountBalanceFlow.ID (isOpenLock userId) db.balanceFlows).getD default =
      default := by
  rw [(firstWhere_none AccountBalanceFlow.ID).mpr hnone]
  rfl

/-- A request of an existing user without open lock and without a request in
flight runs the transaction. -/
theorem withdraw_reaches_tx (env : WithdrawEnv) (db : DB) (userId : Nat) (req : WithdrawReq)
    (now : Nat) (u : UserMain)
    (hfl : env.inFlight = false)
    (hu : firstWhere UserMain.ID (fun u => decide (u.ID = userId)) db.users = some u)
    (hnone : ∀ f ∈ db.balanceFlows, isOpenLock userId f = false) :
    BalanceWithdrawRequest env db (some userId) (some req) now =
      (some (withdrawTx env db u req.ChainID (bigUint64 req.Amount.scaledUnits) now).1,
        (withdrawTx env db u req.ChainID (bigUint64 req.Amount.scaledUnits) now).2) := by
  have huid : u.ID = userId := byKey_some_key UserMain.ID hu
  unfold BalanceWithdrawRequest
  simp only [hfl, hu, huid, noOpenLock_getD hnone]
  rfl

/-- A request that finds an open lock with a positive key answers from that
row and writes nothing. -/
theorem withdraw_answers_existing (env : WithdrawEnv) (db : DB) (userId : Nat)
    (req : WithdrawReq) (now : Nat) (u : UserMain) (e : AccountBalanceFlow)
    (hfl : env.inFlight = false)
    (hu : firstWhere UserMain.ID (fun u => decide (u.ID = userId)) db.users = some u)
    (he : firstWhere AccountBalanceFlow.ID (isOpenLock userId) db.balanceFlows = some e)
    (he0 : 0 < e.ID) :
    BalanceWithdrawRequest env db (some userId) (some req) now =
      (withdrawExisting e (bigUint64 req.Amount.scaledUnits) now, db) := by
  have huid : u.ID = userId := byKey_some_key UserMain.ID hu
  unfold BalanceWithdrawRequest
  simp only [hfl, hu, huid, he, Option.getD_some]
  rw [if_pos he0]
  simp

/-- The transaction with a sufficient balance, a complete configuration and a
successful signature commits the lock. -/
theorem withdrawTx_issues (env : WithdrawEnv) (db : DB) (u : UserMain) (chainID a now : Nat)
    (b : AccountBalance) (lockIdHex : String) (digest sig : List Nat)
    (hbal : firstWhere AccountBalance.ID
      (fun b => decide (b.MainID = u.ID) && decide (b.AssetID = 0)) db.accountBalances = some b)
    (hle : a ≤ b.Available)
    (hcfg : env.contractAddr.utf8ByteSize ≠ 0 ∧ env.privKeyHex.utf8ByteSize ≠ 0)
    (haddr : (walletOf db u.ID).utf8ByteSize ≠ 0)
    (hid : env.newLockID32 = .ok lockIdHex)
    (hsign : BuildAndSignLockAuth env.lib chainID env.contractAddr env.privKeyHex
      (walletOf db u.ID) lockIdHex (some (a : Int)) (now + expiryDuration)
      (some (env.nonce : Int)) = .ok (digest, sig)) :
    withdrawTx env db u chainID a now =
      (issuedResponse now
          (lockRow db u.ID a now lockIdHex sig env.nonce (walletOf db u.ID)) digest env.nonce,
        issuedDb db b (lockRow db u.ID a now lockIdHex sig env.nonce (walletOf db u.ID)) a
          now) := by
  unfold withdrawTx
  unfold walletOf at haddr hsign
  simp only [hbal]
  rw [if_neg (by omega), if_neg (by tauto), if_neg haddr]
  simp only [hid, hsign]
  rfl

/-- The transaction with an insufficient balance. -/
theorem withdrawTx_insufficient (env : WithdrawEnv) (db : DB) (u : UserMain)
    (chainID a now : Nat) (b : AccountBalance)
    (hbal : firstWhere AccountBalance.ID
      (fun b => decide (b.MainID = u.ID) && decide (b.AssetID = 0)) db.accountBalances = some b)
    (hlt : b.Available < a) :
    withdrawTx env db u chainID a now =
      (withdrawFail now Code.CODE_ERR_BAD_PARAMS "insufficient balance", db) := by
  unfold withdrawTx
  simp only [hbal]
  rw [if_pos hlt]

/-- The transaction either commits a lock, with the success code, or returns
the database as it was, with an error code. -/
theorem withdrawTx_outcome (env : WithdrawEnv) (db : DB) (u : UserMain) (chainID a now : Nat) :
    ((withdrawTx env db u chainID a now).2 = db ∧
      (withdrawTx env db u chainID a now).1.Code ≠ Code.CODE_SUCCESS) ∨
    ∃ b lockIdHex digest sig,
      firstWhere AccountBalance.ID
        (fun b => decide (b.MainID = u.ID) && decide (b.AssetID = 0)) db.accountBalances
          = some b ∧
      a ≤ b.Available ∧ env.newLockID32 = .ok lockIdHex ∧
      BuildAndSignLockAuth env.lib chainID env.contractAddr env.privKeyHex
        (walletOf db u.ID) lockIdHex (some (a : Int)) (now + expiryDuration)
        (some (env.nonce : Int)) = .ok (digest, sig) ∧
      withdrawTx env db u chainID a now =
        (issuedResponse now
            (lockRow db u.ID a now lockIdHex sig env.nonce (walletOf db u.ID)) digest
            env.nonce,
          issuedDb db b (lockRow db u.ID a now lockIdHex sig env.nonce (walletOf db u.ID)) a
            now) := by
  cases hbal : firstWhere AccountBalance.ID
      (fun b => decide (b.MainID = u.ID) && decide (b.AssetID = 0)) db.accountBalances with
  | none =>
    left
    have h : withdrawTx env db u chainID a now =
        (withdrawFail now Code.CODE_ERR_OBJ_NOT_FOUND "user account not found", db) := by
      unfold withdrawTx
      simp only [hbal]
    rw [h]
    exact ⟨rfl, by simp [withdrawFail]⟩
  | some b =>
    by_cases hlt : b.Available < a
    · left
      rw [withdrawTx_insufficient env db u chainID a now b hbal hlt]
      exact ⟨rfl, by simp [withdrawFail]⟩
    by_cases hcfg : env.contractAddr.utf8ByteSize = 0 ∨ env.privKeyHex.utf8ByteSize = 0
    · left
      have h : withdrawTx env db u chainID a now =
          (withdrawFail now Code.CODE_ERR_UNKNOWN "sign config missing", db) := by
        unfold withdrawTx
        simp only [hbal]
        rw [if_neg hlt, if_pos hcfg]
      rw [h]
      exact ⟨rfl, by simp [withdrawFail]⟩
    by_cases haddr : (walletOf db u.ID).utf8ByteSize = 0
    · left
      have h : withdrawTx env db u chainID a now =
          (withdrawFail now Code.CODE_ERR_UNKNOWN "user address missing", db) := by
        unfold withdrawTx
        unfold walletOf at haddr
        simp only [hbal]
        rw [if_neg hlt, if_neg hcfg, if_pos haddr]
      rw [h]
      exact ⟨rfl, by simp [withdrawFail]⟩
    cases hid : env.newLockID32 with
    | error e =>
      left
      have h : withdrawTx env db u chainID a now =
          (withdrawFail now Code.CODE_ERR_UNKNOWN "new lock id failed", db) := by
        unfold withdrawTx
        unfold walletOf at haddr
        simp only [hbal]
        rw [if_neg hlt, if_neg hcfg, if_neg haddr]
        simp only [hid]
      rw [h]
      exact ⟨rfl, by simp [withdrawFail]⟩
    | ok lockIdHex =>
      cases hsign : BuildAndSignLockAuth env.lib chainID env.contractAddr env.privKeyHex
          (walletOf db u.ID) lockIdHex (some (a : Int)) (now + expiryDuration)
          (some (env.nonce : Int)) with
      | error e =>
        left
        have h : withdrawTx env db u chainID a now =
            (withdrawFail now Code.CODE_ERR_UNKNOWN "build and sign lock auth failed", db) := by
          unfold withdrawTx
          unfold walletOf at haddr hsign
          simp only [hbal]
          rw [if_neg hlt, if_neg hcfg, if_neg haddr]
          simp only [hid, hsign]
        rw [h]
        exact ⟨rfl, by simp [withdrawFail]⟩
      | ok ds =>
        right
        obtain ⟨digest, sig⟩ := ds
        exact ⟨b, lockIdHex, digest, sig, rfl, by omega, rfl, hsign,
          withdrawTx_issues env db u chainID a now b lockIdHex digest sig hbal (by omega)
            (by tauto) haddr hid hsign⟩
theorem balance_after_issue (db : DB) (userId : Nat) (b : AccountBalance)
    (row : AccountBalanceFlow) (a now : Nat)
    (hkb : KeysNonzero AccountBalance.ID db.accountBalances)
    (hbal : firstWhere AccountBalance.ID
      (fun b => decide (b.MainID = userId) && decide (b.AssetID = 0)) db.accountBalances
        = some b) :
    gameBalanceOf (issuedDb db b row a now) userId = lockedBalance b a now := by
  obtain ⟨hbm, hbp, _⟩ := firstWhere_some AccountBalance.ID hbal
  have hbp2 : b.MainID = userId ∧ b.AssetID = 0 := by simpa using hbp
  unfold gameBalanceOf issuedDb
  dsimp only
  rw [firstWhere_saveBalance _ db.accountBalances b (lockedBalance b a now) hbm (hkb b hbm) rfl
    (by simp [lockedBalance, hbp2.1, hbp2.2]) (firstWhere_min_strict AccountBalance.ID hbal)]
  rfl

/-- C15 (amended). For an existing user with a balance row (non-zero keys), no
open lock (op Freeze, status Pending or PendingWithdraw) and no request in
flight, and `a` the requested amount in millionths reduced to `uint64`:
if `available < a` the request fails with `insufficient balance` and the state
is unchanged; otherwise, when the configuration and the wallet address are
present and lock id and signature are produced, the request succeeds,
`available` drops by `a`, `withdrawal` becomes `(withdrawal + a) mod 2 ^ 64`,
`frozen` is unchanged, and exactly one row is appended to the settlement
ledger, under a new key: op Freeze, status Pending, amount and real amount
`a`, lock expiry `now + 36000`; every request that does not answer with the
success code, in particular one whose signing fails after the balance was
saved, leaves the state unchanged. -/
theorem C15_issue_withdraw_lock (env : WithdrawEnv) (db : DB) (userId : Nat)
    (req : WithdrawReq) (now a : Nat) (u : UserMain) (b : AccountBalance)
    (ha : bigUint64 req.Amount.scaledUnits = a)
    (hfl : env.inFlight = false)
    (hu : firstWhere UserMain.ID (fun u => decide (u.ID = userId)) db.users = some u)
    (hnone : ∀ f ∈ db.balanceFlows, isOpenLock userId f = false)
    (hkb : KeysNonzero AccountBalance.ID db.accountBalances)
    (hbal : firstWhere AccountBalance.ID
      (fun b => decide (b.MainID = userId) && decide (b.AssetID = 0)) db.accountBalances
        = some b) :
    (b.Available < a →
      BalanceWithdrawRequest env db (some userId) (some req) now =
        (some (withdrawFail now Code.CODE_ERR_BAD_PARAMS "insufficient balance"), db)) ∧
    (a ≤ b.Available →
      env.contractAddr.utf8ByteSize ≠ 0 ∧ env.privKeyHex.utf8ByteSize ≠ 0 →
      (walletOf db userId).utf8ByteSize ≠ 0 →
      ∀ lockIdHex digest sig, env.newLockID32 = .ok lockIdHex →
      BuildAndSignLockAuth env.lib req.ChainID env.contractAddr env.privKeyHex
        (walletOf db userId) lockIdHex (some (a : Int)) (now + expiryDuration)
        (some (env.nonce : Int)) = .ok (digest, sig) →
      (BalanceWithdrawRequest env db (some userId) (some req) now).1 =
        some (issuedResponse now
          (lockRow db userId a now lockIdHex sig env.nonce (walletOf db userId)) digest
          env.nonce) ∧
      (gameBalanceOf (BalanceWithdrawRequest env db (some userId) (some req) now).2
        userId).Available = b.Available - a ∧
      (gameBalanceOf (BalanceWithdrawRequest env db (some userId) (some req) now).2
        userId).Withdrawal = (b.Withdrawal + a) % 2 ^ 64 ∧
      (gameBalanceOf (BalanceWithdrawRequest env db (some userId) (some req) now).2
        userId).Frozen = b.Frozen ∧
      (BalanceWithdrawRequest env db (some userId) (some req) now).2.balanceFlows =
        db.balanceFlows ++
          [lockRow db userId a now lockIdHex sig env.nonce (walletOf db userId)] ∧
      (∀ f ∈ db.balanceFlows,
        f.ID ≠ (lockRow db userId a now lockIdHex sig env.nonce (walletOf db userId)).ID) ∧
      (lockRow db userId a now lockIdHex sig env.nonce (walletOf db userId)).Op =
        BalanceFlowOpFreeze ∧
      (lockRow db userId a now lockIdHex sig env.nonce (walletOf db userId)).Status =
        BalanceFlowStatusPending ∧
      (lockRow db userId a now lockIdHex sig env.nonce (walletOf db userId)).Amount = a ∧
      (lockRow db userId a now lockIdHex sig env.nonce (walletOf db userId)).RealAmount = a ∧
      (lockRow db userId a now lockIdHex sig env.nonce (walletOf db userId)).LockExpiry =
        some (now + 36000)) ∧
    ((BalanceWithdrawRequest env db (some userId) (some req) now).1.map
        (fun r => r.Code) ≠ some Code.CODE_SUCCESS →
      (BalanceWithdrawRequest env db (some userId) (some req) now).2 = db) := by
  have huid : u.ID = userId := byKey_some_key UserMain.ID hu
  have hreach := withdraw_reaches_tx env db userId req now u hfl hu hnone
  rw [ha] at hreach
  have hbal1 : firstWhere AccountBalance.ID
      (fun b => decide (b.MainID = u.ID) && decide (b.AssetID = 0)) db.accountBalances
        = some b := by rw [huid]; exact hbal
  refine ⟨?_, ?_, ?_⟩
  · intro hlt
    rw [hreach, withdrawTx_insufficient env db u req.ChainID a now b hbal1 hlt]
  · intro hle hcfg haddr lockIdHex digest sig hid hsign
    have htx := withdrawTx_issues env db u req.ChainID a now b lockIdHex digest sig hbal1 hle
      hcfg (by rw [huid]; exact haddr) hid (by rw [huid]; exact hsign)
    rw [huid] at htx
    rw [hreach, htx]
    dsimp only
    rw [balance_after_issue db userId b _ a now hkb hbal]
    refine ⟨rfl, rfl, rfl, rfl, rfl, ?_, rfl, rfl, rfl, rfl, rfl⟩
    intro f hf
    have := lt_nextID AccountBalanceFlow.ID hf
    show f.ID ≠ nextID AccountBalanceFlow.ID db.balanceFlows
    omega
  · intro hcode
    rw [hreach] at hcode ⊢
    rcases withdrawTx_outcome env db u req.ChainID a now with ⟨h, _⟩ | ⟨_, _, _, _, _, _, _, _, h⟩
    · exact h
    · exfalso
      apply hcode
      rw [h]
      rfl
set_option maxRecDepth 100000 in
/-- C15, witness: user 7 with available 1000000 and withdrawal 20 requests
0.5 (500000 millionths) at time 1700000000: available becomes 500000,
withdrawal 500020, frozen stays 40, and the ledger holds one row. -/
theorem C15_issue_withdraw_lock_witness :
    (gameBalanceOf (BalanceWithdrawRequest (exEnv 9) (exWithdrawDb 1000000 20) (some 7)
      (some (exWithdrawReq 5 (-1))) 1700000000).2 7).Available = 500000 ∧
    (gameBalanceOf (BalanceWithdrawRequest (exEnv 9) (exWithdrawDb 1000000 20) (some 7)
      (some (exWithdrawReq 5 (-1))) 1700000000).2 7).Withdrawal = 500020 ∧
    (gameBalanceOf (BalanceWithdrawRequest (exEnv 9) (exWithdrawDb 1000000 20) (some 7)
      (some (exWithdrawReq 5 (-1))) 1700000000).2 7).Frozen = 40 ∧
    (BalanceWithdrawRequest (exEnv 9) (exWithdrawDb 1000000 20) (some 7)
      (some (exWithdrawReq 5 (-1))) 1700000000).2.balanceFlows.length = 1 := by
  have hs : ∃ d s, BuildAndSignLockAuth (exEnv 9).lib (exWithdrawReq 5 (-1)).ChainID
      (exEnv 9).contractAddr (exEnv 9).privKeyHex (walletOf (exWithdrawDb 1000000 20) 7)
      (hexutilEncode (List.replicate 32 171)) (some ((500000 : Nat) : Int))
      (1700000000 + expiryDuration) (some (((exEnv 9).nonce : Nat) : Int)) = .ok (d, s) := by
    cases h : BuildAndSignLockAuth (exEnv 9).lib (exWithdrawReq 5 (-1)).ChainID
      (exEnv 9).contractAddr (exEnv 9).privKeyHex (walletOf (exWithdrawDb 1000000 20) 7)
      (hexutilEncode (List.replicate 32 171)) (some ((500000 : Nat) : Int))
      (1700000000 + expiryDuration) (some (((exEnv 9).nonce : Nat) : Int)) with
    | error e =>
      have hok : (BuildAndSignLockAuth (exEnv 9).lib (exWithdrawReq 5 (-1)).ChainID
        (exEnv 9).contractAddr (exEnv 9).privKeyHex (walletOf (exWithdrawDb 1000000 20) 7)
        (hexutilEncode (List.replicate 32 171)) (some ((500000 : Nat) : Int))
        (1700000000 + expiryDuration) (some (((exEnv 9).nonce : Nat) : Int))).toOption.isSome
          = true := by decide
      rw [h] at hok
      cases hok
    | ok ds => exact ⟨ds.1, ds.2, rfl⟩
  obtain ⟨d, s, hs⟩ := hs
  have h := (C15_issue_withdraw_lock (exEnv 9) (exWithdrawDb 1000000 20) 7
    (exWithdrawReq 5 (-1)) 1700000000 500000 exUser
    { ID := 1, MainID := 7, AssetID := 0, Available := 1000000, Frozen := 40,
      UpdateTime := 0, Withdrawal := 20 }
    (by decide) rfl (by decide) (by decide) (by unfold KeysNonzero; decide) (by decide)).2.1
    (by decide) (by decide) (by decide) (hexutilEncode (List.replicate 32 171)) d s rfl hs
  refine ⟨h.2.1, h.2.2.1, h.2.2.2.1, ?_⟩
  rw [h.2.2.2.2.1]
  rfl

set_option maxRecDepth 100000 in
/-- C15, counterexample: (a) with withdrawal `2 ^ 64 - 1`, available 1000000
and no open lock, the request for 0.000005 (5 millionths) succeeds and leaves
withdrawal 4, not `withdrawal + 5`; (b) a user without balance row, so with
nothing available, is answered `user account not found` with the not-found
code, not `insufficient balance`. -/
theorem C15_counterexample :
    ((exWithdrawDb 1000000 (2 ^ 64 - 1)).balanceFlows = [] ∧
      (BalanceWithdrawRequest (exEnv 9) (exWithdrawDb 1000000 (2 ^ 64 - 1)) (some 7)
        (some (exWithdrawReq 5 (-6))) 1700000000).1.map (fun r => r.Code) =
          some Code.CODE_SUCCESS ∧
      (gameBalanceOf (exWithdrawDb 1000000 (2 ^ 64 - 1)) 7).Withdrawal = 2 ^ 64 - 1 ∧
      (gameBalanceOf (BalanceWithdrawRequest (exEnv 9) (exWithdrawDb 1000000 (2 ^ 64 - 1))
        (some 7) (some (exWithdrawReq 5 (-6))) 1700000000).2 7).Withdrawal = 4) ∧
    ((gameBalanceOf { exWithdrawDb 0 0 with accountBalances := [] } 7).Available = 0 ∧
      (BalanceWithdrawRequest (exEnv 9) { exWithdrawDb 0 0 with accountBalances := [] } (some 7)
        (some (exWithdrawReq 5 (-1))) 1700000000).1 =
          some (withdrawFail 1700000000 Code.CODE_ERR_OBJ_NOT_FOUND "user account not found")) := by
  decide

/-- A request answered with the success code was made by an existing user
with no request in flight. -/
theorem withdraw_success_user (env : WithdrawEnv) (db : DB) (mainId : Option Nat)
    (body : Option WithdrawReq) (now : Nat)
    (h : (BalanceWithdrawRequest env db mainId body now).1.map (fun r => r.Code) =
      some Code.CODE_SUCCESS) :
    ∃ userId req u, mainId = some userId ∧ body = some req ∧ env.inFlight = false ∧
      firstWhere UserMain.ID (fun u => decide (u.ID = userId)) db.users = some u := by
  unfold BalanceWithdrawRequest at h
  cases body with
  | none => simp [withdrawFail] at h
  | some req =>
    cases mainId with
    | none => simp [withdrawFail] at h
    | some userId =>
      dsimp only at h
      cases hfl : env.inFlight with
      | true =>
        rw [hfl] at h
        simp [withdrawFail] at h
      | false =>
        cases hu : firstWhere UserMain.ID (fun u => decide (u.ID = userId)) db.users with
        | none =>
          rw [hfl, hu] at h
          simp [withdrawFail] at h
        | some u => exact ⟨userId, req, u, rfl, rfl, rfl, hu⟩

theorem isOpenLock_lockRow (db : DB) (userId a now : Nat) (lockIdHex : String) (sig : List Nat)
    (nonce : Nat) (addr : String) :
    isOpenLock userId (lockRow db userId a now lockIdHex sig nonce addr) = true := by
  simp [isOpenLock, lockRow]

/-- The two answers of a request that issues a lock and of a request of the
same user for the same amount that follows it before the expiry. -/
theorem withdraw_retry (env env2 : WithdrawEnv) (db : DB) (userId : Nat)
    (req req2 : WithdrawReq) (now now2 : Nat)
    (hnone : ∀ f ∈ db.balanceFlows, isOpenLock userId f = false)
    (hok : (BalanceWithdrawRequest env db (some userId) (some req) now).1.map
      (fun r => r.Code) = some Code.CODE_SUCCESS)
    (hfl2 : env2.inFlight = false)
    (hamt : req2.Amount = req.Amount) :
    ∃ row digest,
      row.LockNonce = bigIntToHex32 (env.nonce : Int) ∧
      row.LockExpiry = some (now + expiryDuration) ∧
      row.Status = BalanceFlowStatusPending ∧
      row.RealAmount = bigUint64 req.Amount.scaledUnits ∧
      (BalanceWithdrawRequest env db (some userId) (some req) now).1 =
        some (issuedResponse now row digest env.nonce) ∧
      BalanceWithdrawRequest env2 (BalanceWithdrawRequest env db (some userId) (some req) now).2
          (some userId) (some req2) now2 =
        (withdrawExisting row (bigUint64 req.Amount.scaledUnits) now2,
          (BalanceWithdrawRequest env db (some userId) (some req) now).2) := by
  obtain ⟨userId1, req1, u, h1, h2, hfl, hu⟩ := withdraw_success_user env db _ _ now hok
  injection h1 with h1
  injection h2 with h2
  subst h1 h2
  have huid : u.ID = userId := byKey_some_key UserMain.ID hu
  have hreach := withdraw_reaches_tx env db userId req now u hfl hu hnone
  rw [hreach] at hok ⊢
  rcases withdrawTx_outcome env db u req.ChainID (bigUint64 req.Amount.scaledUnits) now with
    ⟨_, hne⟩ | ⟨b, lockIdHex, digest, sig, _, _, _, _, htx⟩
  · exfalso
    apply hne
    simpa using hok
  rw [htx]
  rw [huid]
  refine ⟨lockRow db userId (bigUint64 req.Amount.scaledUnits) now lockIdHex sig env.nonce
    (walletOf db userId), digest, rfl, rfl, rfl, rfl, rfl, ?_⟩
  dsimp only
  have hfind : firstWhere AccountBalanceFlow.ID (isOpenLock userId)
      (issuedDb db b
        (lockRow db userId (bigUint64 req.Amount.scaledUnits) now lockIdHex sig env.nonce
          (walletOf db userId)) (bigUint64 req.Amount.scaledUnits) now).balanceFlows =
      some (lockRow db userId (bigUint64 req.Amount.scaledUnits) now lockIdHex sig env.nonce
        (walletOf db userId)) := by
    unfold issuedDb
    dsimp only
    apply firstWhere_of_min
    · simp
    · exact isOpenLock_lockRow _ _ _ _ _ _ _ _
    · intro y hy hp
      left
      rcases List.mem_append.mp hy with hy | hy
      · rw [hnone y hy] at hp
        cases hp
      · simpa using hy
  have hpos : 0 < (lockRow db userId (bigUint64 req.Amount.scaledUnits) now lockIdHex sig
      env.nonce (walletOf db userId)).ID := by
    have := nextID_pos AccountBalanceFlow.ID db.balanceFlows
    show 0 < nextID AccountBalanceFlow.ID db.balanceFlows
    omega
  have h2 := withdraw_answers_existing env2
    (issuedDb db b
      (lockRow db userId (bigUint64 req.Amount.scaledUnits) now lockIdHex sig env.nonce
        (walletOf db userId)) (bigUint64 req.Amount.scaledUnits) now)
    userId req2 now2 u _ hfl2 hu hfind hpos
  rw [hamt] at h2
  exact h2

/-- The answer from an open lock whose amount matches and which has not
expired. -/
theorem withdrawExisting_ok (row : AccountBalanceFlow) (a now2 x : Nat)
    (hx : row.LockExpiry = some x) (ha : row.RealAmount = a) (hle : now2 ≤ x) :
    ∃ r d, withdrawExisting row a now2 = some r ∧ r.Code = Code.CODE_SUCCESS ∧
      r.Data = some d ∧ d.operation_id = row.ID ∧ d.lock_id = row.LockID ∧
      d.signature = row.LockSig ∧ d.digest = "" ∧ d.expiry = x ∧
      d.nonce = bigString (hex32ToBigInt row.LockNonce) ∧ d.amount = row.RealAmount := by
  unfold withdrawExisting
  rw [hx]
  dsimp only
  rw [if_neg (by rw [ha]; exact fun h => h rfl), if_neg (by omega)]
  exact ⟨_, _, rfl, rfl, rfl, rfl, rfl, rfl, rfl, rfl, rfl, rfl⟩
/-- C16. For every state without open lock of the user and every request that
`BalanceWithdrawRequest` answers with the success code (it issues a lock), a
second request of the same user for the same amount, made no later than the
lock's expiry and with no request in flight, succeeds, returns the same lock
id, the same signature and the same nonce (as a decimal string) as the first
response, and leaves the state as the first request left it; and
`hex32ToBigInt (bigIntToHex32 n) = n` for every `n >= 0`, so in particular for
`n` below `2 ^ 256`. -/
theorem C16_withdraw_lock_is_idempotent (env env2 : WithdrawEnv) (db : DB) (userId : Nat)
    (req req2 : WithdrawReq) (now now2 : Nat)
    (hnone : ∀ f ∈ db.balanceFlows, isOpenLock userId f = false)
    (hok : (BalanceWithdrawRequest env db (some userId) (some req) now).1.map
      (fun r => r.Code) = some Code.CODE_SUCCESS)
    (hfl2 : env2.inFlight = false)
    (hamt : req2.Amount = req.Amount)
    (hexp : now2 ≤ now + expiryDuration) :
    (BalanceWithdrawRequest env2 (BalanceWithdrawRequest env db (some userId) (some req) now).2
        (some userId) (some req2) now2).1.map (fun r => r.Code) = some Code.CODE_SUCCESS ∧
    lockFields (BalanceWithdrawRequest env2
        (BalanceWithdrawRequest env db (some userId) (some req) now).2
        (some userId) (some req2) now2).1 =
      lockFields (BalanceWithdrawRequest env db (some userId) (some req) now).1 ∧
    (lockFields (BalanceWithdrawRequest env db (some userId) (some req) now).1).isSome = true ∧
    (BalanceWithdrawRequest env2 (BalanceWithdrawRequest env db (some userId) (some req) now).2
        (some userId) (some req2) now2).2 =
      (BalanceWithdrawRequest env db (some userId) (some req) now).2 ∧
    (∀ n : Nat, hex32ToBigInt (bigIntToHex32 (n : Int)) = some (n : Int)) := by
  obtain ⟨row, digest, hn, hx, _, ha, h1, h2⟩ :=
    withdraw_retry env env2 db userId req req2 now now2 hnone hok hfl2 hamt
  obtain ⟨r, d, hr, hc, hd, _, hl, hs, _, _, hnonce, _⟩ :=
    withdrawExisting_ok row (bigUint64 req.Amount.scaledUnits) now2 _ hx ha hexp
  rw [h2, h1]
  dsimp only
  rw [hr]
  refine ⟨by simp [hc], ?_, rfl, rfl, hex32_roundtrip⟩
  unfold lockFields issuedResponse
  simp only [Option.some_bind, hd, Option.map_some', Option.some.injEq, Prod.mk.injEq]
  refine ⟨hl, hs, ?_⟩
  rw [hnonce, hn, hex32_roundtrip]
  rfl

set_option maxRecDepth 100000 in
/-- C16, witness: user 7 requests 0.5 at time 1700000000 and again, with
another generated nonce in the environment, 100 seconds later: lock id,
signature and nonce of the second answer are those of the first, and the
state is unchanged. -/
theorem C16_withdraw_lock_is_idempotent_witness :
    lockFields (BalanceWithdrawRequest (exEnv 77)
        (BalanceWithdrawRequest (exEnv 9) (exWithdrawDb 1000000 20) (some 7)
          (some (exWithdrawReq 5 (-1))) 1700000000).2
        (some 7) (some (exWithdrawReq 5 (-1))) 1700000100).1 =
      lockFields (BalanceWithdrawRequest (exEnv 9) (exWithdrawDb 1000000 20) (some 7)
        (some (exWithdrawReq 5 (-1))) 1700000000).1 ∧
    (BalanceWithdrawRequest (exEnv 77)
        (BalanceWithdrawRequest (exEnv 9) (exWithdrawDb 1000000 20) (some 7)
          (some (exWithdrawReq 5 (-1))) 1700000000).2
        (some 7) (some (exWithdrawReq 5 (-1))) 1700000100).2 =
      (BalanceWithdrawRequest (exEnv 9) (exWithdrawDb 1000000 20) (some 7)
        (some (exWithdrawReq 5 (-1))) 1700000000).2 ∧
    hex32ToBigInt (bigIntToHex32 ((2 ^ 200 + 5 : Nat) : Int)) = some ((2 ^ 200 + 5 : Nat) : Int) := by
  have h := C16_withdraw_lock_is_idempotent (exEnv 9) (exEnv 77) (exWithdrawDb 1000000 20) 7
    (exWithdrawReq 5 (-1)) (exWithdrawReq 5 (-1)) 1700000000 1700000100 (by decide)
    (by decide) (by decide) rfl (by decide)
  exact ⟨h.2.1, h.2.2.2.1, h.2.2.2.2 _⟩

/-- C17 (amended). Under the conditions of C16, the request that finds the
open, unexpired lock with a matching amount returns the expiry the issuing
request returned, which is the issuance time plus 36000 seconds; the digest it
returns is the empty string, whereas the issuing request returned the
hexadecimal spelling of the digest it signed, which is never empty. -/
theorem C17_retry_returns_expiry_and_empty_digest (env env2 : WithdrawEnv) (db : DB)
    (userId : Nat) (req req2 : WithdrawReq) (now now2 : Nat)
    (hnone : ∀ f ∈ db.balanceFlows, isOpenLock userId f = false)
    (hok : (BalanceWithdrawRequest env db (some userId) (some req) now).1.map
      (fun r => r.Code) = some Code.CODE_SUCCESS)
    (hfl2 : env2.inFlight = false)
    (hamt : req2.Amount = req.Amount)
    (hexp : now2 ≤ now + expiryDuration) :
    expiryField (BalanceWithdrawRequest env2
        (BalanceWithdrawRequest env db (some userId) (some req) now).2
        (some userId) (some req2) now2).1 =
      expiryField (BalanceWithdrawRequest env db (some userId) (some req) now).1 ∧
    expiryField (BalanceWithdrawRequest env db (some userId) (some req) now).1 =
      some (now + 36000) ∧
    digestField (BalanceWithdrawRequest env2
        (BalanceWithdrawRequest env db (some userId) (some req) now).2
        (some userId) (some req2) now2).1 = some "" ∧
    (∃ digest, digestField (BalanceWithdrawRequest env db (some userId) (some req) now).1 =
      some (hexutilEncode digest)) ∧
    digestField (BalanceWithdrawRequest env db (some userId) (some req) now).1 ≠ some "" := by
  obtain ⟨row, digest, _, hx, _, ha, h1, h2⟩ :=
    withdraw_retry env env2 db userId req req2 now now2 hnone hok hfl2 hamt
  obtain ⟨r, d, hr, _, hd, _, _, _, hdig, hex, _, _⟩ :=
    withdrawExisting_ok row (bigUint64 req.Amount.scaledUnits) now2 _ hx ha hexp
  rw [h2, h1]
  dsimp only
  rw [hr]
  have hfirst : digestField (some (issuedResponse now row digest env.nonce)) =
      some (hexutilEncode digest) := rfl
  refine ⟨?_, rfl, ?_, ⟨digest, hfirst⟩, ?_⟩
  · unfold expiryField issuedResponse
    simp only [Option.some_bind, hd, Option.map_some', hex]
  · unfold digestField
    simp only [Option.some_bind, hd, Option.map_some', hdig]
  · rw [hfirst]
    intro h
    injection h with h
    have hlen : (hexutilEncode digest).data.length = 0 := by rw [h]; rfl
    simp [hexutilEncode] at hlen

set_option maxRecDepth 100000 in
/-- C17, witness: in the scenario of C16 both answers carry the expiry
1700036000 and the second answer carries the empty digest. -/
theorem C17_retry_returns_expiry_and_empty_digest_witness :
    expiryField (BalanceWithdrawRequest (exEnv 77)
        (BalanceWithdrawRequest (exEnv 9) (exWithdrawDb 1000000 20) (some 7)
          (some (exWithdrawReq 5 (-1))) 1700000000).2
        (some 7) (some (exWithdrawReq 5 (-1))) 1700000100).1 = some 1700036000 ∧
    digestField (BalanceWithdrawRequest (exEnv 77)
        (BalanceWithdrawRequest (exEnv 9) (exWithdrawDb 1000000 20) (some 7)
          (some (exWithdrawReq 5 (-1))) 1700000000).2
        (some 7) (some (exWithdrawReq 5 (-1))) 1700000100).1 = some "" := by
  have h := C17_retry_returns_expiry_and_empty_digest (exEnv 9) (exEnv 77)
    (exWithdrawDb 1000000 20) 7 (exWithdrawReq 5 (-1)) (exWithdrawReq 5 (-1)) 1700000000
    1700000100 (by decide) (by decide) (by decide) rfl (by decide)
  exact ⟨h.1.trans h.2.1, h.2.2.1⟩

set_option maxRecDepth 100000 in
/-- C17, counterexample: user 7 requests 0.5 at time 1700000000 and again 100
seconds later; the second request finds the open, unexpired lock with the
matching amount, and the digest it returns (the empty string) differs from the
digest the issuing request returned (66 characters). -/
theorem C17_counterexample :
    (digestField (BalanceWithdrawRequest (exEnv 9) (exWithdrawDb 1000000 20) (some 7)
        (some (exWithdrawReq 5 (-1))) 1700000000).1).map String.length = some 66 ∧
    amountField (BalanceWithdrawRequest (exEnv 9)
        (BalanceWithdrawRequest (exEnv 9) (exWithdrawDb 1000000 20) (some 7)
          (some (exWithdrawReq 5 (-1))) 1700000000).2
        (some 7) (some (exWithdrawReq 5 (-1))) 1700000100).1 = some 500000 ∧
    digestField (BalanceWithdrawRequest (exEnv 9)
        (BalanceWithdrawRequest (exEnv 9) (exWithdrawDb 1000000 20) (some 7)
          (some (exWithdrawReq 5 (-1))) 1700000000).2
        (some 7) (some (exWithdrawReq 5 (-1))) 1700000100).1 = some "" ∧
    digestField (BalanceWithdrawRequest (exEnv 9)
        (BalanceWithdrawRequest (exEnv 9) (exWithdrawDb 1000000 20) (some 7)
          (some (exWithdrawReq 5 (-1))) 1700000000).2
        (some 7) (some (exWithdrawReq 5 (-1))) 1700000100).1 ≠
      digestField (BalanceWithdrawRequest (exEnv 9) (exWithdrawDb 1000000 20) (some 7)
        (some (exWithdrawReq 5 (-1))) 1700000000).1 := by
  decide

set_option maxRecDepth 100000 in
/-- C18, the code at the failing inputs: user 7 has available 1000000 and no
open lock.  (a) A request for the amount -0.5 is answered with the success
code and a lock of 500000, the absolute value, and available drops to 500000.
(b) A request for the amount 0 is answered with the success code and a lock of
amount 0.  (c) A request for `(2 ^ 64 + 7) / 10 ^ 6`, which does not fit
`uint64` in millionths, is answered with the success code and a lock of 7, the
low 64 bits. -/
theorem C18_bad_amounts_are_accepted :
    ((BalanceWithdrawRequest (exEnv 9) (exWithdrawDb 1000000 20) (some 7)
        (some (exWithdrawReq (-5) (-1))) 1700000000).1.map (fun r => r.Code) =
          some Code.CODE_SUCCESS ∧
      amountField (BalanceWithdrawRequest (exEnv 9) (exWithdrawDb 1000000 20) (some 7)
        (some (exWithdrawReq (-5) (-1))) 1700000000).1 = some 500000 ∧
      (gameBalanceOf (BalanceWithdrawRequest (exEnv 9) (exWithdrawDb 1000000 20) (some 7)
        (some (exWithdrawReq (-5) (-1))) 1700000000).2 7).Available = 500000) ∧
    ((BalanceWithdrawRequest (exEnv 9) (exWithdrawDb 1000000 20) (some 7)
        (some (exWithdrawReq 0 0)) 1700000000).1.map (fun r => r.Code) =
          some Code.CODE_SUCCESS ∧
      amountField (BalanceWithdrawRequest (exEnv 9) (exWithdrawDb 1000000 20) (some 7)
        (some (exWithdrawReq 0 0)) 1700000000).1 = some 0 ∧
      (BalanceWithdrawRequest (exEnv 9) (exWithdrawDb 1000000 20) (some 7)
        (some (exWithdrawReq 0 0)) 1700000000).2.balanceFlows.length = 1) ∧
    ((BalanceWithdrawRequest (exEnv 9) (exWithdrawDb 1000000 20) (some 7)
        (some (exWithdrawReq (2 ^ 64 + 7) (-6))) 1700000000).1.map (fun r => r.Code) =
          some Code.CODE_SUCCESS ∧
      amountField (BalanceWithdrawRequest (exEnv 9) (exWithdrawDb 1000000 20) (some 7)
        (some (exWithdrawReq (2 ^ 64 + 7) (-6))) 1700000000).1 = some 7 ∧
      (gameBalanceOf (BalanceWithdrawRequest (exEnv 9) (exWithdrawDb 1000000 20) (some 7)
        (some (exWithdrawReq (2 ^ 64 + 7) (-6))) 1700000000).2 7).Available = 999993) := by
  decide

/-- C30 (code as written). `AvailFlowType "withdraw"` is `FlowSpend`, the
value 3, not `FlowWithdraw`, the value 4: the names `spend` and `withdraw`
receive the same code, so the mapping is not injective, and the query of
`FetchTransactions` for type `withdraw` selects the Spend row of the example
and not its Withdraw row.  The other five names receive their constants and
another string receives -1. -/
theorem C30_withdraw_filter_selects_spend :
    AvailFlowType "withdraw" = FlowSpend ∧ AvailFlowType "withdraw" = 3 ∧ FlowWithdraw = 4 ∧
    AvailFlowType "withdraw" = AvailFlowType "spend" ∧
    (fetchTransactionsRows exTypedDb 7 "withdraw").map AccountFlow.BizType = [FlowSpend] ∧
    (fetchTransactionsRows exTypedDb 7 "withdraw").map AccountFlow.ID = [1] ∧
    AvailFlowType "recharge" = 0 ∧ AvailFlowType "freeze" = 1 ∧ AvailFlowType "unfreeze" = 2 ∧
    AvailFlowType "spend" = 3 ∧ AvailFlowType "refund" = 5 ∧ AvailFlowType "all" = -1 := by
  decide

theorem setAmount_keeps (v : AbiValue) (info : TopupTxInfo) :
    (setAmount v info).Status = info.Status ∧ (setAmount v info).TxHash = info.TxHash := by
  cases v <;> exact ⟨rfl, rfl⟩

theorem claimInput_keeps (env : ChainEnv) (args : List AbiValue) (info : TopupTxInfo) :
    (claimInput env args info).Status = info.Status ∧
      (claimInput env args info).TxHash = info.TxHash := by
  unfold claimInput
  repeat' (first | split | dsimp only)
  all_goals exact ⟨rfl, rfl⟩

theorem openTx_ok (env : ChainEnv) (chainID : Nat) (txHash rpc : String) (client : ChainClient)
    (tx : Transaction) (isPending : Bool) (abi : ParsedABI) (hne : txHash ≠ "")
    (h1 : pickRPCByChainID env.GetRpcConfig chainID = .ok rpc)
    (h2 : env.GetClient rpc = .ok client)
    (h3 : client.TransactionByHash txHash = .ok (tx, isPending))
    (h4 : env.abiJSON = .ok abi) :
    ∃ info, openTx env chainID txHash = .ok (client, tx, isPending, info, abi) ∧
      info.Status = "pending" ∧ info.TxHash = txHash := by
  unfold openTx
  rw [if_neg hne]
  simp only [h1, h2, h3, h4]
  refine ⟨_, rfl, ?_, ?_⟩
  all_goals (repeat' (first | split | dsimp only))
  all_goals rfl

theorem openTx_error (env : ChainEnv) (chainID : Nat) (txHash msg : String) (hne : txHash ≠ "")
    (h : openTx env chainID txHash = .error msg) :
    pickRPCByChainID env.GetRpcConfig chainID = .error msg ∨
    (∃ rpc e, pickRPCByChainID env.GetRpcConfig chainID = .ok rpc ∧
      env.GetClient rpc = .error e ∧ msg = "get client error: " ++ e) ∨
    (∃ rpc client e, pickRPCByChainID env.GetRpcConfig chainID = .ok rpc ∧
      env.GetClient rpc = .ok client ∧ client.TransactionByHash txHash = .error e ∧
      msg = "get tx error: " ++ e) ∨
    (∃ e, env.abiJSON = .error e ∧ msg = "parse abi error: " ++ e) := by
  unfold openTx at h
  rw [if_neg hne] at h
  cases h1 : pickRPCByChainID env.GetRpcConfig chainID with
  | error e =>
    rw [h1] at h
    dsimp only at h
    left
    injection h with h
    rw [h]
  | ok rpc =>
    rw [h1] at h
    dsimp only at h
    cases h2 : env.GetClient rpc with
    | error e =>
      rw [h2] at h
      dsimp only at h
      right; left
      exact ⟨rpc, e, rfl, h2, by injection h with h; exact h.symm⟩
    | ok client =>
      rw [h2] at h
      dsimp only at h
      cases h3 : client.TransactionByHash txHash with
      | error e =>
        rw [h3] at h
        dsimp only at h
        right; right; left
        exact ⟨rpc, client, e, rfl, h2, h3, by injection h with h; exact h.symm⟩
      | ok p =>
        obtain ⟨tx, isPending⟩ := p
        rw [h3] at h
        dsimp only at h
        cases h4 : env.abiJSON with
        | error e =>
          rw [h4] at h
          dsimp only at h
          right; right; right
          exact ⟨e, rfl, by injection h with h; exact h.symm⟩
        | ok abi =>
          rw [h4] at h
          cases h

theorem parsers_of_open (parse : ChainEnv → Nat → String → ParseOutcome) (hp : parse ∈ parsers)
    (env : ChainEnv) (chainID : Nat) (txHash : String) :
    (∀ msg, openTx env chainID txHash = .error msg → parse env chainID txHash = .error msg) ∧
    (∀ client tx p info abi, openTx env chainID txHash = .ok (client, tx, p, info, abi) →
      (∀ msg, parse env chainID txHash ≠ .error msg) ∧
      ((p = true ∨ ∃ e, client.TransactionReceipt txHash = .error e) →
        ∃ info1, parse env chainID txHash = .ok info1 ∧ info1.Status = info.Status ∧
          info1.TxHash = info.TxHash)) := by
  simp only [parsers, List.mem_cons, List.mem_singleton, List.not_mem_nil, or_false] at hp
  refine ⟨?_, ?_⟩
  · intro msg h
    rcases hp with rfl | rfl | rfl | rfl
    · unfold ParseTopupTx; rw [h]
    · unfold ParseOpenLockTx; rw [h]
    · unfold ParseClaimLockedTx; rw [h]
    · unfold ParseCancelLockedTx; rw [h]
  · intro client tx p info abi h
    refine ⟨?_, ?_⟩
    · intro msg
      rcases hp with rfl | rfl | rfl | rfl
      · unfold ParseTopupTx; rw [h]; dsimp only
        repeat' split
        all_goals (intro hc; cases hc)
      · unfold ParseOpenLockTx; rw [h]; dsimp only
        repeat' split
        all_goals (intro hc; cases hc)
      · unfold ParseClaimLockedTx; rw [h]; dsimp only
        repeat' split
        all_goals (intro hc; cases hc)
      · unfold ParseCancelLockedTx; rw [h]; dsimp only
        repeat' split
        all_goals (intro hc; cases hc)
    · intro hpend
      rcases hp with rfl | rfl | rfl | rfl
      · unfold ParseTopupTx; rw [h]; dsimp only
        cases p with
        | true =>
          rw [if_pos rfl]
          refine ⟨_, rfl, ?_, ?_⟩
          all_goals (repeat' (first | split | dsimp only))
          all_goals first | rfl | exact (setAmount_keeps _ _).1 | exact (setAmount_keeps _ _).2
        | false =>
          rcases hpend with hp | ⟨e, he⟩
          · cases hp
          · rw [if_neg (by decide), he]
            refine ⟨_, rfl, ?_, ?_⟩
            all_goals (repeat' (first | split | dsimp only))
            all_goals first | rfl | exact (setAmount_keeps _ _).1 | exact (setAmount_keeps _ _).2
      · unfold ParseOpenLockTx; rw [h]; dsimp only
        cases p with
        | true =>
          rw [if_pos rfl]
          refine ⟨_, rfl, ?_, ?_⟩
          all_goals (repeat' (first | split | dsimp only))
          all_goals first | rfl | exact (setAmount_keeps _ _).1 | exact (setAmount_keeps _ _).2
        | false =>
          rcases hpend with hp | ⟨e, he⟩
          · cases hp
          · rw [if_neg (by decide), he]
            refine ⟨_, rfl, ?_, ?_⟩
            all_goals (repeat' (first | split | dsimp only))
            all_goals first | rfl | exact (setAmount_keeps _ _).1 | exact (setAmount_keeps _ _).2
      · unfold ParseClaimLockedTx; rw [h]; dsimp only
        cases p with
        | true =>
          rw [if_pos rfl]
          refine ⟨_, rfl, ?_, ?_⟩
          all_goals (repeat' (first | split | dsimp only))
          all_goals first | rfl | exact (claimInput_keeps _ _ _).1 | exact (claimInput_keeps _ _ _).2
        | false =>
          rcases hpend with hp | ⟨e, he⟩
          · cases hp
          · rw [if_neg (by decide), he]
            refine ⟨_, rfl, ?_, ?_⟩
            all_goals (repeat' (first | split | dsimp only))
            all_goals first | rfl | exact (claimInput_keeps _ _ _).1 | exact (claimInput_keeps _ _ _).2
      · unfold ParseCancelLockedTx; rw [h]; dsimp only
        cases p with
        | true =>
          rw [if_pos rfl]
          refine ⟨_, rfl, ?_, ?_⟩
          all_goals (repeat' (first | split | dsimp only))
        | false =>
          rcases hpend with hp | ⟨e, he⟩
          · cases hp
          · rw [if_neg (by decide), he]
            refine ⟨_, rfl, ?_, ?_⟩
            all_goals (repeat' (first | split | dsimp only))

/-- C21 (amended). For each of the four parsers and every non-empty hash:
when the endpoint, the client and the ABI are available and the node returns
the transaction, and the node reports it as pending or its receipt cannot be
fetched, the parser returns an info with status `pending` for that hash and a
nil error; when the lookup of the transaction itself fails, the parser returns
the error `get tx error: ...`; and an error is returned only when the endpoint
is missing, the client cannot be obtained, the lookup fails or the ABI does not
parse. -/
theorem C21_pending_outcome_and_errors (parse : ChainEnv → Nat → String → ParseOutcome)
    (hp : parse ∈ parsers) (env : ChainEnv) (chainID : Nat) (txHash : String)
    (hne : txHash ≠ "") :
    (∀ rpc client tx isPending abi,
      pickRPCByChainID env.GetRpcConfig chainID = .ok rpc → env.GetClient rpc = .ok client →
      client.TransactionByHash txHash = .ok (tx, isPending) → env.abiJSON = .ok abi →
      (isPending = true ∨ ∃ e, client.TransactionReceipt txHash = .error e) →
      ∃ info, parse env chainID txHash = .ok info ∧ info.Status = "pending" ∧
        info.TxHash = txHash) ∧
    (∀ rpc client e,
      pickRPCByChainID env.GetRpcConfig chainID = .ok rpc → env.GetClient rpc = .ok client →
      client.TransactionByHash txHash = .error e →
      parse env chainID txHash = .error ("get tx error: " ++ e)) ∧
    (∀ msg, parse env chainID txHash = .error msg →
      pickRPCByChainID env.GetRpcConfig chainID = .error msg ∨
      (∃ rpc e, pickRPCByChainID env.GetRpcConfig chainID = .ok rpc ∧
        env.GetClient rpc = .error e ∧ msg = "get client error: " ++ e) ∨
      (∃ rpc client e, pickRPCByChainID env.GetRpcConfig chainID = .ok rpc ∧
        env.GetClient rpc = .ok client ∧ client.TransactionByHash txHash = .error e ∧
        msg = "get tx error: " ++ e) ∨
      (∃ e, env.abiJSON = .error e ∧ msg = "parse abi error: " ++ e)) := by
  have hfacts := parsers_of_open parse hp env chainID txHash
  refine ⟨?_, ?_, ?_⟩
  · intro rpc client tx isPending abi h1 h2 h3 h4 hpend
    obtain ⟨info, hopen, hs, ht⟩ := openTx_ok env chainID txHash rpc client tx isPending abi hne
      h1 h2 h3 h4
    obtain ⟨info1, hparse, hs1, ht1⟩ := (hfacts.2 client tx isPending info abi hopen).2 hpend
    exact ⟨info1, hparse, hs1.trans hs, ht1.trans ht⟩
  · intro rpc client e h1 h2 h3
    apply hfacts.1
    unfold openTx
    rw [if_neg hne]
    simp only [h1, h2, h3]
  · intro msg hmsg
    cases hopen : openTx env chainID txHash with
    | error m =>
      have := hfacts.1 m hopen
      rw [this] at hmsg
      injection hmsg with hmsg
      subst hmsg
      exact openTx_error env chainID txHash m hne hopen
    | ok r =>
      obtain ⟨client, tx, p, info, abi⟩ := r
      exact absurd hmsg ((hfacts.2 client tx p info abi hopen).1 msg)

/-- C21, witness: the node knows the transaction `0xab` and reports it as
pending, so `ParseClaimLockedTx` returns an info with status `pending`. -/
theorem C21_pending_outcome_and_errors_witness :
    "0xab" ≠ "" ∧
    outcomeStatus
      (ParseClaimLockedTx (exChainEnv (.ok (exTx, true)) (.error "not found")) 56 "0xab") =
      some "pending" := by
  refine ⟨by decide, ?_⟩
  obtain ⟨info, h, hs, -⟩ :=
    (C21_pending_outcome_and_errors ParseClaimLockedTx (by simp [parsers])
      (exChainEnv (.ok (exTx, true)) (.error "not found")) 56 "0xab" (by decide)).1
      "https://bsc" (exClient (.ok (exTx, true)) (.error "not found")) exTx true exAbi
      rfl rfl rfl rfl (Or.inl rfl)
  rw [h]
  exact congrArg some hs

set_option maxRecDepth 100000 in
/-- C21, counterexample: the node does not find the transaction `0xab` (its
lookup answers `not found`); each of the four parsers returns the error
`get tx error: not found` and no info with status `pending`. -/
theorem C21_counterexample :
    ParseTopupTx (exChainEnv (.error "not found") (.error "not found")) 56 "0xab" =
      .error "get tx error: not found" ∧
    ParseOpenLockTx (exChainEnv (.error "not found") (.error "not found")) 56 "0xab" =
      .error "get tx error: not found" ∧
    ParseClaimLockedTx (exChainEnv (.error "not found") (.error "not found")) 56 "0xab" =
      .error "get tx error: not found" ∧
    ParseCancelLockedTx (exChainEnv (.error "not found") (.error "not found")) 56 "0xab" =
      .error "get tx error: not found" := by
  decide

/-- C22 (amended). For every state of the consumer and every item whose op is
Recharge, Freeze, Withdraw or Unfreeze, the handler calls the parser of that
op, and for the outcome the parser returns: on an error it re-enqueues the item
once with delay 10 and forwards nothing; on status `pending` it re-enqueues the
item once with delay 5 and forwards nothing; on another status it re-enqueues
nothing and, when the channel holds fewer than 500 updates, forwards exactly
one update, the outcome with the item's mainId, refFlowId, op and chainId, and
when the channel is full it drops the update. -/
theorem C22_consumer_handles_item (env : ChainEnv) (st : ConsumerState)
    (item : QueuePassObject) (hop : ValidOp item.Op) :
    ∃ out, parseByOp env item = some out ∧
      out =
        (if item.Op = BalanceFlowOpRecharge then ParseTopupTx env item.ChainID item.TxHash
         else if item.Op = BalanceFlowOpFreeze then ParseOpenLockTx env item.ChainID item.TxHash
         else if item.Op = BalanceFlowOpWithdraw then
           ParseClaimLockedTx env item.ChainID item.TxHash
         else ParseCancelLockedTx env item.ChainID item.TxHash) ∧
      (∀ msg, out = .error msg →
        consumeTopupTx env st item =
          some { delayed := st.delayed ++ [(item, 10)], channel := st.channel }) ∧
      (∀ info, out = .ok info → info.Status = "pending" →
        consumeTopupTx env st item =
          some { delayed := st.delayed ++ [(item, 5)], channel := st.channel }) ∧
      (∀ info, out = .ok info → info.Status ≠ "pending" →
        consumeTopupTx env st item =
          some { delayed := st.delayed,
                 channel :=
                   if st.channel.length < 500 then st.channel ++ [forwarded item info]
                   else st.channel } ∧
        (forwarded item info).MainID = item.MainID ∧
        (forwarded item info).RefFlowID = item.RefFlowID ∧
        (forwarded item info).Op = item.Op ∧ (forwarded item info).ChainID = item.ChainID ∧
        (forwarded item info).Status = info.Status) := by
  have hdisp : parseByOp env item =
      some (if item.Op = BalanceFlowOpRecharge then ParseTopupTx env item.ChainID item.TxHash
         else if item.Op = BalanceFlowOpFreeze then ParseOpenLockTx env item.ChainID item.TxHash
         else if item.Op = BalanceFlowOpWithdraw then
           ParseClaimLockedTx env item.ChainID item.TxHash
         else ParseCancelLockedTx env item.ChainID item.TxHash) := by
    unfold parseByOp
    rcases hop with h | h | h | h <;> rw [h] <;> rfl
  refine ⟨_, hdisp, rfl, ?_, ?_, ?_⟩
  · intro msg hout
    unfold consumeTopupTx
    rw [hdisp, hout]
  · intro info hout hpend
    unfold consumeTopupTx
    rw [hdisp, hout]
    dsimp only
    rw [if_pos hpend]
  · intro info hout hpend
    refine ⟨?_, rfl, rfl, rfl, rfl, rfl⟩
    unfold consumeTopupTx
    rw [hdisp, hout]
    dsimp only
    rw [if_neg hpend]
    rfl

set_option maxRecDepth 100000 in
/-- C22, witness: the item of op Recharge whose transaction is mined with
success and whose receipt has no log; on the empty channel the handler
forwards one update, the outcome with the item's mainId 7, refFlowId 3, op and
chainId 56, and re-enqueues nothing. -/
theorem C22_consumer_handles_item_witness :
    ValidOp (exItem BalanceFlowOpRecharge).Op ∧
    consumeTopupTx (exChainEnv (.ok (exTx, false)) (.ok (exReceipt [])))
      { delayed := [], channel := [] } (exItem BalanceFlowOpRecharge) =
      some { delayed := [],
             channel := [{ exMinedInfo with MainID := 7, RefFlowID := 3, Op := 0, ChainID := 56 }] } := by
  refine ⟨Or.inl rfl, ?_⟩
  obtain ⟨out, -, h2, -, -, h5⟩ :=
    C22_consumer_handles_item (exChainEnv (.ok (exTx, false)) (.ok (exReceipt [])))
      { delayed := [], channel := [] } (exItem BalanceFlowOpRecharge) (Or.inl rfl)
  have hout : out = .ok exMinedInfo := by
    rw [h2]
    decide
  exact (h5 exMinedInfo hout (by decide)).1

/-- A full channel: 500 updates. -/
theorem fullChannel_length : (List.replicate 500 (newTopupTxInfo "0x01")).length = 500 :=
  List.length_replicate _ _

set_option maxRecDepth 100000 in
/-- C22, counterexample: the channel holds 500 updates; for the item of op
Recharge whose transaction is mined with success, the handler neither
re-enqueues the item nor forwards an update: the state is unchanged and the
item is dropped. -/
theorem C22_counterexample :
    ParseTopupTx (exChainEnv (.ok (exTx, false)) (.ok (exReceipt []))) 56 "0xab" =
      .ok exMinedInfo ∧
    consumeTopupTx (exChainEnv (.ok (exTx, false)) (.ok (exReceipt [])))
      { delayed := [], channel := List.replicate 500 (newTopupTxInfo "0x01") }
      (exItem BalanceFlowOpRecharge) =
      some { delayed := [], channel := List.replicate 500 (newTopupTxInfo "0x01") } := by
  have h2 : ParseTopupTx (exChainEnv (.ok (exTx, false)) (.ok (exReceipt []))) 56 "0xab" =
      .ok exMinedInfo := by
    decide
  refine ⟨h2, ?_⟩
  unfold consumeTopupTx
  have h1 : parseByOp (exChainEnv (.ok (exTx, false)) (.ok (exReceipt [])))
      (exItem BalanceFlowOpRecharge) =
      some (ParseTopupTx (exChainEnv (.ok (exTx, false)) (.ok (exReceipt []))) 56 "0xab") := by
    rfl
  rw [h1, h2]
  dsimp only
  rw [if_neg (by decide)]
  unfold publishUpdate
  rw [fullChannel_length, if_neg (by decide)]

set_option maxRecDepth 100000 in
/-- C29 (code as written). The receipt of the mined transaction `0xab` holds
one log whose only topic is the id of `LockClaimed`: the log passes the check
of line 392 and the read of topic 1 is out of range, so `ParseClaimLockedTx`
panics and so does the handler of the consumer for the Withdraw item; a log
with two topics panics at the read of topic 2.  `ParseCancelLockedTx` skips the
log with the id of `LockCanceled` as its only topic and returns the outcome. -/
theorem C29_single_topic_log_panics :
    ParseClaimLockedTx
      (exChainEnv (.ok (exTx, false)) (.ok (exReceipt [exLog [List.replicate 32 3]])))
      56 "0xab" = .panic ∧
    consumeTopupTx
      (exChainEnv (.ok (exTx, false)) (.ok (exReceipt [exLog [List.replicate 32 3]])))
      { delayed := [], channel := [] } (exItem BalanceFlowOpWithdraw) = none ∧
    ParseClaimLockedTx
      (exChainEnv (.ok (exTx, false))
        (.ok (exReceipt [exLog [List.replicate 32 3, List.replicate 32 7]])))
      56 "0xab" = .panic ∧
    ParseCancelLockedTx
      (exChainEnv (.ok (exTx, false)) (.ok (exReceipt [exLog [List.replicate 32 4]])))
      56 "0xab" = .ok exMinedInfo := by
  decide

theorem updateRow_map_same {α β : Type} (key : α → Nat) (f : α → β) (rows : List α) (r x : α)
    (hnd : (rows.map key).Nodup) (hx : x ∈ rows) (hk : key x = key r) (hf : f r = f x) :
    (updateRow key rows r).map f = rows.map f := by
  unfold updateRow
  rw [List.map_map]
  apply List.map_congr_left
  intro y hy
  simp only [Function.comp]
  split
  · next h =>
    have : y = x := key_inj key hnd hy hx (h.trans hk.symm)
    rw [this, hf]
  · rfl

theorem topupSwitch_balances (db : DB) (userMain : UserMain) (req : TopupReq)
    (ref : AccountBalanceFlow) (now : Nat) (r : Response × DB × List QueuePassObject)
    (h : topupSwitch db userMain req ref now = some r) :
    r.2.1.accountBalances = db.accountBalances := by
  unfold topupSwitch at h
  split at h
  · injection h with h; rw [← h]
  · split at h
    · injection h with h; rw [← h]
    · cases h

theorem topupSwitch_none (db : DB) (userMain : UserMain) (req : TopupReq)
    (ref : AccountBalanceFlow) (now : Nat) (h : topupSwitch db userMain req ref now = none) :
    req.Typ ≠ "lock" := by
  unfold topupSwitch at h
  split at h
  · cases h
  · next hl => exact hl

theorem topupLedger_balances (db : DB) (userMain : UserMain) (req : TopupReq)
    (ref : AccountBalanceFlow) (now : Nat) (hk : KeysOK AccountBalance.ID db.accountBalances)
    (hl : req.Typ ≠ "lock") :
    (topupLedger db userMain req ref now).2.1.accountBalances.map balanceFields =
      db.accountBalances.map balanceFields := by
  unfold topupLedger
  dsimp only
  split
  · rfl
  · split
    · rfl
    · next userAccount hua =>
      dsimp only
      try rw [if_neg hl]
      have hmem := (firstWhere_some AccountBalance.ID hua).1
      have h0 : userAccount.ID ≠ 0 := hk.2 userAccount hmem
      have hs : saveBalance db.accountBalances { userAccount with UpdateTime := now } =
          updateRow AccountBalance.ID db.accountBalances { userAccount with UpdateTime := now } :=
        saveBalance_eq_update hmem rfl h0
      rw [hs]
      exact updateRow_map_same AccountBalance.ID balanceFields db.accountBalances _ userAccount
        hk.1 hmem rfl rfl

/-- C27. For every state whose balance rows carry distinct non-zero keys and
every request (any type, accepted or rejected), `BalanceTopupReport` leaves the
key, owner, asset, available, frozen and withdrawal of every balance row
unchanged and adds or removes no balance row; a report of type `lock` returns
before the statement `Withdrawal += amount` and leaves the balance table as it
is, update times included. -/
theorem C27_report_changes_no_balance (db : DB) (mainId : Option Nat) (body : Option TopupReq)
    (now : Nat) (hk : KeysOK AccountBalance.ID db.accountBalances) :
    (BalanceTopupReport db mainId body now).2.1.accountBalances.map balanceFields =
      db.accountBalances.map balanceFields ∧
    (∀ req, body = some req → req.Typ = "lock" →
      (BalanceTopupReport db mainId body now).2.1.accountBalances = db.accountBalances) := by
  refine ⟨?_, ?_⟩
  · unfold BalanceTopupReport
    repeat' (first | split | dsimp only)
    all_goals first
      | exact congrArg _ (topupSwitch_balances db _ _ _ now _ (by assumption))
      | exact topupLedger_balances db _ _ _ now hk (topupSwitch_none db _ _ _ now (by assumption))
      | (apply topupLedger_balances db _ _ _ now hk
         intro hl
         simp_all)
  · intro req hb hl
    subst hb
    unfold BalanceTopupReport
    dsimp only
    repeat' (first | split | dsimp only)
    all_goals first
      | exact topupSwitch_balances db _ _ _ now _ (by assumption)
      | exact absurd hl (topupSwitch_none db _ _ _ now (by assumption))
      | simp_all

set_option maxRecDepth 100000 in
/-- C27, witness: in the example a `withdraw` report that names the lock row 1
is accepted and inserts a Pending row, and the balance row of user 7 keeps
available 1000, frozen 0 and withdrawal 500. -/
theorem C27_report_changes_no_balance_witness :
    KeysOK AccountBalance.ID exReportDb.accountBalances ∧
    (BalanceTopupReport exReportDb (some 7) (some (exReport "withdraw" 1)) 9).1.Code =
      Code.CODE_SUCCESS ∧
    (BalanceTopupReport exReportDb (some 7) (some (exReport "withdraw" 1))
      9).2.1.accountBalances.map balanceFields = [(1, 7, 0, 1000, 0, 500)] := by
  have hk : KeysOK AccountBalance.ID exReportDb.accountBalances := by
    constructor
    · decide
    · intro r hr
      simp only [exReportDb, List.mem_singleton] at hr
      rw [hr]
      decide
  refine ⟨hk, by decide, ?_⟩
  rw [(C27_report_changes_no_balance exReportDb (some 7) (some (exReport "withdraw" 1)) 9 hk).1]
  rfl

set_option maxRecDepth 100000 in
/-- C23 (code as written). User 7 reports the cancel transaction `exHash` for
the lock row 1 and the report is accepted: one Pending row, key 2, holds the
hash.  The same report sent again is accepted again and inserts the Pending row
3 with the same owner and hash: the `cancel` path makes no check of the hash.
On the `recharge` path a second report of the hash that names the row of the
first report as `ref_id` passes the check and inserts a second Pending row as
well, while one with another `ref_id` is refused. -/
theorem C23_duplicate_pending_rows :
    pendingWithHash exReportDb 7 exHash = [] ∧
    (BalanceTopupReport exReportDb (some 7) (some (exReport "cancel" 1)) 9).1.Code =
      Code.CODE_SUCCESS ∧
    pendingWithHash (afterReport "cancel" 1) 7 exHash = [2] ∧
    (BalanceTopupReport (afterReport "cancel" 1) (some 7) (some (exReport "cancel" 1)) 10).1.Code =
      Code.CODE_SUCCESS ∧
    pendingWithHash
      (BalanceTopupReport (afterReport "cancel" 1) (some 7) (some (exReport "cancel" 1)) 10).2.1
      7 exHash = [2, 3] ∧
    pendingWithHash (afterReport "recharge" 0) 7 exHash = [2] ∧
    (BalanceTopupReport (afterReport "recharge" 0) (some 7) (some (exReport "recharge" 0))
      10).1 = failWith 10 Code.CODE_ERR_REPEAT "tx hash already exists" ∧
    (BalanceTopupReport (afterReport "recharge" 0) (some 7) (some (exReport "recharge" 2))
      10).1.Code = Code.CODE_SUCCESS ∧
    pendingWithHash
      (BalanceTopupReport (afterReport "recharge" 0) (some 7) (some (exReport "recharge" 2))
        10).2.1 7 exHash = [2, 3] := by
  decide

set_option maxRecDepth 100000 in
/-- C24 (code as written). User 7 with available 1000 freezes 200 under the
external id `e2`: the call succeeds with operation id 2, available 800 and
frozen 200.  The same call sent again does not return operation id 2: the
handler reads no earlier row by external id, inserts again, the insert of a
second Pending Freeze row of the user fails, and the answer is
`freeze operation failed` with no operation id; the state is that after the
first call. -/
theorem C24_freeze_retry_is_refused :
    (FreezeHandler (exAdvDb 1000 0) "client" 7 (some exFreezeReq) 5).1 = okWith 5 2 "freeze" ∧
    (gameBalanceOf (FreezeHandler (exAdvDb 1000 0) "client" 7 (some exFreezeReq) 5).2
      7).Available = 800 ∧
    (gameBalanceOf (FreezeHandler (exAdvDb 1000 0) "client" 7 (some exFreezeReq) 5).2
      7).Frozen = 200 ∧
    (FreezeHandler (FreezeHandler (exAdvDb 1000 0) "client" 7 (some exFreezeReq) 5).2 "client" 7
        (some exFreezeReq) 6).1 = failWith 6 Code.CODE_ERR_UNKNOWN "freeze operation failed" ∧
    (FreezeHandler (FreezeHandler (exAdvDb 1000 0) "client" 7 (some exFreezeReq) 5).2 "client" 7
        (some exFreezeReq) 6).2 =
      (FreezeHandler (exAdvDb 1000 0) "client" 7 (some exFreezeReq) 5).2 := by
  decide

set_option maxRecDepth 100000 in
/-- C26 (code as written). In the example state frozen equals the sum of the
Pending Freeze rows for both users: 0 for user 7, 100 for user 8, whose row 1
is a Pending Freeze of 100.  User 7 names row 1 in `UnFreezeHandler`: the call
succeeds, frozen of user 7 underflows to `2 ^ 64 - 100` and available of user
7 becomes 100 while no Pending Freeze row of user 7 exists, and row 1 of user 8
is no longer Pending while frozen of user 8 is still 100.  `SpendHandler` does
the same to frozen. -/
theorem C26_foreign_row_breaks_frozen :
    (gameBalanceOf (exAdvDb 0 0) 7).Frozen = pendingFreezeSum (exAdvDb 0 0) 7 ∧
    (gameBalanceOf (exAdvDb 0 0) 8).Frozen = pendingFreezeSum (exAdvDb 0 0) 8 ∧
    (UnFreezeHandler (exAdvDb 0 0) "client" 7 (some { FreezeID := 1 }) 9).1.Code =
      Code.CODE_SUCCESS ∧
    (gameBalanceOf (UnFreezeHandler (exAdvDb 0 0) "client" 7 (some { FreezeID := 1 }) 9).2
      7).Frozen = 2 ^ 64 - 100 ∧
    (gameBalanceOf (UnFreezeHandler (exAdvDb 0 0) "client" 7 (some { FreezeID := 1 }) 9).2
      7).Available = 100 ∧
    pendingFreezeSum (UnFreezeHandler (exAdvDb 0 0) "client" 7 (some { FreezeID := 1 }) 9).2 7 =
      0 ∧
    (gameBalanceOf (UnFreezeHandler (exAdvDb 0 0) "client" 7 (some { FreezeID := 1 }) 9).2
      8).Frozen = 100 ∧
    pendingFreezeSum (UnFreezeHandler (exAdvDb 0 0) "client" 7 (some { FreezeID := 1 }) 9).2 8 =
      0 ∧
    (SpendHandler (exAdvDb 0 0) "client" 7 (some { FreezeID := 1 }) 9).1.Code =
      Code.CODE_SUCCESS ∧
    (gameBalanceOf (SpendHandler (exAdvDb 0 0) "client" 7 (some { FreezeID := 1 }) 9).2
      7).Frozen = 2 ^ 64 - 100 ∧
    pendingFreezeSum (SpendHandler (exAdvDb 0 0) "client" 7 (some { FreezeID := 1 }) 9).2 8 =
      0 := by
  decide

theorem beDecode_concat (a : List Nat) (x : Nat) : beDecode (a ++ [x]) = beDecode a * 256 + x := by
  unfold beDecode
  rw [List.foldl_append]
  rfl

theorem beDecode_inj_aux : ∀ (n : Nat) (a b : List Nat), IsHash n a → IsHash n b →
    beDecode a = beDecode b → a = b := by
  intro n
  induction n with
  | zero =>
    intro a b ha hb _
    rw [List.length_eq_zero.mp ha.1, List.length_eq_zero.mp hb.1]
  | succ n ih =>
    intro a b ha hb hab
    rcases List.eq_nil_or_concat a with h | ⟨a1, x, h⟩
    · rw [h] at ha
      cases ha.1
    rcases List.eq_nil_or_concat b with h2 | ⟨b1, y, h2⟩
    · rw [h2] at hb
      cases hb.1
    subst h h2
    rw [List.concat_eq_append, List.concat_eq_append] at *
    rw [beDecode_concat, beDecode_concat] at hab
    have hx : x < 256 := ha.2 x (by simp)
    have hy : y < 256 := hb.2 y (by simp)
    have hla : a1.length = n := by
      have := ha.1
      simp only [List.length_append, List.length_singleton] at this
      omega
    have hlb : b1.length = n := by
      have := hb.1
      simp only [List.length_append, List.length_singleton] at this
      omega
    have h1 : beDecode a1 = beDecode b1 := by omega
    have h3 : x = y := by omega
    have := ih a1 b1 ⟨hla, fun v hv => ha.2 v (by simp [hv])⟩
      ⟨hlb, fun v hv => hb.2 v (by simp [hv])⟩ h1
    rw [this, h3]

theorem sortAppend_comm (a b : List Nat) (h : beDecode a = beDecode b → a = b) :
    sortAppend true a b = sortAppend true b a := by
  unfold sortAppend
  simp only [Bool.true_eq_false, if_false]
  rcases Nat.lt_trichotomy (beDecode a) (beDecode b) with hlt | heq | hgt
  · rw [if_pos hlt, if_neg (by omega)]
  · rw [h heq]
  · rw [if_neg (by omega), if_pos hgt]

theorem pairNodes_length (h : List Nat → List Nat) (sort : Bool) :
    ∀ nl : List (List Nat), (pairNodes h sort nl).length = (nl.length + 1) / 2
  | [] => by simp [pairNodes]
  | [_] => by simp [pairNodes]
  | _ :: _ :: rest => by
    simp only [pairNodes, List.length_cons, pairNodes_length h sort rest]
    omega

theorem pairNodes_mem (h : List Nat → List Nat) (sort : Bool) :
    ∀ (nl : List (List Nat)) (y : List Nat), y ∈ pairNodes h sort nl → ∃ z, y = h z
  | [], y, hy => by simp [pairNodes] at hy
  | [a], y, hy => by
    simp only [pairNodes, List.mem_singleton] at hy
    exact ⟨_, hy⟩
  | a :: b :: rest, y, hy => by
    simp only [pairNodes, List.mem_cons] at hy
    rcases hy with hy | hy
    · exact ⟨_, hy⟩
    · exact pairNodes_mem h sort rest y hy

theorem pairNodes_getD (h : List Nat → List Nat) (sort : Bool) :
    ∀ (nl : List (List Nat)) (i : Nat), i < nl.length →
      (pairNodes h sort nl).getD (i / 2) [] =
        h (sortAppend sort (nl.getD (2 * (i / 2)) [])
          (nl.getD (2 * (i / 2) + 1) (nl.getD (2 * (i / 2)) [])))
  | [], i, hi => by simp at hi
  | [a], i, hi => by
    have : i = 0 := by simpa using hi
    subst this
    rfl
  | a :: b :: rest, i, hi => by
    match i, hi with
    | 0, _ => rfl
    | 1, _ => rfl
    | i + 2, hi =>
      have hi2 : i < rest.length := by simpa using hi
      have e1 : (i + 2) / 2 = i / 2 + 1 := by omega
      have e2 : 2 * (i / 2 + 1) = 2 * (i / 2) + 1 + 1 := by omega
      have e3 : 2 * (i / 2) + 1 + 1 + 1 = (2 * (i / 2) + 1) + 1 + 1 := rfl
      rw [e1, e2]
      simp only [pairNodes, List.getD_cons_succ]
      exact pairNodes_getD h sort rest i hi2

theorem step_hash (h : List Nat → List Nat) (sort : Bool) (nl : List (List Nat)) (i : Nat)
    (hi : i < nl.length) (hinj : sort = true → NumInj nl) :
    (if sort then h (sortAppend true (nl.getD i []) (pathStep nl i).1)
      else if (pathStep nl i).2 = 1 then h (nl.getD i [] ++ (pathStep nl i).1)
      else h ((pathStep nl i).1 ++ nl.getD i [])) =
      (pairNodes h sort nl).getD (i / 2) [] := by
  rw [pairNodes_getD h sort nl i hi]
  unfold pathStep
  dsimp only
  have hx : nl.getD i [] = nl[i] := List.getD_eq_getElem nl [] hi
  have hl2 : 2 * (i / 2) < nl.length := by omega
  have hleft : nl.getD (2 * (i / 2)) [] = nl[2 * (i / 2)] := List.getD_eq_getElem nl [] hl2
  by_cases hl : nl.getD (2 * (i / 2)) [] = nl.getD i []
  · rw [if_pos hl]
    dsimp only
    cases sort with
    | true => simp only [if_true]; rw [← hl]
    | false =>
      simp only [Bool.false_eq_true, if_false, if_true]
      rw [← hl]
      rfl
  · rw [if_neg hl]
    dsimp only
    have hodd : 2 * (i / 2) + 1 = i := by
      by_contra hne
      have : 2 * (i / 2) = i := by omega
      rw [this] at hl
      exact hl rfl
    have hright : nl.getD (2 * (i / 2) + 1) (nl.getD (2 * (i / 2)) []) = nl.getD i [] := by
      rw [hodd, hx]
      exact List.getD_eq_getElem nl _ hi
    rw [hright]
    cases sort with
    | true =>
      simp only [if_true]
      rw [sortAppend_comm]
      intro heq
      rw [hx, hleft] at heq ⊢
      exact hinj rfl _ (List.getElem_mem _) _ (List.getElem_mem _) heq
    | false =>
      simp only [Bool.false_eq_true, if_false]
      rw [if_neg (by decide)]
      rfl

theorem buildIntermediate_some (h : List Nat → List Nat) (sort : Bool) :
    ∀ (fuel : Nat) (nl : List (List Nat)), nl ≠ [] → nl.length ≤ fuel →
      ∃ ups, buildIntermediate h sort fuel nl = some ups ∧ ups ≠ [] := by
  intro fuel
  induction fuel with
  | zero =>
    intro nl hne hlen
    exact absurd (List.length_eq_zero.mp (Nat.le_zero.mp hlen)) hne
  | succ fuel ih =>
    intro nl hne hlen
    unfold buildIntermediate
    dsimp only
    by_cases h2 : nl.length = 2
    · rw [if_pos h2]
      exact ⟨_, rfl, by simp⟩
    rw [if_neg h2]
    by_cases h1 : (pairNodes h sort nl).length = 1
    · rw [if_pos h1]
      exact ⟨_, rfl, by simp⟩
    rw [if_neg h1]
    have hpl := pairNodes_length h sort nl
    have hpos : 0 < nl.length := List.length_pos.mpr hne
    have hne2 : pairNodes h sort nl ≠ [] := by
      intro hc
      rw [hc] at hpl
      simp only [List.length_nil] at hpl
      omega
    obtain ⟨ups, hups, _⟩ := ih (pairNodes h sort nl) hne2 (by omega)
    rw [hups]
    exact ⟨_, rfl, by simp⟩

theorem getLastD_cons_of_ne {α : Type} (a d : α) (l : List α) (hl : l ≠ []) :
    (a :: l).getLastD d = l.getLastD d := by
  cases l with
  | nil => exact absurd rfl hl
  | cons y ys => rfl

theorem buildIntermediate_ne_nil (h : List Nat → List Nat) (sort : Bool) (fuel : Nat)
    (nl : List (List Nat)) (ups : List (List (List Nat)))
    (hb : buildIntermediate h sort fuel nl = some ups) : ups ≠ [] := by
  cases fuel with
  | zero => cases hb
  | succ fuel =>
    unfold buildIntermediate at hb
    dsimp only at hb
    split at hb
    · injection hb with hb; rw [← hb]; simp
    · split at hb
      · injection hb with hb; rw [← hb]; simp
      · cases hr : buildIntermediate h sort fuel (pairNodes h sort nl) with
        | none => rw [hr] at hb; cases hb
        | some u =>
          rw [hr] at hb
          injection hb with hb
          rw [← hb]
          simp

theorem numInj_pairNodes (h : List Nat → List Nat) (sort : Bool) (nl : List (List Nat))
    (hh : ∀ x y, beDecode (h x) = beDecode (h y) → h x = h y) :
    NumInj (pairNodes h sort nl) := by
  intro a ha b hb hab
  obtain ⟨x, rfl⟩ := pairNodes_mem h sort nl a ha
  obtain ⟨y, rfl⟩ := pairNodes_mem h sort nl b hb
  exact hh x y hab

theorem walkUp_cons (i : Nat) (cur up : List (List Nat)) (ups : List (List (List Nat))) :
    walkUp i cur (up :: ups) = pathStep cur i :: walkUp (i / 2) up ups := rfl

theorem foldPath_cons (h : List Nat → List Nat) (sort : Bool) (x : List Nat)
    (st : List Nat × Int) (rest : List (List Nat × Int)) :
    foldPath h sort x (st :: rest).unzip.1 (st :: rest).unzip.2 =
      foldPath h sort
        (if sort then h (sortAppend true x st.1) else if st.2 = 1 then h (x ++ st.1)
          else h (st.1 ++ x))
        rest.unzip.1 rest.unzip.2 := by
  rw [List.unzip_cons]
  rfl

theorem fold_single (h : List Nat → List Nat) (sort : Bool) (nl : List (List Nat)) (i : Nat)
    (hi : i < nl.length) (hinj : sort = true → NumInj nl)
    (h1 : (pairNodes h sort nl).length = 1) :
    foldPath h sort (nl.getD i []) (walkUp i nl [pairNodes h sort nl]).unzip.1
      (walkUp i nl [pairNodes h sort nl]).unzip.2 = rootHash [pairNodes h sort nl] := by
  have hstep := step_hash h sort nl i hi hinj
  have hpl := pairNodes_length h sort nl
  have hi0 : i / 2 = 0 := by omega
  rw [walkUp_cons, foldPath_cons, hstep, hi0]
  unfold rootHash
  cases hn : pairNodes h sort nl with
  | nil => rfl
  | cons y ys => rfl

theorem fold_walkUp (h : List Nat → List Nat) (sort : Bool)
    (hh : sort = true → ∀ x y, beDecode (h x) = beDecode (h y) → h x = h y) :
    ∀ (fuel : Nat) (nl : List (List Nat)) (ups : List (List (List Nat))) (i : Nat),
      buildIntermediate h sort fuel nl = some ups → i < nl.length →
      (sort = true → NumInj nl) →
      foldPath h sort (nl.getD i []) (walkUp i nl ups).unzip.1 (walkUp i nl ups).unzip.2 =
        rootHash ups := by
  intro fuel
  induction fuel with
  | zero =>
    intro nl ups i hb
    cases hb
  | succ fuel ih =>
    intro nl ups i hb hi hinj
    have hpl := pairNodes_length h sort nl
    unfold buildIntermediate at hb
    dsimp only at hb
    split at hb
    · next h2 =>
      injection hb with hb
      rw [← hb]
      exact fold_single h sort nl i hi hinj (by omega)
    · split at hb
      · next h1 =>
        injection hb with hb
        rw [← hb]
        exact fold_single h sort nl i hi hinj h1
      · cases hr : buildIntermediate h sort fuel (pairNodes h sort nl) with
        | none => rw [hr] at hb; cases hb
        | some u =>
          rw [hr] at hb
          injection hb with hb
          rw [← hb]
          have hstep := step_hash h sort nl i hi hinj
          have hne := buildIntermediate_ne_nil h sort fuel _ u hr
          have hrec := ih (pairNodes h sort nl) u (i / 2) hr (by omega)
            (fun hs => numInj_pairNodes h sort nl (hh hs))
          rw [walkUp_cons, foldPath_cons, hstep, hrec]
          unfold rootHash
          rw [getLastD_cons_of_ne _ _ _ hne]

theorem leafNodes_ok {C : Type} (tc : TreeContent C) :
    ∀ cs : List C, (∀ x ∈ cs, ∃ b, tc.CalculateHash x = .ok b) →
      ∃ leafs, leafNodes tc cs = .ok leafs ∧ leafs.map Prod.fst = cs ∧
        ∀ l ∈ leafs, tc.CalculateHash l.1 = .ok l.2 := by
  intro cs
  induction cs with
  | nil => intro _; exact ⟨[], rfl, rfl, by simp⟩
  | cons c cs ih =>
    intro hall
    obtain ⟨b, hb⟩ := hall c (by simp)
    obtain ⟨leafs, h1, h2, h3⟩ := ih (fun x hx => hall x (by simp [hx]))
    refine ⟨(c, b) :: leafs, ?_, ?_, ?_⟩
    · unfold leafNodes
      rw [hb]
      dsimp only
      rw [h1]
    · simp [h2]
    · intro l hl
      simp only [List.mem_cons] at hl
      rcases hl with rfl | hl
      · exact hb
      · exact h3 l hl

theorem findLeaf_first {C : Type} [DecidableEq C] (tc : TreeContent C) (c : C) :
    ∀ (leafs : List (C × List Nat)) (k : Nat),
      (∀ l ∈ leafs, tc.Equals l.1 c = .ok (decide (l.1 = c))) → (∃ l ∈ leafs, l.1 = c) →
      ∃ i, findLeaf tc c leafs k = .ok (some (k + i)) ∧ i < leafs.length ∧
        ∃ l, leafs[i]? = some l ∧ l.1 = c := by
  intro leafs
  induction leafs with
  | nil =>
    intro k _ hex
    obtain ⟨l, hl, _⟩ := hex
    cases hl
  | cons l rest ih =>
    intro k heq hex
    unfold findLeaf
    rw [heq l (by simp)]
    by_cases hc : l.1 = c
    · refine ⟨0, ?_, by simp, l, by simp, hc⟩
      simp [hc]
    · have hex2 : ∃ l2 ∈ rest, l2.1 = c := by
        obtain ⟨l2, hl2, hl2c⟩ := hex
        simp only [List.mem_cons] at hl2
        rcases hl2 with rfl | hl2
        · exact absurd hl2c hc
        · exact ⟨l2, hl2, hl2c⟩
      obtain ⟨i, h1, h2, l2, h3, h4⟩ := ih (k + 1) (fun x hx => heq x (by simp [hx])) hex2
      refine ⟨i + 1, ?_, by simp [h2], l2, by simpa using h3, h4⟩
      simp only [hc, decide_False]
      rw [h1]
      congr 2
      omega

/-- C28. For every list of contents `cs` whose hashes can be computed, every
sort flag and every content `c` of `cs` (`Equals` being the equality of
contents): `NewTreeWithHashStrategySorted` builds a tree, `GetMerklePath`
returns a path with as many indexes, and the fold of the claim from the hash of
`c` along the path gives `MerkleRoot`.  For a sorted tree the hashes of the
contents are taken as byte strings of one length and the hash strategy as
giving byte strings of one length.  Odd counts, duplicates and the single
content are included. -/
theorem C28_merkle_path_folds_to_root {C : Type} [DecidableEq C] (tc : TreeContent C)
    (h : List Nat → List Nat) (sort : Bool) (cs : List C) (c : C) (n m : Nat) (hc : c ∈ cs)
    (hhash : ∀ x ∈ cs, ∃ b, tc.CalculateHash x = .ok b)
    (hequals : ∀ x ∈ cs, tc.Equals x c = .ok (decide (x = c)))
    (hfix : sort = true →
      (∀ x ∈ cs, ∀ b, tc.CalculateHash x = .ok b → IsHash n b) ∧ ∀ x, IsHash m (h x)) :
    ∃ t hashC path idx,
      NewTreeWithHashStrategySorted tc cs h sort = .ok t ∧
      tc.CalculateHash c = .ok hashC ∧
      t.GetMerklePath tc c = .ok (path, idx) ∧
      path.length = idx.length ∧
      foldPath h sort hashC path idx = t.MerkleRoot := by
  obtain ⟨leafs, hleafs, hfst, hl⟩ := leafNodes_ok tc cs hhash
  obtain ⟨hashC, hhc⟩ := hhash c hc
  have hlen : leafs.length = cs.length := by rw [← hfst, List.length_map]
  have hpos : 0 < cs.length := List.length_pos.mpr (List.ne_nil_of_mem hc)
  have hne : leafs.map Prod.snd ≠ [] := by
    intro hnil
    have := congrArg List.length hnil
    simp only [List.length_map, List.length_nil] at this
    omega
  obtain ⟨ups, hups, _⟩ := buildIntermediate_some h sort leafs.length (leafs.map Prod.snd) hne
    (by simp)
  have hmemcs : ∀ l ∈ leafs, l.1 ∈ cs := by
    intro l hlm
    rw [← hfst]
    exact List.mem_map_of_mem _ hlm
  obtain ⟨i, hfind, hi, l, hli, hlc⟩ := findLeaf_first tc c leafs 0
    (fun l hlm => hequals l.1 (hmemcs l hlm))
    (by
      rw [← hfst] at hc
      obtain ⟨l, hlm, hlc⟩ := List.mem_map.mp hc
      exact ⟨l, hlm, hlc⟩)
  rw [Nat.zero_add] at hfind
  have hlmem : l ∈ leafs := by
    rw [List.getElem?_eq_some_iff] at hli
    obtain ⟨hlt, hli⟩ := hli
    rw [← hli]
    exact List.getElem_mem _
  have hl2 : l.2 = hashC := by
    have h1 := hl l hlmem
    rw [hlc, hhc] at h1
    injection h1 with h1
    exact h1.symm
  have hget : (leafs.map Prod.snd).getD i [] = hashC := by
    rw [List.getD_eq_getElem?_getD, List.getElem?_map, hli]
    exact hl2
  have hh : sort = true → ∀ x y, beDecode (h x) = beDecode (h y) → h x = h y :=
    fun hs x y hxy => beDecode_inj_aux m _ _ ((hfix hs).2 x) ((hfix hs).2 y) hxy
  have hinj : sort = true → NumInj (leafs.map Prod.snd) := by
    intro hs a ha b hb hab
    obtain ⟨la, hla, rfl⟩ := List.mem_map.mp ha
    obtain ⟨lb, hlb, rfl⟩ := List.mem_map.mp hb
    exact beDecode_inj_aux n _ _ ((hfix hs).1 la.1 (hmemcs la hla) la.2 (hl la hla))
      ((hfix hs).1 lb.1 (hmemcs lb hlb) lb.2 (hl lb hlb)) hab
  have hfold := fold_walkUp h sort hh leafs.length (leafs.map Prod.snd) ups i hups
    (by simpa using hi) hinj
  rw [hget] at hfold
  refine ⟨{ merkleRoot := rootHash ups, Leafs := leafs, levels := ups, sort := sort }, hashC,
    (walkUp i (leafs.map Prod.snd) ups).unzip.1, (walkUp i (leafs.map Prod.snd) ups).unzip.2,
    ?_, hhc, ?_, ?_, hfold⟩
  · unfold NewTreeWithHashStrategySorted
    rw [if_neg (by omega), hleafs]
    dsimp only
    rw [hups]
  · unfold MerkleTree.GetMerklePath
    dsimp only
    rw [hfind]
  · simp [List.unzip_eq_map]

theorem defaultCont_equals (k : List Nat → List Nat) (x c : DefaultCont) :
    (defaultCont k).Equals x c = .ok (decide (x = c)) := by
  cases x
  cases c
  simp [defaultCont]

theorem exKeccak_isHash (d : List Nat) : IsHash 32 (exKeccak d) := by
  unfold exKeccak IsHash
  refine ⟨by simp, ?_⟩
  intro v hv
  simp only [List.mem_append, List.mem_replicate, List.mem_singleton] at hv
  rcases hv with ⟨_, rfl⟩ | rfl <;> omega

theorem defaultCont_isHash (x : DefaultCont) (b : List Nat)
    (hb : (defaultCont exKeccak).CalculateHash x = .ok b) : IsHash 32 b := by
  unfold defaultCont at hb
  dsimp only at hb
  split at hb
  · injection hb with hb
    rw [← hb]
    exact exKeccak_isHash _
  · cases hb

set_option maxRecDepth 100000 in
/-- C28, witness: five contents, the first and the third equal, built into a
sorted tree with the stand-in hash; the path of the fifth content, whose node
is paired with itself, folds to the root. -/
theorem C28_merkle_path_folds_to_root_witness :
    ({ Data := "0x04" } : DefaultCont) ∈ exContents ∧
    pathCheck (defaultCont exKeccak) exContents exKeccak true { Data := "0x04" } = some true := by
  have hmem : ({ Data := "0x04" } : DefaultCont) ∈ exContents := by decide
  refine ⟨hmem, ?_⟩
  have hhash : ∀ x ∈ exContents, ∃ b, (defaultCont exKeccak).CalculateHash x = .ok b := by
    intro x hx
    simp only [exContents, List.mem_cons, List.mem_singleton, List.not_mem_nil, or_false] at hx
    rcases hx with rfl | rfl | rfl | rfl | rfl <;> exact ⟨_, rfl⟩
  obtain ⟨t, x, p, idx, h1, h2, h3, -, h5⟩ :=
    C28_merkle_path_folds_to_root (defaultCont exKeccak) exKeccak true exContents
      { Data := "0x04" } 32 32 hmem hhash (fun x _ => defaultCont_equals _ x _)
      (fun _ => ⟨fun x _ b hb => defaultCont_isHash x b hb, exKeccak_isHash⟩)
  unfold pathCheck
  rw [h1]
  dsimp only
  rw [h2]
  dsimp only
  rw [h3]
  dsimp only
  rw [h5]
  simp

end Tradeverse
